import Mathlib

/-! # iSCSI target protocol engine

A shallow embedding of the PDU handlers of `drivers/target/iscsi/iscsi_target.c`
and theorems about them.

Conventions of the embedding:

* C unsigned 32-bit arithmetic is `Nat` arithmetic followed by `u32` (reduction
  modulo `2 ^ 32`) at exactly the places where the C expression is evaluated in
  a 32-bit type.
* Bit sets whose bit positions are declared in headers outside the translated
  files (`cmd_flags`, the flag byte of a PDU header, the immediate bit of the
  opcode byte) are records of booleans, one field per bit that the code tests
  or sets.
* Results of collaborators that the code only calls (allocators, the socket,
  the CRC engine, the SCSI backend, the CmdSN window check) are fields of an
  environment record that the handler receives; the handler itself is a total
  function of its header, its connection and that record.
* A command pointer is an index into `iscsi_conn.cmd_pool`.
* A pointer to a memory segment is a position in `t_mem_list`, a page pointer
  is the number of the page, and `PAGE_SIZE` is a parameter.
-/

namespace IscsiTarget

/-! ## Machine words -/

/-- Truncation to an unsigned 32-bit word. -/
def u32 (x : Nat) : Nat := x % 4294967296

/-- Unsigned 32-bit subtraction `a - b` of two words. -/
def u32_sub (a b : Nat) : Nat := u32 (a + 4294967296 - u32 b)

/-! ## Enumerations -/

/-- Data direction of a command (`enum dma_data_direction`). -/
inductive dma_data_direction
  | DMA_BIDIRECTIONAL
  | DMA_TO_DEVICE
  | DMA_FROM_DEVICE
  | DMA_NONE
  deriving DecidableEq, Repr

/-- Internal command states used by the handlers (`cmd->i_state`). -/
inductive istate
  | ISTATE_NO_STATE
  | ISTATE_NEW_CMD
  | ISTATE_RECEIVED_LAST_DATAOUT
  | ISTATE_SEND_R2T
  | ISTATE_SEND_STATUS
  | ISTATE_SENT_STATUS
  | ISTATE_SEND_NOPIN
  | ISTATE_SEND_TASKMGTRSP
  | ISTATE_SEND_TEXTRSP
  | ISTATE_SEND_LOGOUTRSP
  | ISTATE_SEND_REJECT
  | ISTATE_REMOVE
  deriving DecidableEq, Repr

/-- Opcode recorded in `cmd->iscsi_opcode`. -/
inductive iscsi_opcode
  | ISCSI_OP_NONE
  | ISCSI_OP_NOOP_OUT
  | ISCSI_OP_SCSI_CMD
  | ISCSI_OP_SCSI_TMFUNC
  | ISCSI_OP_TEXT
  | ISCSI_OP_LOGOUT
  | ISCSI_OP_REJECT
  deriving DecidableEq, Repr

/-- Reject reason codes written to the Reject header. -/
inductive reject_reason
  | ISCSI_REASON_NONE
  | ISCSI_REASON_DATA_DIGEST_ERROR
  | ISCSI_REASON_PROTOCOL_ERROR
  | ISCSI_REASON_BOOKMARK_INVALID
  | ISCSI_REASON_BOOKMARK_NO_RESOURCES
  deriving DecidableEq, Repr

/-- Verdicts of `iscsit_check_received_cmdsn`. -/
inductive cmdsn_ret
  | CMDSN_ERROR_CANNOT_RECOVER
  | CMDSN_NORMAL_OPERATION
  | CMDSN_LOWER_THAN_EXP
  | CMDSN_HIGHER_THAN_EXP
  deriving DecidableEq, Repr

/-! ## Commands -/

/-- The bits of `cmd->cmd_flags` that the handlers test or set. -/
structure cmd_flags_t where
  ICF_GOT_LAST_DATAOUT : Bool := false
  ICF_NON_IMMEDIATE_UNSOLICITED_DATA : Bool := false
  ICF_SENT_LAST_R2T : Bool := false
  ICF_OOO_CMDSN : Bool := false
  ICF_REJECT_FAIL_CONN : Bool := false
  deriving DecidableEq, Repr

/-- One Ready-To-Transfer record of `cmd->cmd_r2t_list`. -/
structure iscsi_r2t where
  offset : Nat
  xfer_len : Nat
  recovery_r2t : Nat
  r2t_sn : Nat
  targ_xfer_tag : Nat := 0
  sent_r2t : Bool := false
  deriving DecidableEq, Repr

/-- One entry of the pre-built sequence list `cmd->seq_list`. -/
structure iscsi_seq where
  offset : Nat
  xfer_len : Nat
  deriving DecidableEq, Repr

/-- The bits of `SE_CMD(cmd)->se_cmd_flags` that the response builders test. -/
structure se_cmd_flags_t where
  SCF_OVERFLOW_BIT : Bool := false
  SCF_UNDERFLOW_BIT : Bool := false
  SCF_TRANSPORT_TASK_SENSE : Bool := false
  SCF_EMULATED_TASK_SENSE : Bool := false
  deriving DecidableEq, Repr

/-- The fields of the generic command `SE_CMD(cmd)` that the response
builders read; `sense_buffer` tells whether the pointer is set. -/
structure se_cmd_t where
  se_cmd_flags : se_cmd_flags_t := {}
  scsi_status : Nat := 0
  sense_buffer : Bool := false
  scsi_sense_length : Nat := 0
  deriving DecidableEq, Repr

/-- The fields of `struct iscsi_cmd` that the handlers read or write. -/
structure iscsi_cmd where
  has_conn : Bool := true
  iscsi_opcode : iscsi_opcode := .ISCSI_OP_NONE
  i_state : istate := .ISTATE_NO_STATE
  cmd_flags : cmd_flags_t := {}
  immediate_cmd : Bool := false
  immediate_data : Bool := false
  unsolicited_data : Bool := false
  init_task_tag : Nat := 0
  targ_xfer_tag : Nat := 0
  cmd_sn : Nat := 0
  exp_stat_sn : Nat := 0
  stat_sn : Nat := 0
  data_direction : dma_data_direction := .DMA_BIDIRECTIONAL
  data_length : Nat := 0
  first_burst_len : Nat := 0
  next_burst_len : Nat := 0
  write_data_done : Nat := 0
  r2t_offset : Nat := 0
  outstanding_r2ts : Nat := 0
  r2t_sn : Nat := 0
  seq_send_order : Nat := 0
  seq_count : Nat := 0
  seq_list : List iscsi_seq := []
  cmd_r2t_list : List iscsi_r2t := []
  reason : reject_reason := .ISCSI_REASON_NONE
  buf_ptr_set : Bool := false
  buf_ptr_size : Nat := 0
  logout_cid : Nat := 0
  logout_reason : Nat := 0
  attr : Nat := 0
  iscsi_response : Nat := 0
  residual_count : Nat := 0
  se_cmd : se_cmd_t := {}
  iov_misc_count : Nat := 0
  iov_data_count : Nat := 0
  tx_size : Nat := 0
  deriving DecidableEq, Repr

/-! ## Data-Out: header checks -/

/-- The fields of a Data-Out header after byte-order conversion. -/
structure iscsi_data where
  dlength : Nat
  itt : Nat
  ttt : Nat
  exp_statsn : Nat
  datasn : Nat
  offset : Nat
  flag_final : Bool
  deriving DecidableEq, Repr

/-- Where `iscsit_handle_data_out` leaves its header checks. -/
inductive data_out_check
  | reject_zero_payload
  | reject_max_recv
  | no_cmd
  | dump_after_last_dataout
  | reject_non_write
  | reject_range
  | past_range_check
  deriving DecidableEq, Repr

/-- The checks of `iscsit_handle_data_out` from the decoding of the header up
to and including the comparison of `hdr->offset + payload_length` with
`cmd->data_length`.  `found` is the result of
`iscsit_find_cmd_from_itt_or_dump`.  The sum is formed in `u32`. -/
def iscsit_handle_data_out_checks (MaxRecvDataSegmentLength : Nat)
    (hdr : iscsi_data) (found : Option iscsi_cmd) : data_out_check :=
  let payload_length := hdr.dlength
  if payload_length = 0 then .reject_zero_payload
  else if payload_length > MaxRecvDataSegmentLength then .reject_max_recv
  else
    match found with
    | none => .no_cmd
    | some cmd =>
      if cmd.cmd_flags.ICF_GOT_LAST_DATAOUT then .dump_after_last_dataout
      else if cmd.data_direction ≠ .DMA_TO_DEVICE then .reject_non_write
      else if u32 (hdr.offset + payload_length) > cmd.data_length then .reject_range
      else .past_range_check

/-! ## Connections, queues and collaborators -/

/-- Connection states (`conn->conn_state`). -/
inductive conn_state_t
  | TARG_CONN_STATE_FREE
  | TARG_CONN_STATE_LOGGED_IN
  | TARG_CONN_STATE_IN_LOGOUT
  | TARG_CONN_STATE_LOGOUT_REQUESTED
  | TARG_CONN_STATE_CLEANUP_WAIT
  deriving DecidableEq, Repr

/-- Negotiated session parameters (`conn->sess->sess_ops`). -/
structure iscsi_sess_ops where
  InitialR2T : Bool := true
  ImmediateData : Bool := true
  DataSequenceInOrder : Bool := true
  MaxBurstLength : Nat := 262144
  FirstBurstLength : Nat := 65536
  MaxOutstandingR2T : Nat := 1
  ErrorRecoveryLevel : Nat := 0
  deriving DecidableEq, Repr

/-- Negotiated connection parameters (`conn->conn_ops`). -/
structure iscsi_conn_ops where
  HeaderDigest : Bool := false
  DataDigest : Bool := false
  MaxRecvDataSegmentLength : Nat := 8192
  deriving DecidableEq, Repr

/-- A queue request: command pointer and the state it was queued with. -/
structure iscsi_queue_req where
  cmd : Nat
  state : istate
  deriving DecidableEq, Repr

/-- Calls to collaborators, recorded in program order. -/
inductive call
  | check_received_cmdsn (cmd : Nat) (cmdsn : Nat)
  | ack_from_expstatsn (exp_statsn : Nat)
  | rx_data (rx_size : Nat)
  | dump_data_payload (length : Nat)
  | execute_cmd (cmd : Nat)
  | release_cmd (cmd : Nat)
  | handle_cdb (cmd : Nat)
  | handle_tmr (cmd : Nat)
  | set_dataout_sequence_values (cmd : Nat)
  | start_dataout_timer (cmd : Nat)
  | stop_nopin_response_timer
  | start_nopin_timer
  deriving DecidableEq, Repr

/-- The connection together with the session fields the handlers touch. -/
structure iscsi_conn where
  cid : Nat := 0
  conn_state : conn_state_t := .TARG_CONN_STATE_LOGGED_IN
  conn_ops : iscsi_conn_ops := {}
  sess_ops : iscsi_sess_ops := {}
  sess_targ_xfer_tag : Nat := 0
  sess_init_task_tag : Nat := 0
  exp_statsn : Nat := 0
  stat_sn : Nat := 0
  sess_exp_cmd_sn : Nat := 0
  sess_max_cmd_sn : Nat := 0
  sess_rsp_pdus : Nat := 0
  sess_tx_data_octets : Nat := 0
  cmd_pool : List iscsi_cmd := []
  conn_cmd_list : List Nat := []
  immed_queue : List iscsi_queue_req := []
  response_queue : List iscsi_queue_req := []
  calls : List call := []
  deriving DecidableEq, Repr

/-- Result of `iscsit_get_lun_for_cmd`. -/
inductive lun_ret
  | lun_ok
  | lun_failed
  | lun_out_of_memory
  deriving DecidableEq, Repr

/-- Result of `transport_generic_allocate_tasks`. -/
inductive tasks_ret
  | tasks_ok
  | tasks_enomem
  | tasks_einval
  deriving DecidableEq, Repr

/-- What the collaborators answer while one PDU is handled. -/
structure env where
  /-- `iscsit_allocate_cmd`, `iscsit_allocate_se_cmd`, `..._for_tmr` succeed -/
  alloc_cmd : Bool := true
  /-- the command allocation inside `iscsit_add_reject` succeeds -/
  alloc_reject_cmd : Bool := true
  /-- `kzalloc(ISCSI_HDR_LEN)` for the copy of the rejected header succeeds -/
  alloc_reject_buf : Bool := true
  /-- `wait_for_completion_interruptible(&cmd->reject_comp)` -/
  reject_wait : Int := 0
  /-- `kzalloc` of the ping data or text buffer succeeds -/
  alloc_data_buf : Bool := true
  /-- `iscsit_allocate_datain_req` succeeds -/
  alloc_datain_req : Bool := true
  get_lun : lun_ret := .lun_ok
  allocate_tasks : tasks_ret := .tasks_ok
  /-- `iscsit_decide_list_to_build` -/
  decide_list : Int := 0
  /-- verdict of `iscsit_check_received_cmdsn` -/
  cmdsn : cmdsn_ret := .CMDSN_NORMAL_OPERATION
  /-- `SCF_SE_CMD_FAILED` is set once `unsolicited_data_comp` completes -/
  se_cmd_failed : Bool := false
  /-- `iscsit_set_iovec_ptrs` on (data_offset, data_length) -/
  set_iovec_ptrs : Nat → Nat → Int := fun _ _ => 1
  /-- `rx_data` returns the requested size -/
  rx_ok : Bool := true
  /-- digest received from the wire -/
  checksum : Nat := 0
  /-- digest computed over the received bytes -/
  data_crc : Nat := 0
  /-- `iscsit_dump_data_payload` -/
  dump_ret : Int := 0
  /-- `iscsit_execute_cmd` -/
  execute_ret : Int := 0
  /-- `transport_generic_handle_tmr` -/
  handle_tmr_ret : Int := 0
  /-- `iscsit_find_cmd_from_ttt` -/
  find_cmd_from_ttt : Option Nat := none
  /-- the text data is `SendTargets=All` -/
  text_is_sendtargets_all : Bool := true
  /-- `iscsit_get_lun_for_tmr` -/
  get_lun_for_tmr : Int := 0
  /-- `iscsit_tmr_abort_task` -/
  tmr_abort_task : Nat := 0
  /-- `iscsit_tmr_task_warm_reset` -/
  tmr_task_warm_reset : Int := 0
  /-- `iscsit_tmr_task_cold_reset` -/
  tmr_task_cold_reset : Int := 0
  /-- `iscsit_tmr_task_reassign` -/
  tmr_task_reassign : Nat := 0
  /-- `iscsit_check_task_reassign_expdatasn` -/
  check_task_reassign_expdatasn : Int := 0

/-- Return value of a handler and the connection it leaves. -/
structure outcome where
  ret : Int
  conn : iscsi_conn
  deriving DecidableEq, Repr

/-- Dereference a command pointer. -/
def iscsi_conn.cmd (conn : iscsi_conn) (h : Nat) : iscsi_cmd :=
  conn.cmd_pool.getD h {}

/-- Store through a command pointer. -/
def iscsi_conn.set_cmd (conn : iscsi_conn) (h : Nat) (c : iscsi_cmd) : iscsi_conn :=
  { conn with cmd_pool := conn.cmd_pool.set h c }

/-- Record a call to a collaborator. -/
def iscsi_conn.note (conn : iscsi_conn) (c : call) : iscsi_conn :=
  { conn with calls := conn.calls ++ [c] }

/-- A new command structure enters the pool; its pointer is the old size of
the pool. -/
def iscsi_conn.push_cmd (conn : iscsi_conn) (c : iscsi_cmd) : iscsi_conn :=
  { conn with cmd_pool := conn.cmd_pool ++ [c] }

/-- Modelled from the spec: `iscsit_allocate_cmd` (defined outside the files at
hand) creates the command on PDU receipt; the new structure is zeroed and
bound to the connection.  The pointer returned is the next free index of the
pool, `none` stands for NULL. -/
def iscsit_allocate_cmd (conn : iscsi_conn) (ok : Bool) : Option (Nat × iscsi_conn) :=
  if ok then some (conn.cmd_pool.length, conn.push_cmd {}) else none

/-- A zeroed command carrying a declared length, a direction and a task
attribute. -/
def se_cmd_new (data_length : Nat) (data_direction : dma_data_direction) (attr : Nat) :
    iscsi_cmd :=
  { data_length := data_length, data_direction := data_direction, attr := attr }

/-- Modelled from the spec: `allocate_command(connection, data_length,
direction, attr) -> Command | fail` (`iscsit_allocate_se_cmd`, defined outside
the files at hand): a fresh command carrying the declared length, direction
and task attribute. -/
def iscsit_allocate_se_cmd (conn : iscsi_conn) (data_length : Nat)
    (data_direction : dma_data_direction) (attr : Nat) (ok : Bool) :
    Option (Nat × iscsi_conn) :=
  if ok then
    some (conn.cmd_pool.length, conn.push_cmd (se_cmd_new data_length data_direction attr))
  else none

/-- Modelled from the spec: a queue request is a (command-pointer, state) pair
appended to the connection's immediate queue
(`iscsit_add_cmd_to_immediate_queue`, defined outside the files at hand). -/
def iscsit_add_cmd_to_immediate_queue (conn : iscsi_conn) (h : Nat) (state : istate) :
    iscsi_conn :=
  { conn with immed_queue := conn.immed_queue ++ [⟨h, state⟩] }

/-- Modelled from the spec: a queue request is a (command-pointer, state) pair
appended to the connection's response queue
(`iscsit_add_cmd_to_response_queue`, defined outside the files at hand). -/
def iscsit_add_cmd_to_response_queue (conn : iscsi_conn) (h : Nat) (state : istate) :
    iscsi_conn :=
  { conn with response_queue := conn.response_queue ++ [⟨h, state⟩] }

/-- The call `list_add_tail(&cmd->i_list, &conn->conn_cmd_list)`. -/
def list_add_tail_cmd (conn : iscsi_conn) (h : Nat) : iscsi_conn :=
  { conn with conn_cmd_list := conn.conn_cmd_list ++ [h] }

/-- The assignment `conn->sess->init_task_tag = itt`. -/
def iscsi_conn.set_sess_init_task_tag (conn : iscsi_conn) (itt : Nat) : iscsi_conn :=
  { conn with sess_init_task_tag := itt }

/-- The assignment `conn->sess->targ_xfer_tag = ttt`. -/
def iscsi_conn.set_sess_targ_xfer_tag (conn : iscsi_conn) (ttt : Nat) : iscsi_conn :=
  { conn with sess_targ_xfer_tag := ttt }

/-- The header part of a reject: `cmd->iscsi_opcode = ISCSI_OP_REJECT`,
`if (fail_conn) cmd->cmd_flags |= ICF_REJECT_FAIL_CONN`, `hdr->reason = reason`. -/
def reject_fields (cmd : iscsi_cmd) (reason : reject_reason) (fail_conn : Bool) : iscsi_cmd :=
  { cmd with
    iscsi_opcode := .ISCSI_OP_REJECT,
    cmd_flags := { cmd.cmd_flags with
      ICF_REJECT_FAIL_CONN := cmd.cmd_flags.ICF_REJECT_FAIL_CONN || fail_conn },
    reason := reason }

/-- The tail shared by `iscsit_add_reject` and `iscsit_add_reject_from_cmd`:
copy the rejected header, attach the command to the connection's list when
asked to, queue it in state SEND_REJECT and wait for its transmission. -/
def reject_queue (fail_conn add_to_conn : Bool) (conn : iscsi_conn) (h : Nat) (e : env) :
    outcome :=
  if !e.alloc_reject_buf then
    ⟨-1, conn.note (.release_cmd h)⟩
  else
    let conn := conn.set_cmd h { conn.cmd h with buf_ptr_set := true }
    let conn := if add_to_conn then list_add_tail_cmd conn h else conn
    let conn := conn.set_cmd h { conn.cmd h with i_state := .ISTATE_SEND_REJECT }
    let conn := iscsit_add_cmd_to_response_queue conn h (conn.cmd h).i_state
    if e.reject_wait ≠ 0 then ⟨-1, conn⟩
    else ⟨if !fail_conn then 0 else -1, conn⟩

/-- The function `iscsit_add_reject`. -/
def iscsit_add_reject (reason : reject_reason) (fail_conn : Bool)
    (conn : iscsi_conn) (e : env) : outcome :=
  match iscsit_allocate_cmd conn e.alloc_reject_cmd with
  | none => ⟨-1, conn⟩
  | some (h, conn) =>
    let conn := conn.set_cmd h (reject_fields (conn.cmd h) reason fail_conn)
    reject_queue fail_conn true conn h e

/-- The function `iscsit_add_reject_from_cmd`. -/
def iscsit_add_reject_from_cmd (reason : reject_reason) (fail_conn : Bool)
    (add_to_conn : Bool) (conn : iscsi_conn) (h : Nat) (e : env) : outcome :=
  if !(conn.cmd h).has_conn then ⟨-1, conn⟩
  else
    let conn := conn.set_cmd h (reject_fields (conn.cmd h) reason fail_conn)
    reject_queue fail_conn add_to_conn conn h e

/-- The body of the loop of `iscsit_ack_from_expstatsn` for the command `h`
of the connection's command list. -/
def iscsit_ack_from_expstatsn_step (exp_statsn : Nat) (c : iscsi_conn) (h : Nat) :
    iscsi_conn :=
  if (c.cmd h).i_state = .ISTATE_SENT_STATUS ∧ (c.cmd h).stat_sn < exp_statsn then
    iscsit_add_cmd_to_immediate_queue
      (c.set_cmd h { c.cmd h with i_state := .ISTATE_REMOVE }) h .ISTATE_REMOVE
  else c

/-- The function `iscsit_ack_from_expstatsn`: record ExpStatSN and retire
every command of the connection whose status has been acknowledged. -/
def iscsit_ack_from_expstatsn (conn : iscsi_conn) (exp_statsn : Nat) : iscsi_conn :=
  let conn := { conn with exp_statsn := exp_statsn }
  let conn := conn.note (.ack_from_expstatsn exp_statsn)
  conn.conn_cmd_list.foldl (iscsit_ack_from_expstatsn_step exp_statsn) conn

/-! ## SCSI Command -/

/-- The fields of a SCSI Command header after byte-order conversion.  The
flag byte is given by the bits the handler tests; `immediate` is
`hdr->opcode & ISCSI_OP_IMMEDIATE`, `cdb0` is `hdr->cdb[0]`. -/
structure iscsi_scsi_req where
  immediate : Bool := false
  flag_final : Bool := true
  flag_read : Bool := false
  flag_write : Bool := false
  attr : Nat := 0
  dlength : Nat := 0
  itt : Nat := 0
  data_length : Nat := 0
  cmdsn : Nat := 0
  exp_statsn : Nat := 0
  cdb0 : Nat := 0
  deriving DecidableEq, Repr

/-- The checks of `iscsit_handle_scsi_cmd` after the label `done`. -/
def iscsit_handle_scsi_cmd_done (conn : iscsi_conn) (hdr : iscsi_scsi_req) :
    Except (reject_reason × Bool) iscsi_scsi_req :=
  let payload_length := hdr.dlength
  if !hdr.flag_read && !hdr.flag_write && hdr.data_length ≠ 0 then
    .error (.ISCSI_REASON_BOOKMARK_INVALID, true)
  else if hdr.flag_read && hdr.flag_write then
    .error (.ISCSI_REASON_BOOKMARK_INVALID, true)
  else if hdr.immediate then
    .error (.ISCSI_REASON_BOOKMARK_INVALID, true)
  else if payload_length ≠ 0 && !conn.sess_ops.ImmediateData then
    .error (.ISCSI_REASON_PROTOCOL_ERROR, true)
  else if hdr.data_length = payload_length && !hdr.flag_final then
    .error (.ISCSI_REASON_PROTOCOL_ERROR, true)
  else if payload_length > hdr.data_length then
    .error (.ISCSI_REASON_PROTOCOL_ERROR, true)
  else if payload_length > conn.conn_ops.MaxRecvDataSegmentLength then
    .error (.ISCSI_REASON_PROTOCOL_ERROR, true)
  else if payload_length > conn.sess_ops.FirstBurstLength then
    .error (.ISCSI_REASON_BOOKMARK_INVALID, true)
  else .ok hdr

/-- The validation stage of `iscsit_handle_scsi_cmd`: the chain of checks
between the decoding of the header and the allocation of the command.
`error` carries the reason and the fail_conn argument handed to
`iscsit_add_reject`; `ok` carries the header as the checks leave it (the
RESERVE/RELEASE workaround clears READ and WRITE before `done`). -/
def iscsit_handle_scsi_cmd_validate (conn : iscsi_conn) (hdr : iscsi_scsi_req) :
    Except (reject_reason × Bool) iscsi_scsi_req :=
  if !hdr.flag_write && !hdr.flag_final then
    .error (.ISCSI_REASON_BOOKMARK_INVALID, true)
  else if (hdr.flag_read || hdr.flag_write) && hdr.data_length = 0 then
    if hdr.cdb0 = 0x16 || hdr.cdb0 = 0x17 then
      iscsit_handle_scsi_cmd_done conn { hdr with flag_read := false, flag_write := false }
    else
      .error (.ISCSI_REASON_BOOKMARK_INVALID, true)
  else iscsit_handle_scsi_cmd_done conn hdr

/-- The statement `tag = conn->sess->targ_xfer_tag++`, repeated once when the
tag drawn is 0xFFFFFFFF.  Returns the tag and the counter left behind. -/
def next_targ_xfer_tag (counter : Nat) : Nat × Nat :=
  let tag := counter
  let counter := u32 (counter + 1)
  if tag = 0xFFFFFFFF then (counter, u32 (counter + 1)) else (tag, counter)

/-- The expression `(-length) & 3` on a 32-bit length. -/
def padding_of (length : Nat) : Nat := Nat.land (u32_sub 0 length) 3

/-- Length of a digest. -/
def ISCSI_CRC_LEN : Nat := 4

/-- The number of bytes asked of `rx_data` for a data segment: the payload,
its padding to a 4-byte boundary when there is any, and the data digest when
DataDigest is on. -/
def data_rx_size (DataDigest : Bool) (payload_length : Nat) : Nat :=
  let rx_size := payload_length
  let padding := padding_of payload_length
  let rx_size := if padding ≠ 0 then rx_size + padding else rx_size
  if DataDigest then rx_size + ISCSI_CRC_LEN else rx_size

/-- Results of `iscsit_handle_immediate_data`. -/
inductive immed_ret_t
  | IMMEDIATE_DATA_NORMAL_OPERATION
  | IMMEDIATE_DATA_CANNOT_RECOVER
  | IMMEDIATE_DATA_ERL1_CRC_FAILURE
  deriving DecidableEq, Repr

/-- The end of `iscsit_handle_immediate_data`: `cmd->write_data_done +=
length` and the test for the last Data-Out. -/
def immediate_data_done (cmd : iscsi_cmd) (length : Nat) : iscsi_cmd :=
  if u32 (cmd.write_data_done + length) = cmd.data_length then
    { cmd with
      write_data_done := u32 (cmd.write_data_done + length),
      cmd_flags := { cmd.cmd_flags with ICF_GOT_LAST_DATAOUT := true },
      i_state := .ISTATE_RECEIVED_LAST_DATAOUT }
  else { cmd with write_data_done := u32 (cmd.write_data_done + length) }

/-- The function `iscsit_handle_immediate_data`. -/
def iscsit_handle_immediate_data (conn : iscsi_conn) (h : Nat) (length : Nat) (e : env) :
    immed_ret_t × iscsi_conn :=
  if e.set_iovec_ptrs (conn.cmd h).write_data_done length < 0 then
    (.IMMEDIATE_DATA_CANNOT_RECOVER, conn)
  else if !e.rx_ok then
    (.IMMEDIATE_DATA_CANNOT_RECOVER,
      conn.note (.rx_data (data_rx_size conn.conn_ops.DataDigest length)))
  else if conn.conn_ops.DataDigest
      && e.set_iovec_ptrs (conn.cmd h).write_data_done length < 0 then
    (.IMMEDIATE_DATA_CANNOT_RECOVER,
      conn.note (.rx_data (data_rx_size conn.conn_ops.DataDigest length)))
  else if conn.conn_ops.DataDigest && e.checksum ≠ e.data_crc then
    if conn.sess_ops.ErrorRecoveryLevel = 0 then
      (.IMMEDIATE_DATA_CANNOT_RECOVER,
        (iscsit_add_reject_from_cmd .ISCSI_REASON_DATA_DIGEST_ERROR true false
          (conn.note (.rx_data (data_rx_size conn.conn_ops.DataDigest length))) h e).conn)
    else
      (.IMMEDIATE_DATA_ERL1_CRC_FAILURE,
        (iscsit_add_reject_from_cmd .ISCSI_REASON_DATA_DIGEST_ERROR false false
          (conn.note (.rx_data (data_rx_size conn.conn_ops.DataDigest length))) h e).conn)
  else
    (.IMMEDIATE_DATA_NORMAL_OPERATION,
      (conn.note (.rx_data (data_rx_size conn.conn_ops.DataDigest length))).set_cmd h
        (immediate_data_done (conn.cmd h) length))

/-- Retire the command `h`: `cmd->i_state = ISTATE_REMOVE` followed by
`iscsit_add_cmd_to_immediate_queue(cmd, conn, cmd->i_state)`. -/
def retire_cmd (conn : iscsi_conn) (h : Nat) : iscsi_conn :=
  iscsit_add_cmd_to_immediate_queue
    (conn.set_cmd h { conn.cmd h with i_state := .ISTATE_REMOVE }) h
    ((conn.set_cmd h { conn.cmd h with i_state := .ISTATE_REMOVE }).cmd h).i_state

/-- The calls `iscsit_set_dataout_sequence_values(cmd)` and
`iscsit_start_dataout_timer(cmd, cmd->conn)` made for unsolicited data. -/
def start_unsolicited (conn : iscsi_conn) (h : Nat) : iscsi_conn :=
  (conn.note (.set_dataout_sequence_values h)).note (.start_dataout_timer h)

/-- The end of `iscsit_handle_scsi_cmd` for immediate data that was received
or dumped: the four-way branch on the CmdSN verdict. -/
def iscsit_handle_scsi_cmd_cmdsn (conn : iscsi_conn) (h : Nat) (e : env) : outcome :=
  match e.cmdsn with
  | .CMDSN_NORMAL_OPERATION => ⟨0, conn⟩
  | .CMDSN_HIGHER_THAN_EXP => ⟨0, conn⟩
  | .CMDSN_LOWER_THAN_EXP => ⟨0, retire_cmd conn h⟩
  | .CMDSN_ERROR_CANNOT_RECOVER =>
    iscsit_add_reject_from_cmd .ISCSI_REASON_PROTOCOL_ERROR true false conn h e

/-- The tail of `iscsit_handle_scsi_cmd` from the label `after_immediate_data`. -/
def iscsit_handle_scsi_cmd_after_immediate_data (conn : iscsi_conn) (h : Nat)
    (hdr : iscsi_scsi_req) (e : env) (immed_ret : immed_ret_t)
    (dump_immediate_data : Bool) : outcome :=
  match immed_ret with
  | .IMMEDIATE_DATA_NORMAL_OPERATION =>
    if dump_immediate_data then
      if e.dump_ret < 0 then
        ⟨-1, (conn.note (.check_received_cmdsn h hdr.cmdsn)).note
                (.dump_data_payload hdr.dlength)⟩
      else
        iscsit_handle_scsi_cmd_cmdsn
          ((conn.note (.check_received_cmdsn h hdr.cmdsn)).note
            (.dump_data_payload hdr.dlength)) h e
    else if (conn.cmd h).unsolicited_data then
      iscsit_handle_scsi_cmd_cmdsn
        (start_unsolicited (conn.note (.check_received_cmdsn h hdr.cmdsn)) h) h e
    else
      iscsit_handle_scsi_cmd_cmdsn (conn.note (.check_received_cmdsn h hdr.cmdsn)) h e
  | .IMMEDIATE_DATA_ERL1_CRC_FAILURE => ⟨0, retire_cmd conn h⟩
  | .IMMEDIATE_DATA_CANNOT_RECOVER => ⟨-1, conn⟩

/-- The part of `iscsit_handle_scsi_cmd` after the acknowledgement of
ExpStatSN for a command that carries immediate data. -/
def iscsit_handle_scsi_cmd_immediate (conn : iscsi_conn) (h : Nat)
    (hdr : iscsi_scsi_req) (e : env) (send_check_condition : Bool) : outcome :=
  if send_check_condition then
    iscsit_handle_scsi_cmd_after_immediate_data conn h hdr e
      .IMMEDIATE_DATA_NORMAL_OPERATION true
  else if e.se_cmd_failed then
    iscsit_handle_scsi_cmd_after_immediate_data (conn.note (.handle_cdb h)) h hdr e
      .IMMEDIATE_DATA_NORMAL_OPERATION true
  else
    iscsit_handle_scsi_cmd_after_immediate_data
      (iscsit_handle_immediate_data (conn.note (.handle_cdb h)) h hdr.dlength e).2 h hdr e
      (iscsit_handle_immediate_data (conn.note (.handle_cdb h)) h hdr.dlength e).1 false

/-- The part of `iscsit_handle_scsi_cmd` from the label `attach_cmd` on. -/
def iscsit_handle_scsi_cmd_attach (conn : iscsi_conn) (h : Nat)
    (hdr : iscsi_scsi_req) (e : env) (send_check_condition : Bool) : outcome :=
  if !((list_add_tail_cmd conn h).cmd h).immediate_data then
    match e.cmdsn with
    | .CMDSN_LOWER_THAN_EXP =>
      ⟨0, retire_cmd ((list_add_tail_cmd conn h).note (.check_received_cmdsn h hdr.cmdsn)) h⟩
    | .CMDSN_ERROR_CANNOT_RECOVER =>
      iscsit_add_reject_from_cmd .ISCSI_REASON_PROTOCOL_ERROR true false
        ((list_add_tail_cmd conn h).note (.check_received_cmdsn h hdr.cmdsn)) h e
    | _ =>
      if send_check_condition then
        ⟨0, iscsit_ack_from_expstatsn
              ((list_add_tail_cmd conn h).note (.check_received_cmdsn h hdr.cmdsn))
              hdr.exp_statsn⟩
      else if ((iscsit_ack_from_expstatsn
              ((list_add_tail_cmd conn h).note (.check_received_cmdsn h hdr.cmdsn))
              hdr.exp_statsn).cmd h).unsolicited_data then
        ⟨0, start_unsolicited
              (iscsit_ack_from_expstatsn
                ((list_add_tail_cmd conn h).note (.check_received_cmdsn h hdr.cmdsn))
                hdr.exp_statsn) h⟩
      else
        ⟨0, iscsit_ack_from_expstatsn
              ((list_add_tail_cmd conn h).note (.check_received_cmdsn h hdr.cmdsn))
              hdr.exp_statsn⟩
  else
    iscsit_handle_scsi_cmd_immediate
      (iscsit_ack_from_expstatsn (list_add_tail_cmd conn h) hdr.exp_statsn) h hdr e
      send_check_condition

/-- The assignments of `iscsit_handle_scsi_cmd` to the freshly allocated
command, from `cmd->iscsi_opcode = ISCSI_OP_SCSI_CMD` to
`cmd->first_burst_len = payload_length`; `tag` is the target transfer tag
drawn from the session counter for a READ. -/
def scsi_cmd_fields (cmd : iscsi_cmd) (hdr : iscsi_scsi_req) (tag : Nat) : iscsi_cmd :=
  { cmd with
    iscsi_opcode := .ISCSI_OP_SCSI_CMD,
    i_state := .ISTATE_NEW_CMD,
    immediate_cmd := hdr.immediate,
    immediate_data := decide (hdr.dlength ≠ 0),
    unsolicited_data := !hdr.flag_final && hdr.flag_write,
    cmd_flags := { cmd.cmd_flags with
      ICF_NON_IMMEDIATE_UNSOLICITED_DATA :=
        cmd.cmd_flags.ICF_NON_IMMEDIATE_UNSOLICITED_DATA
          || (!hdr.flag_final && hdr.flag_write) },
    init_task_tag := hdr.itt,
    targ_xfer_tag :=
      if hdr.flag_read then tag
      else if hdr.flag_write then 0xFFFFFFFF
      else cmd.targ_xfer_tag,
    cmd_sn := hdr.cmdsn,
    exp_stat_sn := hdr.exp_statsn,
    first_burst_len := hdr.dlength }

/-- The data direction `iscsit_handle_scsi_cmd` derives from the flags. -/
def scsi_data_direction (hdr : iscsi_scsi_req) : dma_data_direction :=
  if hdr.flag_write then .DMA_TO_DEVICE
  else if hdr.flag_read then .DMA_FROM_DEVICE
  else .DMA_NONE

/-- The part of `iscsit_handle_scsi_cmd` that fills in the command `h` just
allocated and draws the target transfer tag of a READ. -/
def iscsit_handle_scsi_cmd_init (conn : iscsi_conn) (h : Nat) (hdr : iscsi_scsi_req) :
    iscsi_conn :=
  let conn := conn.set_sess_init_task_tag hdr.itt
  let tag := next_targ_xfer_tag conn.sess_targ_xfer_tag
  let conn := if hdr.flag_read then conn.set_sess_targ_xfer_tag tag.2 else conn
  conn.set_cmd h (scsi_cmd_fields (conn.cmd h) hdr tag.1)

/-- The part of `iscsit_handle_scsi_cmd` from the data-in request of a READ
to the label `attach_cmd`. -/
def iscsit_handle_scsi_cmd_lookup (conn : iscsi_conn) (h : Nat) (hdr : iscsi_scsi_req)
    (e : env) : outcome :=
  if (conn.cmd h).data_direction = .DMA_FROM_DEVICE && !e.alloc_datain_req then
    iscsit_add_reject_from_cmd .ISCSI_REASON_BOOKMARK_NO_RESOURCES true true conn h e
  else
    match e.get_lun with
    | .lun_out_of_memory =>
      iscsit_add_reject_from_cmd .ISCSI_REASON_BOOKMARK_NO_RESOURCES true true conn h e
    | .lun_failed => iscsit_handle_scsi_cmd_attach conn h hdr e true
    | .lun_ok =>
      match e.allocate_tasks with
      | .tasks_enomem =>
        iscsit_add_reject_from_cmd .ISCSI_REASON_BOOKMARK_NO_RESOURCES true true conn h e
      | .tasks_einval => iscsit_handle_scsi_cmd_attach conn h hdr e true
      | .tasks_ok =>
        if e.decide_list < 0 then
          iscsit_add_reject_from_cmd .ISCSI_REASON_BOOKMARK_NO_RESOURCES true true conn h e
        else iscsit_handle_scsi_cmd_attach conn h hdr e false

/-- The part of `iscsit_handle_scsi_cmd` from the allocation of the command
to the label `attach_cmd`; `hdr` is the header as validation left it. -/
def iscsit_handle_scsi_cmd_setup (conn : iscsi_conn) (hdr : iscsi_scsi_req) (e : env) :
    outcome :=
  match iscsit_allocate_se_cmd conn hdr.data_length (scsi_data_direction hdr) hdr.attr
      e.alloc_cmd with
  | none => iscsit_add_reject .ISCSI_REASON_BOOKMARK_NO_RESOURCES true conn e
  | some (h, conn) =>
    iscsit_handle_scsi_cmd_lookup (iscsit_handle_scsi_cmd_init conn h hdr) h hdr e

/-- The function `iscsit_handle_scsi_cmd`. -/
def iscsit_handle_scsi_cmd (conn : iscsi_conn) (hdr : iscsi_scsi_req) (e : env) : outcome :=
  match iscsit_handle_scsi_cmd_validate conn hdr with
  | .error (reason, fail_conn) => iscsit_add_reject reason fail_conn conn e
  | .ok hdr => iscsit_handle_scsi_cmd_setup conn hdr e

/-! ## NOP-Out -/

/-- The fields of a NOP-Out header after byte-order conversion. -/
structure iscsi_nopout where
  immediate : Bool := false
  dlength : Nat := 0
  itt : Nat := 0
  ttt : Nat := 0xFFFFFFFF
  cmdsn : Nat := 0
  exp_statsn : Nat := 0
  deriving DecidableEq, Repr

/-- The exit `out:` of `iscsit_handle_nop_out`: release the command, if one
was allocated, and return `ret`. -/
def iscsit_handle_nop_out_out (conn : iscsi_conn) (cmd : Option Nat) (ret : Int) : outcome :=
  match cmd with
  | some h => ⟨ret, conn.note (.release_cmd h)⟩
  | none => ⟨ret, conn⟩

/-- The assignments of `iscsit_handle_nop_out` to the command allocated for a
NOP-Out with reserved TTT. -/
def nop_out_cmd_fields (cmd : iscsi_cmd) (hdr : iscsi_nopout) : iscsi_cmd :=
  { cmd with
    iscsi_opcode := .ISCSI_OP_NOOP_OUT,
    i_state := .ISTATE_SEND_NOPIN,
    immediate_cmd := hdr.immediate,
    init_task_tag := hdr.itt,
    targ_xfer_tag := 0xFFFFFFFF,
    cmd_sn := hdr.cmdsn,
    exp_stat_sn := hdr.exp_statsn,
    data_direction := .DMA_NONE }

/-- The part of `iscsit_handle_nop_out` that runs for a valid ITT once the
command exists: attach it, acknowledge ExpStatSN, then either queue the
NOP-In (immediate bit) or check the CmdSN. -/
def iscsit_handle_nop_out_attach (conn : iscsi_conn) (h : Nat) (hdr : iscsi_nopout)
    (e : env) : outcome :=
  let conn := list_add_tail_cmd conn h
  let conn := iscsit_ack_from_expstatsn conn hdr.exp_statsn
  if hdr.immediate then
    ⟨0, iscsit_add_cmd_to_response_queue conn h (conn.cmd h).i_state⟩
  else
    let conn := conn.note (.check_received_cmdsn h hdr.cmdsn)
    match e.cmdsn with
    | .CMDSN_NORMAL_OPERATION => ⟨0, conn⟩
    | .CMDSN_HIGHER_THAN_EXP => ⟨0, conn⟩
    | .CMDSN_LOWER_THAN_EXP => ⟨0, retire_cmd conn h⟩
    | .CMDSN_ERROR_CANNOT_RECOVER =>
      iscsit_add_reject_from_cmd .ISCSI_REASON_PROTOCOL_ERROR true false conn h e

/-- The part of `iscsit_handle_nop_out` after the ping data has been
received: `cmd` is the command allocated for a NOP-Out with reserved TTT. -/
def iscsit_handle_nop_out_sequence (conn : iscsi_conn) (hdr : iscsi_nopout)
    (cmd : Option Nat) (e : env) : outcome :=
  if hdr.itt ≠ 0xFFFFFFFF then
    match cmd with
    | none => ⟨-1, conn⟩
    | some h => iscsit_handle_nop_out_attach conn h hdr e
  else if hdr.ttt ≠ 0xFFFFFFFF then
    match e.find_cmd_from_ttt with
    | none => ⟨-1, conn⟩
    | some h =>
      let conn := conn.note .stop_nopin_response_timer
      let conn := conn.set_cmd h { conn.cmd h with i_state := .ISTATE_REMOVE }
      let conn := iscsit_add_cmd_to_immediate_queue conn h (conn.cmd h).i_state
      ⟨0, conn.note .start_nopin_timer⟩
  else iscsit_handle_nop_out_out conn cmd 0

/-- The ping data block of `iscsit_handle_nop_out` for the command `h`
(reserved TTT, non-empty data segment), followed by the rest of the handler. -/
def iscsit_handle_nop_out_ping (conn : iscsi_conn) (h : Nat) (hdr : iscsi_nopout)
    (e : env) : outcome :=
  if !e.alloc_data_buf then iscsit_handle_nop_out_out conn (some h) (-1)
  else if !e.rx_ok then
    iscsit_handle_nop_out_out
      (conn.note (.rx_data (data_rx_size conn.conn_ops.DataDigest hdr.dlength))) (some h) (-1)
  else if conn.conn_ops.DataDigest && e.checksum ≠ e.data_crc then
    if conn.sess_ops.ErrorRecoveryLevel = 0 then
      iscsit_handle_nop_out_out
        (conn.note (.rx_data (data_rx_size conn.conn_ops.DataDigest hdr.dlength)))
        (some h) (-1)
    else
      iscsit_handle_nop_out_out
        (conn.note (.rx_data (data_rx_size conn.conn_ops.DataDigest hdr.dlength)))
        (some h) 0
  else
    iscsit_handle_nop_out_sequence
      ((conn.note (.rx_data (data_rx_size conn.conn_ops.DataDigest hdr.dlength))).set_cmd h
        { conn.cmd h with buf_ptr_set := true, buf_ptr_size := hdr.dlength })
      hdr (some h) e

/-- The function `iscsit_handle_nop_out`. -/
def iscsit_handle_nop_out (conn : iscsi_conn) (hdr : iscsi_nopout) (e : env) : outcome :=
  if hdr.itt = 0xFFFFFFFF && !hdr.immediate then
    iscsit_add_reject .ISCSI_REASON_PROTOCOL_ERROR true conn e
  else if hdr.dlength > conn.conn_ops.MaxRecvDataSegmentLength then
    iscsit_add_reject .ISCSI_REASON_PROTOCOL_ERROR true conn e
  else if hdr.ttt = 0xFFFFFFFF then
    match iscsit_allocate_cmd conn e.alloc_cmd with
    | none => iscsit_add_reject .ISCSI_REASON_BOOKMARK_NO_RESOURCES true conn e
    | some (h, conn) =>
      if hdr.dlength ≠ 0 then
        iscsit_handle_nop_out_ping
          ((conn.set_cmd h (nop_out_cmd_fields (conn.cmd h) hdr)).set_sess_init_task_tag hdr.itt)
          h hdr e
      else
        iscsit_handle_nop_out_sequence
          ((conn.set_cmd h (nop_out_cmd_fields (conn.cmd h) hdr)).set_sess_init_task_tag hdr.itt)
          hdr (some h) e
  else iscsit_handle_nop_out_sequence conn hdr none e

/-! ## Task Management -/

/-- The fields of a Task Management header after byte-order conversion;
`function` is the flag byte without the FINAL bit. -/
structure iscsi_tm where
  immediate : Bool := false
  function : Nat := 1
  itt : Nat := 0
  rtt : Nat := 0xFFFFFFFF
  cmdsn : Nat := 0
  exp_statsn : Nat := 0
  refcmdsn : Nat := 0
  exp_datasn : Nat := 0
  deriving DecidableEq, Repr

/-- Task management function codes. -/
def ISCSI_TM_FUNC_ABORT_TASK : Nat := 1
/-- Task management function code of TARGET WARM RESET. -/
def ISCSI_TM_FUNC_TARGET_WARM_RESET : Nat := 6
/-- Task management function code of TARGET COLD RESET. -/
def ISCSI_TM_FUNC_TARGET_COLD_RESET : Nat := 7
/-- Task management function code of TASK REASSIGN. -/
def ISCSI_TM_FUNC_TASK_REASSIGN : Nat := 8
/-- Task management response "function complete". -/
def ISCSI_TMF_RSP_COMPLETE : Nat := 0

/-- What the function switch of `iscsit_handle_task_mgt_cmd` decides:
reject the request, or attach the command with `call_transport` set or not. -/
inductive tmr_decision
  | reject_invalid
  | attach (call_transport : Bool)
  deriving DecidableEq, Repr

/-- The LUN lookup and the function switch of `iscsit_handle_task_mgt_cmd`,
from the lookup to the label `attach`.  The response of the freshly
allocated request reads "function complete" until a branch overwrites it, so
a branch that leaves the switch through `break` for a function other than
TASK REASSIGN sets `call_transport`. -/
def iscsit_handle_task_mgt_cmd_switch (function : Nat) (e : env) : tmr_decision :=
  if function ≠ ISCSI_TM_FUNC_TASK_REASSIGN && e.get_lun_for_tmr < 0 then .attach false
  else if function = ISCSI_TM_FUNC_ABORT_TASK then
    if e.tmr_abort_task ≠ ISCSI_TMF_RSP_COMPLETE then .attach false else .attach true
  else if 2 ≤ function ∧ function ≤ 5 then .attach true
  else if function = ISCSI_TM_FUNC_TARGET_WARM_RESET then
    if e.tmr_task_warm_reset < 0 then .attach false else .attach true
  else if function = ISCSI_TM_FUNC_TARGET_COLD_RESET then
    if e.tmr_task_cold_reset < 0 then .attach false else .attach true
  else if function = ISCSI_TM_FUNC_TASK_REASSIGN then
    if e.tmr_task_reassign ≠ ISCSI_TMF_RSP_COMPLETE then .attach false
    else if e.check_task_reassign_expdatasn < 0 then .reject_invalid
    else .attach false
  else .attach false

/-- The end of `iscsit_handle_task_mgt_cmd`, from the acknowledgement of
ExpStatSN on. -/
def iscsit_handle_task_mgt_cmd_finish (conn : iscsi_conn) (h : Nat) (hdr : iscsi_tm)
    (e : env) (call_transport out_of_order_cmdsn : Bool) : outcome :=
  let conn := iscsit_ack_from_expstatsn conn hdr.exp_statsn
  if out_of_order_cmdsn then ⟨0, conn⟩
  else if call_transport then ⟨e.handle_tmr_ret, conn.note (.handle_tmr h)⟩
  else ⟨0, iscsit_add_cmd_to_response_queue conn h (conn.cmd h).i_state⟩

/-- The assignments of `iscsit_handle_task_mgt_cmd` to the fresh command. -/
def tm_cmd_fields (cmd : iscsi_cmd) (hdr : iscsi_tm) : iscsi_cmd :=
  { cmd with
    iscsi_opcode := .ISCSI_OP_SCSI_TMFUNC,
    i_state := .ISTATE_SEND_TASKMGTRSP,
    immediate_cmd := hdr.immediate,
    init_task_tag := hdr.itt,
    targ_xfer_tag := 0xFFFFFFFF,
    cmd_sn := hdr.cmdsn,
    exp_stat_sn := hdr.exp_statsn }

/-- The part of `iscsit_handle_task_mgt_cmd` from the label `attach`. -/
def iscsit_handle_task_mgt_cmd_attach (conn : iscsi_conn) (h : Nat) (hdr : iscsi_tm)
    (e : env) (call_transport : Bool) : outcome :=
  let conn := list_add_tail_cmd conn h
  if !hdr.immediate then
    let conn := conn.note (.check_received_cmdsn h hdr.cmdsn)
    match e.cmdsn with
    | .CMDSN_NORMAL_OPERATION =>
      iscsit_handle_task_mgt_cmd_finish conn h hdr e call_transport false
    | .CMDSN_HIGHER_THAN_EXP =>
      iscsit_handle_task_mgt_cmd_finish conn h hdr e call_transport true
    | .CMDSN_LOWER_THAN_EXP => ⟨0, retire_cmd conn h⟩
    | .CMDSN_ERROR_CANNOT_RECOVER =>
      iscsit_add_reject_from_cmd .ISCSI_REASON_PROTOCOL_ERROR true false conn h e
  else iscsit_handle_task_mgt_cmd_finish conn h hdr e call_transport false

/-- The function `iscsit_handle_task_mgt_cmd`. -/
def iscsit_handle_task_mgt_cmd (conn : iscsi_conn) (hdr : iscsi_tm) (e : env) : outcome :=
  if hdr.function = ISCSI_TM_FUNC_TASK_REASSIGN && !hdr.immediate then
    iscsit_add_reject .ISCSI_REASON_PROTOCOL_ERROR true conn e
  else
    match iscsit_allocate_cmd conn e.alloc_cmd with
    | none => iscsit_add_reject .ISCSI_REASON_BOOKMARK_NO_RESOURCES true conn e
    | some (h, conn) =>
      match iscsit_handle_task_mgt_cmd_switch hdr.function e with
      | .reject_invalid =>
        iscsit_add_reject_from_cmd .ISCSI_REASON_BOOKMARK_INVALID true true
          (conn.set_cmd h (tm_cmd_fields (conn.cmd h) hdr)) h e
      | .attach call_transport =>
        iscsit_handle_task_mgt_cmd_attach
          (conn.set_cmd h (tm_cmd_fields (conn.cmd h) hdr)) h hdr e call_transport

/-! ## Text -/

/-- The fields of a Text header after byte-order conversion. -/
structure iscsi_text where
  immediate : Bool := false
  dlength : Nat := 0
  itt : Nat := 0
  ttt : Nat := 0xFFFFFFFF
  cmdsn : Nat := 0
  exp_statsn : Nat := 0
  deriving DecidableEq, Repr

/-- The assignments of `iscsit_handle_text_cmd` to the fresh command. -/
def text_cmd_fields (cmd : iscsi_cmd) (hdr : iscsi_text) : iscsi_cmd :=
  { cmd with
    iscsi_opcode := .ISCSI_OP_TEXT,
    i_state := .ISTATE_SEND_TEXTRSP,
    immediate_cmd := hdr.immediate,
    init_task_tag := hdr.itt,
    targ_xfer_tag := 0xFFFFFFFF,
    cmd_sn := hdr.cmdsn,
    exp_stat_sn := hdr.exp_statsn,
    data_direction := .DMA_NONE }

/-- The part of `iscsit_handle_text_cmd` from the attachment of the command
to the connection's list. -/
def iscsit_handle_text_cmd_attach (conn : iscsi_conn) (h : Nat) (hdr : iscsi_text)
    (e : env) : outcome :=
  let conn := list_add_tail_cmd conn h
  let conn := iscsit_ack_from_expstatsn conn hdr.exp_statsn
  if !hdr.immediate then
    let conn := conn.note (.check_received_cmdsn h hdr.cmdsn)
    match e.cmdsn with
    | .CMDSN_NORMAL_OPERATION => ⟨0, conn⟩
    | .CMDSN_HIGHER_THAN_EXP => ⟨0, conn⟩
    | .CMDSN_LOWER_THAN_EXP =>
      ⟨0, iscsit_add_cmd_to_immediate_queue conn h .ISTATE_REMOVE⟩
    | .CMDSN_ERROR_CANNOT_RECOVER =>
      iscsit_add_reject_from_cmd .ISCSI_REASON_PROTOCOL_ERROR true false conn h e
  else ⟨e.execute_ret, conn.note (.execute_cmd h)⟩

/-- The part of `iscsit_handle_text_cmd` from the allocation of the command. -/
def iscsit_handle_text_cmd_sequence (conn : iscsi_conn) (hdr : iscsi_text) (e : env) :
    outcome :=
  match iscsit_allocate_cmd conn e.alloc_cmd with
  | none => iscsit_add_reject .ISCSI_REASON_BOOKMARK_NO_RESOURCES true conn e
  | some (h, conn) =>
    iscsit_handle_text_cmd_attach
      ((conn.set_cmd h (text_cmd_fields (conn.cmd h) hdr)).set_sess_init_task_tag hdr.itt)
      h hdr e

/-- The function `iscsit_handle_text_cmd`. -/
def iscsit_handle_text_cmd (conn : iscsi_conn) (hdr : iscsi_text) (e : env) : outcome :=
  if hdr.dlength > conn.conn_ops.MaxRecvDataSegmentLength then
    iscsit_add_reject .ISCSI_REASON_PROTOCOL_ERROR true conn e
  else if hdr.dlength ≠ 0 then
    if !e.alloc_data_buf then ⟨-1, conn⟩
    else if !e.rx_ok then
      ⟨-1, conn.note (.rx_data (data_rx_size conn.conn_ops.DataDigest hdr.dlength))⟩
    else if conn.conn_ops.DataDigest && e.checksum ≠ e.data_crc then
      if conn.sess_ops.ErrorRecoveryLevel = 0 then
        ⟨-1, conn.note (.rx_data (data_rx_size conn.conn_ops.DataDigest hdr.dlength))⟩
      else ⟨0, conn.note (.rx_data (data_rx_size conn.conn_ops.DataDigest hdr.dlength))⟩
    else if !e.text_is_sendtargets_all then
      ⟨-1, conn.note (.rx_data (data_rx_size conn.conn_ops.DataDigest hdr.dlength))⟩
    else
      iscsit_handle_text_cmd_sequence
        (conn.note (.rx_data (data_rx_size conn.conn_ops.DataDigest hdr.dlength))) hdr e
  else iscsit_handle_text_cmd_sequence conn hdr e

/-! ## Logout -/

/-- The fields of a Logout header after byte-order conversion;
`reason_code` is `hdr->flags & 0x7f`. -/
structure iscsi_logout where
  immediate : Bool := false
  reason_code : Nat := 0
  itt : Nat := 0
  cid : Nat := 0
  cmdsn : Nat := 0
  exp_statsn : Nat := 0
  deriving DecidableEq, Repr

/-- Logout reason code "close session". -/
def ISCSI_LOGOUT_REASON_CLOSE_SESSION : Nat := 0
/-- Logout reason code "close connection". -/
def ISCSI_LOGOUT_REASON_CLOSE_CONNECTION : Nat := 1
/-- Logout reason code "remove connection for recovery". -/
def ISCSI_LOGOUT_REASON_RECOVERY : Nat := 2

/-- The assignments of `iscsit_handle_logout_cmd` to the fresh command. -/
def logout_cmd_fields (cmd : iscsi_cmd) (hdr : iscsi_logout) : iscsi_cmd :=
  { cmd with
    iscsi_opcode := .ISCSI_OP_LOGOUT,
    i_state := .ISTATE_SEND_LOGOUTRSP,
    immediate_cmd := hdr.immediate,
    init_task_tag := hdr.itt,
    targ_xfer_tag := 0xFFFFFFFF,
    cmd_sn := hdr.cmdsn,
    exp_stat_sn := hdr.exp_statsn,
    logout_cid := hdr.cid,
    logout_reason := hdr.reason_code,
    data_direction := .DMA_NONE }

/-- The part of `iscsit_handle_logout_cmd` from the attachment of the
command to the connection's list. -/
def iscsit_handle_logout_cmd_attach (conn : iscsi_conn) (h : Nat) (hdr : iscsi_logout)
    (e : env) : outcome :=
  let reason_code := hdr.reason_code
  let logout_remove : Int :=
    if reason_code = ISCSI_LOGOUT_REASON_CLOSE_SESSION
        || (reason_code = ISCSI_LOGOUT_REASON_CLOSE_CONNECTION && hdr.cid = conn.cid)
    then 1 else 0
  let conn := list_add_tail_cmd conn h
  let conn :=
    if reason_code ≠ ISCSI_LOGOUT_REASON_RECOVERY then
      iscsit_ack_from_expstatsn conn hdr.exp_statsn
    else conn
  if !hdr.immediate then
    let conn := conn.note (.check_received_cmdsn h hdr.cmdsn)
    match e.cmdsn with
    | .CMDSN_NORMAL_OPERATION => ⟨logout_remove, conn⟩
    | .CMDSN_HIGHER_THAN_EXP => ⟨logout_remove, conn⟩
    | .CMDSN_LOWER_THAN_EXP => ⟨0, retire_cmd conn h⟩
    | .CMDSN_ERROR_CANNOT_RECOVER =>
      iscsit_add_reject_from_cmd .ISCSI_REASON_PROTOCOL_ERROR true false conn h e
  else
    let conn := conn.note (.execute_cmd h)
    if e.execute_ret < 0 then ⟨-1, conn⟩
    else ⟨logout_remove, conn⟩

/-- The function `iscsit_handle_logout_cmd`. -/
def iscsit_handle_logout_cmd (conn : iscsi_conn) (hdr : iscsi_logout) (e : env) : outcome :=
  if conn.conn_state ≠ .TARG_CONN_STATE_LOGGED_IN then ⟨0, conn⟩
  else
    match iscsit_allocate_cmd conn e.alloc_cmd with
    | none => iscsit_add_reject .ISCSI_REASON_BOOKMARK_NO_RESOURCES true conn e
    | some (h, conn) =>
      iscsit_handle_logout_cmd_attach
        ((conn.set_cmd h (logout_cmd_fields (conn.cmd h) hdr)).set_sess_init_task_tag hdr.itt)
        h hdr e

/-! ## Building R2Ts -/

/-- Modelled from the spec: the next (offset, length) "from a pre-built
per-command sequence list" (`iscsit_get_seq_holder_for_r2t`, defined outside
the files at hand): the entry of `seq_list` at the sequence index
`seq_send_order`, which is advanced by one; NULL when there is none. -/
def iscsit_get_seq_holder_for_r2t (cmd : iscsi_cmd) : Option (iscsi_seq × iscsi_cmd) :=
  match cmd.seq_list.get? cmd.seq_send_order with
  | none => none
  | some seq => some (seq, { cmd with seq_send_order := cmd.seq_send_order + 1 })

/-- Modelled from the spec: an R2T record (offset, length, sequence number) is
appended to the list owned by the command (`iscsit_add_r2t_to_list`, defined
outside the files at hand); the record takes the command's next R2TSN unless
one is given.  `ok` tells whether the record could be allocated. -/
def iscsit_add_r2t_to_list (cmd : iscsi_cmd) (offset xfer_len recovery r2t_sn : Nat)
    (ok : Bool) : Option iscsi_cmd :=
  if ok then
    some { cmd with
      cmd_r2t_list := cmd.cmd_r2t_list ++
        [{ offset := offset, xfer_len := xfer_len, recovery_r2t := recovery,
           r2t_sn := if r2t_sn = 0 then cmd.r2t_sn else r2t_sn }],
      r2t_sn := if r2t_sn = 0 then u32 (cmd.r2t_sn + 1) else cmd.r2t_sn }
  else none

/-- The length of the next R2T under DataSequenceInOrder=Yes, as the loop
body of `iscsit_build_r2ts_for_cmd` computes it from `offset`; all sums and
differences are 32-bit. -/
def iscsit_build_r2ts_xfer_len (ops : iscsi_sess_ops) (type : Nat) (first_r2t : Bool)
    (cmd : iscsi_cmd) (offset : Nat) : Nat :=
  if first_r2t && type = 2 then
    if u32 (offset + u32_sub ops.MaxBurstLength cmd.next_burst_len) > cmd.data_length then
      u32_sub cmd.data_length offset
    else u32_sub ops.MaxBurstLength cmd.next_burst_len
  else
    if u32 (offset + ops.MaxBurstLength) > cmd.data_length then
      u32_sub cmd.data_length offset
    else ops.MaxBurstLength

/-- The first half of the loop body of `iscsit_build_r2ts_for_cmd`: compute
`offset` and `xfer_len`, advance the command and set `ICF_SENT_LAST_R2T`.
`none` is the `return -1` taken when no sequence holder is found. -/
def iscsit_build_r2ts_compute (ops : iscsi_sess_ops) (type : Nat) (first_r2t : Bool)
    (cmd : iscsi_cmd) : Option (Nat × Nat × iscsi_cmd) :=
  if ops.DataSequenceInOrder then
    let offset := cmd.r2t_offset
    let xfer_len := iscsit_build_r2ts_xfer_len ops type first_r2t cmd offset
    let cmd := { cmd with r2t_offset := u32 (cmd.r2t_offset + xfer_len) }
    let cmd :=
      if cmd.r2t_offset = cmd.data_length then
        { cmd with cmd_flags := { cmd.cmd_flags with ICF_SENT_LAST_R2T := true } }
      else cmd
    some (offset, xfer_len, cmd)
  else
    match iscsit_get_seq_holder_for_r2t cmd with
    | none => none
    | some (seq, cmd) =>
      let cmd :=
        if cmd.seq_send_order = cmd.seq_count then
          { cmd with cmd_flags := { cmd.cmd_flags with ICF_SENT_LAST_R2T := true } }
        else cmd
      some (seq.offset, seq.xfer_len, cmd)

/-- One pass through the loop body of `iscsit_build_r2ts_for_cmd`.  `error`
is a `return -1` with the command as it stands; `ok` is the command at the
test `cmd->cmd_flags & ICF_SENT_LAST_R2T` that ends the body. -/
def iscsit_build_r2ts_body (ops : iscsi_sess_ops) (type : Nat) (first_r2t : Bool)
    (alloc_ok : Bool) (cmd : iscsi_cmd) : Except iscsi_cmd iscsi_cmd :=
  match iscsit_build_r2ts_compute ops type first_r2t cmd with
  | none => .error cmd
  | some (offset, xfer_len, cmd) =>
    let cmd := { cmd with outstanding_r2ts := cmd.outstanding_r2ts + 1 }
    match iscsit_add_r2t_to_list cmd offset xfer_len 0 0 alloc_ok with
    | none => .error cmd
    | some cmd => .ok cmd

/-- The `while` loop of `iscsit_build_r2ts_for_cmd`.  `avail` is the number
of R2T records the allocator can still hand out.  `fuel` bounds the number
of passes; `MaxOutstandingR2T - outstanding_r2ts` passes always suffice
(`build_r2ts_loop_fuel`). -/
def iscsit_build_r2ts_loop (ops : iscsi_sess_ops) (type : Nat) :
    Nat → Bool → Nat → iscsi_cmd → Int × iscsi_cmd
  | 0, _, _, cmd => (0, cmd)
  | fuel + 1, first_r2t, avail, cmd =>
    if cmd.outstanding_r2ts < ops.MaxOutstandingR2T then
      match iscsit_build_r2ts_body ops type first_r2t (decide (0 < avail)) cmd with
      | .error cmd => (-1, cmd)
      | .ok cmd =>
        if cmd.cmd_flags.ICF_SENT_LAST_R2T then (0, cmd)
        else iscsit_build_r2ts_loop ops type fuel false (avail - 1) cmd
    else (0, cmd)

/-- The function `iscsit_build_r2ts_for_cmd`: return value and the command
it leaves.  `outstanding_r2ts` is below the 16-bit `MaxOutstandingR2T`
whenever it is incremented, so the increment is not reduced. -/
def iscsit_build_r2ts_for_cmd (ops : iscsi_sess_ops) (cmd : iscsi_cmd) (type : Nat)
    (avail : Nat) : Int × iscsi_cmd :=
  if cmd.cmd_flags.ICF_SENT_LAST_R2T then (0, cmd)
  else
    let cmd :=
      if ops.DataSequenceInOrder && type ≠ 2 then
        if cmd.r2t_offset < cmd.write_data_done then
          { cmd with r2t_offset := cmd.write_data_done }
        else cmd
      else cmd
    iscsit_build_r2ts_loop ops type (ops.MaxOutstandingR2T - cmd.outstanding_r2ts)
      true avail cmd

/-- The condition under which the R2T just computed is the last one of the
command: `r2t_offset` has reached `data_length` (DataSequenceInOrder=Yes), or
the sequence index has reached `seq_count` (DataSequenceInOrder=No). -/
def r2t_last_reached (ops : iscsi_sess_ops) (cmd : iscsi_cmd) : Prop :=
  if ops.DataSequenceInOrder then cmd.r2t_offset = cmd.data_length
  else cmd.seq_send_order = cmd.seq_count

/-! ## Validation of the SCSI Command header: the conditions as specified -/

/-- The rejection conditions of the validation stage in the words of the
specification, every one of them read on the header as received. -/
def scsi_cmd_reject_conditions (conn : iscsi_conn) (hdr : iscsi_scsi_req) : Bool :=
  (!hdr.flag_write && !hdr.flag_final)
  || ((hdr.flag_read || hdr.flag_write) && hdr.data_length = 0
        && !(hdr.cdb0 = 0x16 || hdr.cdb0 = 0x17))
  || (decide (hdr.data_length ≠ 0) && !hdr.flag_read && !hdr.flag_write)
  || (hdr.flag_read && hdr.flag_write)
  || hdr.immediate
  || (decide (hdr.dlength > 0) && !conn.sess_ops.ImmediateData)
  || (decide (hdr.data_length = hdr.dlength) && !hdr.flag_final)
  || decide (hdr.dlength > hdr.data_length)
  || decide (hdr.dlength > conn.conn_ops.MaxRecvDataSegmentLength)
  || decide (hdr.dlength > conn.sess_ops.FirstBurstLength)

/-- The same conditions with the fourth one read after the RESERVE/RELEASE
workaround: READ and WRITE both set counts only with a non-zero Expected
Data Transfer Length. -/
def scsi_cmd_reject_conditions_amended (conn : iscsi_conn) (hdr : iscsi_scsi_req) : Bool :=
  (!hdr.flag_write && !hdr.flag_final)
  || ((hdr.flag_read || hdr.flag_write) && hdr.data_length = 0
        && !(hdr.cdb0 = 0x16 || hdr.cdb0 = 0x17))
  || (decide (hdr.data_length ≠ 0) && !hdr.flag_read && !hdr.flag_write)
  || (hdr.flag_read && hdr.flag_write && decide (hdr.data_length ≠ 0))
  || hdr.immediate
  || (decide (hdr.dlength > 0) && !conn.sess_ops.ImmediateData)
  || (decide (hdr.data_length = hdr.dlength) && !hdr.flag_final)
  || decide (hdr.dlength > hdr.data_length)
  || decide (hdr.dlength > conn.conn_ops.MaxRecvDataSegmentLength)
  || decide (hdr.dlength > conn.sess_ops.FirstBurstLength)

/-- The validation stage rejected the header. -/
def rejected (r : Except (reject_reason × Bool) iscsi_scsi_req) : Bool :=
  match r with
  | .error _ => true
  | .ok _ => false

/-- The fail_conn argument of a rejection (true when there is none). -/
def rejected_fail_conn (r : Except (reject_reason × Bool) iscsi_scsi_req) : Bool :=
  match r with
  | .error x => x.2
  | .ok _ => true

/-! ## Reading the record of calls -/

/-- The calls of `iscsit_check_received_cmdsn` in a record of calls, as
(command, CmdSN) pairs. -/
def cmdsn_checks (l : List call) : List (Nat × Nat) :=
  l.filterMap fun c =>
    match c with
    | .check_received_cmdsn h n => some (h, n)
    | _ => none

/-- The calls of `iscsit_ack_from_expstatsn` in a record of calls, by their
ExpStatSN argument. -/
def expstatsn_acks (l : List call) : List Nat :=
  l.filterMap fun c =>
    match c with
    | .ack_from_expstatsn n => some n
    | _ => none

/-- What is claimed of a handler run `r` on a PDU with the immediate bit: it
made no call of `iscsit_check_received_cmdsn`, and if it attached the PDU's
command (the next free slot of the pool) to the connection's command list as
something other than a Reject, it called `iscsit_ack_from_expstatsn` exactly
once more, with the PDU's ExpStatSN. -/
def bypasses_cmdsn_and_acks (conn : iscsi_conn) (exp_statsn : Nat) (r : outcome) : Prop :=
  cmdsn_checks r.conn.calls = cmdsn_checks conn.calls
  ∧ (r.conn.conn_cmd_list = conn.conn_cmd_list ++ [conn.cmd_pool.length] →
      (r.conn.cmd conn.cmd_pool.length).iscsi_opcode ≠ .ISCSI_OP_REJECT →
      expstatsn_acks r.conn.calls = expstatsn_acks conn.calls ++ [exp_statsn])

/-- A handler run `r` that left before its sequencing stage: no call of
`iscsit_check_received_cmdsn` or `iscsit_ack_from_expstatsn` was made, and
the connection's command list is as before unless the PDU's slot of the pool
went onto it as a Reject. -/
def early_exit (conn : iscsi_conn) (r : outcome) : Prop :=
  cmdsn_checks r.conn.calls = cmdsn_checks conn.calls
  ∧ expstatsn_acks r.conn.calls = expstatsn_acks conn.calls
  ∧ (r.conn.conn_cmd_list = conn.conn_cmd_list
      ∨ (r.conn.cmd conn.cmd_pool.length).iscsi_opcode = .ISCSI_OP_REJECT)

/-- The connection `c1` with which a handler started on `conn` enters its
sequencing stage: the PDU's command sits in the next slot of the pool, bound
to the connection, with opcode `op` and state `st`; lists, queues and the
record of CmdSN checks and ExpStatSN acknowledgements are as in `conn`. -/
def armed (conn c1 : iscsi_conn) (op : iscsi_opcode) (st : istate) : Prop :=
  c1.cmd_pool.length = conn.cmd_pool.length + 1
  ∧ cmdsn_checks c1.calls = cmdsn_checks conn.calls
  ∧ expstatsn_acks c1.calls = expstatsn_acks conn.calls
  ∧ c1.conn_cmd_list = conn.conn_cmd_list
  ∧ c1.immed_queue = conn.immed_queue
  ∧ c1.response_queue = conn.response_queue
  ∧ c1.cid = conn.cid
  ∧ (c1.cmd conn.cmd_pool.length).has_conn = true
  ∧ (c1.cmd conn.cmd_pool.length).iscsi_opcode = op
  ∧ (c1.cmd conn.cmd_pool.length).i_state = st

/-- The command `h` was retired: the handler returned 0, put nothing on the
response queue and its last act was to queue `h` on the immediate queue with
state ISTATE_REMOVE. -/
def retired (conn : iscsi_conn) (h : Nat) (r : outcome) : Prop :=
  r.ret = 0
  ∧ r.conn.response_queue = conn.response_queue
  ∧ r.conn.immed_queue.getLast? = some ⟨h, .ISTATE_REMOVE⟩

/-- The command `h` was turned into a fatal protocol-error Reject: the
handler returned -1, the command carries opcode Reject, reason
ISCSI_REASON_PROTOCOL_ERROR and the fail_conn flag, and, when the copy of the
rejected header could be allocated, it is the one new entry of the response
queue, in state ISTATE_SEND_REJECT. -/
def rejected_fatal (conn : iscsi_conn) (h : Nat) (e : env) (r : outcome) : Prop :=
  r.ret = -1
  ∧ (r.conn.cmd h).iscsi_opcode = .ISCSI_OP_REJECT
  ∧ (r.conn.cmd h).reason = .ISCSI_REASON_PROTOCOL_ERROR
  ∧ (r.conn.cmd h).cmd_flags.ICF_REJECT_FAIL_CONN = true
  ∧ (e.alloc_reject_buf = true →
      r.conn.response_queue = conn.response_queue ++ [⟨h, .ISTATE_SEND_REJECT⟩])

/-! ## Frames -/

/-- Everything `iscsit_ack_from_expstatsn` keeps: the pool size, the
command list, the response queue, the parameters, the record of calls; the
immediate queue only grows; a command changes at most its state, and only
from SENT_STATUS to REMOVE. -/
def ack_frame (c0 c : iscsi_conn) : Prop :=
  c.cmd_pool.length = c0.cmd_pool.length
  ∧ c.conn_cmd_list = c0.conn_cmd_list
  ∧ c.response_queue = c0.response_queue
  ∧ c.conn_ops = c0.conn_ops
  ∧ c.sess_ops = c0.sess_ops
  ∧ c.calls = c0.calls
  ∧ c.cid = c0.cid
  ∧ (∃ l, c.immed_queue = c0.immed_queue ++ l)
  ∧ ∀ k, c.cmd k = c0.cmd k
      ∨ ((c0.cmd k).i_state = .ISTATE_SENT_STATUS
          ∧ c.cmd k = { c0.cmd k with i_state := .ISTATE_REMOVE })

/-- The command a SCSI Command PDU has when it enters the sequencing stage:
no data written yet, the declared length of the header, immediate data
exactly when the data segment is not empty. -/
def scsi_cmd_fresh (c1 : iscsi_conn) (h : Nat) (hdr : iscsi_scsi_req) : Prop :=
  (c1.cmd h).immediate_data = decide (hdr.dlength ≠ 0)
  ∧ (c1.cmd h).write_data_done = 0
  ∧ (c1.cmd h).data_length = hdr.data_length
  ∧ (c1.cmd h).cmd_flags.ICF_GOT_LAST_DATAOUT = false

/-! ## The receive loop -/

/-- Modelled from the spec: the opcode constants of the iSCSI basic header
segment (declared outside the files at hand), with their protocol values. -/
def ISCSI_OPCODE_MASK : Nat := 0x3f
/-- Modelled from the spec: initiator opcode NOP-Out. -/
def ISCSI_OP_NOOP_OUT : Nat := 0x00
/-- Modelled from the spec: initiator opcode SCSI Command. -/
def ISCSI_OP_SCSI_CMD : Nat := 0x01
/-- Modelled from the spec: initiator opcode Task Management function request. -/
def ISCSI_OP_SCSI_TMFUNC : Nat := 0x02
/-- Modelled from the spec: initiator opcode Text request. -/
def ISCSI_OP_TEXT : Nat := 0x04
/-- Modelled from the spec: initiator opcode Data-Out. -/
def ISCSI_OP_SCSI_DATA_OUT : Nat := 0x05
/-- Modelled from the spec: initiator opcode Logout request. -/
def ISCSI_OP_LOGOUT : Nat := 0x06
/-- Modelled from the spec: initiator opcode SNACK request. -/
def ISCSI_OP_SNACK : Nat := 0x10
/-- Length of a basic header segment. -/
def ISCSI_HDR_LEN : Nat := 48

/-- The opcodes that have a case of their own in the switch of
`iscsi_target_rx_thread`. -/
def rx_handled_opcodes : List Nat :=
  [ISCSI_OP_SCSI_CMD, ISCSI_OP_SCSI_DATA_OUT, ISCSI_OP_NOOP_OUT, ISCSI_OP_SCSI_TMFUNC,
   ISCSI_OP_TEXT, ISCSI_OP_LOGOUT, ISCSI_OP_SNACK]

/-- The fields of the connection and of its session that one pass of the
receive loop reads or writes.  `conn_digest_errors` is a plain counter: its
width is declared outside the files at hand. -/
structure iscsi_rx_conn where
  conn_state : conn_state_t := .TARG_CONN_STATE_LOGGED_IN
  HeaderDigest : Bool := false
  OFMarker : Bool := false
  SessionType : Nat := 0
  ErrorRecoveryLevel : Nat := 0
  conn_digest_errors : Nat := 0
  bad_hdr : List Nat := []
  deriving DecidableEq, Repr

/-- What one pass of the receive loop may call, in program order. -/
inductive rx_action
  | handle_scsi_cmd
  | handle_data_out
  | handle_nop_out
  | handle_task_mgt_cmd
  | handle_text_cmd
  | handle_logout_cmd
  | handle_snack
  | add_reject_protocol_error
  | unknown_opcode
  | recover_from_unknown_opcode
  deriving DecidableEq, Repr

/-- The PDU handlers among the actions. -/
def rx_action.is_handler : rx_action → Bool
  | .handle_scsi_cmd | .handle_data_out | .handle_nop_out | .handle_task_mgt_cmd
  | .handle_text_cmd | .handle_logout_cmd | .handle_snack => true
  | _ => false

/-- Answers of the collaborators of one pass of the receive loop. -/
structure rx_env where
  /-- the 48 bytes `rx_data` delivers for the header; `none` when it returns
  less than ISCSI_HDR_LEN -/
  rx_hdr : Option (List Nat) := none
  /-- the digest `rx_data` delivers; `none` when it returns less than
  ISCSI_CRC_LEN -/
  rx_digest : Option Nat := none
  /-- the CRC32C `iscsit_do_crypto_hash_buf` computes over the header -/
  checksum : Nat := 0
  /-- return value of the PDU handler that is called -/
  handler_ret : Int := 0
  /-- return value of `iscsit_recover_from_unknown_opcode` -/
  recover_ret : Int := 0
  deriving DecidableEq

/-- Result of one pass of the loop: whether it left through `transport_err`,
the connection, the opcode computed for the switch (if the pass got that far)
and the actions taken. -/
structure rx_outcome where
  transport_err : Bool
  conn : iscsi_rx_conn
  opcode : Option Nat
  actions : List rx_action
  deriving DecidableEq, Repr

/-- The switch of `iscsi_target_rx_thread` on the opcode. -/
def iscsi_target_rx_thread_switch (conn : iscsi_rx_conn) (opcode : Nat) (e : rx_env) :
    rx_outcome :=
  if opcode = ISCSI_OP_SCSI_CMD then
    ⟨decide (e.handler_ret < 0), conn, some opcode, [.handle_scsi_cmd]⟩
  else if opcode = ISCSI_OP_SCSI_DATA_OUT then
    ⟨decide (e.handler_ret < 0), conn, some opcode, [.handle_data_out]⟩
  else if opcode = ISCSI_OP_NOOP_OUT then
    ⟨decide (e.handler_ret < 0), conn, some opcode, [.handle_nop_out]⟩
  else if opcode = ISCSI_OP_SCSI_TMFUNC then
    ⟨decide (e.handler_ret < 0), conn, some opcode, [.handle_task_mgt_cmd]⟩
  else if opcode = ISCSI_OP_TEXT then
    ⟨decide (e.handler_ret < 0), conn, some opcode, [.handle_text_cmd]⟩
  else if opcode = ISCSI_OP_LOGOUT then
    if e.handler_ret > 0 then ⟨true, conn, some opcode, [.handle_logout_cmd]⟩
    else if e.handler_ret < 0 then ⟨true, conn, some opcode, [.handle_logout_cmd]⟩
    else ⟨false, conn, some opcode, [.handle_logout_cmd]⟩
  else if opcode = ISCSI_OP_SNACK then
    ⟨decide (e.handler_ret < 0), conn, some opcode, [.handle_snack]⟩
  else if conn.ErrorRecoveryLevel = 0 then
    ⟨true, conn, some opcode, [.unknown_opcode]⟩
  else if !conn.OFMarker then
    ⟨true, conn, some opcode, [.unknown_opcode]⟩
  else if e.recover_ret < 0 then
    ⟨true, conn, some opcode, [.unknown_opcode, .recover_from_unknown_opcode]⟩
  else
    ⟨false, conn, some opcode, [.unknown_opcode, .recover_from_unknown_opcode]⟩

/-- The part of the loop body of `iscsi_target_rx_thread` after the header
digest was dealt with: the test for a connection in logout, the opcode, the
test for a discovery session and the switch. -/
def iscsi_target_rx_thread_dispatch (conn : iscsi_rx_conn) (buffer : List Nat)
    (e : rx_env) : rx_outcome :=
  if conn.conn_state = .TARG_CONN_STATE_IN_LOGOUT then ⟨true, conn, none, []⟩
  else
    let opcode := Nat.land (buffer.getD 0 0) ISCSI_OPCODE_MASK
    if conn.SessionType ≠ 0
        ∧ (Nat.land opcode ISCSI_OP_TEXT = 0 ∨ Nat.land opcode ISCSI_OP_LOGOUT = 0) then
      ⟨true, conn, some opcode, [.add_reject_protocol_error]⟩
    else iscsi_target_rx_thread_switch conn opcode e

/-- One pass of the `while` loop of `iscsi_target_rx_thread`, from the
`rx_data` of the header to the end of the switch. -/
def iscsi_target_rx_thread_body (conn : iscsi_rx_conn) (e : rx_env) : rx_outcome :=
  match e.rx_hdr with
  | none => ⟨true, conn, none, []⟩
  | some buffer =>
    if conn.HeaderDigest then
      match e.rx_digest with
      | none => ⟨true, { conn with bad_hdr := buffer }, none, []⟩
      | some digest =>
        if digest ≠ e.checksum then
          iscsi_target_rx_thread_dispatch
            { conn with bad_hdr := buffer,
                        conn_digest_errors := conn.conn_digest_errors + 1 }
            (List.replicate ISCSI_HDR_LEN 0xff) e
        else iscsi_target_rx_thread_dispatch { conn with bad_hdr := buffer } buffer e
    else iscsi_target_rx_thread_dispatch { conn with bad_hdr := buffer } buffer e

/-! ## Building responses -/

/-- Modelled from the spec: target opcode SCSI Response. -/
def ISCSI_OP_SCSI_CMD_RSP : Nat := 0x21
/-- Modelled from the spec: target opcode Data-In. -/
def ISCSI_OP_SCSI_DATA_IN : Nat := 0x25
/-- Modelled from the spec: target opcode Ready To Transfer. -/
def ISCSI_OP_R2T : Nat := 0x31

/-- Answers of the collaborators of the response builders. -/
structure tx_env where
  /-- `sess->max_cmd_sn` as `iscsit_increment_maxcmdsn(cmd, sess)` leaves it,
  given the command and the value before -/
  increment_maxcmdsn : iscsi_cmd → Nat → Nat := fun _ n => n
  /-- `iscsit_get_r2t_from_list(cmd)`: the position of the record in
  `cmd->cmd_r2t_list`, `none` for NULL -/
  get_r2t_from_list : Option Nat := none

/-- The flag byte of a SCSI Response, by the bits `iscsit_send_status` sets. -/
structure scsi_rsp_flags where
  ISCSI_FLAG_CMD_FINAL : Bool := false
  ISCSI_FLAG_CMD_OVERFLOW : Bool := false
  ISCSI_FLAG_CMD_UNDERFLOW : Bool := false
  deriving DecidableEq, Repr

/-- The SCSI Response header `iscsit_send_status` builds in `cmd->pdu`. -/
structure iscsi_scsi_rsp where
  opcode : Nat := 0
  flags : scsi_rsp_flags := {}
  response : Nat := 0
  cmd_status : Nat := 0
  dlength : Nat := 0
  itt : Nat := 0
  statsn : Nat := 0
  exp_cmdsn : Nat := 0
  max_cmdsn : Nat := 0
  residual_count : Nat := 0
  deriving DecidableEq, Repr

/-- What `iscsit_send_status` leaves: the command, the connection, the header
and the lengths of the iovecs `cmd->iov_misc`. -/
structure send_status_out where
  ret : Int
  cmd : iscsi_cmd
  conn : iscsi_conn
  hdr : iscsi_scsi_rsp
  iov_len : List Nat
  deriving DecidableEq

/-- The flag byte of the SCSI Response: FINAL, and OVERFLOW or else UNDERFLOW
after the flags of the generic command. -/
def send_status_flags (f : se_cmd_flags_t) : scsi_rsp_flags :=
  if f.SCF_OVERFLOW_BIT then
    { ISCSI_FLAG_CMD_FINAL := true, ISCSI_FLAG_CMD_OVERFLOW := true }
  else if f.SCF_UNDERFLOW_BIT then
    { ISCSI_FLAG_CMD_FINAL := true, ISCSI_FLAG_CMD_UNDERFLOW := true }
  else { ISCSI_FLAG_CMD_FINAL := true }

/-- The sense data part of `iscsit_send_status`: the iovecs after the header
(sense data with its padding, then the data digest) and their share of
`tx_size`; nothing when there is no sense data. -/
def send_status_sense (cmd : iscsi_cmd) (DataDigest : Bool) : List Nat × Nat :=
  if cmd.se_cmd.sense_buffer
      && (cmd.se_cmd.se_cmd_flags.SCF_TRANSPORT_TASK_SENSE
          || cmd.se_cmd.se_cmd_flags.SCF_EMULATED_TASK_SENSE) then
    if DataDigest then
      ([cmd.se_cmd.scsi_sense_length + padding_of cmd.se_cmd.scsi_sense_length,
        ISCSI_CRC_LEN],
       cmd.se_cmd.scsi_sense_length + padding_of cmd.se_cmd.scsi_sense_length
        + ISCSI_CRC_LEN)
    else
      ([cmd.se_cmd.scsi_sense_length + padding_of cmd.se_cmd.scsi_sense_length],
       cmd.se_cmd.scsi_sense_length + padding_of cmd.se_cmd.scsi_sense_length)
  else ([], 0)

/-- The statement `if (!recovery) cmd->stat_sn = conn->stat_sn++;` of
`iscsit_send_status`, with `recovery = (cmd->i_state != ISTATE_SEND_STATUS)`. -/
def send_status_statsn (cmd : iscsi_cmd) (conn : iscsi_conn) : iscsi_cmd × iscsi_conn :=
  if cmd.i_state ≠ .ISTATE_SEND_STATUS then (cmd, conn)
  else ({ cmd with stat_sn := conn.stat_sn }, { conn with stat_sn := u32 (conn.stat_sn + 1) })

/-- The function `iscsit_send_status`. -/
def iscsit_send_status (cmd : iscsi_cmd) (conn : iscsi_conn) (e : tx_env) :
    send_status_out :=
  let s := send_status_statsn cmd conn
  let hdr_len := if conn.conn_ops.HeaderDigest then ISCSI_HDR_LEN + ISCSI_CRC_LEN
    else ISCSI_HDR_LEN
  let sense := send_status_sense cmd conn.conn_ops.DataDigest
  { ret := 0,
    cmd := { s.1 with iov_misc_count := 1 + sense.1.length, tx_size := hdr_len + sense.2 },
    conn := { s.2 with
      sess_rsp_pdus := conn.sess_rsp_pdus + 1,
      sess_max_cmd_sn := e.increment_maxcmdsn s.1 conn.sess_max_cmd_sn },
    hdr :=
      { opcode := ISCSI_OP_SCSI_CMD_RSP,
        flags := send_status_flags cmd.se_cmd.se_cmd_flags,
        residual_count :=
          if cmd.se_cmd.se_cmd_flags.SCF_OVERFLOW_BIT
              || cmd.se_cmd.se_cmd_flags.SCF_UNDERFLOW_BIT then cmd.residual_count
          else 0,
        response := cmd.iscsi_response,
        cmd_status := cmd.se_cmd.scsi_status,
        dlength := if sense.1 = [] then 0 else cmd.se_cmd.scsi_sense_length,
        itt := cmd.init_task_tag,
        statsn := s.1.stat_sn,
        exp_cmdsn := conn.sess_exp_cmd_sn,
        max_cmdsn := e.increment_maxcmdsn s.1 conn.sess_max_cmd_sn },
    iov_len := hdr_len :: sense.1 }

/-- The R2T header `iscsit_send_r2t` builds in `cmd->pdu`. -/
structure iscsi_r2t_rsp where
  opcode : Nat := 0
  final : Bool := false
  itt : Nat := 0
  ttt : Nat := 0
  statsn : Nat := 0
  exp_cmdsn : Nat := 0
  max_cmdsn : Nat := 0
  r2tsn : Nat := 0
  data_offset : Nat := 0
  data_length : Nat := 0
  deriving DecidableEq, Repr

/-- What `iscsit_send_r2t` leaves; `hdr` is `none` when no header was built. -/
structure send_r2t_out where
  ret : Int
  cmd : iscsi_cmd
  conn : iscsi_conn
  hdr : Option iscsi_r2t_rsp
  deriving DecidableEq

/-- The function `iscsit_send_r2t`. -/
def iscsit_send_r2t (cmd : iscsi_cmd) (conn : iscsi_conn) (e : tx_env) : send_r2t_out :=
  match e.get_r2t_from_list with
  | none => ⟨-1, cmd, conn, none⟩
  | some k =>
    match cmd.cmd_r2t_list.get? k with
    | none => ⟨-1, cmd, conn, none⟩
    | some r2t =>
      let tag := next_targ_xfer_tag conn.sess_targ_xfer_tag
      let tx_size := if conn.conn_ops.HeaderDigest then ISCSI_HDR_LEN + ISCSI_CRC_LEN
        else ISCSI_HDR_LEN
      { ret := 0,
        cmd := { cmd with
          cmd_r2t_list :=
            cmd.cmd_r2t_list.set k { r2t with targ_xfer_tag := tag.1, sent_r2t := true },
          iov_misc_count := 1,
          tx_size := tx_size },
        conn := conn.set_sess_targ_xfer_tag tag.2,
        hdr := some
          { opcode := ISCSI_OP_R2T,
            final := true,
            itt := cmd.init_task_tag,
            ttt := tag.1,
            statsn := conn.stat_sn,
            exp_cmdsn := conn.sess_exp_cmd_sn,
            max_cmdsn := conn.sess_max_cmd_sn,
            r2tsn := r2t.r2t_sn,
            data_offset := r2t.offset,
            data_length := r2t.xfer_len } }

/-! ## Sessions and their connections -/

/-- Session states (`sess->session_state`). -/
inductive sess_state_t
  | TARG_SESS_STATE_FREE
  | TARG_SESS_STATE_ACTIVE
  | TARG_SESS_STATE_LOGGED_IN
  | TARG_SESS_STATE_FAILED
  | TARG_SESS_STATE_IN_CONTINUE
  deriving DecidableEq, Repr

/-- The fields of a connection that logout and close read or write.  Atomic
flags that only ever hold 0 or 1 are booleans. -/
structure sess_conn where
  cid : Nat := 0
  conn_state : conn_state_t := .TARG_CONN_STATE_LOGGED_IN
  conn_logout_remove : Bool := false
  conn_logout_reason : Nat := 0
  connection_recovery : Bool := false
  connection_reinstatement : Bool := false
  connection_wait_rcfr : Bool := false
  sleep_on_conn_wait_comp : Bool := false
  response_queue : List iscsi_queue_req := []
  deriving DecidableEq, Repr

/-- Calls to collaborators made by logout and close, in program order. -/
inductive sess_call
  | inc_conn_usage_count (cid : Nat)
  | dec_conn_usage_count (cid : Nat)
  | inc_session_usage_count
  | dec_session_usage_count
  | complete_conn_logout_comp
  | release_thread_set
  | stop_timers_for_cmds
  | stop_nopin_response_timer
  | stop_nopin_timer
  | free_queue_reqs_for_conn
  | discard_unacknowledged_ooo_cmdsns_for_conn
  | prepare_cmds_for_realligance
  | clear_ooo_cmdsns_for_conn
  | release_commands_from_conn
  | build_conn_drop_async_message
  | complete_conn_wait_comp
  | complete_conn_wait_rcfr_comp
  | wait_conn_post_wait_comp
  | check_conn_usage_count
  | release_conn_resources
  | stop_session
  | close_session
  | start_time2retain_handler
  | complete_session_wait_comp
  deriving DecidableEq, Repr

/-- The fields of a session that logout and close read or write; a
connection pointer is an index into `sess_conn_list`. -/
structure iscsi_session where
  ErrorRecoveryLevel : Nat := 0
  nconn : Int := 0
  session_state : sess_state_t := .TARG_SESS_STATE_LOGGED_IN
  session_logout : Bool := false
  session_reinstatement : Bool := false
  session_fall_back_to_erl0 : Bool := false
  session_stop_active : Bool := false
  session_continuation : Bool := false
  sleep_on_sess_wait_comp : Bool := false
  sess_conn_list : List sess_conn := []
  calls : List sess_call := []
  deriving DecidableEq, Repr

/-- The connection behind the pointer `i`. -/
def iscsi_session.conn (sess : iscsi_session) (i : Nat) : sess_conn :=
  sess.sess_conn_list.getD i {}

/-- Store through the connection pointer `i`. -/
def iscsi_session.set_conn (sess : iscsi_session) (i : Nat) (c : sess_conn) :
    iscsi_session :=
  { sess with sess_conn_list := sess.sess_conn_list.set i c }

/-- Record a call to a collaborator. -/
def iscsi_session.note (sess : iscsi_session) (c : sess_call) : iscsi_session :=
  { sess with calls := sess.calls ++ [c] }

/-- Return value of a session operation and the session it leaves. -/
structure sess_outcome where
  ret : Int
  sess : iscsi_session
  deriving DecidableEq, Repr

/-- The body of the loop of `iscsit_logout_closesession` over
`sess->sess_conn_list`. -/
def logout_closesession_step (conn_p : sess_conn) : sess_conn :=
  if conn_p.conn_state ≠ .TARG_CONN_STATE_LOGGED_IN then conn_p
  else { conn_p with conn_state := .TARG_CONN_STATE_IN_LOGOUT }

/-- The function `iscsit_logout_closesession`; `cmd` is the pointer of the
logout command, `i_state` its `cmd->i_state`, `i` the connection that
carried the request. -/
def iscsit_logout_closesession (cmd : Nat) (i_state : istate) (sess : iscsi_session)
    (i : Nat) : sess_outcome :=
  let sess := { sess with session_logout := true }
  let sess := sess.set_conn i
    { sess.conn i with conn_logout_remove := true,
                       conn_logout_reason := ISCSI_LOGOUT_REASON_CLOSE_SESSION }
  let sess := sess.note (.inc_conn_usage_count (sess.conn i).cid)
  let sess := sess.note .inc_session_usage_count
  let sess := { sess with sess_conn_list := sess.sess_conn_list.map logout_closesession_step }
  let sess := sess.set_conn i
    { sess.conn i with response_queue := (sess.conn i).response_queue ++ [⟨cmd, i_state⟩] }
  ⟨0, sess⟩

/-- What `iscsit_close_connection` leaves: its return value, the session and
the connection as it was when it was freed. -/
structure close_outcome where
  ret : Int
  sess : iscsi_session
  conn : sess_conn
  deriving DecidableEq, Repr

/-- Record a list of calls to collaborators. -/
def iscsi_session.notes (sess : iscsi_session) (l : List sess_call) : iscsi_session :=
  { sess with calls := sess.calls ++ l }

/-- The first part of `iscsit_close_connection`, up to the removal of the
connection from the session's list: timers and commands are released, and a
logout whose response could not be sent is undone, which makes the session
fall back to ErrorRecoveryLevel 0. -/
def iscsit_close_connection_release (sess : iscsi_session) (conn : sess_conn) :
    iscsi_session × sess_conn :=
  let sess := sess.notes [.complete_conn_logout_comp, .release_thread_set,
    .stop_timers_for_cmds, .stop_nopin_response_timer, .stop_nopin_timer,
    .free_queue_reqs_for_conn]
  let sess :=
    if conn.connection_recovery then
      sess.notes [.discard_unacknowledged_ooo_cmdsns_for_conn, .prepare_cmds_for_realligance]
    else sess.notes [.clear_ooo_cmdsns_for_conn, .release_commands_from_conn]
  if conn.conn_logout_remove then
    let sess :=
      if conn.conn_logout_reason = ISCSI_LOGOUT_REASON_CLOSE_SESSION then
        sess.notes [.dec_conn_usage_count conn.cid, .dec_session_usage_count]
      else sess
    let sess :=
      if conn.conn_logout_reason = ISCSI_LOGOUT_REASON_CLOSE_CONNECTION then
        sess.note (.dec_conn_usage_count conn.cid)
      else sess
    ({ sess with session_reinstatement := false, session_fall_back_to_erl0 := true },
     { conn with conn_logout_remove := false })
  else (sess, conn)

/-- The middle part of `iscsit_close_connection`, from `list_del` to
`kfree(conn)`; `i` is the position of the connection in the session's list. -/
def iscsit_close_connection_free (sess : iscsi_session) (conn : sess_conn) (i : Nat) :
    iscsi_session × sess_conn :=
  let sess := { sess with sess_conn_list := sess.sess_conn_list.eraseIdx i }
  let sess :=
    if conn.connection_recovery then sess.note .build_conn_drop_async_message else sess
  let sess :=
    if conn.sleep_on_conn_wait_comp then
      sess.notes [.complete_conn_wait_comp, .wait_conn_post_wait_comp]
    else sess
  let sess :=
    if conn.connection_wait_rcfr then
      sess.notes [.complete_conn_wait_rcfr_comp, .wait_conn_post_wait_comp]
    else sess
  let sess := sess.notes [.check_conn_usage_count, .release_conn_resources]
  (sess,
   { conn with connection_reinstatement := true, conn_state := .TARG_CONN_STATE_FREE })

/-- The last part of `iscsit_close_connection`, from `atomic_dec(&sess->nconn)`
on; `conn_logout` tells whether the connection was in state
TARG_CONN_STATE_IN_LOGOUT when the function was entered. -/
def iscsit_close_connection_session (sess : iscsi_session) (conn_logout : Bool) :
    iscsi_session :=
  let sess := { sess with nconn := sess.nconn - 1 }
  let sess :=
    if sess.ErrorRecoveryLevel ≠ 2 ∧ conn_logout = false ∧ sess.session_logout = false then
      { sess with session_fall_back_to_erl0 := true }
    else sess
  if sess.nconn ≠ 0 then
    if sess.session_reinstatement = false ∧ sess.session_fall_back_to_erl0 = false then sess
    else if sess.session_stop_active = false then
      { sess with session_stop_active := true }.note .stop_session
    else sess
  else if sess.session_reinstatement = false ∧ sess.session_fall_back_to_erl0 = true then
    sess.note .close_session
  else if sess.session_logout then
    let sess := { sess with session_state := .TARG_SESS_STATE_FREE }
    if sess.sleep_on_sess_wait_comp then sess.note .complete_session_wait_comp else sess
  else
    let sess := { sess with session_state := .TARG_SESS_STATE_FAILED }
    let sess :=
      if sess.session_continuation = false then sess.note .start_time2retain_handler
      else sess
    if sess.sleep_on_sess_wait_comp then sess.note .complete_session_wait_comp else sess

/-- The function `iscsit_close_connection` on the connection at position `i`
of the session's connection list. -/
def iscsit_close_connection (sess : iscsi_session) (i : Nat) : close_outcome :=
  let conn_logout := decide ((sess.conn i).conn_state = .TARG_CONN_STATE_IN_LOGOUT)
  let r := iscsit_close_connection_release sess (sess.conn i)
  let f := iscsit_close_connection_free r.1 r.2 i
  ⟨0, iscsit_close_connection_session f.1 conn_logout, f.2⟩

/-! ## Data-In -/

/-- The flag byte of a Data-In PDU, one field per bit of the byte that is
defined: FINAL, ACKNOWLEDGE, residual OVERFLOW and UNDERFLOW, STATUS. -/
structure datain_flags where
  ISCSI_FLAG_CMD_FINAL : Bool := false
  ISCSI_FLAG_DATA_ACK : Bool := false
  ISCSI_FLAG_DATA_OVERFLOW : Bool := false
  ISCSI_FLAG_DATA_UNDERFLOW : Bool := false
  ISCSI_FLAG_DATA_STATUS : Bool := false
  deriving DecidableEq, Repr

/-- The values `iscsit_get_datain_values` fills in for the next Data-In PDU. -/
structure iscsi_datain where
  flags : datain_flags := {}
  data_sn : Nat := 0
  length : Nat := 0
  offset : Nat := 0
  deriving DecidableEq, Repr

/-- Modelled from the spec: the data-in request is complete, normal operation. -/
def DATAIN_COMPLETE_NORMAL : Nat := 1
/-- Modelled from the spec: the data-in request is complete, recovery within
the command. -/
def DATAIN_COMPLETE_WITHIN_COMMAND_RECOVERY : Nat := 2
/-- Modelled from the spec: the data-in request is complete, recovery within
the connection. -/
def DATAIN_COMPLETE_CONNECTION_RECOVERY : Nat := 3

/-- Answers of the collaborators of `iscsit_send_data_in`. -/
structure datain_env where
  /-- `iscsit_get_datain_values`: the values and `dr->dr_complete`, `none`
  for NULL -/
  get_datain_values : Option (iscsi_datain × Nat) := none
  /-- `sess->max_cmd_sn` as `iscsit_increment_maxcmdsn` leaves it -/
  increment_maxcmdsn : iscsi_cmd → Nat → Nat := fun _ n => n
  /-- `conn->sess->se_sess->se_node_acl` is set -/
  se_node_acl : Bool := false
  /-- `SE_CMD(cmd)->orig_fe_lun`, as `int_to_scsilun` encodes it -/
  orig_fe_lun : Nat := 0
  /-- `iscsit_set_iovec_ptrs` on (data_offset, data_length) -/
  set_iovec_ptrs : Nat → Nat → Int := fun _ _ => 1
  /-- `kzalloc` of the pad bytes succeeds -/
  alloc_pad_bytes : Bool := true

/-- The Data-In header `iscsit_send_data_in` builds in `cmd->pdu`. -/
structure iscsi_data_rsp where
  opcode : Nat := 0
  flags : datain_flags := {}
  dlength : Nat := 0
  lun : Nat := 0
  itt : Nat := 0
  ttt : Nat := 0
  statsn : Nat := 0
  exp_cmdsn : Nat := 0
  max_cmdsn : Nat := 0
  datasn : Nat := 0
  offset : Nat := 0
  residual_count : Nat := 0
  deriving DecidableEq, Repr

/-- What `iscsit_send_data_in` leaves: `hdr` is the header once it has been
built, `eodr` the value written through the pointer of that name, if any,
`read_bytes` what was added to the statistics of the node ACL. -/
structure send_data_in_out where
  ret : Int
  cmd : iscsi_cmd
  conn : iscsi_conn
  hdr : Option iscsi_data_rsp := none
  iov_len : List Nat := []
  eodr : Option Nat := none
  read_bytes : Nat := 0
  deriving DecidableEq

/-- The "special case for successful execution with both DATAIN and sense
data" of `iscsit_send_data_in`: the flags of the PDU, the command and the
connection after the assignment of StatSN, and `set_statsn`. -/
def send_data_in_statsn (datain : iscsi_datain) (dr_complete : Nat) (cmd : iscsi_cmd)
    (conn : iscsi_conn) (e : datain_env) : datain_flags × iscsi_cmd × iscsi_conn × Bool :=
  if datain.flags.ISCSI_FLAG_DATA_STATUS
      && cmd.se_cmd.se_cmd_flags.SCF_TRANSPORT_TASK_SENSE then
    ({ datain.flags with ISCSI_FLAG_DATA_STATUS := false }, cmd, conn, false)
  else if dr_complete = DATAIN_COMPLETE_NORMAL
      ∨ dr_complete = DATAIN_COMPLETE_CONNECTION_RECOVERY then
    (datain.flags, { cmd with stat_sn := conn.stat_sn },
     { conn with stat_sn := u32 (conn.stat_sn + 1),
                 sess_max_cmd_sn := e.increment_maxcmdsn cmd conn.sess_max_cmd_sn }, true)
  else if dr_complete = DATAIN_COMPLETE_WITHIN_COMMAND_RECOVERY then
    (datain.flags, cmd, conn, true)
  else (datain.flags, cmd, conn, false)

/-- The flag byte of the header: the flags of the data-in values, with
OVERFLOW or else UNDERFLOW added on a PDU that carries STATUS. -/
def send_data_in_flags (flags : datain_flags) (f : se_cmd_flags_t) : datain_flags :=
  if flags.ISCSI_FLAG_DATA_STATUS then
    if f.SCF_OVERFLOW_BIT then { flags with ISCSI_FLAG_DATA_OVERFLOW := true }
    else if f.SCF_UNDERFLOW_BIT then { flags with ISCSI_FLAG_DATA_UNDERFLOW := true }
    else flags
  else flags

/-- The header of the Data-In PDU as `iscsit_send_data_in` fills it in. -/
def send_data_in_hdr (flags : datain_flags) (set_statsn : Bool) (datain : iscsi_datain)
    (cmd : iscsi_cmd) (conn : iscsi_conn) (e : datain_env) : iscsi_data_rsp :=
  { opcode := ISCSI_OP_SCSI_DATA_IN,
    flags := send_data_in_flags flags cmd.se_cmd.se_cmd_flags,
    residual_count :=
      if flags.ISCSI_FLAG_DATA_STATUS
          && (cmd.se_cmd.se_cmd_flags.SCF_OVERFLOW_BIT
              || cmd.se_cmd.se_cmd_flags.SCF_UNDERFLOW_BIT) then cmd.residual_count
      else 0,
    dlength := datain.length,
    lun := if (send_data_in_flags flags cmd.se_cmd.se_cmd_flags).ISCSI_FLAG_DATA_ACK
      then e.orig_fe_lun else 0xFFFFFFFFFFFFFFFF,
    itt := cmd.init_task_tag,
    ttt := if (send_data_in_flags flags cmd.se_cmd.se_cmd_flags).ISCSI_FLAG_DATA_ACK
      then cmd.targ_xfer_tag else 0xFFFFFFFF,
    statsn := if set_statsn then cmd.stat_sn else 0xFFFFFFFF,
    exp_cmdsn := conn.sess_exp_cmd_sn,
    max_cmdsn := conn.sess_max_cmd_sn,
    datasn := datain.data_sn,
    offset := datain.offset }

/-- The end of `iscsit_send_data_in`, from the mapping of the data on: the
iovecs after the header, `tx_size`, and `*eodr`. -/
def send_data_in_payload (hdr : iscsi_data_rsp) (datain : iscsi_datain) (dr_complete : Nat)
    (cmd : iscsi_cmd) (conn : iscsi_conn) (e : datain_env) (read_bytes : Nat) :
    send_data_in_out :=
  let hdr_len := if conn.conn_ops.HeaderDigest then ISCSI_HDR_LEN + ISCSI_CRC_LEN
    else ISCSI_HDR_LEN
  if e.set_iovec_ptrs datain.offset datain.length < 0 then
    { ret := -1, cmd := cmd, conn := conn, hdr := some hdr, iov_len := [hdr_len],
      read_bytes := read_bytes }
  else if padding_of datain.length ≠ 0 ∧ e.alloc_pad_bytes = false then
    { ret := -1, cmd := cmd, conn := conn, hdr := some hdr, iov_len := [hdr_len],
      read_bytes := read_bytes }
  else
    let pad := if padding_of datain.length ≠ 0 then [padding_of datain.length] else []
    let crc := if conn.conn_ops.DataDigest then [ISCSI_CRC_LEN] else []
    { ret := 0,
      cmd := { cmd with
        buf_ptr_set := cmd.buf_ptr_set || decide (padding_of datain.length ≠ 0),
        iov_data_count :=
          1 + (e.set_iovec_ptrs datain.offset datain.length).toNat + pad.length + crc.length,
        tx_size := hdr_len + datain.length + pad.sum + crc.sum },
      conn := conn,
      hdr := some hdr,
      iov_len := hdr_len :: (pad ++ crc),
      eodr :=
        if dr_complete ≠ 0 then
          some (if cmd.se_cmd.se_cmd_flags.SCF_TRANSPORT_TASK_SENSE then 2 else 1)
        else none,
      read_bytes := read_bytes }

/-- The function `iscsit_send_data_in`. -/
def iscsit_send_data_in (cmd : iscsi_cmd) (conn : iscsi_conn) (e : datain_env) :
    send_data_in_out :=
  match e.get_datain_values with
  | none => { ret := -1, cmd := cmd, conn := conn }
  | some (datain, dr_complete) =>
    if u32 (datain.offset + datain.length) > cmd.data_length then
      { ret := -1, cmd := cmd, conn := conn }
    else
      let conn := { conn with sess_tx_data_octets := conn.sess_tx_data_octets + datain.length }
      let s := send_data_in_statsn datain dr_complete cmd conn e
      send_data_in_payload (send_data_in_hdr s.1 s.2.2.2 datain s.2.1 s.2.2.1 e)
        datain dr_complete s.2.1 s.2.2.1 e (if e.se_node_acl then datain.length else 0)

/-! ## Mapping data onto memory segments -/

/-- One backend memory segment of `cmd->t_mem_list`: `se_len` bytes that
start `se_off` bytes into the page `se_page` and run on through the pages
that follow it.  A page pointer is the number of the page. -/
structure se_mem where
  se_page : Nat := 0
  se_off : Nat := 0
  se_len : Nat := 0
  deriving DecidableEq, Repr

/-- The pointers the mapping code forms: `page_address(page) + offset`,
`cmd->t_task_buf + offset`, or NULL. -/
inductive iov_ptr
  | page (sg_page : Nat) (offset : Nat)
  | task_buf (offset : Nat)
  | null
  deriving DecidableEq, Repr

/-- The fields `iov_base` and `iov_len` of a `struct kvec`. -/
structure kvec where
  iov_base : iov_ptr
  iov_len : Nat
  deriving DecidableEq, Repr

/-- The fields of `struct se_offset_map` that the mapping code reads or
writes.  A pointer to a segment is its position in `t_mem_list`, `none` is
NULL; the cursor that `list_for_each_entry` leaves behind the last entry is
a position past the end of the list. -/
structure se_offset_map where
  map_reset : Bool := false
  iovec_length : Nat := 0
  iscsi_offset : Nat := 0
  current_offset : Nat := 0
  orig_offset : Nat := 0
  sg_length : Nat := 0
  sg_page : Nat := 0
  map_se_mem : Option Nat := none
  map_orig_se_mem : Option Nat := none
  iovec_base : iov_ptr := .null
  deriving DecidableEq, Repr

/-- The fields of `struct se_unmap_sg` that the mapping code reads or writes. -/
structure se_unmap_sg where
  data_length : Nat := 0
  sg_count : Nat := 0
  t_offset : Nat := 0
  cur_se_mem : Option Nat := none
  lmap : se_offset_map := {}
  deriving DecidableEq, Repr

/-- The fields of `struct se_map_sg` that `iscsit_set_iovec_ptrs` reads. -/
structure se_map_sg where
  sg_kmap_active : Bool := false
  data_length : Nat := 0
  data_offset : Nat := 0
  deriving DecidableEq, Repr

/-- The part of `iscsit_calculate_map_segment` from the label `recalc` on,
one pass of the `goto` per unit of fuel.  `se_off` is an offset into a page,
so `PAGE_SIZE - sg_offset` is taken in the natural numbers; the other
differences are guarded by the comparisons before them. -/
def iscsit_calculate_map_segment_recalc (PAGE_SIZE data_length : Nat) :
    Nat → Nat → se_offset_map → Option se_offset_map
  | 0, _, _ => none
  | fuel + 1, sg_offset, lm =>
    if lm.current_offset = 0 then
      some { lm with
        iovec_base := .page lm.sg_page sg_offset,
        iovec_length :=
          if data_length
              < (if lm.sg_length > PAGE_SIZE - sg_offset then PAGE_SIZE - sg_offset
                 else lm.sg_length) then data_length
          else (if lm.sg_length > PAGE_SIZE - sg_offset then PAGE_SIZE - sg_offset
                else lm.sg_length) }
    else if lm.current_offset
        ≥ (if lm.sg_length > PAGE_SIZE - sg_offset then PAGE_SIZE - sg_offset
           else lm.sg_length) then
      iscsit_calculate_map_segment_recalc PAGE_SIZE data_length fuel 0
        { lm with
          iovec_length :=
            (if lm.sg_length > PAGE_SIZE - sg_offset then PAGE_SIZE - sg_offset
             else lm.sg_length),
          current_offset := lm.current_offset
            - (if lm.sg_length > PAGE_SIZE - sg_offset then PAGE_SIZE - sg_offset
               else lm.sg_length),
          sg_length := lm.sg_length
            - (if lm.sg_length > PAGE_SIZE - sg_offset then PAGE_SIZE - sg_offset
               else lm.sg_length),
          sg_page := lm.sg_page + 1 }
    else
      some { lm with
        iovec_base := .page lm.sg_page (sg_offset + lm.current_offset),
        iovec_length :=
          if (if lm.sg_length > PAGE_SIZE - sg_offset then PAGE_SIZE - sg_offset
              else lm.sg_length) - lm.current_offset < data_length then
            (if lm.sg_length > PAGE_SIZE - sg_offset then PAGE_SIZE - sg_offset
             else lm.sg_length) - lm.current_offset
          else data_length,
        sg_length :=
          if lm.sg_length - lm.current_offset < data_length then
            lm.sg_length - lm.current_offset
          else data_length,
        current_offset := 0 }

/-- The function `iscsit_calculate_map_segment`; `none` when it reads a
segment through a cursor that is not on an entry of the list, or when the
`goto` never ends. -/
def iscsit_calculate_map_segment (PAGE_SIZE : Nat) (t_mem_list : List se_mem)
    (data_length : Nat) (lm : se_offset_map) : Option se_offset_map :=
  if !lm.map_reset then
    some { lm with
      iovec_length :=
        if data_length < (if lm.sg_length > PAGE_SIZE then PAGE_SIZE else lm.sg_length)
        then data_length
        else (if lm.sg_length > PAGE_SIZE then PAGE_SIZE else lm.sg_length),
      iovec_base := .page lm.sg_page 0 }
  else
    match lm.map_se_mem.bind t_mem_list.get? with
    | none => none
    | some se_mem =>
      iscsit_calculate_map_segment_recalc PAGE_SIZE data_length (lm.current_offset + 1)
        se_mem.se_off
        { lm with map_reset := false, sg_page := se_mem.se_page, sg_length := se_mem.se_len }

/-- The loop of `iscsit_get_offset`, one pass per unit of fuel; the sums are
32-bit.  `list_for_each_entry_continue ... break` moves the cursor on by one
and never leaves it NULL, so the tests for NULL cannot fire. -/
def iscsit_get_offset_loop (t_mem_list : List se_mem) :
    Nat → (current_length current_iscsi_offset total_offset se_mem : Nat) →
      se_unmap_sg → Option (Nat × se_unmap_sg)
  | 0, _, _, _, _, _ => none
  | fuel + 1, current_length, current_iscsi_offset, total_offset, se_mem, usg =>
    if usg.lmap.iscsi_offset = current_length then some (se_mem, usg)
    else
      match t_mem_list.get? se_mem with
      | none => none
      | some m =>
        if u32 (total_offset + m.se_len) > usg.lmap.iscsi_offset then
          iscsit_get_offset_loop t_mem_list fuel (u32 (current_length + current_iscsi_offset))
            current_iscsi_offset (u32 (total_offset + m.se_len)) se_mem
            { usg with
              t_offset := current_iscsi_offset,
              lmap := { usg.lmap with orig_offset := current_iscsi_offset,
                                      current_offset := current_iscsi_offset } }
        else
          iscsit_get_offset_loop t_mem_list fuel (u32 (current_length + m.se_len))
            (u32_sub current_iscsi_offset m.se_len) (u32 (total_offset + m.se_len))
            (se_mem + 1) usg

/-- The function `iscsit_get_offset` on `unmap_sg` (whose `lmap` is the map
passed as first argument); it returns 0. -/
def iscsit_get_offset (t_mem_list : List se_mem) (usg : se_unmap_sg) : Option se_unmap_sg :=
  match iscsit_get_offset_loop t_mem_list (2 * t_mem_list.length + 2) 0
      usg.lmap.iscsi_offset 0 0 usg with
  | none => none
  | some (se_mem, usg) =>
    some { usg with
      cur_se_mem := some se_mem,
      lmap := { usg.lmap with map_orig_se_mem := some se_mem } }

/-- The local state of the loop of `iscsit_set_iovec_ptrs`: the counters `i`
and `j`, `map_sg->data_length`, the map and the iovecs written so far. -/
structure set_iovec_state where
  i : Nat := 0
  j : Nat := 0
  data_length : Nat := 0
  lmap : se_offset_map := {}
  iov : List kvec := []
  deriving DecidableEq, Repr

/-- The `while (map_sg->data_length)` loop of `iscsit_set_iovec_ptrs`, one
pass per unit of fuel: the return value and the state at the `return`.  The
mapping step never leaves an `iovec_length` above `sg_length` or above the
data length, so the two differences are taken in the natural numbers. -/
def iscsit_set_iovec_ptrs_loop (PAGE_SIZE : Nat) (t_mem_list : List se_mem)
    (orig_iov_data_count : Nat) : Nat → set_iovec_state → Option (Int × set_iovec_state)
  | 0, _ => none
  | fuel + 1, st =>
    if st.data_length = 0 then some (st.i, st)
    else
      match iscsit_calculate_map_segment PAGE_SIZE t_mem_list st.data_length st.lmap with
      | none => none
      | some lm =>
        if st.i + 1 + 1 > orig_iov_data_count then
          some (-1,
            { st with
              i := st.i + 1,
              data_length := st.data_length - lm.iovec_length,
              lmap := { lm with sg_length := lm.sg_length - lm.iovec_length },
              iov := st.iov ++ [⟨lm.iovec_base, lm.iovec_length⟩] })
        else if lm.sg_length - lm.iovec_length = 0
            ∨ st.data_length - lm.iovec_length = 0 then
          iscsit_set_iovec_ptrs_loop PAGE_SIZE t_mem_list orig_iov_data_count fuel
            { i := st.i + 1,
              j := st.j + 1,
              data_length := st.data_length - lm.iovec_length,
              lmap := { lm with
                sg_length := lm.sg_length - lm.iovec_length,
                map_se_mem := lm.map_se_mem.map (· + 1),
                sg_page := 0,
                map_reset := true },
              iov := st.iov ++ [⟨lm.iovec_base, lm.iovec_length⟩] }
        else
          iscsit_set_iovec_ptrs_loop PAGE_SIZE t_mem_list orig_iov_data_count fuel
            { i := st.i + 1,
              j := st.j,
              data_length := st.data_length - lm.iovec_length,
              lmap := { lm with
                sg_length := lm.sg_length - lm.iovec_length,
                sg_page := lm.sg_page + 1 },
              iov := st.iov ++ [⟨lm.iovec_base, lm.iovec_length⟩] }

/-- What `iscsit_set_iovec_ptrs` leaves: its return value, the iovecs it
wrote and `unmap_sg`. -/
structure set_iovec_out where
  ret : Int
  iov : List kvec
  unmap_sg : se_unmap_sg
  deriving DecidableEq, Repr

/-- The function `iscsit_set_iovec_ptrs`.  `t_tasks_se_num`, `t_mem_list` and
`orig_iov_data_count` are the fields of the command it reads; `none` when the
code reads a segment through a cursor that is not on an entry of the list or
does not return. -/
def iscsit_set_iovec_ptrs (PAGE_SIZE : Nat) (t_tasks_se_num : Nat)
    (t_mem_list : List se_mem) (orig_iov_data_count : Nat) (map_sg : se_map_sg)
    (unmap_sg : se_unmap_sg) : Option set_iovec_out :=
  if t_tasks_se_num = 0 then
    some ⟨1, [⟨.task_buf map_sg.data_offset, map_sg.data_length⟩], unmap_sg⟩
  else
    match
      (if map_sg.sg_kmap_active then
        (iscsit_get_offset t_mem_list
          { unmap_sg with
            lmap := { unmap_sg.lmap with map_reset := true,
                                         iscsi_offset := map_sg.data_offset } }).map
          fun u => { u with data_length := map_sg.data_length }
      else
        some { unmap_sg with
          lmap := { unmap_sg.lmap with map_reset := true,
                                       iscsi_offset := map_sg.data_offset,
                                       current_offset := unmap_sg.lmap.orig_offset } }) with
    | none => none
    | some usg =>
      match iscsit_set_iovec_ptrs_loop PAGE_SIZE t_mem_list orig_iov_data_count
          (map_sg.data_length + 1)
          { data_length := map_sg.data_length,
            lmap := { usg.lmap with map_se_mem := usg.lmap.map_orig_se_mem } } with
      | none => none
      | some (ret, st) =>
        if ret < 0 then some ⟨ret, st.iov, { usg with lmap := st.lmap }⟩
        else some ⟨ret, st.iov, { usg with lmap := st.lmap, sg_count := st.j }⟩

/-! ## Bytes of segments and iovecs -/

/-- The places of the bytes of a run of `len` bytes that starts `off` bytes
after the start of the page `p`, as (page, offset in the page) pairs. -/
def seg_bytes (PAGE_SIZE p off len : Nat) : List (Nat × Nat) :=
  (List.range len).map fun j => (p + (off + j) / PAGE_SIZE, (off + j) % PAGE_SIZE)

/-- The places of the bytes of a memory segment. -/
def se_mem.bytes (PAGE_SIZE : Nat) (s : se_mem) : List (Nat × Nat) :=
  seg_bytes PAGE_SIZE s.se_page s.se_off s.se_len

/-- The places of the bytes of the concatenated segments. -/
def t_mem_bytes (PAGE_SIZE : Nat) (l : List se_mem) : List (Nat × Nat) :=
  l.flatMap (se_mem.bytes PAGE_SIZE)

/-- The places of the bytes an iovec addresses; an iovec that does not point
into a page addresses none of them. -/
def kvec.bytes (v : kvec) : List (Nat × Nat) :=
  match v.iov_base with
  | .page p off => (List.range v.iov_len).map fun t => (p, off + t)
  | _ => []

/-- An iovec lies within a single page of `PAGE_SIZE` bytes. -/
def kvec.in_one_page (PAGE_SIZE : Nat) (v : kvec) : Prop :=
  ∃ p off, v.iov_base = .page p off ∧ off + v.iov_len ≤ PAGE_SIZE

/-! ## Frames of the mapping loop -/

/-- What one call of the mapping step has to achieve: the map `lm'` holds an
iovec (page `lm'.sg_page`, offset `off`, length `il`) inside one page that
takes the front of the bytes `front ++ rest` still to map, and the length of
the segment it keeps describes what follows. -/
def map_step_ok (P d : Nat) (front rest : List (Nat × Nat)) (lm lm' : se_offset_map) :
    Prop :=
  ∃ off il,
    lm'.iovec_base = .page lm'.sg_page off ∧ lm'.iovec_length = il
    ∧ 0 < il ∧ il ≤ d ∧ il ≤ lm'.sg_length ∧ off + il ≤ P
    ∧ lm'.current_offset = 0 ∧ lm'.map_reset = false
    ∧ lm'.map_se_mem = lm.map_se_mem
    ∧ (front ++ rest).take d
        = kvec.bytes ⟨.page lm'.sg_page off, il⟩
          ++ (if lm'.sg_length - il = 0 ∨ d - il = 0 then rest.take (d - il)
              else (seg_bytes P (lm'.sg_page + 1) 0 (lm'.sg_length - il) ++ rest).take
                (d - il))

/-- The bytes that lie ahead of the map: from the offset `current_offset` of
the segment under the cursor when the map is to be set up anew, from the
start of the page `sg_page` for what is left of the segment otherwise. -/
def map_stream (P : Nat) (mem : List se_mem) (lm : se_offset_map) : List (Nat × Nat) :=
  match lm.map_se_mem with
  | none => []
  | some s =>
    if lm.map_reset then (t_mem_bytes P (mem.drop s)).drop lm.current_offset
    else seg_bytes P lm.sg_page 0 lm.sg_length ++ t_mem_bytes P (mem.drop (s + 1))

/-- The state of the map at the head of the loop of `iscsit_set_iovec_ptrs`
with `d` bytes left to map. -/
def map_inv (P : Nat) (mem : List se_mem) (lm : se_offset_map) (d : Nat) : Prop :=
  d ≤ (map_stream P mem lm).length
  ∧ (lm.map_reset = true → ∀ s m, lm.map_se_mem = some s → mem.get? s = some m →
      lm.current_offset < m.se_len)
  ∧ (lm.map_reset = false → 0 < lm.sg_length ∧ lm.current_offset = 0)

/-- The number of bytes in the first `s` segments of the list. -/
def bytes_before (mem : List se_mem) (s : Nat) : Nat :=
  ((mem.take s).map se_mem.se_len).sum

/-! ## NOP-In, Text Response and Reject -/

/-- Modelled from the spec: target opcode NOP-In of the iSCSI basic header
segment (declared outside the files at hand), with its protocol value. -/
def ISCSI_OP_NOOP_IN : Nat := 0x20
/-- Modelled from the spec: target opcode Text response. -/
def ISCSI_OP_TEXT_RSP : Nat := 0x24
/-- Modelled from the spec: target opcode Asynchronous Message. -/
def ISCSI_OP_ASYNC_EVENT : Nat := 0x32
/-- Modelled from the spec: target opcode Reject. -/
def ISCSI_OP_REJECT : Nat := 0x3f

/-- The fields of the NOP-In and Text Response headers that the builders
write into `cmd->pdu` after clearing it. -/
structure iscsi_misc_rsp where
  opcode : Nat := 0
  final : Bool := false
  dlength : Nat := 0
  lun : Nat := 0
  itt : Nat := 0
  ttt : Nat := 0
  statsn : Nat := 0
  exp_cmdsn : Nat := 0
  max_cmdsn : Nat := 0
  deriving DecidableEq, Repr

/-- The fields of the Reject header in `cmd->pdu`: `iscsit_send_reject` does
not clear the header, `reason` is what `iscsit_add_reject` stored. -/
structure iscsi_reject_rsp where
  opcode : Nat := 0
  final : Bool := false
  dlength : Nat := 0
  reason : reject_reason := .ISCSI_REASON_NONE
  statsn : Nat := 0
  exp_cmdsn : Nat := 0
  max_cmdsn : Nat := 0
  deriving DecidableEq, Repr

/-- What a response builder leaves: the command, the connection, the header
(`none` when none was built) and the lengths of the iovecs `cmd->iov_misc`. -/
structure send_rsp_out (H : Type) where
  ret : Int
  cmd : iscsi_cmd
  conn : iscsi_conn
  hdr : Option H
  iov_len : List Nat

/-- The iovecs `iscsit_send_nopin_response` sets up after the header for the
ping data: the data, its padding when there is any, and the data digest;
nothing when there is no ping data. -/
def send_nopin_data (buf_ptr_size : Nat) (DataDigest : Bool) : List Nat :=
  if buf_ptr_size ≠ 0 then
    [buf_ptr_size]
      ++ (if padding_of buf_ptr_size ≠ 0 then [padding_of buf_ptr_size] else [])
      ++ (if DataDigest then [ISCSI_CRC_LEN] else [])
  else []

/-- The value `iscsit_send_nopin_response` leaves in `cmd->tx_size`, summed
in 32 bits. -/
def send_nopin_tx_size (buf_ptr_size : Nat) (HeaderDigest DataDigest : Bool) : Nat :=
  let tx_size := ISCSI_HDR_LEN
  let tx_size := if HeaderDigest then u32 (tx_size + ISCSI_CRC_LEN) else tx_size
  if buf_ptr_size ≠ 0 then
    let tx_size := u32 (tx_size + buf_ptr_size)
    let tx_size :=
      if padding_of buf_ptr_size ≠ 0 then u32 (tx_size + padding_of buf_ptr_size)
      else tx_size
    if DataDigest then u32 (tx_size + ISCSI_CRC_LEN) else tx_size
  else tx_size

/-- The function `iscsit_send_nopin_response`. -/
def iscsit_send_nopin_response (cmd : iscsi_cmd) (conn : iscsi_conn) (e : tx_env) :
    send_rsp_out iscsi_misc_rsp :=
  { ret := 0,
    cmd := { cmd with
      stat_sn := conn.stat_sn,
      iov_misc_count := 1 + (send_nopin_data cmd.buf_ptr_size conn.conn_ops.DataDigest).length,
      tx_size := send_nopin_tx_size cmd.buf_ptr_size conn.conn_ops.HeaderDigest
        conn.conn_ops.DataDigest },
    conn := { conn with
      stat_sn := u32 (conn.stat_sn + 1),
      sess_max_cmd_sn :=
        e.increment_maxcmdsn { cmd with stat_sn := conn.stat_sn } conn.sess_max_cmd_sn },
    hdr := some
      { opcode := ISCSI_OP_NOOP_IN,
        final := true,
        dlength := cmd.buf_ptr_size,
        lun := 0xFFFFFFFFFFFFFFFF,
        itt := cmd.init_task_tag,
        ttt := cmd.targ_xfer_tag,
        statsn := conn.stat_sn,
        exp_cmdsn := conn.sess_exp_cmd_sn,
        max_cmdsn :=
          e.increment_maxcmdsn { cmd with stat_sn := conn.stat_sn } conn.sess_max_cmd_sn },
    iov_len :=
      (if conn.conn_ops.HeaderDigest then ISCSI_HDR_LEN + ISCSI_CRC_LEN else ISCSI_HDR_LEN)
        :: send_nopin_data cmd.buf_ptr_size conn.conn_ops.DataDigest }

/-- The value `iscsit_send_text_rsp` leaves in `cmd->tx_size`, summed in 32
bits. -/
def send_text_tx_size (text_length : Nat) (HeaderDigest DataDigest : Bool) : Nat :=
  let tx_size := u32 (u32 (ISCSI_HDR_LEN + text_length) + padding_of text_length)
  let tx_size := if HeaderDigest then u32 (tx_size + ISCSI_CRC_LEN) else tx_size
  if DataDigest then u32 (tx_size + ISCSI_CRC_LEN) else tx_size

/-- The function `iscsit_send_text_rsp`; `text_length` is what
`iscsit_build_sendtargets_response` returns, the length of the text it left
in `cmd->buf_ptr` or a negative error. -/
def iscsit_send_text_rsp (cmd : iscsi_cmd) (conn : iscsi_conn) (e : tx_env)
    (text_length : Int) : send_rsp_out iscsi_misc_rsp :=
  if text_length < 0 then ⟨text_length, cmd, conn, none, []⟩
  else
    { ret := 0,
      cmd := { cmd with
        buf_ptr_set := true,
        stat_sn := conn.stat_sn,
        iov_misc_count := if conn.conn_ops.DataDigest then 3 else 2,
        tx_size := send_text_tx_size text_length.toNat conn.conn_ops.HeaderDigest
          conn.conn_ops.DataDigest },
      conn := { conn with
        stat_sn := u32 (conn.stat_sn + 1),
        sess_max_cmd_sn :=
          e.increment_maxcmdsn { cmd with buf_ptr_set := true, stat_sn := conn.stat_sn }
            conn.sess_max_cmd_sn },
      hdr := some
        { opcode := ISCSI_OP_TEXT_RSP,
          final := true,
          dlength := text_length.toNat,
          itt := cmd.init_task_tag,
          ttt := cmd.targ_xfer_tag,
          statsn := conn.stat_sn,
          exp_cmdsn := conn.sess_exp_cmd_sn,
          max_cmdsn :=
            e.increment_maxcmdsn { cmd with buf_ptr_set := true, stat_sn := conn.stat_sn }
              conn.sess_max_cmd_sn },
      iov_len :=
        [if conn.conn_ops.HeaderDigest then ISCSI_HDR_LEN + ISCSI_CRC_LEN else ISCSI_HDR_LEN,
         u32 (text_length.toNat + padding_of text_length.toNat)]
          ++ (if conn.conn_ops.DataDigest then [ISCSI_CRC_LEN] else []) }

/-- The value `iscsit_send_reject` leaves in `cmd->tx_size`, summed in 32
bits. -/
def send_reject_tx_size (HeaderDigest DataDigest : Bool) : Nat :=
  let tx_size := ISCSI_HDR_LEN + ISCSI_HDR_LEN
  let tx_size := if HeaderDigest then u32 (tx_size + ISCSI_CRC_LEN) else tx_size
  if DataDigest then u32 (tx_size + ISCSI_CRC_LEN) else tx_size

/-- The function `iscsit_send_reject`. -/
def iscsit_send_reject (cmd : iscsi_cmd) (conn : iscsi_conn) : send_rsp_out iscsi_reject_rsp :=
  { ret := 0,
    cmd := { cmd with
      stat_sn := conn.stat_sn,
      iov_misc_count := if conn.conn_ops.DataDigest then 3 else 2,
      tx_size := send_reject_tx_size conn.conn_ops.HeaderDigest conn.conn_ops.DataDigest },
    conn := { conn with stat_sn := u32 (conn.stat_sn + 1) },
    hdr := some
      { opcode := ISCSI_OP_REJECT,
        final := true,
        dlength := ISCSI_HDR_LEN,
        reason := cmd.reason,
        statsn := conn.stat_sn,
        exp_cmdsn := conn.sess_exp_cmd_sn,
        max_cmdsn := conn.sess_max_cmd_sn },
    iov_len :=
      [if conn.conn_ops.HeaderDigest then ISCSI_HDR_LEN + ISCSI_CRC_LEN else ISCSI_HDR_LEN,
       ISCSI_HDR_LEN]
        ++ (if conn.conn_ops.DataDigest then [ISCSI_CRC_LEN] else []) }

/-- The size of a response PDU as the claim words it: the 48-byte header, 4
bytes of header digest when HeaderDigest is on, the data segment of `D` bytes
with its padding, and 4 bytes of data digest when DataDigest is on and a data
segment is attached. -/
def tx_size_as_specified (HeaderDigest DataDigest : Bool) (D : Nat) (attached : Bool) : Nat :=
  48 + (if HeaderDigest then 4 else 0) + (D + padding_of D)
    + (if DataDigest && attached then 4 else 0)

/-- The condition under which `iscsit_send_status` attaches sense data:
`SE_CMD(cmd)->sense_buffer` is set and one of SCF_TRANSPORT_TASK_SENSE and
SCF_EMULATED_TASK_SENSE is. -/
def send_status_has_sense (cmd : iscsi_cmd) : Bool :=
  cmd.se_cmd.sense_buffer
    && (cmd.se_cmd.se_cmd_flags.SCF_TRANSPORT_TASK_SENSE
        || cmd.se_cmd.se_cmd_flags.SCF_EMULATED_TASK_SENSE)

/-- What the claim asks of a response PDU whose data segment holds `D` bytes
and is attached or not as `attached` says: `tx_size` is the sum of the lengths
of the iovecs, a multiple of 4, and the size as specified; an iovec follows
the one of the header exactly when a data segment is attached. -/
def tx_size_ok (HeaderDigest DataDigest : Bool) (tx_size : Nat) (iov_len : List Nat)
    (D : Nat) (attached : Bool) : Prop :=
  tx_size = iov_len.sum ∧ tx_size % 4 = 0
  ∧ tx_size = tx_size_as_specified HeaderDigest DataDigest D attached
  ∧ (1 < iov_len.length ↔ attached = true)

/-! ## Asynchronous messages -/

/-- Modelled from the spec: the AsyncEvent codes of the Asynchronous Message
(declared outside the files at hand), with their protocol values. -/
def ISCSI_ASYNC_MSG_SCSI_EVENT : Nat := 0
/-- Modelled from the spec: AsyncEvent "target requests logout". -/
def ISCSI_ASYNC_MSG_REQUEST_LOGOUT : Nat := 1
/-- Modelled from the spec: AsyncEvent "target will drop the connection". -/
def ISCSI_ASYNC_MSG_DROPPING_CONNECTION : Nat := 2
/-- Modelled from the spec: AsyncEvent "target will drop all connections". -/
def ISCSI_ASYNC_MSG_DROPPING_ALL_CONNECTIONS : Nat := 3
/-- Modelled from the spec: AsyncEvent "target requests parameter negotiation". -/
def ISCSI_ASYNC_MSG_PARAM_NEGOTIATION : Nat := 4
/-- Modelled from the spec: AsyncEvent "vendor specific". -/
def ISCSI_ASYNC_MSG_VENDOR_SPECIFIC : Nat := 255

/-- The Asynchronous Message header `iscsit_send_async_msg` builds. -/
structure iscsi_async where
  opcode : Nat := 0
  final : Bool := false
  dlength : Nat := 0
  lun : Nat := 0
  rsvd4 : Nat := 0
  statsn : Nat := 0
  exp_cmdsn : Nat := 0
  max_cmdsn : Nat := 0
  async_event : Nat := 0
  async_vcode : Nat := 0
  param1 : Nat := 0
  param2 : Nat := 0
  param3 : Nat := 0
  deriving DecidableEq, Repr

/-- What `iscsit_send_async_msg` reads besides the connection: the session
parameters DefaultTime2Wait and DefaultTime2Retain, the two time constants
(declared outside the files at hand), and the answers of its collaborators. -/
structure async_env where
  DefaultTime2Wait : Nat := 2
  DefaultTime2Retain : Nat := 20
  SECONDS_FOR_ASYNC_LOGOUT : Nat := 10
  SECONDS_FOR_ASYNC_TEXT : Nat := 10
  /-- `tx_data` returns `tx_send` -/
  tx_ok : Bool := true
  /-- `conn->conn_state` when the wait for the logout request ends -/
  state_after_wait : conn_state_t := .TARG_CONN_STATE_IN_LOGOUT
  deriving DecidableEq, Repr

/-- What `iscsit_send_async_msg` leaves: its return value, the connection,
the headers handed to `tx_data` with the number of bytes asked for, and
whether `iscsit_free_session` was called. -/
structure async_out where
  ret : Int
  conn : iscsi_conn
  sent : List (iscsi_async × Nat)
  free_session : Bool
  deriving DecidableEq, Repr

/-- The part of `iscsit_send_async_msg` up to the call of `tx_data`: the
header is filled in, StatSN drawn from the connection, and the switch on the
event either completes the header or returns -1 (`none`). -/
def iscsit_send_async_msg_build (conn : iscsi_conn) (cid async_event async_vcode : Nat)
    (e : async_env) : Option iscsi_async × iscsi_conn :=
  let hdr : iscsi_async :=
    { opcode := ISCSI_OP_ASYNC_EVENT,
      final := true,
      dlength := 0,
      lun := 0,
      rsvd4 := 0xffffffffffffffff,
      statsn := conn.stat_sn,
      exp_cmdsn := conn.sess_exp_cmd_sn,
      max_cmdsn := conn.sess_max_cmd_sn,
      async_event := async_event,
      async_vcode := async_vcode }
  let conn := { conn with stat_sn := u32 (conn.stat_sn + 1) }
  if async_event = ISCSI_ASYNC_MSG_SCSI_EVENT then (none, conn)
  else if async_event = ISCSI_ASYNC_MSG_REQUEST_LOGOUT then
    (some { hdr with param1 := 0, param2 := 0, param3 := e.SECONDS_FOR_ASYNC_LOGOUT },
     { conn with conn_state := .TARG_CONN_STATE_LOGOUT_REQUESTED })
  else if async_event = ISCSI_ASYNC_MSG_DROPPING_CONNECTION then
    (some { hdr with param1 := cid, param2 := e.DefaultTime2Wait,
                     param3 := e.DefaultTime2Retain }, conn)
  else if async_event = ISCSI_ASYNC_MSG_DROPPING_ALL_CONNECTIONS then
    (some { hdr with param1 := 0, param2 := e.DefaultTime2Wait,
                     param3 := e.DefaultTime2Retain }, conn)
  else if async_event = ISCSI_ASYNC_MSG_PARAM_NEGOTIATION then
    (some { hdr with param1 := 0, param2 := 0, param3 := e.SECONDS_FOR_ASYNC_TEXT }, conn)
  else if async_event = ISCSI_ASYNC_MSG_VENDOR_SPECIFIC then (none, conn)
  else (none, conn)

/-- The number of bytes `iscsit_send_async_msg` asks `tx_data` to send. -/
def async_tx_send (conn : iscsi_conn) : Nat :=
  if conn.conn_ops.HeaderDigest then ISCSI_HDR_LEN + ISCSI_CRC_LEN else ISCSI_HDR_LEN

/-- The function `iscsit_send_async_msg`.  The call it makes to itself after
the wait sends ISCSI_ASYNC_MSG_DROPPING_ALL_CONNECTIONS, which does not wait
again, so that call is written out. -/
def iscsit_send_async_msg (conn : iscsi_conn) (cid async_event async_vcode : Nat)
    (e : async_env) : async_out :=
  match iscsit_send_async_msg_build conn cid async_event async_vcode e with
  | (none, conn) => ⟨-1, conn, [], false⟩
  | (some hdr, conn) =>
    if !e.tx_ok then ⟨-1, conn, [(hdr, async_tx_send conn)], false⟩
    else if async_event = ISCSI_ASYNC_MSG_REQUEST_LOGOUT then
      if e.state_after_wait = .TARG_CONN_STATE_LOGOUT_REQUESTED then
        match iscsit_send_async_msg_build { conn with conn_state := e.state_after_wait } 0
            ISCSI_ASYNC_MSG_DROPPING_ALL_CONNECTIONS 0 e with
        | (none, conn2) => ⟨0, conn2, [(hdr, async_tx_send conn)], true⟩
        | (some hdr2, conn2) =>
          ⟨0, conn2, [(hdr, async_tx_send conn), (hdr2, async_tx_send conn2)], true⟩
      else ⟨0, { conn with conn_state := e.state_after_wait }, [(hdr, async_tx_send conn)], false⟩
    else ⟨0, conn, [(hdr, async_tx_send conn)], false⟩
/-! ## Frames of the second mapping -/

/-- The map with the fields cleared that a mapping step for a new segment
writes before it reads them. -/
def se_offset_map.forget (lm : se_offset_map) : se_offset_map :=
  { lm with iovec_length := 0, iovec_base := .null, sg_page := 0, sg_length := 0 }

/-- What the caller of `iscsit_set_iovec_ptrs` sees of the loop: the return
value, the iovecs and the count of segments. -/
def set_iovec_view (r : Int × set_iovec_state) : Int × List kvec × Nat :=
  (r.1, r.2.iov, r.2.j)

/-! ## World Wide Names (tcm_qla2xxx)

A C string is the list of its bytes before the terminating NUL; reading at or
past the end of the list reads the NUL. -/

/-- Reduction to 64 bits. -/
def u64 (x : Nat) : Nat := x % 18446744073709551616

/-- Modelled from the spec: `isdigit` of the C library (declared outside the
files at hand): the characters '0' to '9'. -/
def isdigit (c : Nat) : Bool := decide (48 ≤ c ∧ c ≤ 57)

/-- Modelled from the spec: `isxdigit` of the C library: the characters '0' to
'9', 'a' to 'f' and 'A' to 'F'. -/
def isxdigit (c : Nat) : Bool :=
  isdigit c || decide (97 ≤ c ∧ c ≤ 102) || decide (65 ≤ c ∧ c ≤ 70)

/-- Modelled from the spec: `islower` of the C library on bytes: 'a' to 'z'
and the lower-case letters of Latin-1. -/
def islower (c : Nat) : Bool :=
  decide (97 ≤ c ∧ c ≤ 122) || decide (223 ≤ c ∧ c ≤ 255 ∧ c ≠ 247)

/-- Modelled from the spec: `isupper` of the C library on bytes: 'A' to 'Z'
and the upper-case letters of Latin-1. -/
def isupper (c : Nat) : Bool :=
  decide (65 ≤ c ∧ c ≤ 90) || decide (192 ≤ c ∧ c ≤ 222 ∧ c ≠ 215)

/-- Modelled from the spec: `tolower` of the C library: an upper-case letter
moves by `'a' - 'A'`. -/
def tolower (c : Nat) : Nat := if isupper c then c + 32 else c

/-- Modelled from the spec: `TCM_QLA2XXX_NAMELEN` (declared outside the files
at hand) has this value in the driver's header; the theorems take the length
as a parameter. -/
def TCM_QLA2XXX_NAMELEN : Nat := 32

/-- The statement `*wwn = (*wwn << 4) | nibble` on a 64-bit `*wwn`. -/
def wwn_shift_in (wwn nibble : Nat) : Nat := Nat.lor (u64 (Nat.shiftLeft wwn 4)) nibble

/-- The loop of `tcm_qla2xxx_parse_wwn`, one pass per unit of the first
argument, which counts the passes left until `cp` reaches
`&name[TCM_QLA2XXX_NAMELEN - 1]`.  The result is the return value and `*wwn`. -/
def tcm_qla2xxx_parse_wwn_loop (name : List Nat) (strict : Bool) :
    Nat → (cp wwn pos byte : Nat) → Int × Nat
  | 0, _, wwn, _, _ => (-1, wwn)
  | n + 1, cp, wwn, pos, byte =>
    if name.getD cp 0 = 10 ∧ name.getD (cp + 1) 0 = 0 then
      tcm_qla2xxx_parse_wwn_loop name strict n (cp + 1) wwn pos byte
    else if strict = true ∧ pos = 2 ∧ byte < 7 then
      if name.getD cp 0 = 58 then
        tcm_qla2xxx_parse_wwn_loop name strict n (cp + 1) wwn 0 (u32 (byte + 1))
      else (-1, wwn)
    else if name.getD cp 0 = 0 then
      if strict = true ∧ (if pos = 2 then u32 (byte + 1) else byte) ≠ 8 then (-1, wwn)
      else ((cp : Int), wwn)
    else if isdigit (name.getD cp 0) then
      tcm_qla2xxx_parse_wwn_loop name strict n (cp + 1)
        (wwn_shift_in wwn (name.getD cp 0 - 48))
        (if strict then u32 (pos + 1) else pos)
        (if strict = true ∧ pos = 2 then u32 (byte + 1) else byte)
    else if isxdigit (name.getD cp 0) ∧ (islower (name.getD cp 0) ∨ strict = false) then
      tcm_qla2xxx_parse_wwn_loop name strict n (cp + 1)
        (wwn_shift_in wwn (tolower (name.getD cp 0) - 97 + 10))
        (if strict then u32 (pos + 1) else pos)
        (if strict = true ∧ pos = 2 then u32 (byte + 1) else byte)
    else (-1, wwn)

/-- The function `tcm_qla2xxx_parse_wwn`: the return value and `*wwn`. -/
def tcm_qla2xxx_parse_wwn (NAMELEN : Nat) (name : List Nat) (strict : Bool) : Int × Nat :=
  tcm_qla2xxx_parse_wwn_loop name strict (NAMELEN - 1) 0 0 0 0

/-- Modelled from the spec: `put_unaligned_be64` (declared outside the files
at hand) stores the eight bytes of a 64-bit value, most significant first. -/
def put_unaligned_be64 (v : Nat) : List Nat :=
  [v / 72057594037927936 % 256, v / 281474976710656 % 256, v / 1099511627776 % 256,
   v / 4294967296 % 256, v / 16777216 % 256, v / 65536 % 256, v / 256 % 256, v % 256]

/-- The lower-case hexadecimal digit of a value below 16. -/
def hex_digit (d : Nat) : Nat := if d < 10 then 48 + d else 87 + d

/-- Modelled from the spec: the conversion `%2.2x` of `snprintf` on a byte:
two lower-case hexadecimal digits. -/
def hex_byte (b : Nat) : List Nat := [hex_digit (b / 16), hex_digit (b % 16)]

/-- The bytes in the format `%2.2x:%2.2x:...`: two digits per byte, a colon
between bytes. -/
def wwn_string : List Nat → List Nat
  | [] => []
  | [b] => hex_byte b
  | b :: b2 :: bs => hex_byte b ++ 58 :: wwn_string (b2 :: bs)

/-- The function `tcm_qla2xxx_format_wwn`: the return value of `snprintf` and
the string left in the buffer of `len` bytes. -/
def tcm_qla2xxx_format_wwn (len : Nat) (wwn : Nat) : Int × List Nat :=
  (((wwn_string (put_unaligned_be64 wwn)).length : Nat),
    (wwn_string (put_unaligned_be64 wwn)).take (len - 1))

/-- Modelled from the spec: `hex_to_bin` of the kernel library (declared
outside the files at hand): the value of a hexadecimal digit, -1 for any
other character. -/
def hex_to_bin (ch : Nat) : Int :=
  if 48 ≤ ch ∧ ch ≤ 57 then (ch : Int) - 48
  else if 97 ≤ tolower ch ∧ tolower ch ≤ 102 then (tolower ch : Int) - 97 + 10
  else -1

/-- Modelled from the spec: `wwn_to_u64` (declared outside the files at hand)
reads eight bytes as a 64-bit value, most significant first. -/
def wwn_to_u64 (wwn : List Nat) : Nat :=
  wwn.foldl (fun acc b => acc * 256 + b) 0

/-- Error number EINVAL. -/
def EINVAL : Int := 22

/-- The conversion of an `int` to `unsigned int`. -/
def to_unsigned (x : Int) : Nat := (x % 4294967296).toNat

/-- The loop of `tcm_qla2xxx_npiv_extract_wwn` from the index `i` on, one
pass per unit of the first argument; `value` is an `unsigned int`, so the test
`value >= 0` compares natural numbers. -/
def tcm_qla2xxx_npiv_extract_wwn_loop (ns : List Nat) :
    Nat → (i j : Nat) → (wwn : List Nat) → Except Int (List Nat)
  | 0, _, _, wwn => .ok wwn
  | n + 1, i, j, wwn =>
    if to_unsigned (hex_to_bin (ns.getD i 0)) ≥ 0 then
      if i % 2 ≠ 0 then
        tcm_qla2xxx_npiv_extract_wwn_loop ns n (i + 1) 0
          (wwn.set (i / 2)
            (Nat.land (Nat.lor (u32 (Nat.shiftLeft j 4))
              (to_unsigned (hex_to_bin (ns.getD i 0)))) 0xff))
      else
        tcm_qla2xxx_npiv_extract_wwn_loop ns n (i + 1)
          (Nat.lor (u32 (Nat.shiftLeft j 4)) (to_unsigned (hex_to_bin (ns.getD i 0)))) wwn
    else .error (-EINVAL)

/-- The function `tcm_qla2xxx_npiv_extract_wwn`: the error returned, or the
value stored through `nm` when it returns 0. -/
def tcm_qla2xxx_npiv_extract_wwn (ns : List Nat) : Except Int Nat :=
  match tcm_qla2xxx_npiv_extract_wwn_loop ns 16 0 0 (List.replicate 8 0) with
  | .error rc => .error rc
  | .ok wwn => .ok (wwn_to_u64 wwn)

/-- What `tcm_qla2xxx_npiv_parse_wwn` leaves: its return value, `*wwpn` and
`*wwnn`. -/
structure npiv_wwn_out where
  ret : Int
  wwpn : Nat
  wwnn : Nat
  deriving DecidableEq, Repr

/-- The function `tcm_qla2xxx_npiv_parse_wwn` on the bytes `name` and the
count handed in with them. -/
def tcm_qla2xxx_npiv_parse_wwn (name : List Nat) (count : Nat) : npiv_wwn_out :=
  let cnt := u32 count
  let cnt := if name.getD (u32_sub cnt 1) 0 = 10 then u32_sub cnt 1 else cnt
  if cnt ≠ 16 + 1 + 16 ∨ name.getD 16 0 ≠ 58 then ⟨-EINVAL, 0, 0⟩
  else
    match tcm_qla2xxx_npiv_extract_wwn name with
    | .error rc => ⟨rc, 0, 0⟩
    | .ok wwpn =>
      match tcm_qla2xxx_npiv_extract_wwn (name.drop 17) with
      | .error rc => ⟨rc, wwpn, 0⟩
      | .ok wwnn => ⟨0, wwpn, wwnn⟩

/-- The bytes of a string literal. -/
def c_str (s : String) : List Nat := s.toList.map Char.toNat

/-- The value `*wwn` holds after the digits of the bytes `bs` were shifted
in, two per byte. -/
def wwn_fold (w : Nat) : List Nat → Nat
  | [] => w
  | b :: bs => wwn_fold (wwn_shift_in (wwn_shift_in w (b / 16)) (b % 16)) bs

/-! ## Theorems -/

/-! ### Frame lemmas for the connection -/

@[simp] theorem note_cmd_pool (conn : iscsi_conn) (c : call) :
    (conn.note c).cmd_pool = conn.cmd_pool := rfl
@[simp] theorem note_conn_cmd_list (conn : iscsi_conn) (c : call) :
    (conn.note c).conn_cmd_list = conn.conn_cmd_list := rfl
@[simp] theorem note_immed_queue (conn : iscsi_conn) (c : call) :
    (conn.note c).immed_queue = conn.immed_queue := rfl
@[simp] theorem note_response_queue (conn : iscsi_conn) (c : call) :
    (conn.note c).response_queue = conn.response_queue := rfl
@[simp] theorem note_conn_ops (conn : iscsi_conn) (c : call) :
    (conn.note c).conn_ops = conn.conn_ops := rfl
@[simp] theorem note_sess_ops (conn : iscsi_conn) (c : call) :
    (conn.note c).sess_ops = conn.sess_ops := rfl
@[simp] theorem note_calls (conn : iscsi_conn) (c : call) :
    (conn.note c).calls = conn.calls ++ [c] := rfl
@[simp] theorem note_cmd (conn : iscsi_conn) (c : call) (h : Nat) :
    (conn.note c).cmd h = conn.cmd h := rfl

@[simp] theorem push_cmd_pool_length (conn : iscsi_conn) (c : iscsi_cmd) :
    (conn.push_cmd c).cmd_pool.length = conn.cmd_pool.length + 1 := by
  simp [iscsi_conn.push_cmd]
@[simp] theorem push_cmd_conn_cmd_list (conn : iscsi_conn) (c : iscsi_cmd) :
    (conn.push_cmd c).conn_cmd_list = conn.conn_cmd_list := rfl
@[simp] theorem push_cmd_immed_queue (conn : iscsi_conn) (c : iscsi_cmd) :
    (conn.push_cmd c).immed_queue = conn.immed_queue := rfl
@[simp] theorem push_cmd_response_queue (conn : iscsi_conn) (c : iscsi_cmd) :
    (conn.push_cmd c).response_queue = conn.response_queue := rfl
@[simp] theorem push_cmd_conn_ops (conn : iscsi_conn) (c : iscsi_cmd) :
    (conn.push_cmd c).conn_ops = conn.conn_ops := rfl
@[simp] theorem push_cmd_sess_ops (conn : iscsi_conn) (c : iscsi_cmd) :
    (conn.push_cmd c).sess_ops = conn.sess_ops := rfl
@[simp] theorem push_cmd_calls (conn : iscsi_conn) (c : iscsi_cmd) :
    (conn.push_cmd c).calls = conn.calls := rfl
@[simp] theorem push_cmd_cid (conn : iscsi_conn) (c : iscsi_cmd) :
    (conn.push_cmd c).cid = conn.cid := rfl
@[simp] theorem push_cmd_cmd_new (conn : iscsi_conn) (c : iscsi_cmd) :
    (conn.push_cmd c).cmd conn.cmd_pool.length = c := by
  simp [iscsi_conn.push_cmd, iscsi_conn.cmd]
theorem push_cmd_cmd_old (conn : iscsi_conn) (c : iscsi_cmd) (k : Nat)
    (hk : k < conn.cmd_pool.length) : (conn.push_cmd c).cmd k = conn.cmd k := by
  simp [iscsi_conn.push_cmd, iscsi_conn.cmd, List.getD_eq_getElem?_getD,
    List.getElem?_append_left hk]

@[simp] theorem sitt_cmd_pool (conn : iscsi_conn) (t : Nat) :
    (conn.set_sess_init_task_tag t).cmd_pool = conn.cmd_pool := rfl
@[simp] theorem sitt_conn_cmd_list (conn : iscsi_conn) (t : Nat) :
    (conn.set_sess_init_task_tag t).conn_cmd_list = conn.conn_cmd_list := rfl
@[simp] theorem sitt_immed_queue (conn : iscsi_conn) (t : Nat) :
    (conn.set_sess_init_task_tag t).immed_queue = conn.immed_queue := rfl
@[simp] theorem sitt_response_queue (conn : iscsi_conn) (t : Nat) :
    (conn.set_sess_init_task_tag t).response_queue = conn.response_queue := rfl
@[simp] theorem sitt_conn_ops (conn : iscsi_conn) (t : Nat) :
    (conn.set_sess_init_task_tag t).conn_ops = conn.conn_ops := rfl
@[simp] theorem sitt_sess_ops (conn : iscsi_conn) (t : Nat) :
    (conn.set_sess_init_task_tag t).sess_ops = conn.sess_ops := rfl
@[simp] theorem sitt_calls (conn : iscsi_conn) (t : Nat) :
    (conn.set_sess_init_task_tag t).calls = conn.calls := rfl
@[simp] theorem sitt_cid (conn : iscsi_conn) (t : Nat) :
    (conn.set_sess_init_task_tag t).cid = conn.cid := rfl
@[simp] theorem sitt_cmd (conn : iscsi_conn) (t k : Nat) :
    (conn.set_sess_init_task_tag t).cmd k = conn.cmd k := rfl
@[simp] theorem sttt_cmd_pool (conn : iscsi_conn) (t : Nat) :
    (conn.set_sess_targ_xfer_tag t).cmd_pool = conn.cmd_pool := rfl
@[simp] theorem sttt_conn_cmd_list (conn : iscsi_conn) (t : Nat) :
    (conn.set_sess_targ_xfer_tag t).conn_cmd_list = conn.conn_cmd_list := rfl
@[simp] theorem sttt_immed_queue (conn : iscsi_conn) (t : Nat) :
    (conn.set_sess_targ_xfer_tag t).immed_queue = conn.immed_queue := rfl
@[simp] theorem sttt_response_queue (conn : iscsi_conn) (t : Nat) :
    (conn.set_sess_targ_xfer_tag t).response_queue = conn.response_queue := rfl
@[simp] theorem sttt_conn_ops (conn : iscsi_conn) (t : Nat) :
    (conn.set_sess_targ_xfer_tag t).conn_ops = conn.conn_ops := rfl
@[simp] theorem sttt_sess_ops (conn : iscsi_conn) (t : Nat) :
    (conn.set_sess_targ_xfer_tag t).sess_ops = conn.sess_ops := rfl
@[simp] theorem sttt_calls (conn : iscsi_conn) (t : Nat) :
    (conn.set_sess_targ_xfer_tag t).calls = conn.calls := rfl
@[simp] theorem sttt_cid (conn : iscsi_conn) (t : Nat) :
    (conn.set_sess_targ_xfer_tag t).cid = conn.cid := rfl
@[simp] theorem sttt_cmd (conn : iscsi_conn) (t k : Nat) :
    (conn.set_sess_targ_xfer_tag t).cmd k = conn.cmd k := rfl
@[simp] theorem note_cid (conn : iscsi_conn) (c : call) :
    (conn.note c).cid = conn.cid := rfl
@[simp] theorem set_cmd_cid (conn : iscsi_conn) (h : Nat) (c : iscsi_cmd) :
    (conn.set_cmd h c).cid = conn.cid := rfl
@[simp] theorem liat_cid (conn : iscsi_conn) (h : Nat) :
    (list_add_tail_cmd conn h).cid = conn.cid := rfl
@[simp] theorem imq_cid (conn : iscsi_conn) (h : Nat) (st : istate) :
    (iscsit_add_cmd_to_immediate_queue conn h st).cid = conn.cid := rfl
@[simp] theorem rsq_cid (conn : iscsi_conn) (h : Nat) (st : istate) :
    (iscsit_add_cmd_to_response_queue conn h st).cid = conn.cid := rfl

@[simp] theorem set_cmd_conn_cmd_list (conn : iscsi_conn) (h : Nat) (c : iscsi_cmd) :
    (conn.set_cmd h c).conn_cmd_list = conn.conn_cmd_list := rfl
@[simp] theorem set_cmd_immed_queue (conn : iscsi_conn) (h : Nat) (c : iscsi_cmd) :
    (conn.set_cmd h c).immed_queue = conn.immed_queue := rfl
@[simp] theorem set_cmd_response_queue (conn : iscsi_conn) (h : Nat) (c : iscsi_cmd) :
    (conn.set_cmd h c).response_queue = conn.response_queue := rfl
@[simp] theorem set_cmd_conn_ops (conn : iscsi_conn) (h : Nat) (c : iscsi_cmd) :
    (conn.set_cmd h c).conn_ops = conn.conn_ops := rfl
@[simp] theorem set_cmd_sess_ops (conn : iscsi_conn) (h : Nat) (c : iscsi_cmd) :
    (conn.set_cmd h c).sess_ops = conn.sess_ops := rfl
@[simp] theorem set_cmd_calls (conn : iscsi_conn) (h : Nat) (c : iscsi_cmd) :
    (conn.set_cmd h c).calls = conn.calls := rfl
@[simp] theorem set_cmd_pool_length (conn : iscsi_conn) (h : Nat) (c : iscsi_cmd) :
    (conn.set_cmd h c).cmd_pool.length = conn.cmd_pool.length := by
  simp [iscsi_conn.set_cmd]

theorem set_cmd_cmd_same (conn : iscsi_conn) (h : Nat) (c : iscsi_cmd)
    (hlt : h < conn.cmd_pool.length) : (conn.set_cmd h c).cmd h = c := by
  simp [iscsi_conn.set_cmd, iscsi_conn.cmd, List.getD_eq_getElem?_getD, hlt]

theorem set_cmd_cmd_other (conn : iscsi_conn) (h k : Nat) (c : iscsi_cmd) (hne : h ≠ k) :
    (conn.set_cmd h c).cmd k = conn.cmd k := by
  simp [iscsi_conn.set_cmd, iscsi_conn.cmd, List.getD_eq_getElem?_getD,
    List.getElem?_set_ne hne]

@[simp] theorem liat_cmd_pool (conn : iscsi_conn) (h : Nat) :
    (list_add_tail_cmd conn h).cmd_pool = conn.cmd_pool := rfl
@[simp] theorem liat_conn_cmd_list (conn : iscsi_conn) (h : Nat) :
    (list_add_tail_cmd conn h).conn_cmd_list = conn.conn_cmd_list ++ [h] := rfl
@[simp] theorem liat_immed_queue (conn : iscsi_conn) (h : Nat) :
    (list_add_tail_cmd conn h).immed_queue = conn.immed_queue := rfl
@[simp] theorem liat_response_queue (conn : iscsi_conn) (h : Nat) :
    (list_add_tail_cmd conn h).response_queue = conn.response_queue := rfl
@[simp] theorem liat_conn_ops (conn : iscsi_conn) (h : Nat) :
    (list_add_tail_cmd conn h).conn_ops = conn.conn_ops := rfl
@[simp] theorem liat_sess_ops (conn : iscsi_conn) (h : Nat) :
    (list_add_tail_cmd conn h).sess_ops = conn.sess_ops := rfl
@[simp] theorem liat_calls (conn : iscsi_conn) (h : Nat) :
    (list_add_tail_cmd conn h).calls = conn.calls := rfl
@[simp] theorem liat_cmd (conn : iscsi_conn) (h k : Nat) :
    (list_add_tail_cmd conn h).cmd k = conn.cmd k := rfl

@[simp] theorem imq_cmd_pool (conn : iscsi_conn) (h : Nat) (st : istate) :
    (iscsit_add_cmd_to_immediate_queue conn h st).cmd_pool = conn.cmd_pool := rfl
@[simp] theorem imq_conn_cmd_list (conn : iscsi_conn) (h : Nat) (st : istate) :
    (iscsit_add_cmd_to_immediate_queue conn h st).conn_cmd_list = conn.conn_cmd_list := rfl
@[simp] theorem imq_immed_queue (conn : iscsi_conn) (h : Nat) (st : istate) :
    (iscsit_add_cmd_to_immediate_queue conn h st).immed_queue
      = conn.immed_queue ++ [⟨h, st⟩] := rfl
@[simp] theorem imq_response_queue (conn : iscsi_conn) (h : Nat) (st : istate) :
    (iscsit_add_cmd_to_immediate_queue conn h st).response_queue = conn.response_queue := rfl
@[simp] theorem imq_conn_ops (conn : iscsi_conn) (h : Nat) (st : istate) :
    (iscsit_add_cmd_to_immediate_queue conn h st).conn_ops = conn.conn_ops := rfl
@[simp] theorem imq_sess_ops (conn : iscsi_conn) (h : Nat) (st : istate) :
    (iscsit_add_cmd_to_immediate_queue conn h st).sess_ops = conn.sess_ops := rfl
@[simp] theorem imq_calls (conn : iscsi_conn) (h : Nat) (st : istate) :
    (iscsit_add_cmd_to_immediate_queue conn h st).calls = conn.calls := rfl
@[simp] theorem imq_cmd (conn : iscsi_conn) (h k : Nat) (st : istate) :
    (iscsit_add_cmd_to_immediate_queue conn h st).cmd k = conn.cmd k := rfl

@[simp] theorem rsq_cmd_pool (conn : iscsi_conn) (h : Nat) (st : istate) :
    (iscsit_add_cmd_to_response_queue conn h st).cmd_pool = conn.cmd_pool := rfl
@[simp] theorem rsq_conn_cmd_list (conn : iscsi_conn) (h : Nat) (st : istate) :
    (iscsit_add_cmd_to_response_queue conn h st).conn_cmd_list = conn.conn_cmd_list := rfl
@[simp] theorem rsq_immed_queue (conn : iscsi_conn) (h : Nat) (st : istate) :
    (iscsit_add_cmd_to_response_queue conn h st).immed_queue = conn.immed_queue := rfl
@[simp] theorem rsq_response_queue (conn : iscsi_conn) (h : Nat) (st : istate) :
    (iscsit_add_cmd_to_response_queue conn h st).response_queue
      = conn.response_queue ++ [⟨h, st⟩] := rfl
@[simp] theorem rsq_conn_ops (conn : iscsi_conn) (h : Nat) (st : istate) :
    (iscsit_add_cmd_to_response_queue conn h st).conn_ops = conn.conn_ops := rfl
@[simp] theorem rsq_sess_ops (conn : iscsi_conn) (h : Nat) (st : istate) :
    (iscsit_add_cmd_to_response_queue conn h st).sess_ops = conn.sess_ops := rfl
@[simp] theorem rsq_calls (conn : iscsi_conn) (h : Nat) (st : istate) :
    (iscsit_add_cmd_to_response_queue conn h st).calls = conn.calls := rfl
@[simp] theorem rsq_cmd (conn : iscsi_conn) (h k : Nat) (st : istate) :
    (iscsit_add_cmd_to_response_queue conn h st).cmd k = conn.cmd k := rfl

@[simp] theorem cmdsn_checks_nil : cmdsn_checks [] = [] := rfl
@[simp] theorem cmdsn_checks_append (l1 l2 : List call) :
    cmdsn_checks (l1 ++ l2) = cmdsn_checks l1 ++ cmdsn_checks l2 := by
  simp [cmdsn_checks]
@[simp] theorem expstatsn_acks_nil : expstatsn_acks [] = [] := rfl
@[simp] theorem expstatsn_acks_append (l1 l2 : List call) :
    expstatsn_acks (l1 ++ l2) = expstatsn_acks l1 ++ expstatsn_acks l2 := by
  simp [expstatsn_acks]
@[simp] theorem cmdsn_checks_cons (c : call) (l : List call) :
    cmdsn_checks (c :: l) = (match c with
      | .check_received_cmdsn h n => [(h, n)]
      | _ => []) ++ cmdsn_checks l := by
  cases c <;> rfl
@[simp] theorem expstatsn_acks_cons (c : call) (l : List call) :
    expstatsn_acks (c :: l) = (match c with
      | .ack_from_expstatsn n => [n]
      | _ => []) ++ expstatsn_acks l := by
  cases c <;> rfl

/-! ### What `iscsit_ack_from_expstatsn` leaves alone -/

theorem foldl_invariant {α β : Type} (P : α → Prop) (f : α → β → α)
    (hf : ∀ a b, P a → P (f a b)) : ∀ (l : List β) (a : α), P a → P (l.foldl f a) := by
  intro l
  induction l with
  | nil => intro a h; exact h
  | cons x xs ih => intro a h; exact ih (f a x) (hf a x h)

theorem ack_frame_refl (c : iscsi_conn) : ack_frame c c :=
  ⟨rfl, rfl, rfl, rfl, rfl, rfl, rfl, ⟨[], by simp⟩, fun _ => Or.inl rfl⟩

theorem ack_step_frame (n : Nat) (c0 c : iscsi_conn) (h : Nat) (hc : ack_frame c0 c) :
    ack_frame c0 (iscsit_ack_from_expstatsn_step n c h) := by
  unfold iscsit_ack_from_expstatsn_step
  split
  · rename_i hcond
    obtain ⟨h1, h2, h3, h4, h5, h6, h7, ⟨l, h8⟩, h9⟩ := hc
    refine ⟨by simp [h1], by simp [h2], by simp [h3], by simp [h4], by simp [h5],
      by simp [h6], ?_, ⟨l ++ [⟨h, .ISTATE_REMOVE⟩], by simp [h8]⟩, ?_⟩
    · simp [iscsit_add_cmd_to_immediate_queue, iscsi_conn.set_cmd, h7]
    · intro k
      by_cases hk : h = k
      · subst hk
        by_cases hlt : h < c.cmd_pool.length
        · rcases h9 h with he | ⟨_, he⟩
          · right
            refine ⟨by rw [← he]; exact hcond.1, ?_⟩
            simp only [imq_cmd]
            rw [set_cmd_cmd_same _ _ _ hlt, he]
          · rw [he] at hcond
            simp at hcond
        · have : c.cmd h = {} := by
            simp [iscsi_conn.cmd, List.getD_eq_getElem?_getD,
              List.getElem?_eq_none (Nat.le_of_not_lt hlt)]
          rw [this] at hcond
          simp at hcond
      · simp only [imq_cmd]
        rw [set_cmd_cmd_other _ _ _ _ hk]
        exact h9 k
  · exact hc

theorem ack_from_expstatsn_frame (conn : iscsi_conn) (n : Nat) :
    ack_frame (conn.note (.ack_from_expstatsn n)) (iscsit_ack_from_expstatsn conn n) := by
  unfold iscsit_ack_from_expstatsn
  apply foldl_invariant (ack_frame _) _ (fun a b h => ack_step_frame n _ a b h)
  have : ({ conn with exp_statsn := n } : iscsi_conn).note (.ack_from_expstatsn n)
      = { (conn.note (.ack_from_expstatsn n)) with exp_statsn := n } := rfl
  rw [this]
  exact ⟨rfl, rfl, rfl, rfl, rfl, rfl, rfl, ⟨[], by simp⟩, fun _ => Or.inl rfl⟩

@[simp] theorem ack_calls (conn : iscsi_conn) (n : Nat) :
    (iscsit_ack_from_expstatsn conn n).calls = conn.calls ++ [.ack_from_expstatsn n] :=
  (ack_from_expstatsn_frame conn n).2.2.2.2.2.1
@[simp] theorem ack_pool_length (conn : iscsi_conn) (n : Nat) :
    (iscsit_ack_from_expstatsn conn n).cmd_pool.length = conn.cmd_pool.length :=
  (ack_from_expstatsn_frame conn n).1
@[simp] theorem ack_conn_cmd_list (conn : iscsi_conn) (n : Nat) :
    (iscsit_ack_from_expstatsn conn n).conn_cmd_list = conn.conn_cmd_list :=
  (ack_from_expstatsn_frame conn n).2.1
@[simp] theorem ack_response_queue (conn : iscsi_conn) (n : Nat) :
    (iscsit_ack_from_expstatsn conn n).response_queue = conn.response_queue :=
  (ack_from_expstatsn_frame conn n).2.2.1
@[simp] theorem ack_conn_ops (conn : iscsi_conn) (n : Nat) :
    (iscsit_ack_from_expstatsn conn n).conn_ops = conn.conn_ops :=
  (ack_from_expstatsn_frame conn n).2.2.2.1
@[simp] theorem ack_sess_ops (conn : iscsi_conn) (n : Nat) :
    (iscsit_ack_from_expstatsn conn n).sess_ops = conn.sess_ops :=
  (ack_from_expstatsn_frame conn n).2.2.2.2.1
@[simp] theorem ack_cid (conn : iscsi_conn) (n : Nat) :
    (iscsit_ack_from_expstatsn conn n).cid = conn.cid :=
  (ack_from_expstatsn_frame conn n).2.2.2.2.2.2.1

theorem ack_immed_queue (conn : iscsi_conn) (n : Nat) :
    ∃ l, (iscsit_ack_from_expstatsn conn n).immed_queue = conn.immed_queue ++ l :=
  (ack_from_expstatsn_frame conn n).2.2.2.2.2.2.2.1

theorem ack_cmd_of_not_sent (conn : iscsi_conn) (n k : Nat)
    (h : (conn.cmd k).i_state ≠ .ISTATE_SENT_STATUS) :
    (iscsit_ack_from_expstatsn conn n).cmd k = conn.cmd k := by
  rcases (ack_from_expstatsn_frame conn n).2.2.2.2.2.2.2.2 k with he | ⟨hs, _⟩
  · exact he
  · exact absurd hs h

/-- C1 (evaluation at the failing input): a Data-Out PDU with BufferOffset
0xFFFFFFFF and DataSegmentLength 2, addressed to a WRITE command of 4096
bytes that has not received its last Data-Out, gets past the range check of
`iscsit_handle_data_out` although offset + length exceeds the declared
length: the 32-bit sum wraps to 1. -/
theorem c1_range_check_wraps :
    iscsit_handle_data_out_checks 8192
        { dlength := 2, itt := 1, ttt := 0xFFFFFFFF, exp_statsn := 0,
          datasn := 0, offset := 0xFFFFFFFF, flag_final := true }
        (some { data_direction := .DMA_TO_DEVICE, data_length := 4096 })
      = .past_range_check
    ∧ ¬ (0xFFFFFFFF + 2 ≤ 4096) := by
  constructor
  · decide
  · decide

/-! ### Rejects -/

theorem cmd_set_cmd (conn : iscsi_conn) (h k : Nat) (c : iscsi_cmd) :
    (conn.set_cmd h c).cmd k
      = if h = k ∧ h < conn.cmd_pool.length then c else conn.cmd k := by
  by_cases hk : h = k
  · subst hk
    by_cases hlt : h < conn.cmd_pool.length
    · simp [hlt, set_cmd_cmd_same]
    · have h1 : (conn.cmd_pool.set h c)[h]? = none :=
        List.getElem?_eq_none (by simp; omega)
      have h2 : conn.cmd_pool[h]? = none := List.getElem?_eq_none (by omega)
      simp [hlt, iscsi_conn.set_cmd, iscsi_conn.cmd, List.getD_eq_getElem?_getD, h1, h2]
  · simp [hk, set_cmd_cmd_other]

/-- What `reject_queue` does when the header copy can be allocated. -/
theorem reject_queue_ok (f a : Bool) (conn : iscsi_conn) (h : Nat) (e : env)
    (hb : e.alloc_reject_buf = true) (hlt : h < conn.cmd_pool.length) :
    (reject_queue f a conn h e).conn.response_queue
        = conn.response_queue ++ [⟨h, .ISTATE_SEND_REJECT⟩]
    ∧ (reject_queue f a conn h e).conn.immed_queue = conn.immed_queue
    ∧ (reject_queue f a conn h e).conn.calls = conn.calls
    ∧ (reject_queue f a conn h e).conn.conn_cmd_list
        = (if a then conn.conn_cmd_list ++ [h] else conn.conn_cmd_list)
    ∧ (reject_queue f a conn h e).conn.cmd h
        = { conn.cmd h with buf_ptr_set := true, i_state := .ISTATE_SEND_REJECT }
    ∧ (reject_queue f a conn h e).conn.cmd_pool.length = conn.cmd_pool.length := by
  unfold reject_queue
  by_cases hw : e.reject_wait = 0 <;> cases a <;>
    simp [hb, hw, cmd_set_cmd, hlt]

/-- What `reject_queue` does when the header copy cannot be allocated. -/
theorem reject_queue_nomem (f a : Bool) (conn : iscsi_conn) (h : Nat) (e : env)
    (hb : e.alloc_reject_buf = false) :
    reject_queue f a conn h e = ⟨-1, conn.note (.release_cmd h)⟩ := by
  simp [reject_queue, hb]

theorem reject_queue_ret (a : Bool) (conn : iscsi_conn) (h : Nat) (e : env) :
    (reject_queue true a conn h e).ret = -1 := by
  unfold reject_queue
  by_cases hw : e.reject_wait = 0 <;> cases e.alloc_reject_buf <;> simp [hw]

theorem add_reject_fail_conn_ret (reason : reject_reason) (conn : iscsi_conn) (e : env) :
    (iscsit_add_reject reason true conn e).ret = -1 := by
  unfold iscsit_add_reject iscsit_allocate_cmd
  cases e.alloc_reject_cmd <;> simp [reject_queue_ret]

theorem add_reject_from_cmd_fail_conn_ret (reason : reject_reason) (a : Bool)
    (conn : iscsi_conn) (h : Nat) (e : env) :
    (iscsit_add_reject_from_cmd reason true a conn h e).ret = -1 := by
  unfold iscsit_add_reject_from_cmd
  cases (conn.cmd h).has_conn <;> simp [reject_queue_ret]

theorem add_reject_queued (reason : reject_reason) (conn : iscsi_conn) (e : env)
    (h1 : e.alloc_reject_cmd = true) (h2 : e.alloc_reject_buf = true) :
    (iscsit_add_reject reason true conn e).conn.response_queue
        = conn.response_queue ++ [⟨conn.cmd_pool.length, .ISTATE_SEND_REJECT⟩]
    ∧ (iscsit_add_reject reason true conn e).conn.cmd_pool
        = conn.cmd_pool ++ [{ iscsi_opcode := .ISCSI_OP_REJECT,
                              cmd_flags := { ICF_REJECT_FAIL_CONN := true },
                              reason := reason, buf_ptr_set := true,
                              i_state := .ISTATE_SEND_REJECT }] := by
  unfold iscsit_add_reject iscsit_allocate_cmd reject_queue
  by_cases hw : e.reject_wait = 0 <;>
    simp [h1, h2, hw, iscsi_conn.set_cmd, iscsi_conn.cmd, iscsi_conn.note, list_add_tail_cmd,
      iscsit_add_cmd_to_response_queue, reject_fields, iscsi_conn.push_cmd]

theorem add_reject_pool (reason : reject_reason) (f : Bool) (conn : iscsi_conn) (e : env) :
    (iscsit_add_reject reason f conn e).conn.cmd_pool = conn.cmd_pool
    ∨ ∃ c : iscsi_cmd, c.iscsi_opcode = .ISCSI_OP_REJECT
        ∧ (iscsit_add_reject reason f conn e).conn.cmd_pool = conn.cmd_pool ++ [c] := by
  unfold iscsit_add_reject iscsit_allocate_cmd reject_queue
  by_cases hw : e.reject_wait = 0 <;>
    cases e.alloc_reject_cmd <;> cases e.alloc_reject_buf <;>
    simp [hw, iscsi_conn.set_cmd, iscsi_conn.cmd, iscsi_conn.note, list_add_tail_cmd,
      iscsit_add_cmd_to_response_queue, reject_fields, iscsi_conn.push_cmd]

theorem add_reject_calls (reason : reject_reason) (f : Bool) (conn : iscsi_conn) (e : env) :
    cmdsn_checks (iscsit_add_reject reason f conn e).conn.calls = cmdsn_checks conn.calls
    ∧ expstatsn_acks (iscsit_add_reject reason f conn e).conn.calls
        = expstatsn_acks conn.calls := by
  unfold iscsit_add_reject iscsit_allocate_cmd reject_queue
  by_cases hw : e.reject_wait = 0 <;>
    cases e.alloc_reject_cmd <;> cases e.alloc_reject_buf <;> simp [hw]

theorem add_reject_attached (reason : reject_reason) (f : Bool) (conn : iscsi_conn) (e : env) :
    (iscsit_add_reject reason f conn e).conn.conn_cmd_list = conn.conn_cmd_list
    ∨ ((iscsit_add_reject reason f conn e).conn.cmd conn.cmd_pool.length).iscsi_opcode
        = .ISCSI_OP_REJECT := by
  unfold iscsit_add_reject iscsit_allocate_cmd reject_queue
  by_cases hw : e.reject_wait = 0 <;>
    cases e.alloc_reject_cmd <;> cases e.alloc_reject_buf <;>
    simp [hw, cmd_set_cmd, reject_fields]

theorem add_reject_queues (reason : reject_reason) (f : Bool) (conn : iscsi_conn) (e : env) :
    (iscsit_add_reject reason f conn e).conn.immed_queue = conn.immed_queue := by
  unfold iscsit_add_reject iscsit_allocate_cmd reject_queue
  by_cases hw : e.reject_wait = 0 <;>
    cases e.alloc_reject_cmd <;> cases e.alloc_reject_buf <;> simp [hw]

theorem add_reject_from_cmd_calls (reason : reject_reason) (f a : Bool) (conn : iscsi_conn)
    (h : Nat) (e : env) :
    cmdsn_checks (iscsit_add_reject_from_cmd reason f a conn h e).conn.calls
        = cmdsn_checks conn.calls
    ∧ expstatsn_acks (iscsit_add_reject_from_cmd reason f a conn h e).conn.calls
        = expstatsn_acks conn.calls := by
  unfold iscsit_add_reject_from_cmd reject_queue
  by_cases hw : e.reject_wait = 0 <;>
    cases (conn.cmd h).has_conn <;> cases e.alloc_reject_buf <;> cases a <;> simp [hw]

@[simp] theorem reject_fields_opcode (c : iscsi_cmd) (r : reject_reason) (f : Bool) :
    (reject_fields c r f).iscsi_opcode = .ISCSI_OP_REJECT := rfl
@[simp] theorem reject_fields_reason (c : iscsi_cmd) (r : reject_reason) (f : Bool) :
    (reject_fields c r f).reason = r := rfl
@[simp] theorem reject_fields_fail_conn (c : iscsi_cmd) (r : reject_reason) (f : Bool) :
    (reject_fields c r f).cmd_flags.ICF_REJECT_FAIL_CONN
      = (c.cmd_flags.ICF_REJECT_FAIL_CONN || f) := rfl
@[simp] theorem reject_fields_has_conn (c : iscsi_cmd) (r : reject_reason) (f : Bool) :
    (reject_fields c r f).has_conn = c.has_conn := rfl

/-- What `iscsit_add_reject_from_cmd` does to a command bound to its
connection: the command becomes a Reject with the given reason (and the
fail_conn flag when asked for); when the header copy can be allocated it is
queued on the response queue in state SEND_REJECT.  The immediate queue is
not touched. -/
theorem add_reject_from_cmd_effect (reason : reject_reason) (f a : Bool) (conn : iscsi_conn)
    (h : Nat) (e : env) (hc : (conn.cmd h).has_conn = true) (hlt : h < conn.cmd_pool.length) :
    ((iscsit_add_reject_from_cmd reason f a conn h e).conn.cmd h).iscsi_opcode
        = .ISCSI_OP_REJECT
    ∧ ((iscsit_add_reject_from_cmd reason f a conn h e).conn.cmd h).reason = reason
    ∧ (f = true →
        ((iscsit_add_reject_from_cmd reason f a conn h e).conn.cmd h).cmd_flags.ICF_REJECT_FAIL_CONN
          = true)
    ∧ (iscsit_add_reject_from_cmd reason f a conn h e).conn.immed_queue = conn.immed_queue
    ∧ (e.alloc_reject_buf = true →
        (iscsit_add_reject_from_cmd reason f a conn h e).conn.response_queue
          = conn.response_queue ++ [⟨h, .ISTATE_SEND_REJECT⟩]
        ∧ ((iscsit_add_reject_from_cmd reason f a conn h e).conn.cmd h).i_state
          = .ISTATE_SEND_REJECT) := by
  unfold iscsit_add_reject_from_cmd
  simp only [hc, Bool.not_true, Bool.false_eq_true, if_false]
  cases hb : e.alloc_reject_buf
  · rw [reject_queue_nomem _ _ _ _ _ hb]
    refine ⟨?_, ?_, ?_, ?_, ?_⟩
    · simp [cmd_set_cmd, hlt]
    · simp [cmd_set_cmd, hlt]
    · intro hf; simp [cmd_set_cmd, hlt, hf]
    · simp
    · intro hx; cases hx
  · obtain ⟨q1, q2, _, _, q5, _⟩ := reject_queue_ok f a
      (conn.set_cmd h (reject_fields (conn.cmd h) reason f)) h e hb (by simpa using hlt)
    rw [q5, q1, q2]
    refine ⟨?_, ?_, ?_, ?_, ?_⟩
    · simp [cmd_set_cmd, hlt]
    · simp [cmd_set_cmd, hlt]
    · intro hf; simp [cmd_set_cmd, hlt, hf]
    · simp
    · intro _; simp

/-! ### Validation of the SCSI Command header -/

theorem rejected_ite (c : Prop) [Decidable c]
    (r1 r2 : Except (reject_reason × Bool) iscsi_scsi_req) :
    rejected (if c then r1 else r2) = if c then rejected r1 else rejected r2 := by
  by_cases h : c <;> simp [h]

theorem rejected_fail_conn_ite (c : Prop) [Decidable c]
    (r1 r2 : Except (reject_reason × Bool) iscsi_scsi_req) :
    rejected_fail_conn (if c then r1 else r2)
      = if c then rejected_fail_conn r1 else rejected_fail_conn r2 := by
  by_cases h : c <;> simp [h]

theorem validate_rejected (conn : iscsi_conn) (hdr : iscsi_scsi_req) :
    rejected (iscsit_handle_scsi_cmd_validate conn hdr)
      = scsi_cmd_reject_conditions_amended conn hdr := by
  rcases hdr with ⟨imm, ff, fr, fw, attr, dl, itt, len, cmdsn, esn, cdb0⟩
  have hok : ∀ h : iscsi_scsi_req, rejected (.ok h) = false := fun _ => rfl
  have herr : ∀ x : reject_reason × Bool, rejected (.error x) = true := fun _ => rfl
  simp only [iscsit_handle_scsi_cmd_validate, iscsit_handle_scsi_cmd_done, rejected_ite,
    scsi_cmd_reject_conditions_amended, hok, herr]
  by_cases hl : len = 0
  · subst hl
    cases fr <;> cases fw <;> cases ff <;> cases imm <;>
      cases hI : conn.sess_ops.ImmediateData <;> by_cases hd : dl = 0 <;>
      simp [hd, hI, Nat.pos_iff_ne_zero, Bool.or_assoc]
  · cases fr <;> cases fw <;> cases ff <;> cases imm <;>
      cases hI : conn.sess_ops.ImmediateData <;> by_cases hd : dl = 0 <;>
      simp [hl, hd, hI, Nat.pos_iff_ne_zero, Bool.or_assoc]

theorem validate_fail_conn (conn : iscsi_conn) (hdr : iscsi_scsi_req) :
    rejected_fail_conn (iscsit_handle_scsi_cmd_validate conn hdr) = true := by
  have hok : ∀ h : iscsi_scsi_req, rejected_fail_conn (.ok h) = true := fun _ => rfl
  have herr : ∀ r : reject_reason, rejected_fail_conn (.error (r, true)) = true :=
    fun _ => rfl
  simp only [iscsit_handle_scsi_cmd_validate, iscsit_handle_scsi_cmd_done,
    rejected_fail_conn_ite, hok, herr, ite_self]

/-- C2 (counterexample): a header with READ, WRITE and FINAL set, Expected
Data Transfer Length 0 and CDB opcode 0x16 meets the listed condition "both
READ and WRITE set", yet the validation stage accepts it (with both bits
cleared) and the handler goes on to return 0 with nothing queued for
transmission. -/
theorem c2_read_write_reserve_accepted :
    scsi_cmd_reject_conditions {}
        { flag_final := true, flag_read := true, flag_write := true,
          data_length := 0, cdb0 := 0x16 } = true
    ∧ rejected (iscsit_handle_scsi_cmd_validate {}
        { flag_final := true, flag_read := true, flag_write := true,
          data_length := 0, cdb0 := 0x16 }) = false
    ∧ (iscsit_handle_scsi_cmd {}
        { flag_final := true, flag_read := true, flag_write := true,
          data_length := 0, cdb0 := 0x16 } {}).ret = 0
    ∧ (iscsit_handle_scsi_cmd {}
        { flag_final := true, flag_read := true, flag_write := true,
          data_length := 0, cdb0 := 0x16 } {}).conn.response_queue = [] := by
  refine ⟨by decide, by decide, by decide, by decide⟩

/-- C2 (amended): the validation stage of `iscsit_handle_scsi_cmd` rejects a
header exactly when one of the listed conditions holds, "both READ and WRITE
set" being read with a non-zero Expected Data Transfer Length.  A rejected
header is handed to `iscsit_add_reject` with fail_conn set: the handler
returns -1, the only command it may have allocated is the Reject itself, and
when the Reject's own allocations succeed the Reject (fail_conn flag, state
SEND_REJECT) is on the response queue.  A header meeting none of the
conditions passes on to command allocation. -/
theorem c2_validation_rejects (conn : iscsi_conn) (hdr : iscsi_scsi_req) (e : env) :
    (scsi_cmd_reject_conditions_amended conn hdr = true →
      ∃ reason,
        iscsit_handle_scsi_cmd_validate conn hdr = .error (reason, true)
        ∧ iscsit_handle_scsi_cmd conn hdr e = iscsit_add_reject reason true conn e
        ∧ (iscsit_handle_scsi_cmd conn hdr e).ret = -1
        ∧ (∀ c ∈ (iscsit_handle_scsi_cmd conn hdr e).conn.cmd_pool,
              c ∈ conn.cmd_pool ∨ c.iscsi_opcode = .ISCSI_OP_REJECT)
        ∧ (e.alloc_reject_cmd = true → e.alloc_reject_buf = true →
            (iscsit_handle_scsi_cmd conn hdr e).conn.response_queue
              = conn.response_queue ++ [⟨conn.cmd_pool.length, .ISTATE_SEND_REJECT⟩]
            ∧ (iscsit_handle_scsi_cmd conn hdr e).conn.cmd_pool
              = conn.cmd_pool ++ [{ iscsi_opcode := .ISCSI_OP_REJECT,
                                    cmd_flags := { ICF_REJECT_FAIL_CONN := true },
                                    reason := reason, buf_ptr_set := true,
                                    i_state := .ISTATE_SEND_REJECT }]))
    ∧ (scsi_cmd_reject_conditions_amended conn hdr = false →
      ∃ hdr2,
        iscsit_handle_scsi_cmd_validate conn hdr = .ok hdr2
        ∧ iscsit_handle_scsi_cmd conn hdr e = iscsit_handle_scsi_cmd_setup conn hdr2 e) := by
  have hr := validate_rejected conn hdr
  have hf := validate_fail_conn conn hdr
  constructor
  · intro hc
    rw [hc] at hr
    cases hv : iscsit_handle_scsi_cmd_validate conn hdr with
    | ok h2 => rw [hv] at hr; simp [rejected] at hr
    | error x =>
      obtain ⟨reason, fc⟩ := x
      rw [hv] at hf
      simp only [rejected_fail_conn] at hf
      subst hf
      have hh : iscsit_handle_scsi_cmd conn hdr e = iscsit_add_reject reason true conn e := by
        simp [iscsit_handle_scsi_cmd, hv]
      refine ⟨reason, rfl, hh, ?_, ?_, ?_⟩
      · rw [hh]; exact add_reject_fail_conn_ret reason conn e
      · rw [hh]
        intro c hcm
        rcases add_reject_pool reason true conn e with hp | ⟨c2, hc2, hp⟩
        · rw [hp] at hcm; exact Or.inl hcm
        · rw [hp] at hcm
          rcases List.mem_append.mp hcm with hm | hm
          · exact Or.inl hm
          · right
            have : c = c2 := by simpa using hm
            rw [this]; exact hc2
      · intro h1 h2
        rw [hh]
        exact add_reject_queued reason conn e h1 h2
  · intro hc
    rw [hc] at hr
    cases hv : iscsit_handle_scsi_cmd_validate conn hdr with
    | error x => rw [hv] at hr; simp [rejected] at hr
    | ok h2 =>
      exact ⟨h2, rfl, by simp [iscsit_handle_scsi_cmd, hv]⟩

/-- C2 (witness): a header with neither WRITE nor FINAL set is rejected and
the handler returns -1. -/
theorem c2_validation_rejects_witness :
    scsi_cmd_reject_conditions_amended {} { flag_final := false } = true
    ∧ (iscsit_handle_scsi_cmd {} { flag_final := false } {}).ret = -1 := by
  have h : scsi_cmd_reject_conditions_amended {} { flag_final := false } = true := by decide
  obtain ⟨_, _, _, hret, _⟩ := (c2_validation_rejects {} { flag_final := false } {}).1 h
  exact ⟨h, hret⟩

/-! ### R2T builder -/

theorem build_r2ts_compute_frame (ops : iscsi_sess_ops) (type : Nat) (first_r2t : Bool)
    (cmd c2 : iscsi_cmd) (offset xfer_len : Nat)
    (h : iscsit_build_r2ts_compute ops type first_r2t cmd = some (offset, xfer_len, c2)) :
    c2.outstanding_r2ts = cmd.outstanding_r2ts ∧ c2.cmd_r2t_list = cmd.cmd_r2t_list := by
  unfold iscsit_build_r2ts_compute at h
  split at h
  · simp only [Option.some.injEq, Prod.mk.injEq] at h
    obtain ⟨_, _, rfl⟩ := h
    refine ⟨?_, ?_⟩ <;> split_ifs <;> rfl
  · unfold iscsit_get_seq_holder_for_r2t at h
    split at h
    · simp at h
    · rename_i seq c3 hs
      split at hs
      · simp at hs
      · simp only [Option.some.injEq, Prod.mk.injEq] at hs h
        obtain ⟨_, rfl⟩ := hs
        obtain ⟨_, _, rfl⟩ := h
        refine ⟨?_, ?_⟩ <;> split_ifs <;> rfl

theorem build_r2ts_body_ok (ops : iscsi_sess_ops) (type : Nat) (first_r2t alloc_ok : Bool)
    (cmd c2 : iscsi_cmd)
    (h : iscsit_build_r2ts_body ops type first_r2t alloc_ok cmd = .ok c2) :
    c2.outstanding_r2ts = cmd.outstanding_r2ts + 1
    ∧ ∃ r, c2.cmd_r2t_list = cmd.cmd_r2t_list ++ [r] := by
  unfold iscsit_build_r2ts_body at h
  split at h
  · simp at h
  · rename_i offset xfer_len c3 hc
    have hf := build_r2ts_compute_frame ops type first_r2t cmd c3 offset xfer_len hc
    unfold iscsit_add_r2t_to_list at h
    cases alloc_ok
    · simp at h
    · simp only [if_true, Except.ok.injEq] at h
      subst h
      simp [hf.1, hf.2]

theorem build_r2ts_body_error (ops : iscsi_sess_ops) (type : Nat) (first_r2t alloc_ok : Bool)
    (cmd c2 : iscsi_cmd)
    (h : iscsit_build_r2ts_body ops type first_r2t alloc_ok cmd = .error c2) :
    c2.outstanding_r2ts ≤ cmd.outstanding_r2ts + 1
    ∧ c2.cmd_r2t_list = cmd.cmd_r2t_list := by
  unfold iscsit_build_r2ts_body at h
  split at h
  · simp only [Except.error.injEq] at h
    subst h
    simp
  · rename_i offset xfer_len c3 hc
    have hf := build_r2ts_compute_frame ops type first_r2t cmd c3 offset xfer_len hc
    unfold iscsit_add_r2t_to_list at h
    cases alloc_ok
    · simp only [Bool.false_eq_true, if_false, Except.error.injEq] at h
      subst h
      simp [hf.1, hf.2]
    · simp at h

theorem build_r2ts_loop_bound (ops : iscsi_sess_ops) (type : Nat) :
    ∀ (fuel : Nat) (first_r2t : Bool) (avail : Nat) (cmd : iscsi_cmd),
      cmd.outstanding_r2ts ≤ ops.MaxOutstandingR2T →
      (iscsit_build_r2ts_loop ops type fuel first_r2t avail cmd).2.outstanding_r2ts
          ≤ ops.MaxOutstandingR2T
      ∧ ((iscsit_build_r2ts_loop ops type fuel first_r2t avail cmd).1 = 0 →
          ∃ added : List iscsi_r2t,
            (iscsit_build_r2ts_loop ops type fuel first_r2t avail cmd).2.cmd_r2t_list
                = cmd.cmd_r2t_list ++ added
            ∧ (iscsit_build_r2ts_loop ops type fuel first_r2t avail cmd).2.outstanding_r2ts
                = cmd.outstanding_r2ts + added.length) := by
  intro fuel
  induction fuel with
  | zero =>
    intro first_r2t avail cmd h
    simp only [iscsit_build_r2ts_loop]
    exact ⟨h, fun _ => ⟨[], by simp⟩⟩
  | succ n ih =>
    intro first_r2t avail cmd h
    simp only [iscsit_build_r2ts_loop]
    split
    · rename_i hlt
      split
      · rename_i c2 hb
        have he := build_r2ts_body_error _ _ _ _ _ _ hb
        refine ⟨by simp only; omega, ?_⟩
        intro h0
        simp at h0
      · rename_i c2 hb
        have hk := build_r2ts_body_ok _ _ _ _ _ _ hb
        obtain ⟨ho, r, hr⟩ := hk
        split
        · refine ⟨by simp only; omega, fun _ => ⟨[r], ?_⟩⟩
          simp [hr, ho]
        · have hi := ih false (avail - 1) c2 (by omega)
          refine ⟨hi.1, ?_⟩
          intro h0
          obtain ⟨added, ha1, ha2⟩ := hi.2 h0
          refine ⟨r :: added, ?_, ?_⟩
          · rw [ha1, hr]; simp
          · rw [ha2, ho]; simp; omega
    · exact ⟨h, fun _ => ⟨[], by simp⟩⟩

/-- The loop of `iscsit_build_r2ts_for_cmd` needs no more than
`MaxOutstandingR2T - outstanding_r2ts` passes: any larger bound gives the
same result. -/
theorem build_r2ts_loop_fuel (ops : iscsi_sess_ops) (type : Nat) :
    ∀ (fuel : Nat) (first_r2t : Bool) (avail : Nat) (cmd : iscsi_cmd),
      ops.MaxOutstandingR2T - cmd.outstanding_r2ts ≤ fuel →
      iscsit_build_r2ts_loop ops type fuel first_r2t avail cmd
        = iscsit_build_r2ts_loop ops type (ops.MaxOutstandingR2T - cmd.outstanding_r2ts)
            first_r2t avail cmd := by
  intro fuel
  induction fuel with
  | zero =>
    intro first_r2t avail cmd h
    have : ops.MaxOutstandingR2T - cmd.outstanding_r2ts = 0 := by omega
    rw [this]
  | succ n ih =>
    intro first_r2t avail cmd h
    by_cases hlt : cmd.outstanding_r2ts < ops.MaxOutstandingR2T
    · obtain ⟨m, hm⟩ : ∃ m, ops.MaxOutstandingR2T - cmd.outstanding_r2ts = m + 1 :=
        ⟨ops.MaxOutstandingR2T - cmd.outstanding_r2ts - 1, by omega⟩
      rw [hm]
      simp only [iscsit_build_r2ts_loop, hlt, if_true]
      split
      · rfl
      · rename_i c2 hb
        have ho := (build_r2ts_body_ok _ _ _ _ _ _ hb).1
        split
        · rfl
        · have hm2 : ops.MaxOutstandingR2T - c2.outstanding_r2ts = m := by omega
          rw [ih false (avail - 1) c2 (by omega), hm2]
    · have h0 : ops.MaxOutstandingR2T - cmd.outstanding_r2ts = 0 := by omega
      rw [h0]
      simp [iscsit_build_r2ts_loop, hlt]

/-- C3: when `outstanding_r2ts <= MaxOutstandingR2T` holds before the call,
`iscsit_build_r2ts_for_cmd` (any type, either DataSequenceInOrder setting,
any allocator behaviour) leaves `outstanding_r2ts <= MaxOutstandingR2T`, and
when it returns 0 the R2T list has grown by exactly as many records as
`outstanding_r2ts` has increased. -/
theorem c3_outstanding_r2ts_bounded (ops : iscsi_sess_ops) (cmd : iscsi_cmd)
    (type avail : Nat) (h : cmd.outstanding_r2ts ≤ ops.MaxOutstandingR2T) :
    (iscsit_build_r2ts_for_cmd ops cmd type avail).2.outstanding_r2ts
        ≤ ops.MaxOutstandingR2T
    ∧ ((iscsit_build_r2ts_for_cmd ops cmd type avail).1 = 0 →
        ∃ added : List iscsi_r2t,
          (iscsit_build_r2ts_for_cmd ops cmd type avail).2.cmd_r2t_list
              = cmd.cmd_r2t_list ++ added
          ∧ (iscsit_build_r2ts_for_cmd ops cmd type avail).2.outstanding_r2ts
              = cmd.outstanding_r2ts + added.length) := by
  unfold iscsit_build_r2ts_for_cmd
  split
  · exact ⟨h, fun _ => ⟨[], by simp⟩⟩
  · simp only
    split
    · split
      · exact build_r2ts_loop_bound ops type _ true avail
          { cmd with r2t_offset := cmd.write_data_done } h
      · exact build_r2ts_loop_bound ops type _ true avail cmd h
    · exact build_r2ts_loop_bound ops type _ true avail cmd h

/-- C3 (witness): a 4096-byte WRITE with MaxOutstandingR2T = 1 and a burst
limit of 262144 gets one R2T and `outstanding_r2ts` becomes 1. -/
theorem c3_outstanding_r2ts_bounded_witness :
    (iscsit_build_r2ts_for_cmd {} { data_length := 4096 } 0 1).2.outstanding_r2ts ≤ 1
    ∧ (iscsit_build_r2ts_for_cmd {} { data_length := 4096 } 0 1).1 = 0
    ∧ (iscsit_build_r2ts_for_cmd {} { data_length := 4096 } 0 1).2.cmd_r2t_list
        = [{ offset := 0, xfer_len := 4096, recovery_r2t := 0, r2t_sn := 0 }] := by
  have h := c3_outstanding_r2ts_bounded {} { data_length := 4096 } 0 1 (by decide)
  exact ⟨h.1, by decide, by decide⟩

/-- C4 (evaluation at the failing input): with DataSequenceInOrder=Yes,
type 0, data_length 0xFFFFFFFF, MaxBurstLength 0x100000 and starting offset
0xFFF00000 (below data_length), the 32-bit sum offset + MaxBurstLength wraps
to 0, so the R2T appended has length 0x100000 instead of
min(M, D - offset) = 0xFFFFF, it ends one byte past data_length, and
`r2t_offset` is left at 0 without `ICF_SENT_LAST_R2T`. -/
theorem c4_r2t_length_wraps :
    (iscsit_build_r2ts_for_cmd { MaxBurstLength := 0x100000, MaxOutstandingR2T := 1 }
        { data_length := 0xFFFFFFFF, write_data_done := 0xFFF00000 } 0 1).2.cmd_r2t_list
      = [{ offset := 0xFFF00000, xfer_len := 0x100000, recovery_r2t := 0, r2t_sn := 0 }]
    ∧ (iscsit_build_r2ts_for_cmd { MaxBurstLength := 0x100000, MaxOutstandingR2T := 1 }
        { data_length := 0xFFFFFFFF, write_data_done := 0xFFF00000 } 0 1).1 = 0
    ∧ (iscsit_build_r2ts_for_cmd { MaxBurstLength := 0x100000, MaxOutstandingR2T := 1 }
        { data_length := 0xFFFFFFFF, write_data_done := 0xFFF00000 } 0 1).2.r2t_offset = 0
    ∧ (iscsit_build_r2ts_for_cmd { MaxBurstLength := 0x100000, MaxOutstandingR2T := 1 }
        { data_length := 0xFFFFFFFF, write_data_done := 0xFFF00000 } 0 1).2.cmd_flags.ICF_SENT_LAST_R2T
      = false
    ∧ min 0x100000 (0xFFFFFFFF - 0xFFF00000) = 0xFFFFF
    ∧ ¬ (0xFFF00000 + 0x100000 ≤ 0xFFFFFFFF) := by
  refine ⟨by decide, by decide, by decide, by decide, by decide, by decide⟩

theorem build_r2ts_compute_flag (ops : iscsi_sess_ops) (type : Nat) (first_r2t : Bool)
    (cmd c2 : iscsi_cmd) (offset xfer_len : Nat)
    (hf : cmd.cmd_flags.ICF_SENT_LAST_R2T = false)
    (h : iscsit_build_r2ts_compute ops type first_r2t cmd = some (offset, xfer_len, c2)) :
    (c2.cmd_flags.ICF_SENT_LAST_R2T = true ↔ r2t_last_reached ops c2) := by
  unfold iscsit_build_r2ts_compute at h
  unfold r2t_last_reached
  split at h
  · rename_i hio
    simp only [Option.some.injEq, Prod.mk.injEq] at h
    obtain ⟨_, _, rfl⟩ := h
    simp only [hio, if_true]
    split <;> rename_i hc <;> simp [hc, hf]
  · rename_i hio
    unfold iscsit_get_seq_holder_for_r2t at h
    split at h
    · simp at h
    · rename_i seq c3 hs
      split at hs
      · simp at hs
      · simp only [Option.some.injEq, Prod.mk.injEq] at hs h
        obtain ⟨_, rfl⟩ := hs
        obtain ⟨_, _, rfl⟩ := h
        simp only [hio]
        split <;> rename_i hc <;> simp [hc, hf]

theorem build_r2ts_body_flag_ok (ops : iscsi_sess_ops) (type : Nat)
    (first_r2t alloc_ok : Bool) (cmd c2 : iscsi_cmd)
    (hf : cmd.cmd_flags.ICF_SENT_LAST_R2T = false)
    (h : iscsit_build_r2ts_body ops type first_r2t alloc_ok cmd = .ok c2) :
    (c2.cmd_flags.ICF_SENT_LAST_R2T = true ↔ r2t_last_reached ops c2) := by
  unfold iscsit_build_r2ts_body at h
  split at h
  · simp at h
  · rename_i offset xfer_len c3 hc
    have hk := build_r2ts_compute_flag ops type first_r2t cmd c3 offset xfer_len hf hc
    unfold iscsit_add_r2t_to_list at h
    cases alloc_ok
    · simp at h
    · simp only [if_true, Except.ok.injEq] at h
      subst h
      simpa [r2t_last_reached] using hk

theorem build_r2ts_body_flag_error (ops : iscsi_sess_ops) (type : Nat)
    (first_r2t alloc_ok : Bool) (cmd c2 : iscsi_cmd)
    (hf : cmd.cmd_flags.ICF_SENT_LAST_R2T = false)
    (h : iscsit_build_r2ts_body ops type first_r2t alloc_ok cmd = .error c2) :
    c2 = cmd ∨ (c2.outstanding_r2ts = cmd.outstanding_r2ts + 1
      ∧ (c2.cmd_flags.ICF_SENT_LAST_R2T = true ↔ r2t_last_reached ops c2)) := by
  unfold iscsit_build_r2ts_body at h
  split at h
  · simp only [Except.error.injEq] at h
    exact Or.inl h.symm
  · rename_i offset xfer_len c3 hc
    have hk := build_r2ts_compute_flag ops type first_r2t cmd c3 offset xfer_len hf hc
    have hfr := build_r2ts_compute_frame ops type first_r2t cmd c3 offset xfer_len hc
    unfold iscsit_add_r2t_to_list at h
    cases alloc_ok
    · simp only [Bool.false_eq_true, if_false, Except.error.injEq] at h
      subst h
      right
      refine ⟨by simp [hfr.1], ?_⟩
      simpa [r2t_last_reached] using hk
    · simp at h

theorem build_r2ts_loop_flag (ops : iscsi_sess_ops) (type : Nat) :
    ∀ (fuel : Nat) (first_r2t : Bool) (avail : Nat) (cmd : iscsi_cmd),
      cmd.cmd_flags.ICF_SENT_LAST_R2T = false →
      ((iscsit_build_r2ts_loop ops type fuel first_r2t avail cmd).2.outstanding_r2ts
          = cmd.outstanding_r2ts →
        (iscsit_build_r2ts_loop ops type fuel first_r2t avail cmd).2 = cmd)
      ∧ ((iscsit_build_r2ts_loop ops type fuel first_r2t avail cmd).2.outstanding_r2ts
          ≠ cmd.outstanding_r2ts →
        ((iscsit_build_r2ts_loop ops type fuel first_r2t avail cmd).2.cmd_flags.ICF_SENT_LAST_R2T
            = true
          ↔ r2t_last_reached ops
              (iscsit_build_r2ts_loop ops type fuel first_r2t avail cmd).2))
      ∧ cmd.outstanding_r2ts
          ≤ (iscsit_build_r2ts_loop ops type fuel first_r2t avail cmd).2.outstanding_r2ts := by
  intro fuel
  induction fuel with
  | zero =>
    intro first_r2t avail cmd _
    simp [iscsit_build_r2ts_loop]
  | succ n ih =>
    intro first_r2t avail cmd hf
    simp only [iscsit_build_r2ts_loop]
    split
    · split
      · rename_i c2 hb
        rcases build_r2ts_body_flag_error _ _ _ _ _ _ hf hb with rfl | ⟨ho, hk⟩
        · simp
        · refine ⟨fun h => ?_, fun _ => hk, by simp only; omega⟩
          simp only at h; omega
      · rename_i c2 hb
        have ho := (build_r2ts_body_ok _ _ _ _ _ _ hb).1
        have hk := build_r2ts_body_flag_ok _ _ _ _ _ _ hf hb
        split
        · refine ⟨fun h => ?_, fun _ => hk, by simp only; omega⟩
          simp only at h; omega
        · rename_i hnf
          have hnf2 : c2.cmd_flags.ICF_SENT_LAST_R2T = false := by simpa using hnf
          obtain ⟨i1, i2, i3⟩ := ih false (avail - 1) c2 hnf2
          refine ⟨fun h => ?_, fun _ => ?_, by omega⟩
          · omega
          · by_cases heq : (iscsit_build_r2ts_loop ops type n false (avail - 1) c2).2.outstanding_r2ts
                = c2.outstanding_r2ts
            · rw [i1 heq]; exact hk
            · exact i2 heq
    · simp

/-- C5: (1) a call of `iscsit_build_r2ts_for_cmd` on a command that carries
`ICF_SENT_LAST_R2T` returns 0 and leaves the command, hence `r2t_offset`,
`outstanding_r2ts` and the R2T list, unchanged; (2) in a pass of the loop on
a command without the flag, the flag is set exactly when the R2T just
computed brings `r2t_offset` to `data_length` (DataSequenceInOrder=Yes) or
`seq_send_order` to `seq_count` (DataSequenceInOrder=No); (3) a pass that
leaves the flag set ends the loop with return value 0, its R2T being the only
record appended by that pass, so no further R2T follows; (4) for the whole
call on a command without the flag: the flag is set afterwards exactly when
the call computed at least one R2T and the last one reached the end. -/
theorem c5_sent_last_r2t (ops : iscsi_sess_ops) (type avail : Nat) (cmd : iscsi_cmd) :
    (cmd.cmd_flags.ICF_SENT_LAST_R2T = true →
        iscsit_build_r2ts_for_cmd ops cmd type avail = (0, cmd))
    ∧ (cmd.cmd_flags.ICF_SENT_LAST_R2T = false →
        ∀ (first_r2t : Bool) (offset xfer_len : Nat) (c2 : iscsi_cmd),
          iscsit_build_r2ts_compute ops type first_r2t cmd = some (offset, xfer_len, c2) →
          (c2.cmd_flags.ICF_SENT_LAST_R2T = true ↔ r2t_last_reached ops c2))
    ∧ (∀ (fuel : Nat) (first_r2t : Bool) (c2 : iscsi_cmd),
          cmd.outstanding_r2ts < ops.MaxOutstandingR2T →
          iscsit_build_r2ts_body ops type first_r2t (decide (0 < avail)) cmd = .ok c2 →
          c2.cmd_flags.ICF_SENT_LAST_R2T = true →
          iscsit_build_r2ts_loop ops type (fuel + 1) first_r2t avail cmd = (0, c2)
          ∧ ∃ r, c2.cmd_r2t_list = cmd.cmd_r2t_list ++ [r])
    ∧ (cmd.cmd_flags.ICF_SENT_LAST_R2T = false →
        ((iscsit_build_r2ts_for_cmd ops cmd type avail).2.cmd_flags.ICF_SENT_LAST_R2T = true
          ↔ (iscsit_build_r2ts_for_cmd ops cmd type avail).2.outstanding_r2ts
                ≠ cmd.outstanding_r2ts
            ∧ r2t_last_reached ops (iscsit_build_r2ts_for_cmd ops cmd type avail).2)) := by
  refine ⟨?_, ?_, ?_, ?_⟩
  · intro hf
    simp [iscsit_build_r2ts_for_cmd, hf]
  · intro hf first_r2t offset xfer_len c2 hc
    exact build_r2ts_compute_flag ops type first_r2t cmd c2 offset xfer_len hf hc
  · intro fuel first_r2t c2 hlt hb hfl
    refine ⟨?_, (build_r2ts_body_ok _ _ _ _ _ _ hb).2⟩
    simp [iscsit_build_r2ts_loop, hlt, hb, hfl]
  · intro hf
    have key : ∀ c : iscsi_cmd, c.cmd_flags.ICF_SENT_LAST_R2T = false →
        c.outstanding_r2ts = cmd.outstanding_r2ts →
        ((iscsit_build_r2ts_loop ops type (ops.MaxOutstandingR2T - c.outstanding_r2ts)
              true avail c).2.cmd_flags.ICF_SENT_LAST_R2T = true
          ↔ (iscsit_build_r2ts_loop ops type (ops.MaxOutstandingR2T - c.outstanding_r2ts)
              true avail c).2.outstanding_r2ts ≠ cmd.outstanding_r2ts
            ∧ r2t_last_reached ops
                (iscsit_build_r2ts_loop ops type (ops.MaxOutstandingR2T - c.outstanding_r2ts)
                  true avail c).2) := by
      intro c hcf hco
      obtain ⟨i1, i2, _⟩ := build_r2ts_loop_flag ops type
        (ops.MaxOutstandingR2T - c.outstanding_r2ts) true avail c hcf
      rw [← hco]
      constructor
      · intro hfl
        by_cases heq : (iscsit_build_r2ts_loop ops type
            (ops.MaxOutstandingR2T - c.outstanding_r2ts) true avail c).2.outstanding_r2ts
              = c.outstanding_r2ts
        · rw [i1 heq] at hfl; rw [hcf] at hfl; cases hfl
        · exact ⟨heq, (i2 heq).mp hfl⟩
      · rintro ⟨hne, hr⟩
        exact (i2 hne).mpr hr
    unfold iscsit_build_r2ts_for_cmd
    simp only [hf, Bool.false_eq_true, if_false]
    split
    · split
      · exact key { cmd with r2t_offset := cmd.write_data_done } hf rfl
      · exact key cmd hf rfl
    · exact key cmd hf rfl

/-- C5 (witness): a 4096-byte WRITE under the default parameters gets its
single R2T, which reaches `data_length`, so the flag is set; a second call
then changes nothing. -/
theorem c5_sent_last_r2t_witness :
    (iscsit_build_r2ts_for_cmd {} { data_length := 4096 } 0 1).2.cmd_flags.ICF_SENT_LAST_R2T
      = true
    ∧ iscsit_build_r2ts_for_cmd {}
        (iscsit_build_r2ts_for_cmd {} { data_length := 4096 } 0 1).2 0 1
      = (0, (iscsit_build_r2ts_for_cmd {} { data_length := 4096 } 0 1).2) := by
  have hfl : (iscsit_build_r2ts_for_cmd {} { data_length := 4096 } 0
      1).2.cmd_flags.ICF_SENT_LAST_R2T = true := by decide
  exact ⟨hfl, (c5_sent_last_r2t {} 0 1
    (iscsit_build_r2ts_for_cmd {} { data_length := 4096 } 0 1).2).1 hfl⟩

/-! ### From the header checks to the sequencing stage -/

@[simp] theorem nop_out_cmd_fields_opcode (c : iscsi_cmd) (hdr : iscsi_nopout) :
    (nop_out_cmd_fields c hdr).iscsi_opcode = .ISCSI_OP_NOOP_OUT := rfl
@[simp] theorem nop_out_cmd_fields_i_state (c : iscsi_cmd) (hdr : iscsi_nopout) :
    (nop_out_cmd_fields c hdr).i_state = .ISTATE_SEND_NOPIN := rfl
@[simp] theorem nop_out_cmd_fields_has_conn (c : iscsi_cmd) (hdr : iscsi_nopout) :
    (nop_out_cmd_fields c hdr).has_conn = c.has_conn := rfl
@[simp] theorem tm_cmd_fields_opcode (c : iscsi_cmd) (hdr : iscsi_tm) :
    (tm_cmd_fields c hdr).iscsi_opcode = .ISCSI_OP_SCSI_TMFUNC := rfl
@[simp] theorem tm_cmd_fields_i_state (c : iscsi_cmd) (hdr : iscsi_tm) :
    (tm_cmd_fields c hdr).i_state = .ISTATE_SEND_TASKMGTRSP := rfl
@[simp] theorem tm_cmd_fields_has_conn (c : iscsi_cmd) (hdr : iscsi_tm) :
    (tm_cmd_fields c hdr).has_conn = c.has_conn := rfl
@[simp] theorem text_cmd_fields_opcode (c : iscsi_cmd) (hdr : iscsi_text) :
    (text_cmd_fields c hdr).iscsi_opcode = .ISCSI_OP_TEXT := rfl
@[simp] theorem text_cmd_fields_i_state (c : iscsi_cmd) (hdr : iscsi_text) :
    (text_cmd_fields c hdr).i_state = .ISTATE_SEND_TEXTRSP := rfl
@[simp] theorem text_cmd_fields_has_conn (c : iscsi_cmd) (hdr : iscsi_text) :
    (text_cmd_fields c hdr).has_conn = c.has_conn := rfl
@[simp] theorem logout_cmd_fields_opcode (c : iscsi_cmd) (hdr : iscsi_logout) :
    (logout_cmd_fields c hdr).iscsi_opcode = .ISCSI_OP_LOGOUT := rfl
@[simp] theorem logout_cmd_fields_i_state (c : iscsi_cmd) (hdr : iscsi_logout) :
    (logout_cmd_fields c hdr).i_state = .ISTATE_SEND_LOGOUTRSP := rfl
@[simp] theorem logout_cmd_fields_has_conn (c : iscsi_cmd) (hdr : iscsi_logout) :
    (logout_cmd_fields c hdr).has_conn = c.has_conn := rfl
@[simp] theorem scsi_cmd_fields_opcode (c : iscsi_cmd) (hdr : iscsi_scsi_req) (t : Nat) :
    (scsi_cmd_fields c hdr t).iscsi_opcode = .ISCSI_OP_SCSI_CMD := rfl
@[simp] theorem scsi_cmd_fields_i_state (c : iscsi_cmd) (hdr : iscsi_scsi_req) (t : Nat) :
    (scsi_cmd_fields c hdr t).i_state = .ISTATE_NEW_CMD := rfl
@[simp] theorem scsi_cmd_fields_has_conn (c : iscsi_cmd) (hdr : iscsi_scsi_req) (t : Nat) :
    (scsi_cmd_fields c hdr t).has_conn = c.has_conn := rfl

theorem early_exit_reject (reason : reject_reason) (f : Bool) (conn : iscsi_conn) (e : env) :
    early_exit conn (iscsit_add_reject reason f conn e) :=
  ⟨(add_reject_calls reason f conn e).1, (add_reject_calls reason f conn e).2,
    add_reject_attached reason f conn e⟩

theorem early_exit_same (conn : iscsi_conn) (r : outcome)
    (h1 : cmdsn_checks r.conn.calls = cmdsn_checks conn.calls)
    (h2 : expstatsn_acks r.conn.calls = expstatsn_acks conn.calls)
    (h3 : r.conn.conn_cmd_list = conn.conn_cmd_list) : early_exit conn r :=
  ⟨h1, h2, Or.inl h3⟩

theorem early_exit_reject_from_cmd (reason : reject_reason) (f a : Bool)
    (conn c1 : iscsi_conn) (e : env)
    (h1 : cmdsn_checks c1.calls = cmdsn_checks conn.calls)
    (h2 : expstatsn_acks c1.calls = expstatsn_acks conn.calls)
    (hc : (c1.cmd conn.cmd_pool.length).has_conn = true)
    (hlt : conn.cmd_pool.length < c1.cmd_pool.length) :
    early_exit conn (iscsit_add_reject_from_cmd reason f a c1 conn.cmd_pool.length e) := by
  refine ⟨?_, ?_, Or.inr ?_⟩
  · rw [(add_reject_from_cmd_calls reason f a c1 _ e).1, h1]
  · rw [(add_reject_from_cmd_calls reason f a c1 _ e).2, h2]
  · exact (add_reject_from_cmd_effect reason f a c1 _ e hc hlt).1

/-- Noting a call that is neither a CmdSN check nor an acknowledgement does
not matter to `early_exit`. -/
theorem early_exit_of_note (conn : iscsi_conn) (x : call) (r : outcome)
    (hx1 : cmdsn_checks [x] = []) (hx2 : expstatsn_acks [x] = [])
    (h : early_exit (conn.note x) r) : early_exit conn r := by
  obtain ⟨h1, h2, h3⟩ := h
  refine ⟨?_, ?_, ?_⟩
  · rw [h1]; simp only [note_calls, cmdsn_checks_append, hx1, List.append_nil]
  · rw [h2]; simp only [note_calls, expstatsn_acks_append, hx2, List.append_nil]
  · simpa using h3

theorem armed_of_note (conn c1 : iscsi_conn) (x : call) (op : iscsi_opcode) (st : istate)
    (hx1 : cmdsn_checks [x] = []) (hx2 : expstatsn_acks [x] = [])
    (h : armed (conn.note x) c1 op st) : armed conn c1 op st := by
  obtain ⟨h1, h2, h3, h4, h5, h6, h7, h8, h9, h10⟩ := h
  refine ⟨by simpa using h1, ?_, ?_, by simpa using h4, by simpa using h5,
    by simpa using h6, by simpa using h7, by simpa using h8, by simpa using h9,
    by simpa using h10⟩
  · rw [h2]; simp only [note_calls, cmdsn_checks_append, hx1, List.append_nil]
  · rw [h3]; simp only [note_calls, expstatsn_acks_append, hx2, List.append_nil]

theorem text_cmd_sequence_stages (conn : iscsi_conn) (hdr : iscsi_text) (e : env) :
    early_exit conn (iscsit_handle_text_cmd_sequence conn hdr e)
    ∨ ∃ c1, armed conn c1 .ISCSI_OP_TEXT .ISTATE_SEND_TEXTRSP
        ∧ iscsit_handle_text_cmd_sequence conn hdr e
          = iscsit_handle_text_cmd_attach c1 conn.cmd_pool.length hdr e := by
  unfold iscsit_handle_text_cmd_sequence iscsit_allocate_cmd
  cases e.alloc_cmd
  · exact Or.inl (early_exit_reject _ _ _ _)
  · refine Or.inr ⟨_, ?_, rfl⟩
    refine ⟨by simp, by simp, by simp, by simp, by simp, by simp, by simp, ?_, ?_, ?_⟩ <;>
      simp [set_cmd_cmd_same]

theorem text_cmd_stages (conn : iscsi_conn) (hdr : iscsi_text) (e : env) :
    early_exit conn (iscsit_handle_text_cmd conn hdr e)
    ∨ ∃ c1, armed conn c1 .ISCSI_OP_TEXT .ISTATE_SEND_TEXTRSP
        ∧ iscsit_handle_text_cmd conn hdr e
          = iscsit_handle_text_cmd_attach c1 conn.cmd_pool.length hdr e := by
  unfold iscsit_handle_text_cmd
  have hn : ∀ (ret : Int) (x : Nat),
      early_exit conn ⟨ret, conn.note (.rx_data x)⟩ := by
    intro ret x
    apply early_exit_same <;> simp
  split
  · exact Or.inl (early_exit_reject _ _ _ _)
  · split
    · split
      · exact Or.inl (early_exit_same _ _ rfl rfl rfl)
      · split
        · exact Or.inl (hn _ _)
        · split
          · split
            · exact Or.inl (hn _ _)
            · exact Or.inl (hn _ _)
          · split
            · exact Or.inl (hn _ _)
            · rcases text_cmd_sequence_stages (conn.note (.rx_data
                  (data_rx_size conn.conn_ops.DataDigest hdr.dlength))) hdr e
                with h | ⟨c1, h1, h2⟩
              · exact Or.inl (early_exit_of_note conn (.rx_data _) _ rfl rfl h)
              · exact Or.inr ⟨c1, armed_of_note conn c1 (.rx_data _) _ _ rfl rfl h1, h2⟩
    · exact text_cmd_sequence_stages conn hdr e

theorem logout_cmd_stages (conn : iscsi_conn) (hdr : iscsi_logout) (e : env) :
    early_exit conn (iscsit_handle_logout_cmd conn hdr e)
    ∨ ∃ c1, armed conn c1 .ISCSI_OP_LOGOUT .ISTATE_SEND_LOGOUTRSP
        ∧ iscsit_handle_logout_cmd conn hdr e
          = iscsit_handle_logout_cmd_attach c1 conn.cmd_pool.length hdr e := by
  unfold iscsit_handle_logout_cmd iscsit_allocate_cmd
  split
  · exact Or.inl (early_exit_same _ _ rfl rfl rfl)
  · cases e.alloc_cmd
    · exact Or.inl (early_exit_reject _ _ _ _)
    · refine Or.inr ⟨_, ?_, rfl⟩
      refine ⟨by simp, by simp, by simp, by simp, by simp, by simp, by simp, ?_, ?_, ?_⟩ <;>
        simp [set_cmd_cmd_same]

theorem task_mgt_cmd_stages (conn : iscsi_conn) (hdr : iscsi_tm) (e : env) :
    early_exit conn (iscsit_handle_task_mgt_cmd conn hdr e)
    ∨ ∃ c1 ct, armed conn c1 .ISCSI_OP_SCSI_TMFUNC .ISTATE_SEND_TASKMGTRSP
        ∧ iscsit_handle_task_mgt_cmd conn hdr e
          = iscsit_handle_task_mgt_cmd_attach c1 conn.cmd_pool.length hdr e ct := by
  unfold iscsit_handle_task_mgt_cmd iscsit_allocate_cmd
  split
  · exact Or.inl (early_exit_reject _ _ _ _)
  · cases e.alloc_cmd
    · exact Or.inl (early_exit_reject _ _ _ _)
    · simp only [if_true]
      split
      · left
        apply early_exit_reject_from_cmd
        · simp
        · simp
        · simp [set_cmd_cmd_same]
        · simp
      · rename_i ct _
        refine Or.inr ⟨_, ct, ?_, rfl⟩
        refine ⟨by simp, by simp, by simp, by simp, by simp, by simp, by simp, ?_, ?_, ?_⟩ <;>
          simp [set_cmd_cmd_same]

theorem nop_out_stages (conn : iscsi_conn) (hdr : iscsi_nopout) (e : env) :
    early_exit conn (iscsit_handle_nop_out conn hdr e)
    ∨ ∃ c1, armed conn c1 .ISCSI_OP_NOOP_OUT .ISTATE_SEND_NOPIN
        ∧ iscsit_handle_nop_out conn hdr e
          = iscsit_handle_nop_out_attach c1 conn.cmd_pool.length hdr e := by
  have hout : ∀ (c : iscsi_conn) (o : Option Nat) (ret : Int),
      cmdsn_checks c.calls = cmdsn_checks conn.calls →
      expstatsn_acks c.calls = expstatsn_acks conn.calls →
      c.conn_cmd_list = conn.conn_cmd_list →
      early_exit conn (iscsit_handle_nop_out_out c o ret) := by
    intro c o ret h1 h2 h3
    cases o <;> apply early_exit_same <;> simp [iscsit_handle_nop_out_out, h1, h2, h3]
  have hseq : ∀ c : iscsi_conn, armed conn c .ISCSI_OP_NOOP_OUT .ISTATE_SEND_NOPIN →
      (early_exit conn (iscsit_handle_nop_out_sequence c hdr (some conn.cmd_pool.length) e)
        ∨ ∃ c1, armed conn c1 .ISCSI_OP_NOOP_OUT .ISTATE_SEND_NOPIN
            ∧ iscsit_handle_nop_out_sequence c hdr (some conn.cmd_pool.length) e
              = iscsit_handle_nop_out_attach c1 conn.cmd_pool.length hdr e) := by
    intro c hc
    unfold iscsit_handle_nop_out_sequence
    split
    · exact Or.inr ⟨c, hc, rfl⟩
    · left
      split
      · split
        · exact early_exit_same _ _ hc.2.1 hc.2.2.1 hc.2.2.2.1
        · apply early_exit_same <;> simp [hc.2.1, hc.2.2.1, hc.2.2.2.1]
      · exact hout _ _ _ hc.2.1 hc.2.2.1 hc.2.2.2.1
  unfold iscsit_handle_nop_out iscsit_allocate_cmd
  split
  · exact Or.inl (early_exit_reject _ _ _ _)
  · split
    · exact Or.inl (early_exit_reject _ _ _ _)
    · split
      · cases e.alloc_cmd
        · exact Or.inl (early_exit_reject _ _ _ _)
        · simp only [if_true]
          have harm : armed conn
              (((conn.push_cmd {}).set_cmd conn.cmd_pool.length
                (nop_out_cmd_fields ((conn.push_cmd {}).cmd conn.cmd_pool.length)
                  hdr)).set_sess_init_task_tag hdr.itt)
              .ISCSI_OP_NOOP_OUT .ISTATE_SEND_NOPIN := by
            refine ⟨by simp, by simp, by simp, by simp, by simp, by simp, by simp,
              ?_, ?_, ?_⟩ <;> simp [set_cmd_cmd_same]
          split
          · unfold iscsit_handle_nop_out_ping
            split
            · exact Or.inl (hout _ _ _ harm.2.1 harm.2.2.1 harm.2.2.2.1)
            · split
              · exact Or.inl (hout _ _ _ (by simp) (by simp) (by simp))
              · split
                · split
                  · exact Or.inl (hout _ _ _ (by simp) (by simp) (by simp))
                  · exact Or.inl (hout _ _ _ (by simp) (by simp) (by simp))
                · apply hseq
                  obtain ⟨h1, h2, h3, h4, h5, h6, h7, h8, h9, h10⟩ := harm
                  refine ⟨by simpa using h1, by simpa using h2, by simpa using h3,
                    by simpa using h4, by simpa using h5, by simpa using h6,
                    by simpa using h7, ?_, ?_, ?_⟩ <;>
                    simp [cmd_set_cmd, h8, h9, h10]
          · exact hseq _ harm
      · left
        unfold iscsit_handle_nop_out_sequence
        split
        · exact early_exit_same _ _ rfl rfl rfl
        · split <;> apply early_exit_same <;> simp

@[simp] theorem se_cmd_new_has_conn (d : Nat) (dir : dma_data_direction) (a : Nat) :
    (se_cmd_new d dir a).has_conn = true := rfl
@[simp] theorem scsi_cmd_fields_immediate_data (c : iscsi_cmd) (hdr : iscsi_scsi_req)
    (t : Nat) : (scsi_cmd_fields c hdr t).immediate_data = decide (hdr.dlength ≠ 0) := rfl
@[simp] theorem scsi_cmd_fields_write_data_done (c : iscsi_cmd) (hdr : iscsi_scsi_req)
    (t : Nat) : (scsi_cmd_fields c hdr t).write_data_done = c.write_data_done := rfl
@[simp] theorem scsi_cmd_fields_data_length (c : iscsi_cmd) (hdr : iscsi_scsi_req)
    (t : Nat) : (scsi_cmd_fields c hdr t).data_length = c.data_length := rfl
@[simp] theorem scsi_cmd_fields_got_last (c : iscsi_cmd) (hdr : iscsi_scsi_req)
    (t : Nat) : (scsi_cmd_fields c hdr t).cmd_flags.ICF_GOT_LAST_DATAOUT
      = c.cmd_flags.ICF_GOT_LAST_DATAOUT := rfl

theorem scsi_cmd_init_frame (conn : iscsi_conn) (hdr : iscsi_scsi_req)
    (c : iscsi_cmd) (hc : c.has_conn = true) (hw : c.write_data_done = 0)
    (hl : c.data_length = hdr.data_length) (hg : c.cmd_flags.ICF_GOT_LAST_DATAOUT = false) :
    armed conn (iscsit_handle_scsi_cmd_init (conn.push_cmd c) conn.cmd_pool.length hdr)
      .ISCSI_OP_SCSI_CMD .ISTATE_NEW_CMD
    ∧ scsi_cmd_fresh (iscsit_handle_scsi_cmd_init (conn.push_cmd c) conn.cmd_pool.length hdr)
        conn.cmd_pool.length hdr
    ∧ (iscsit_handle_scsi_cmd_init (conn.push_cmd c) conn.cmd_pool.length hdr).conn_ops
        = conn.conn_ops
    ∧ (iscsit_handle_scsi_cmd_init (conn.push_cmd c) conn.cmd_pool.length hdr).sess_ops
        = conn.sess_ops := by
  unfold iscsit_handle_scsi_cmd_init scsi_cmd_fresh armed
  cases hdr.flag_read <;> simp [set_cmd_cmd_same, hc, hw, hl, hg]

theorem scsi_cmd_stages (conn : iscsi_conn) (hdr : iscsi_scsi_req) (e : env) :
    early_exit conn (iscsit_handle_scsi_cmd conn hdr e)
    ∨ ∃ c1 hdr2 scc, armed conn c1 .ISCSI_OP_SCSI_CMD .ISTATE_NEW_CMD
        ∧ iscsit_handle_scsi_cmd_validate conn hdr = .ok hdr2
        ∧ scsi_cmd_fresh c1 conn.cmd_pool.length hdr2
        ∧ c1.conn_ops = conn.conn_ops ∧ c1.sess_ops = conn.sess_ops
        ∧ (scc = false → e.get_lun = .lun_ok ∧ e.allocate_tasks = .tasks_ok
            ∧ ¬ e.decide_list < 0)
        ∧ (scc = true → e.get_lun = .lun_failed ∨ e.allocate_tasks = .tasks_einval)
        ∧ iscsit_handle_scsi_cmd conn hdr e
          = iscsit_handle_scsi_cmd_attach c1 conn.cmd_pool.length hdr2 e scc := by
  unfold iscsit_handle_scsi_cmd
  split
  · exact Or.inl (early_exit_reject _ _ _ _)
  · rename_i hdr2 hv
    unfold iscsit_handle_scsi_cmd_setup iscsit_allocate_se_cmd
    cases ha : e.alloc_cmd
    · exact Or.inl (early_exit_reject _ _ _ _)
    · simp only [if_true]
      obtain ⟨harm, hfresh, hco, hso⟩ := scsi_cmd_init_frame conn hdr2
        (se_cmd_new hdr2.data_length (scsi_data_direction hdr2) hdr2.attr) rfl rfl rfl rfl
      have hrej : ∀ reason : reject_reason,
          early_exit conn
            (iscsit_add_reject_from_cmd reason true true
              (iscsit_handle_scsi_cmd_init
                (conn.push_cmd (se_cmd_new hdr2.data_length (scsi_data_direction hdr2)
                  hdr2.attr)) conn.cmd_pool.length hdr2)
              conn.cmd_pool.length e) := by
        intro reason
        exact early_exit_reject_from_cmd _ _ _ _ _ _ harm.2.1 harm.2.2.1
          harm.2.2.2.2.2.2.2.1 (by have := harm.1; omega)
      unfold iscsit_handle_scsi_cmd_lookup
      split
      · exact Or.inl (hrej _)
      · split
        · exact Or.inl (hrej _)
        · rename_i hlun
          exact Or.inr ⟨_, hdr2, true, harm, hv, hfresh, hco, hso,
            (fun hx => Bool.noConfusion hx), (fun _ => Or.inl hlun), rfl⟩
        · rename_i hlun
          split
          · exact Or.inl (hrej _)
          · rename_i htk
            exact Or.inr ⟨_, hdr2, true, harm, hv, hfresh, hco, hso,
              (fun hx => Bool.noConfusion hx), (fun _ => Or.inr htk), rfl⟩
          · rename_i htk
            split
            · exact Or.inl (hrej _)
            · rename_i hdl
              exact Or.inr ⟨_, hdr2, false, harm, hv, hfresh, hco, hso,
                (fun _ => ⟨hlun, htk, hdl⟩), (fun hx => Bool.noConfusion hx), rfl⟩

/-! ### Data digest failures of NOP-Out and Text -/

/-- C10: when DataDigest is enabled and the digest received with the ping
data of a NOP-Out, or with the data of a Text request, differs from the
computed one (the PDU having passed the earlier checks and its data having
been received), `iscsit_handle_nop_out` / `iscsit_handle_text_cmd` return a
negative value exactly when ErrorRecoveryLevel = 0 and return 0 for every
ErrorRecoveryLevel >= 1; in both cases the connection's command list,
immediate queue and response queue are left as they were, the CmdSN is not
checked and ExpStatSN is not acknowledged. -/
theorem c10_data_digest_mismatch (conn : iscsi_conn) (e : env)
    (hd : conn.conn_ops.DataDigest = true) (hc : e.checksum ≠ e.data_crc)
    (hbuf : e.alloc_data_buf = true) (hrx : e.rx_ok = true) :
    (∀ hdr : iscsi_nopout,
        ¬ (hdr.itt = 0xFFFFFFFF ∧ hdr.immediate = false) →
        hdr.dlength ≤ conn.conn_ops.MaxRecvDataSegmentLength →
        hdr.dlength ≠ 0 → hdr.ttt = 0xFFFFFFFF → e.alloc_cmd = true →
        ((iscsit_handle_nop_out conn hdr e).ret < 0 ↔ conn.sess_ops.ErrorRecoveryLevel = 0)
        ∧ (1 ≤ conn.sess_ops.ErrorRecoveryLevel → (iscsit_handle_nop_out conn hdr e).ret = 0)
        ∧ (iscsit_handle_nop_out conn hdr e).conn.conn_cmd_list = conn.conn_cmd_list
        ∧ (iscsit_handle_nop_out conn hdr e).conn.immed_queue = conn.immed_queue
        ∧ (iscsit_handle_nop_out conn hdr e).conn.response_queue = conn.response_queue
        ∧ cmdsn_checks (iscsit_handle_nop_out conn hdr e).conn.calls = cmdsn_checks conn.calls
        ∧ expstatsn_acks (iscsit_handle_nop_out conn hdr e).conn.calls
            = expstatsn_acks conn.calls)
    ∧ (∀ hdr : iscsi_text,
        hdr.dlength ≤ conn.conn_ops.MaxRecvDataSegmentLength →
        hdr.dlength ≠ 0 →
        ((iscsit_handle_text_cmd conn hdr e).ret < 0 ↔ conn.sess_ops.ErrorRecoveryLevel = 0)
        ∧ (1 ≤ conn.sess_ops.ErrorRecoveryLevel → (iscsit_handle_text_cmd conn hdr e).ret = 0)
        ∧ (iscsit_handle_text_cmd conn hdr e).conn.conn_cmd_list = conn.conn_cmd_list
        ∧ (iscsit_handle_text_cmd conn hdr e).conn.immed_queue = conn.immed_queue
        ∧ (iscsit_handle_text_cmd conn hdr e).conn.response_queue = conn.response_queue
        ∧ cmdsn_checks (iscsit_handle_text_cmd conn hdr e).conn.calls = cmdsn_checks conn.calls
        ∧ expstatsn_acks (iscsit_handle_text_cmd conn hdr e).conn.calls
            = expstatsn_acks conn.calls) := by
  constructor
  · intro hdr h1 h2 h3 h4 h5
    have h1' : (hdr.itt = 0xFFFFFFFF && !hdr.immediate) = false := by
      cases hi : hdr.immediate <;> simp_all
    have h2' : ¬ hdr.dlength > conn.conn_ops.MaxRecvDataSegmentLength := by omega
    unfold iscsit_handle_nop_out
    simp only [h1', h2', h3, h4, h5, iscsit_allocate_cmd, if_true, if_false,
      Bool.false_eq_true, ne_eq, not_false_eq_true]
    unfold iscsit_handle_nop_out_ping
    by_cases herl : conn.sess_ops.ErrorRecoveryLevel = 0
    · simp [hbuf, hrx, hd, hc, herl, iscsit_handle_nop_out_out]
    · simp [hbuf, hrx, hd, hc, herl, iscsit_handle_nop_out_out]
  · intro hdr h2 h3
    have h2' : ¬ hdr.dlength > conn.conn_ops.MaxRecvDataSegmentLength := by omega
    unfold iscsit_handle_text_cmd
    by_cases herl : conn.sess_ops.ErrorRecoveryLevel = 0
    · simp [h2', h3, hbuf, hrx, hd, hc, herl]
    · simp [h2', h3, hbuf, hrx, hd, hc, herl]

/-- C10 (witness): with DataDigest on and digests 1 and 2, a NOP-Out with four
bytes of ping data fails the connection at ErrorRecoveryLevel 0, and a Text
request with four bytes of data is dropped with return value 0 at
ErrorRecoveryLevel 1. -/
theorem c10_data_digest_mismatch_witness :
    (iscsit_handle_nop_out { conn_ops := { DataDigest := true } }
        { itt := 1, dlength := 4 } { checksum := 1, data_crc := 2 }).ret < 0
    ∧ (iscsit_handle_text_cmd
        { conn_ops := { DataDigest := true }, sess_ops := { ErrorRecoveryLevel := 1 } }
        { itt := 1, dlength := 4 } { checksum := 1, data_crc := 2 }).ret = 0 := by
  constructor
  · exact ((c10_data_digest_mismatch { conn_ops := { DataDigest := true } }
      { checksum := 1, data_crc := 2 } rfl (by decide) rfl rfl).1
      { itt := 1, dlength := 4 } (by decide) (by decide) (by decide) rfl rfl).1.mpr rfl
  · exact ((c10_data_digest_mismatch
      { conn_ops := { DataDigest := true }, sess_ops := { ErrorRecoveryLevel := 1 } }
      { checksum := 1, data_crc := 2 } rfl (by decide) rfl rfl).2
      { itt := 1, dlength := 4 } (by decide) (by decide)).2.1 (by decide)


/-! ### Immediate PDUs -/

theorem bypasses_of_early_exit (conn : iscsi_conn) (n : Nat) (r : outcome)
    (h : early_exit conn r) : bypasses_cmdsn_and_acks conn n r := by
  obtain ⟨h1, _, h3⟩ := h
  refine ⟨h1, fun hl hop => ?_⟩
  rcases h3 with h3 | h3
  · rw [h3] at hl; simp at hl
  · exact absurd h3 hop

theorem nop_out_attach_immediate (conn c1 : iscsi_conn) (hdr : iscsi_nopout) (e : env)
    (hi : hdr.immediate = true)
    (ha : armed conn c1 .ISCSI_OP_NOOP_OUT .ISTATE_SEND_NOPIN) :
    bypasses_cmdsn_and_acks conn hdr.exp_statsn
      (iscsit_handle_nop_out_attach c1 conn.cmd_pool.length hdr e) := by
  unfold iscsit_handle_nop_out_attach
  simp only [hi, if_true]
  exact ⟨by simp [ha.2.1], fun _ _ => by simp [ha.2.2.1]⟩

theorem task_mgt_cmd_attach_immediate (conn c1 : iscsi_conn) (hdr : iscsi_tm) (e : env)
    (ct : Bool) (hi : hdr.immediate = true)
    (ha : armed conn c1 .ISCSI_OP_SCSI_TMFUNC .ISTATE_SEND_TASKMGTRSP) :
    bypasses_cmdsn_and_acks conn hdr.exp_statsn
      (iscsit_handle_task_mgt_cmd_attach c1 conn.cmd_pool.length hdr e ct) := by
  unfold iscsit_handle_task_mgt_cmd_attach iscsit_handle_task_mgt_cmd_finish
  simp only [hi, Bool.not_true, Bool.false_eq_true, if_false]
  cases ct <;> exact ⟨by simp [ha.2.1], fun _ _ => by simp [ha.2.2.1]⟩

theorem text_cmd_attach_immediate (conn c1 : iscsi_conn) (hdr : iscsi_text) (e : env)
    (hi : hdr.immediate = true)
    (ha : armed conn c1 .ISCSI_OP_TEXT .ISTATE_SEND_TEXTRSP) :
    bypasses_cmdsn_and_acks conn hdr.exp_statsn
      (iscsit_handle_text_cmd_attach c1 conn.cmd_pool.length hdr e) := by
  unfold iscsit_handle_text_cmd_attach
  simp only [hi, Bool.not_true, Bool.false_eq_true, if_false]
  exact ⟨by simp [ha.2.1], fun _ _ => by simp [ha.2.2.1]⟩

theorem logout_cmd_attach_immediate (conn c1 : iscsi_conn) (hdr : iscsi_logout) (e : env)
    (hi : hdr.immediate = true)
    (ha : armed conn c1 .ISCSI_OP_LOGOUT .ISTATE_SEND_LOGOUTRSP) :
    cmdsn_checks (iscsit_handle_logout_cmd_attach c1 conn.cmd_pool.length hdr e).conn.calls
        = cmdsn_checks conn.calls
    ∧ expstatsn_acks (iscsit_handle_logout_cmd_attach c1 conn.cmd_pool.length hdr e).conn.calls
        = if hdr.reason_code ≠ ISCSI_LOGOUT_REASON_RECOVERY
          then expstatsn_acks conn.calls ++ [hdr.exp_statsn]
          else expstatsn_acks conn.calls := by
  unfold iscsit_handle_logout_cmd_attach
  simp only [hi, Bool.not_true, Bool.false_eq_true, if_false]
  by_cases hr : hdr.reason_code = ISCSI_LOGOUT_REASON_RECOVERY
  · simp only [hr, ne_eq, not_true_eq_false, if_false]
    split <;> simp [ha.2.1, ha.2.2.1]
  · simp only [hr, ne_eq, not_false_eq_true, if_true]
    split <;> simp [ha.2.1, ha.2.2.1]

/-- C9 (counterexample): a Logout PDU with the immediate bit and reason code
2 (remove connection for recovery) is accepted, its command is attached to
the connection's command list, and `iscsit_ack_from_expstatsn` is never
called, although the PDU carries ExpStatSN 7. -/
theorem c9_logout_recovery_not_acked :
    (iscsit_handle_logout_cmd {} { immediate := true, reason_code := 2, exp_statsn := 7 }
        {}).conn.conn_cmd_list = [0]
    ∧ ((iscsit_handle_logout_cmd {} { immediate := true, reason_code := 2, exp_statsn := 7 }
        {}).conn.cmd 0).iscsi_opcode = .ISCSI_OP_LOGOUT
    ∧ expstatsn_acks
        (iscsit_handle_logout_cmd {} { immediate := true, reason_code := 2, exp_statsn := 7 }
          {}).conn.calls = []
    ∧ (iscsit_handle_logout_cmd {} { immediate := true, reason_code := 2, exp_statsn := 7 }
        {}).ret = 0 := by
  refine ⟨by decide, by decide, by decide, by decide⟩

/-- C9 (amended): for every NOP-Out with a valid ITT, Task Management, Text
and Logout PDU whose opcode byte has the immediate bit set, and every value
of the other header fields and of the collaborators' answers, the handler
makes no call of `iscsit_check_received_cmdsn`; and whenever it attaches the
PDU's command to the connection's command list (as a command, not as a
Reject) it has called `iscsit_ack_from_expstatsn` exactly once, with the
PDU's ExpStatSN, except for a Logout with reason code 2 (remove connection
for recovery), for which no acknowledgement is made. -/
theorem c9_immediate_bypasses_cmdsn (conn : iscsi_conn) (e : env) :
    (∀ hdr : iscsi_nopout, hdr.immediate = true → hdr.itt ≠ 0xFFFFFFFF →
        bypasses_cmdsn_and_acks conn hdr.exp_statsn (iscsit_handle_nop_out conn hdr e))
    ∧ (∀ hdr : iscsi_tm, hdr.immediate = true →
        bypasses_cmdsn_and_acks conn hdr.exp_statsn (iscsit_handle_task_mgt_cmd conn hdr e))
    ∧ (∀ hdr : iscsi_text, hdr.immediate = true →
        bypasses_cmdsn_and_acks conn hdr.exp_statsn (iscsit_handle_text_cmd conn hdr e))
    ∧ (∀ hdr : iscsi_logout, hdr.immediate = true →
        (hdr.reason_code ≠ ISCSI_LOGOUT_REASON_RECOVERY →
          bypasses_cmdsn_and_acks conn hdr.exp_statsn
            (iscsit_handle_logout_cmd conn hdr e))
        ∧ (hdr.reason_code = ISCSI_LOGOUT_REASON_RECOVERY →
          cmdsn_checks (iscsit_handle_logout_cmd conn hdr e).conn.calls
              = cmdsn_checks conn.calls
          ∧ expstatsn_acks (iscsit_handle_logout_cmd conn hdr e).conn.calls
              = expstatsn_acks conn.calls)) := by
  refine ⟨?_, ?_, ?_, ?_⟩
  · intro hdr hi _
    rcases nop_out_stages conn hdr e with h | ⟨c1, ha, heq⟩
    · exact bypasses_of_early_exit _ _ _ h
    · rw [heq]; exact nop_out_attach_immediate conn c1 hdr e hi ha
  · intro hdr hi
    rcases task_mgt_cmd_stages conn hdr e with h | ⟨c1, ct, ha, heq⟩
    · exact bypasses_of_early_exit _ _ _ h
    · rw [heq]; exact task_mgt_cmd_attach_immediate conn c1 hdr e ct hi ha
  · intro hdr hi
    rcases text_cmd_stages conn hdr e with h | ⟨c1, ha, heq⟩
    · exact bypasses_of_early_exit _ _ _ h
    · rw [heq]; exact text_cmd_attach_immediate conn c1 hdr e hi ha
  · intro hdr hi
    rcases logout_cmd_stages conn hdr e with h | ⟨c1, ha, heq⟩
    · exact ⟨fun _ => bypasses_of_early_exit _ _ _ h, fun _ => ⟨h.1, h.2.1⟩⟩
    · rw [heq]
      obtain ⟨h1, h2⟩ := logout_cmd_attach_immediate conn c1 hdr e hi ha
      constructor
      · intro hr
        rw [if_pos hr] at h2
        exact ⟨h1, fun _ _ => h2⟩
      · intro hr
        rw [if_neg (by simp [hr])] at h2
        exact ⟨h1, h2⟩

/-- C9 (witness): an immediate NOP-Out ping with ITT 5 and ExpStatSN 9 on a
fresh connection is answered without a CmdSN check and after one
acknowledgement of ExpStatSN 9. -/
theorem c9_immediate_bypasses_cmdsn_witness :
    cmdsn_checks (iscsit_handle_nop_out {} { immediate := true, itt := 5, exp_statsn := 9 }
        {}).conn.calls = []
    ∧ expstatsn_acks (iscsit_handle_nop_out {} { immediate := true, itt := 5, exp_statsn := 9 }
        {}).conn.calls = [9] := by
  have h := (c9_immediate_bypasses_cmdsn {} {}).1
    { immediate := true, itt := 5, exp_statsn := 9 } rfl (by decide)
  exact ⟨h.1, h.2 (by decide) (by decide)⟩

/-! ### CmdSN verdicts LOWER_THAN_EXP and ERROR_CANNOT_RECOVER -/

@[simp] theorem retire_cmd_response_queue (c : iscsi_conn) (h : Nat) :
    (retire_cmd c h).response_queue = c.response_queue := rfl
@[simp] theorem retire_cmd_calls (c : iscsi_conn) (h : Nat) :
    (retire_cmd c h).calls = c.calls := rfl
@[simp] theorem retire_cmd_conn_cmd_list (c : iscsi_conn) (h : Nat) :
    (retire_cmd c h).conn_cmd_list = c.conn_cmd_list := rfl
@[simp] theorem retire_cmd_pool_length (c : iscsi_conn) (h : Nat) :
    (retire_cmd c h).cmd_pool.length = c.cmd_pool.length := by
  simp [retire_cmd]

theorem retire_cmd_immed_queue (c : iscsi_conn) (h : Nat) (hlt : h < c.cmd_pool.length) :
    (retire_cmd c h).immed_queue = c.immed_queue ++ [⟨h, .ISTATE_REMOVE⟩] := by
  simp [retire_cmd, cmd_set_cmd, hlt]

theorem retire_cmd_cmd (c : iscsi_conn) (h : Nat) (hlt : h < c.cmd_pool.length) :
    (retire_cmd c h).cmd h = { c.cmd h with i_state := .ISTATE_REMOVE } := by
  simp [retire_cmd, cmd_set_cmd, hlt]

theorem retired_of_retire_cmd (conn c : iscsi_conn)
    (hq : c.response_queue = conn.response_queue)
    (hlt : conn.cmd_pool.length < c.cmd_pool.length) :
    retired conn conn.cmd_pool.length ⟨0, retire_cmd c conn.cmd_pool.length⟩ := by
  refine ⟨rfl, by simp [hq], ?_⟩
  simp [retire_cmd_immed_queue c _ hlt]

theorem rejected_fatal_of_reject (conn c : iscsi_conn) (e : env)
    (hq : c.response_queue = conn.response_queue)
    (hlt : conn.cmd_pool.length < c.cmd_pool.length)
    (hc : (c.cmd conn.cmd_pool.length).has_conn = true) :
    rejected_fatal conn conn.cmd_pool.length e
      (iscsit_add_reject_from_cmd .ISCSI_REASON_PROTOCOL_ERROR true false c
        conn.cmd_pool.length e) := by
  obtain ⟨h1, h2, h3, _, h5⟩ := add_reject_from_cmd_effect .ISCSI_REASON_PROTOCOL_ERROR
    true false c conn.cmd_pool.length e hc hlt
  refine ⟨add_reject_from_cmd_fail_conn_ret _ _ _ _ _, h1, h2, h3 rfl, fun hb => ?_⟩
  rw [(h5 hb).1, hq]

/-- The state of the PDU's command is untouched by the acknowledgement of
ExpStatSN as long as the command is not in state SENT_STATUS. -/
theorem ack_cmd_armed (conn c1 : iscsi_conn) (op : iscsi_opcode) (st : istate) (n : Nat)
    (ha : armed conn c1 op st) (hne : st ≠ .ISTATE_SENT_STATUS) :
    (iscsit_ack_from_expstatsn (list_add_tail_cmd c1 conn.cmd_pool.length) n).cmd
        conn.cmd_pool.length = c1.cmd conn.cmd_pool.length := by
  rw [ack_cmd_of_not_sent]
  · rfl
  · simp only [liat_cmd]
    rw [ha.2.2.2.2.2.2.2.2.2]
    exact hne

theorem nop_out_attach_verdict (conn c1 : iscsi_conn) (hdr : iscsi_nopout) (e : env)
    (ha : armed conn c1 .ISCSI_OP_NOOP_OUT .ISTATE_SEND_NOPIN)
    (hp : cmdsn_checks (iscsit_handle_nop_out_attach c1 conn.cmd_pool.length hdr e).conn.calls
      ≠ cmdsn_checks conn.calls) :
    (e.cmdsn = .CMDSN_LOWER_THAN_EXP →
      retired conn conn.cmd_pool.length
        (iscsit_handle_nop_out_attach c1 conn.cmd_pool.length hdr e))
    ∧ (e.cmdsn = .CMDSN_ERROR_CANNOT_RECOVER →
      rejected_fatal conn conn.cmd_pool.length e
        (iscsit_handle_nop_out_attach c1 conn.cmd_pool.length hdr e)) := by
  have hcmd := ack_cmd_armed conn c1 _ _ hdr.exp_statsn ha (by decide)
  unfold iscsit_handle_nop_out_attach at hp ⊢
  cases hi : hdr.immediate
  · simp only [hi, Bool.false_eq_true, if_false]
    constructor
    · intro hl
      simp only [hl]
      exact retired_of_retire_cmd _ _ (by simp [ha.2.2.2.2.2.1]) (by simp [ha.1])
    · intro hl
      simp only [hl]
      exact rejected_fatal_of_reject _ _ _ (by simp [ha.2.2.2.2.2.1]) (by simp [ha.1])
        (by simp only [note_cmd]; rw [hcmd]; exact ha.2.2.2.2.2.2.2.1)
  · simp [hi, ha.2.1] at hp

theorem task_mgt_cmd_attach_verdict (conn c1 : iscsi_conn) (hdr : iscsi_tm) (e : env)
    (ct : Bool) (ha : armed conn c1 .ISCSI_OP_SCSI_TMFUNC .ISTATE_SEND_TASKMGTRSP)
    (hp : cmdsn_checks
        (iscsit_handle_task_mgt_cmd_attach c1 conn.cmd_pool.length hdr e ct).conn.calls
      ≠ cmdsn_checks conn.calls) :
    (e.cmdsn = .CMDSN_LOWER_THAN_EXP →
      retired conn conn.cmd_pool.length
        (iscsit_handle_task_mgt_cmd_attach c1 conn.cmd_pool.length hdr e ct))
    ∧ (e.cmdsn = .CMDSN_ERROR_CANNOT_RECOVER →
      rejected_fatal conn conn.cmd_pool.length e
        (iscsit_handle_task_mgt_cmd_attach c1 conn.cmd_pool.length hdr e ct)) := by
  unfold iscsit_handle_task_mgt_cmd_attach at hp ⊢
  cases hi : hdr.immediate
  · simp only [hi, Bool.not_false, if_true]
    constructor
    · intro hl
      simp only [hl]
      exact retired_of_retire_cmd _ _ (by simp [ha.2.2.2.2.2.1]) (by simp [ha.1])
    · intro hl
      simp only [hl]
      exact rejected_fatal_of_reject _ _ _ (by simp [ha.2.2.2.2.2.1]) (by simp [ha.1])
        (by simp only [note_cmd, liat_cmd]; exact ha.2.2.2.2.2.2.2.1)
  · exfalso
    apply hp
    simp only [hi, Bool.not_true, Bool.false_eq_true, if_false]
    unfold iscsit_handle_task_mgt_cmd_finish
    cases ct <;> simp [ha.2.1]

theorem text_cmd_attach_verdict (conn c1 : iscsi_conn) (hdr : iscsi_text) (e : env)
    (ha : armed conn c1 .ISCSI_OP_TEXT .ISTATE_SEND_TEXTRSP)
    (hp : cmdsn_checks (iscsit_handle_text_cmd_attach c1 conn.cmd_pool.length hdr e).conn.calls
      ≠ cmdsn_checks conn.calls) :
    (e.cmdsn = .CMDSN_LOWER_THAN_EXP →
      retired conn conn.cmd_pool.length
        (iscsit_handle_text_cmd_attach c1 conn.cmd_pool.length hdr e))
    ∧ (e.cmdsn = .CMDSN_ERROR_CANNOT_RECOVER →
      rejected_fatal conn conn.cmd_pool.length e
        (iscsit_handle_text_cmd_attach c1 conn.cmd_pool.length hdr e)) := by
  have hcmd := ack_cmd_armed conn c1 _ _ hdr.exp_statsn ha (by decide)
  unfold iscsit_handle_text_cmd_attach at hp ⊢
  cases hi : hdr.immediate
  · simp only [hi, Bool.not_false, if_true]
    constructor
    · intro hl
      simp only [hl]
      exact ⟨rfl, by simp [ha.2.2.2.2.2.1], by simp⟩
    · intro hl
      simp only [hl]
      exact rejected_fatal_of_reject _ _ _ (by simp [ha.2.2.2.2.2.1]) (by simp [ha.1])
        (by simp only [note_cmd]; rw [hcmd]; exact ha.2.2.2.2.2.2.2.1)
  · simp [hi, ha.2.1] at hp

theorem logout_cmd_attach_verdict (conn c1 : iscsi_conn) (hdr : iscsi_logout) (e : env)
    (ha : armed conn c1 .ISCSI_OP_LOGOUT .ISTATE_SEND_LOGOUTRSP)
    (hp : cmdsn_checks
        (iscsit_handle_logout_cmd_attach c1 conn.cmd_pool.length hdr e).conn.calls
      ≠ cmdsn_checks conn.calls) :
    (e.cmdsn = .CMDSN_LOWER_THAN_EXP →
      retired conn conn.cmd_pool.length
        (iscsit_handle_logout_cmd_attach c1 conn.cmd_pool.length hdr e))
    ∧ (e.cmdsn = .CMDSN_ERROR_CANNOT_RECOVER →
      rejected_fatal conn conn.cmd_pool.length e
        (iscsit_handle_logout_cmd_attach c1 conn.cmd_pool.length hdr e)) := by
  have hcmd := ack_cmd_armed conn c1 _ _ hdr.exp_statsn ha (by decide)
  unfold iscsit_handle_logout_cmd_attach at hp ⊢
  cases hi : hdr.immediate
  · simp only [hi, Bool.not_false, if_true]
    by_cases hr : hdr.reason_code = ISCSI_LOGOUT_REASON_RECOVERY
    · simp only [hr, ne_eq, not_true_eq_false, if_false]
      constructor
      · intro hl
        simp only [hl]
        exact retired_of_retire_cmd _ _ (by simp [ha.2.2.2.2.2.1]) (by simp [ha.1])
      · intro hl
        simp only [hl]
        exact rejected_fatal_of_reject _ _ _ (by simp [ha.2.2.2.2.2.1]) (by simp [ha.1])
          (by simp only [note_cmd, liat_cmd]; exact ha.2.2.2.2.2.2.2.1)
    · simp only [hr, ne_eq, not_false_eq_true, if_true]
      constructor
      · intro hl
        simp only [hl]
        exact retired_of_retire_cmd _ _ (by simp [ha.2.2.2.2.2.1]) (by simp [ha.1])
      · intro hl
        simp only [hl]
        exact rejected_fatal_of_reject _ _ _ (by simp [ha.2.2.2.2.2.1]) (by simp [ha.1])
          (by simp only [note_cmd]; rw [hcmd]; exact ha.2.2.2.2.2.2.2.1)
  · exfalso
    apply hp
    simp only [hi, Bool.not_true, Bool.false_eq_true, if_false]
    by_cases hr : hdr.reason_code = ISCSI_LOGOUT_REASON_RECOVERY
    · simp only [hr, ne_eq, not_true_eq_false, if_false]
      split <;> simp [ha.2.1]
    · simp only [hr, ne_eq, not_false_eq_true, if_true]
      split <;> simp [ha.2.1]

@[simp] theorem immediate_data_done_has_conn (c : iscsi_cmd) (L : Nat) :
    (immediate_data_done c L).has_conn = c.has_conn := by
  unfold immediate_data_done; split <;> rfl
@[simp] theorem immediate_data_done_data_length (c : iscsi_cmd) (L : Nat) :
    (immediate_data_done c L).data_length = c.data_length := by
  unfold immediate_data_done; split <;> rfl
@[simp] theorem immediate_data_done_write_data_done (c : iscsi_cmd) (L : Nat) :
    (immediate_data_done c L).write_data_done = u32 (c.write_data_done + L) := by
  unfold immediate_data_done; split <;> rfl

@[simp] theorem start_unsolicited_response_queue (c : iscsi_conn) (h : Nat) :
    (start_unsolicited c h).response_queue = c.response_queue := rfl
@[simp] theorem start_unsolicited_pool_length (c : iscsi_conn) (h : Nat) :
    (start_unsolicited c h).cmd_pool.length = c.cmd_pool.length := rfl
@[simp] theorem start_unsolicited_cmd (c : iscsi_conn) (h k : Nat) :
    (start_unsolicited c h).cmd k = c.cmd k := rfl
@[simp] theorem start_unsolicited_calls (c : iscsi_conn) (h : Nat) :
    (start_unsolicited c h).calls
      = c.calls ++ [.set_dataout_sequence_values h] ++ [.start_dataout_timer h] := rfl

theorem handle_immediate_data_frame (c : iscsi_conn) (h L : Nat) (e : env) :
    cmdsn_checks (iscsit_handle_immediate_data c h L e).2.calls = cmdsn_checks c.calls
    ∧ ((iscsit_handle_immediate_data c h L e).1 = .IMMEDIATE_DATA_NORMAL_OPERATION →
        (iscsit_handle_immediate_data c h L e).2.response_queue = c.response_queue
        ∧ (iscsit_handle_immediate_data c h L e).2.cmd_pool.length = c.cmd_pool.length
        ∧ (h < c.cmd_pool.length →
            (iscsit_handle_immediate_data c h L e).2.cmd h
              = immediate_data_done (c.cmd h) L)) := by
  unfold iscsit_handle_immediate_data
  split
  · exact ⟨rfl, fun hx => by cases hx⟩
  · split
    · exact ⟨by simp, fun hx => by cases hx⟩
    · split
      · exact ⟨by simp, fun hx => by cases hx⟩
      · split
        · split
          · exact ⟨by simp [(add_reject_from_cmd_calls _ _ _ _ _ _).1],
              fun hx => by cases hx⟩
          · exact ⟨by simp [(add_reject_from_cmd_calls _ _ _ _ _ _).1],
              fun hx => by cases hx⟩
        · refine ⟨by simp, fun _ => ⟨by simp, by simp, fun hlt => ?_⟩⟩
          simp [cmd_set_cmd, hlt]

theorem scsi_cmd_cmdsn_verdict (conn c : iscsi_conn) (e : env)
    (hq : c.response_queue = conn.response_queue)
    (hlt : conn.cmd_pool.length < c.cmd_pool.length)
    (hc : (c.cmd conn.cmd_pool.length).has_conn = true) :
    (e.cmdsn = .CMDSN_LOWER_THAN_EXP →
      retired conn conn.cmd_pool.length
        (iscsit_handle_scsi_cmd_cmdsn c conn.cmd_pool.length e))
    ∧ (e.cmdsn = .CMDSN_ERROR_CANNOT_RECOVER →
      rejected_fatal conn conn.cmd_pool.length e
        (iscsit_handle_scsi_cmd_cmdsn c conn.cmd_pool.length e)) := by
  unfold iscsit_handle_scsi_cmd_cmdsn
  constructor
  · intro hl
    simp only [hl]
    exact retired_of_retire_cmd _ _ hq hlt
  · intro hl
    simp only [hl]
    exact rejected_fatal_of_reject _ _ _ hq hlt hc

theorem scsi_cmd_after_verdict (conn c : iscsi_conn) (hdr : iscsi_scsi_req) (e : env)
    (ir : immed_ret_t) (dump : Bool)
    (hq : ir = .IMMEDIATE_DATA_NORMAL_OPERATION → c.response_queue = conn.response_queue)
    (hlt : ir = .IMMEDIATE_DATA_NORMAL_OPERATION →
      conn.cmd_pool.length < c.cmd_pool.length)
    (hc : ir = .IMMEDIATE_DATA_NORMAL_OPERATION →
      (c.cmd conn.cmd_pool.length).has_conn = true)
    (hk : cmdsn_checks c.calls = cmdsn_checks conn.calls)
    (hdump : ¬ e.dump_ret < 0)
    (hp : cmdsn_checks
        (iscsit_handle_scsi_cmd_after_immediate_data c conn.cmd_pool.length hdr e ir
          dump).conn.calls ≠ cmdsn_checks conn.calls) :
    (e.cmdsn = .CMDSN_LOWER_THAN_EXP →
      retired conn conn.cmd_pool.length
        (iscsit_handle_scsi_cmd_after_immediate_data c conn.cmd_pool.length hdr e ir dump))
    ∧ (e.cmdsn = .CMDSN_ERROR_CANNOT_RECOVER →
      rejected_fatal conn conn.cmd_pool.length e
        (iscsit_handle_scsi_cmd_after_immediate_data c conn.cmd_pool.length hdr e ir
          dump)) := by
  unfold iscsit_handle_scsi_cmd_after_immediate_data at hp ⊢
  cases ir
  · have hq' := hq rfl
    have hlt' := hlt rfl
    have hc' := hc rfl
    dsimp only
    split
    · exact scsi_cmd_cmdsn_verdict conn _ e (by simp [hq']) (by simpa using hlt')
        (by simpa using hc')
    · split
      · exact scsi_cmd_cmdsn_verdict conn _ e (by simp [hq']) (by simpa using hlt')
          (by simpa using hc')
      · exact scsi_cmd_cmdsn_verdict conn _ e (by simp [hq']) (by simpa using hlt')
          (by simpa using hc')
  · simp [hk] at hp
  · simp [hk] at hp

theorem scsi_cmd_attach_verdict (conn c1 : iscsi_conn) (hdr : iscsi_scsi_req) (e : env)
    (scc : Bool) (ha : armed conn c1 .ISCSI_OP_SCSI_CMD .ISTATE_NEW_CMD)
    (hdump : ¬ e.dump_ret < 0)
    (hp : cmdsn_checks
        (iscsit_handle_scsi_cmd_attach c1 conn.cmd_pool.length hdr e scc).conn.calls
      ≠ cmdsn_checks conn.calls) :
    (e.cmdsn = .CMDSN_LOWER_THAN_EXP →
      retired conn conn.cmd_pool.length
        (iscsit_handle_scsi_cmd_attach c1 conn.cmd_pool.length hdr e scc))
    ∧ (e.cmdsn = .CMDSN_ERROR_CANNOT_RECOVER →
      rejected_fatal conn conn.cmd_pool.length e
        (iscsit_handle_scsi_cmd_attach c1 conn.cmd_pool.length hdr e scc)) := by
  have hcmd := ack_cmd_armed conn c1 _ _ hdr.exp_statsn ha (by decide)
  have a1 := ha.1
  have a2 := ha.2.1
  have a6 := ha.2.2.2.2.2.1
  have a8 := ha.2.2.2.2.2.2.2.1
  unfold iscsit_handle_scsi_cmd_attach at hp ⊢
  split at hp
  · rename_i him
    simp only [him, if_true]
    constructor
    · intro hl
      simp only [hl]
      exact retired_of_retire_cmd _ _ (by simp [a6]) (by simp [a1])
    · intro hl
      simp only [hl]
      exact rejected_fatal_of_reject _ _ _ (by simp [a6]) (by simp [a1])
        (by simp only [note_cmd, liat_cmd]; exact a8)
  · rename_i him
    simp only [him, if_false]
    unfold iscsit_handle_scsi_cmd_immediate at hp ⊢
    have hc2 : ((iscsit_ack_from_expstatsn (list_add_tail_cmd c1 conn.cmd_pool.length)
        hdr.exp_statsn).cmd conn.cmd_pool.length).has_conn = true := by
      rw [hcmd]; exact a8
    split at hp
    · rename_i hs
      simp only [hs, if_true]
      exact scsi_cmd_after_verdict conn _ hdr e _ _ (fun _ => by simp [a6])
        (fun _ => by simp [a1]) (fun _ => hc2) (by simp [a2]) hdump hp
    · rename_i hs
      simp only [hs, if_false]
      split at hp
      · rename_i hf
        simp only [hf, if_true]
        exact scsi_cmd_after_verdict conn _ hdr e _ _ (fun _ => by simp [a6])
          (fun _ => by simp [a1]) (fun _ => by simpa using hc2) (by simp [a2]) hdump hp
      · rename_i hf
        simp only [hf, if_false]
        obtain ⟨f1, f2⟩ := handle_immediate_data_frame
          ((iscsit_ack_from_expstatsn (list_add_tail_cmd c1 conn.cmd_pool.length)
            hdr.exp_statsn).note (.handle_cdb conn.cmd_pool.length))
          conn.cmd_pool.length hdr.dlength e
        refine scsi_cmd_after_verdict conn _ hdr e _ _ ?_ ?_ ?_ ?_ hdump hp
        · intro hn
          rw [(f2 hn).1]; simp [a6]
        · intro hn
          rw [(f2 hn).2.1]; simp [a1]
        · intro hn
          rw [(f2 hn).2.2 (by simp [a1])]
          simpa using hc2
        · rw [f1]; simp [a2]

/-- C7 (counterexample): a WRITE SCSI Command with 512 bytes of immediate data
whose LUN lookup fails has its CmdSN checked, the check reports
CMDSN_LOWER_THAN_EXP, and the dump of the payload that follows the check
fails: the handler returns -1 and the command is on no queue. -/
theorem c7_lower_dump_failure_not_retired :
    cmdsn_checks
        (iscsit_handle_scsi_cmd {} { flag_write := true, dlength := 512, data_length := 512 }
          { get_lun := .lun_failed, cmdsn := .CMDSN_LOWER_THAN_EXP,
            dump_ret := -1 }).conn.calls = [(0, 0)]
    ∧ (iscsit_handle_scsi_cmd {} { flag_write := true, dlength := 512, data_length := 512 }
          { get_lun := .lun_failed, cmdsn := .CMDSN_LOWER_THAN_EXP,
            dump_ret := -1 }).ret = -1
    ∧ (iscsit_handle_scsi_cmd {} { flag_write := true, dlength := 512, data_length := 512 }
          { get_lun := .lun_failed, cmdsn := .CMDSN_LOWER_THAN_EXP,
            dump_ret := -1 }).conn.immed_queue = [] := by
  refine ⟨by decide, by decide, by decide⟩

/-- C7 (amended): whenever `iscsit_check_received_cmdsn` answers
CMDSN_LOWER_THAN_EXP, each of the five handlers that made the check (SCSI
Command, NOP-Out, Task Management, Text, Logout) returns 0, leaves the
response queue as it was and ends by queueing the PDU's command on the
immediate queue with state ISTATE_REMOVE; for the SCSI Command this needs
that `iscsit_dump_data_payload` does not fail. -/
theorem c7_lower_than_exp_retired (conn : iscsi_conn) (e : env)
    (he : e.cmdsn = .CMDSN_LOWER_THAN_EXP) :
    (∀ hdr : iscsi_scsi_req, ¬ e.dump_ret < 0 →
        cmdsn_checks (iscsit_handle_scsi_cmd conn hdr e).conn.calls
          ≠ cmdsn_checks conn.calls →
        retired conn conn.cmd_pool.length (iscsit_handle_scsi_cmd conn hdr e))
    ∧ (∀ hdr : iscsi_nopout,
        cmdsn_checks (iscsit_handle_nop_out conn hdr e).conn.calls
          ≠ cmdsn_checks conn.calls →
        retired conn conn.cmd_pool.length (iscsit_handle_nop_out conn hdr e))
    ∧ (∀ hdr : iscsi_tm,
        cmdsn_checks (iscsit_handle_task_mgt_cmd conn hdr e).conn.calls
          ≠ cmdsn_checks conn.calls →
        retired conn conn.cmd_pool.length (iscsit_handle_task_mgt_cmd conn hdr e))
    ∧ (∀ hdr : iscsi_text,
        cmdsn_checks (iscsit_handle_text_cmd conn hdr e).conn.calls
          ≠ cmdsn_checks conn.calls →
        retired conn conn.cmd_pool.length (iscsit_handle_text_cmd conn hdr e))
    ∧ (∀ hdr : iscsi_logout,
        cmdsn_checks (iscsit_handle_logout_cmd conn hdr e).conn.calls
          ≠ cmdsn_checks conn.calls →
        retired conn conn.cmd_pool.length (iscsit_handle_logout_cmd conn hdr e)) := by
  refine ⟨?_, ?_, ?_, ?_, ?_⟩
  · intro hdr hdump hp
    rcases scsi_cmd_stages conn hdr e with h | ⟨c1, hdr2, scc, ha, _, _, _, _, _, _, heq⟩
    · exact absurd h.1 hp
    · rw [heq] at hp ⊢
      exact (scsi_cmd_attach_verdict conn c1 hdr2 e scc ha hdump hp).1 he
  · intro hdr hp
    rcases nop_out_stages conn hdr e with h | ⟨c1, ha, heq⟩
    · exact absurd h.1 hp
    · rw [heq] at hp ⊢
      exact (nop_out_attach_verdict conn c1 hdr e ha hp).1 he
  · intro hdr hp
    rcases task_mgt_cmd_stages conn hdr e with h | ⟨c1, ct, ha, heq⟩
    · exact absurd h.1 hp
    · rw [heq] at hp ⊢
      exact (task_mgt_cmd_attach_verdict conn c1 hdr e ct ha hp).1 he
  · intro hdr hp
    rcases text_cmd_stages conn hdr e with h | ⟨c1, ha, heq⟩
    · exact absurd h.1 hp
    · rw [heq] at hp ⊢
      exact (text_cmd_attach_verdict conn c1 hdr e ha hp).1 he
  · intro hdr hp
    rcases logout_cmd_stages conn hdr e with h | ⟨c1, ha, heq⟩
    · exact absurd h.1 hp
    · rw [heq] at hp ⊢
      exact (logout_cmd_attach_verdict conn c1 hdr e ha hp).1 he

/-- C7 (witness): on a fresh connection a WRITE SCSI Command with 512 bytes of
immediate data and a Text request, both answered CMDSN_LOWER_THAN_EXP, are
retired. -/
theorem c7_lower_than_exp_retired_witness :
    retired {} 0
        (iscsit_handle_scsi_cmd {} { flag_write := true, dlength := 512, data_length := 512 }
          { cmdsn := .CMDSN_LOWER_THAN_EXP })
    ∧ retired {} 0 (iscsit_handle_text_cmd {} {} { cmdsn := .CMDSN_LOWER_THAN_EXP }) :=
  ⟨(c7_lower_than_exp_retired {} { cmdsn := .CMDSN_LOWER_THAN_EXP } rfl).1
      { flag_write := true, dlength := 512, data_length := 512 } (by decide) (by decide),
    (c7_lower_than_exp_retired {} { cmdsn := .CMDSN_LOWER_THAN_EXP } rfl).2.2.2.1
      {} (by decide)⟩

/-- C8 (counterexample): a WRITE SCSI Command with 512 bytes of immediate data
whose LUN lookup fails has its CmdSN checked, the check reports
CMDSN_ERROR_CANNOT_RECOVER, and the dump of the payload that follows the
check fails: the handler returns -1 but the command keeps its opcode and no
Reject is queued. -/
theorem c8_cannot_recover_dump_failure_not_rejected :
    cmdsn_checks
        (iscsit_handle_scsi_cmd {} { flag_write := true, dlength := 512, data_length := 512 }
          { get_lun := .lun_failed, cmdsn := .CMDSN_ERROR_CANNOT_RECOVER,
            dump_ret := -1 }).conn.calls = [(0, 0)]
    ∧ ((iscsit_handle_scsi_cmd {} { flag_write := true, dlength := 512, data_length := 512 }
          { get_lun := .lun_failed, cmdsn := .CMDSN_ERROR_CANNOT_RECOVER,
            dump_ret := -1 }).conn.cmd 0).iscsi_opcode = .ISCSI_OP_SCSI_CMD
    ∧ ((iscsit_handle_scsi_cmd {} { flag_write := true, dlength := 512, data_length := 512 }
          { get_lun := .lun_failed, cmdsn := .CMDSN_ERROR_CANNOT_RECOVER,
            dump_ret := -1 }).conn.cmd 0).cmd_flags.ICF_REJECT_FAIL_CONN = false
    ∧ (iscsit_handle_scsi_cmd {} { flag_write := true, dlength := 512, data_length := 512 }
          { get_lun := .lun_failed, cmdsn := .CMDSN_ERROR_CANNOT_RECOVER,
            dump_ret := -1 }).conn.response_queue = [] := by
  refine ⟨by decide, by decide, by decide, by decide⟩

/-- C8 (amended): whenever `iscsit_check_received_cmdsn` answers
CMDSN_ERROR_CANNOT_RECOVER, each of the five handlers that made the check
(SCSI Command, NOP-Out, Task Management, Text, Logout) returns -1 and has
turned the PDU's command into a Reject with reason
ISCSI_REASON_PROTOCOL_ERROR and the fail_conn flag, queued on the response
queue in state ISTATE_SEND_REJECT when the copy of the header could be
allocated; for the SCSI Command this needs that `iscsit_dump_data_payload`
does not fail. -/
theorem c8_cannot_recover_rejected (conn : iscsi_conn) (e : env)
    (he : e.cmdsn = .CMDSN_ERROR_CANNOT_RECOVER) :
    (∀ hdr : iscsi_scsi_req, ¬ e.dump_ret < 0 →
        cmdsn_checks (iscsit_handle_scsi_cmd conn hdr e).conn.calls
          ≠ cmdsn_checks conn.calls →
        rejected_fatal conn conn.cmd_pool.length e (iscsit_handle_scsi_cmd conn hdr e))
    ∧ (∀ hdr : iscsi_nopout,
        cmdsn_checks (iscsit_handle_nop_out conn hdr e).conn.calls
          ≠ cmdsn_checks conn.calls →
        rejected_fatal conn conn.cmd_pool.length e (iscsit_handle_nop_out conn hdr e))
    ∧ (∀ hdr : iscsi_tm,
        cmdsn_checks (iscsit_handle_task_mgt_cmd conn hdr e).conn.calls
          ≠ cmdsn_checks conn.calls →
        rejected_fatal conn conn.cmd_pool.length e
          (iscsit_handle_task_mgt_cmd conn hdr e))
    ∧ (∀ hdr : iscsi_text,
        cmdsn_checks (iscsit_handle_text_cmd conn hdr e).conn.calls
          ≠ cmdsn_checks conn.calls →
        rejected_fatal conn conn.cmd_pool.length e (iscsit_handle_text_cmd conn hdr e))
    ∧ (∀ hdr : iscsi_logout,
        cmdsn_checks (iscsit_handle_logout_cmd conn hdr e).conn.calls
          ≠ cmdsn_checks conn.calls →
        rejected_fatal conn conn.cmd_pool.length e
          (iscsit_handle_logout_cmd conn hdr e)) := by
  refine ⟨?_, ?_, ?_, ?_, ?_⟩
  · intro hdr hdump hp
    rcases scsi_cmd_stages conn hdr e with h | ⟨c1, hdr2, scc, ha, _, _, _, _, _, _, heq⟩
    · exact absurd h.1 hp
    · rw [heq] at hp ⊢
      exact (scsi_cmd_attach_verdict conn c1 hdr2 e scc ha hdump hp).2 he
  · intro hdr hp
    rcases nop_out_stages conn hdr e with h | ⟨c1, ha, heq⟩
    · exact absurd h.1 hp
    · rw [heq] at hp ⊢
      exact (nop_out_attach_verdict conn c1 hdr e ha hp).2 he
  · intro hdr hp
    rcases task_mgt_cmd_stages conn hdr e with h | ⟨c1, ct, ha, heq⟩
    · exact absurd h.1 hp
    · rw [heq] at hp ⊢
      exact (task_mgt_cmd_attach_verdict conn c1 hdr e ct ha hp).2 he
  · intro hdr hp
    rcases text_cmd_stages conn hdr e with h | ⟨c1, ha, heq⟩
    · exact absurd h.1 hp
    · rw [heq] at hp ⊢
      exact (text_cmd_attach_verdict conn c1 hdr e ha hp).2 he
  · intro hdr hp
    rcases logout_cmd_stages conn hdr e with h | ⟨c1, ha, heq⟩
    · exact absurd h.1 hp
    · rw [heq] at hp ⊢
      exact (logout_cmd_attach_verdict conn c1 hdr e ha hp).2 he

/-- C8 (witness): on a fresh connection a Task Management request and a
Logout request, both answered CMDSN_ERROR_CANNOT_RECOVER, end as fatal
protocol-error Rejects. -/
theorem c8_cannot_recover_rejected_witness :
    rejected_fatal {} 0 { cmdsn := .CMDSN_ERROR_CANNOT_RECOVER }
        (iscsit_handle_task_mgt_cmd {} { function := 1 }
          { cmdsn := .CMDSN_ERROR_CANNOT_RECOVER })
    ∧ rejected_fatal {} 0 { cmdsn := .CMDSN_ERROR_CANNOT_RECOVER }
        (iscsit_handle_logout_cmd {} {} { cmdsn := .CMDSN_ERROR_CANNOT_RECOVER }) :=
  ⟨(c8_cannot_recover_rejected {} { cmdsn := .CMDSN_ERROR_CANNOT_RECOVER } rfl).2.2.1
      { function := 1 } (by decide),
    (c8_cannot_recover_rejected {} { cmdsn := .CMDSN_ERROR_CANNOT_RECOVER } rfl).2.2.2.2
      {} (by decide)⟩

/-! ### Immediate data of a SCSI Command -/

/-- A header that passes validation keeps its two lengths, and its data
segment is no longer than the declared transfer length. -/
theorem validate_ok_lengths (conn : iscsi_conn) (hdr hdr2 : iscsi_scsi_req)
    (hv : iscsit_handle_scsi_cmd_validate conn hdr = .ok hdr2) :
    hdr2.dlength = hdr.dlength ∧ hdr2.data_length = hdr.data_length
    ∧ hdr.dlength ≤ hdr.data_length := by
  have hdone : ∀ h1 : iscsi_scsi_req, iscsit_handle_scsi_cmd_done conn h1 = .ok hdr2 →
      hdr2 = h1 ∧ h1.dlength ≤ h1.data_length := by
    intro h1 hd
    unfold iscsit_handle_scsi_cmd_done at hd
    simp only at hd
    split_ifs at hd with c1 c2 c3 c4 c5 c6 c7 c8
    injection hd with hd
    exact ⟨hd.symm, by omega⟩
  unfold iscsit_handle_scsi_cmd_validate at hv
  split_ifs at hv
  · obtain ⟨h1, h2⟩ := hdone _ hv
    subst h1
    exact ⟨rfl, rfl, h2⟩
  · obtain ⟨h1, h2⟩ := hdone _ hv
    subst h1
    exact ⟨rfl, rfl, h2⟩

/-- The way of a validated SCSI Command through allocation and LUN lookup
when every collaborator succeeds. -/
theorem scsi_cmd_path (conn : iscsi_conn) (hdr hdr2 : iscsi_scsi_req) (e : env)
    (hv : iscsit_handle_scsi_cmd_validate conn hdr = .ok hdr2)
    (ha : e.alloc_cmd = true) (hd : e.alloc_datain_req = true)
    (hlun : e.get_lun = .lun_ok) (ht : e.allocate_tasks = .tasks_ok)
    (hdl : ¬ e.decide_list < 0) :
    iscsit_handle_scsi_cmd conn hdr e
      = iscsit_handle_scsi_cmd_attach
          (iscsit_handle_scsi_cmd_init
            (conn.push_cmd (se_cmd_new hdr2.data_length (scsi_data_direction hdr2)
              hdr2.attr)) conn.cmd_pool.length hdr2)
          conn.cmd_pool.length hdr2 e false := by
  unfold iscsit_handle_scsi_cmd
  rw [hv]
  simp only
  unfold iscsit_handle_scsi_cmd_setup iscsit_allocate_se_cmd
  simp only [ha, if_true]
  unfold iscsit_handle_scsi_cmd_lookup
  simp only [hd, hlun, ht, Bool.not_true, Bool.and_false, Bool.false_eq_true, if_false,
    if_neg hdl]

/-- The result of `iscsit_handle_immediate_data` when the buffers can be
mapped, the payload arrives and the digest, if any, matches. -/
theorem handle_immediate_data_ok (c : iscsi_conn) (h L : Nat) (e : env)
    (hiov : ¬ e.set_iovec_ptrs (c.cmd h).write_data_done L < 0) (hrx : e.rx_ok = true)
    (hcrc : c.conn_ops.DataDigest = true → e.checksum = e.data_crc) :
    iscsit_handle_immediate_data c h L e
      = (.IMMEDIATE_DATA_NORMAL_OPERATION,
          (c.note (.rx_data (data_rx_size c.conn_ops.DataDigest L))).set_cmd h
            (immediate_data_done (c.cmd h) L)) := by
  unfold iscsit_handle_immediate_data
  rw [if_neg hiov]
  simp only [hrx, Bool.not_true, Bool.false_eq_true, if_false]
  cases hd : c.conn_ops.DataDigest
  · simp
  · simp [hiov, hcrc hd]

/-- A Reject built from a command leaves its data counters alone. -/
theorem add_reject_from_cmd_data (reason : reject_reason) (f a : Bool) (conn : iscsi_conn)
    (h : Nat) (e : env) (hlt : h < conn.cmd_pool.length) :
    ((iscsit_add_reject_from_cmd reason f a conn h e).conn.cmd h).write_data_done
        = (conn.cmd h).write_data_done
    ∧ ((iscsit_add_reject_from_cmd reason f a conn h e).conn.cmd h).data_length
        = (conn.cmd h).data_length
    ∧ ((iscsit_add_reject_from_cmd reason f a conn h e).conn.cmd
          h).cmd_flags.ICF_GOT_LAST_DATAOUT
        = (conn.cmd h).cmd_flags.ICF_GOT_LAST_DATAOUT := by
  unfold iscsit_add_reject_from_cmd
  cases hc : (conn.cmd h).has_conn
  · simp
  · simp only [Bool.not_true, Bool.false_eq_true, if_false]
    cases hb : e.alloc_reject_buf
    · rw [reject_queue_nomem _ _ _ _ _ hb]
      simp [cmd_set_cmd, hlt, reject_fields]
    · have q5 := (reject_queue_ok f a
        (conn.set_cmd h (reject_fields (conn.cmd h) reason f)) h e hb
        (by simpa using hlt)).2.2.2.2.1
      rw [q5]
      simp [cmd_set_cmd, hlt, reject_fields]

/-- The branch on the CmdSN verdict leaves the data counters of the command
alone, and the whole command when the verdict is NORMAL_OPERATION or
HIGHER_THAN_EXP. -/
theorem scsi_cmd_cmdsn_data (c : iscsi_conn) (h : Nat) (e : env)
    (hlt : h < c.cmd_pool.length) :
    ((iscsit_handle_scsi_cmd_cmdsn c h e).conn.cmd h).write_data_done
        = (c.cmd h).write_data_done
    ∧ ((iscsit_handle_scsi_cmd_cmdsn c h e).conn.cmd h).data_length = (c.cmd h).data_length
    ∧ ((iscsit_handle_scsi_cmd_cmdsn c h e).conn.cmd h).cmd_flags.ICF_GOT_LAST_DATAOUT
        = (c.cmd h).cmd_flags.ICF_GOT_LAST_DATAOUT
    ∧ (e.cmdsn = .CMDSN_NORMAL_OPERATION ∨ e.cmdsn = .CMDSN_HIGHER_THAN_EXP →
        ((iscsit_handle_scsi_cmd_cmdsn c h e).conn.cmd h).i_state = (c.cmd h).i_state) := by
  unfold iscsit_handle_scsi_cmd_cmdsn
  cases hcs : e.cmdsn
  case CMDSN_NORMAL_OPERATION => exact ⟨rfl, rfl, rfl, fun _ => rfl⟩
  case CMDSN_HIGHER_THAN_EXP => exact ⟨rfl, rfl, rfl, fun _ => rfl⟩
  case CMDSN_LOWER_THAN_EXP =>
    simp only [retire_cmd_cmd c h hlt]
    exact ⟨trivial, trivial, trivial, fun hx => by rcases hx with hx | hx <;> cases hx⟩
  case CMDSN_ERROR_CANNOT_RECOVER =>
    obtain ⟨d1, d2, d3⟩ := add_reject_from_cmd_data .ISCSI_REASON_PROTOCOL_ERROR true false
      c h e hlt
    exact ⟨d1, d2, d3, fun hx => by rcases hx with hx | hx <;> cases hx⟩

/-- The tail of the handler after immediate data was received leaves the
data counters of the command alone. -/
theorem scsi_cmd_after_data (c : iscsi_conn) (h : Nat) (hdr : iscsi_scsi_req) (e : env)
    (hlt : h < c.cmd_pool.length) :
    ((iscsit_handle_scsi_cmd_after_immediate_data c h hdr e
        .IMMEDIATE_DATA_NORMAL_OPERATION false).conn.cmd h).write_data_done
        = (c.cmd h).write_data_done
    ∧ ((iscsit_handle_scsi_cmd_after_immediate_data c h hdr e
        .IMMEDIATE_DATA_NORMAL_OPERATION false).conn.cmd h).data_length
        = (c.cmd h).data_length
    ∧ ((iscsit_handle_scsi_cmd_after_immediate_data c h hdr e
        .IMMEDIATE_DATA_NORMAL_OPERATION false).conn.cmd h).cmd_flags.ICF_GOT_LAST_DATAOUT
        = (c.cmd h).cmd_flags.ICF_GOT_LAST_DATAOUT
    ∧ (e.cmdsn = .CMDSN_NORMAL_OPERATION ∨ e.cmdsn = .CMDSN_HIGHER_THAN_EXP →
        ((iscsit_handle_scsi_cmd_after_immediate_data c h hdr e
          .IMMEDIATE_DATA_NORMAL_OPERATION false).conn.cmd h).i_state
          = (c.cmd h).i_state) := by
  unfold iscsit_handle_scsi_cmd_after_immediate_data
  simp only [Bool.false_eq_true, if_false]
  split
  · have hd := scsi_cmd_cmdsn_data
      (start_unsolicited (c.note (.check_received_cmdsn h hdr.cmdsn)) h) h e
      (by simpa using hlt)
    simpa using hd
  · have hd := scsi_cmd_cmdsn_data (c.note (.check_received_cmdsn h hdr.cmdsn)) h e
      (by simpa using hlt)
    simpa using hd

/-- The counters of a fresh command after its immediate data. -/
theorem immediate_data_done_fresh (c : iscsi_cmd) (L D : Nat)
    (hw : c.write_data_done = 0) (hl : c.data_length = D)
    (hg : c.cmd_flags.ICF_GOT_LAST_DATAOUT = false) (hs : c.i_state = .ISTATE_NEW_CMD)
    (hLD : L ≤ D) (hD : D < 4294967296) :
    (immediate_data_done c L).write_data_done = L
    ∧ (immediate_data_done c L).data_length = D
    ∧ ((immediate_data_done c L).cmd_flags.ICF_GOT_LAST_DATAOUT = true ↔ L = D)
    ∧ ((immediate_data_done c L).i_state = .ISTATE_RECEIVED_LAST_DATAOUT ↔ L = D) := by
  have hu : u32 (c.write_data_done + L) = L := by
    rw [hw]; unfold u32; rw [Nat.zero_add]; exact Nat.mod_eq_of_lt (by omega)
  unfold immediate_data_done
  rw [hu, hl]
  by_cases hLD2 : L = D
  · simp [hLD2, hl]
  · simp [hLD2, hl, hg, hs]

/-- C6: a SCSI Command PDU that passes validation, is allocated and set up
without failure and carries L > 0 bytes of immediate data whose buffers can
be mapped, whose payload arrives in full and whose data digest (when
DataDigest is on) matches, leaves its command with write_data_done = L,
data_length = the declared Expected Data Transfer Length, L <= data_length,
and ICF_GOT_LAST_DATAOUT set if and only if L = data_length; while the CmdSN
verdict is NORMAL_OPERATION or HIGHER_THAN_EXP the state is
ISTATE_RECEIVED_LAST_DATAOUT if and only if L = data_length. -/
theorem c6_immediate_data_write_data_done (conn : iscsi_conn) (hdr hdr2 : iscsi_scsi_req)
    (e : env)
    (hv : iscsit_handle_scsi_cmd_validate conn hdr = .ok hdr2)
    (hw : hdr.data_length < 4294967296)
    (hL : hdr.dlength ≠ 0)
    (ha : e.alloc_cmd = true) (hd : e.alloc_datain_req = true)
    (hlun : e.get_lun = .lun_ok) (ht : e.allocate_tasks = .tasks_ok)
    (hdl : ¬ e.decide_list < 0) (hf : e.se_cmd_failed = false)
    (hiov : ¬ e.set_iovec_ptrs 0 hdr.dlength < 0) (hrx : e.rx_ok = true)
    (hcrc : conn.conn_ops.DataDigest = true → e.checksum = e.data_crc) :
    ∀ cmd : iscsi_cmd,
      cmd = (iscsit_handle_scsi_cmd conn hdr e).conn.cmd conn.cmd_pool.length →
      cmd.write_data_done = hdr.dlength
      ∧ cmd.data_length = hdr.data_length
      ∧ cmd.write_data_done ≤ cmd.data_length
      ∧ (cmd.cmd_flags.ICF_GOT_LAST_DATAOUT = true ↔ hdr.dlength = cmd.data_length)
      ∧ (e.cmdsn = .CMDSN_NORMAL_OPERATION ∨ e.cmdsn = .CMDSN_HIGHER_THAN_EXP →
          (cmd.i_state = .ISTATE_RECEIVED_LAST_DATAOUT ↔ hdr.dlength = cmd.data_length)) := by
  intro cmd hcmdeq
  obtain ⟨v1, v2, v3⟩ := validate_ok_lengths conn hdr hdr2 hv
  rw [scsi_cmd_path conn hdr hdr2 e hv ha hd hlun ht hdl] at hcmdeq
  obtain ⟨harm, hfresh, hco, _⟩ := scsi_cmd_init_frame conn hdr2
    (se_cmd_new hdr2.data_length (scsi_data_direction hdr2) hdr2.attr) rfl rfl rfl rfl
  generalize iscsit_handle_scsi_cmd_init
    (conn.push_cmd (se_cmd_new hdr2.data_length (scsi_data_direction hdr2) hdr2.attr))
    conn.cmd_pool.length hdr2 = c1 at harm hfresh hco hcmdeq
  have hack := ack_cmd_armed conn c1 _ _ hdr2.exp_statsn harm (by decide)
  have him : ((list_add_tail_cmd c1 conn.cmd_pool.length).cmd
      conn.cmd_pool.length).immediate_data = true := by
    simp only [liat_cmd]
    rw [hfresh.1, v1]
    simpa using hL
  unfold iscsit_handle_scsi_cmd_attach at hcmdeq
  simp only [him, Bool.not_true, Bool.false_eq_true, if_false] at hcmdeq
  unfold iscsit_handle_scsi_cmd_immediate at hcmdeq
  simp only [hf, Bool.false_eq_true, if_false] at hcmdeq
  have hc2 : ((iscsit_ack_from_expstatsn (list_add_tail_cmd c1 conn.cmd_pool.length)
      hdr2.exp_statsn).note (.handle_cdb conn.cmd_pool.length)).cmd conn.cmd_pool.length
      = c1.cmd conn.cmd_pool.length := by
    rw [note_cmd, hack]
  have hlen : conn.cmd_pool.length
      < ((iscsit_ack_from_expstatsn (list_add_tail_cmd c1 conn.cmd_pool.length)
        hdr2.exp_statsn).note (.handle_cdb conn.cmd_pool.length)).cmd_pool.length := by
    simp [ack_pool_length, harm.1]
  have hok := handle_immediate_data_ok
    ((iscsit_ack_from_expstatsn (list_add_tail_cmd c1 conn.cmd_pool.length)
      hdr2.exp_statsn).note (.handle_cdb conn.cmd_pool.length))
    conn.cmd_pool.length hdr2.dlength e
    (by rw [hc2, hfresh.2.1, v1]; exact hiov) hrx
    (by intro hdd; apply hcrc; rw [← hco]; simpa [ack_conn_ops] using hdd)
  rw [hok] at hcmdeq
  simp only at hcmdeq
  obtain ⟨a1, a2, a3, a4⟩ := scsi_cmd_after_data
    (((iscsit_ack_from_expstatsn (list_add_tail_cmd c1 conn.cmd_pool.length)
        hdr2.exp_statsn).note (.handle_cdb conn.cmd_pool.length)).note
        (.rx_data (data_rx_size
          ((iscsit_ack_from_expstatsn (list_add_tail_cmd c1 conn.cmd_pool.length)
            hdr2.exp_statsn).note
            (.handle_cdb conn.cmd_pool.length)).conn_ops.DataDigest hdr2.dlength))
      |>.set_cmd conn.cmd_pool.length
        (immediate_data_done
          (((iscsit_ack_from_expstatsn (list_add_tail_cmd c1 conn.cmd_pool.length)
            hdr2.exp_statsn).note (.handle_cdb conn.cmd_pool.length)).cmd
            conn.cmd_pool.length) hdr2.dlength))
    conn.cmd_pool.length hdr2 e (by simpa using hlen)
  rw [← hcmdeq] at a1 a2 a3 a4
  have hset : ∀ (c : iscsi_conn) (x : iscsi_cmd), conn.cmd_pool.length < c.cmd_pool.length →
      (c.set_cmd conn.cmd_pool.length x).cmd conn.cmd_pool.length = x := by
    intro c x hx
    simp [cmd_set_cmd, hx]
  rw [hset _ _ (by simpa using hlen), hc2] at a1 a2 a3
  rw [hset _ _ (by simpa using hlen), hc2] at a4
  obtain ⟨f1, f2, f3, f4⟩ := immediate_data_done_fresh (c1.cmd conn.cmd_pool.length)
    hdr2.dlength hdr2.data_length hfresh.2.1 hfresh.2.2.1 hfresh.2.2.2
    harm.2.2.2.2.2.2.2.2.2 (by rw [v1, v2]; exact v3) (by rw [v2]; exact hw)
  rw [v1] at f1 f2 f3 f4
  rw [v2] at f2 f3 f4
  rw [v1] at a1 a2 a3 a4
  refine ⟨a1.trans f1, a2.trans f2, ?_, ?_, ?_⟩
  · rw [a1.trans f1, a2.trans f2]; exact v3
  · rw [a3, a2.trans f2]; exact f3
  · intro hx
    rw [a4 hx, a2.trans f2]; exact f4

/-- C6 (witness): on a fresh connection a WRITE of 1024 bytes that brings 512
bytes of immediate data, and a WRITE of 512 bytes that brings all of them. -/
theorem c6_immediate_data_write_data_done_witness :
    ((iscsit_handle_scsi_cmd {}
        { flag_write := true, dlength := 512, data_length := 1024 } {}).conn.cmd
        0).write_data_done = 512
    ∧ ((iscsit_handle_scsi_cmd {}
        { flag_write := true, dlength := 512, data_length := 1024 } {}).conn.cmd
        0).cmd_flags.ICF_GOT_LAST_DATAOUT = false
    ∧ ((iscsit_handle_scsi_cmd {}
        { flag_write := true, dlength := 512, data_length := 512 } {}).conn.cmd
        0).cmd_flags.ICF_GOT_LAST_DATAOUT = true
    ∧ ((iscsit_handle_scsi_cmd {}
        { flag_write := true, dlength := 512, data_length := 512 } {}).conn.cmd
        0).i_state = .ISTATE_RECEIVED_LAST_DATAOUT := by
  have h1 := c6_immediate_data_write_data_done {}
    { flag_write := true, dlength := 512, data_length := 1024 }
    { flag_write := true, dlength := 512, data_length := 1024 } {}
    rfl (by decide) (by decide) rfl rfl rfl rfl (by decide) rfl (by decide) rfl
    (by decide) _ rfl
  have h2 := c6_immediate_data_write_data_done {}
    { flag_write := true, dlength := 512, data_length := 512 }
    { flag_write := true, dlength := 512, data_length := 512 } {}
    rfl (by decide) (by decide) rfl rfl rfl rfl (by decide) rfl (by decide) rfl
    (by decide) _ rfl
  refine ⟨h1.1, ?_, h2.2.2.2.1.2 h2.2.1.symm, (h2.2.2.2.2 (Or.inl rfl)).2 h2.2.1.symm⟩
  cases hg : ((iscsit_handle_scsi_cmd {}
      { flag_write := true, dlength := 512, data_length := 1024 } {}).conn.cmd
      0).cmd_flags.ICF_GOT_LAST_DATAOUT
  · rfl
  · have hx := h1.2.2.2.1.1 hg
    rw [h1.2.1] at hx
    exact absurd hx (by decide)

/-! ### Immediate data that fails the data digest -/

/-- What `iscsit_add_reject_from_cmd` keeps whatever its outcome: the size of
the pool and the immediate queue; the response queue too when the copy of the
header cannot be allocated. -/
theorem add_reject_from_cmd_frame (reason : reject_reason) (f a : Bool) (conn : iscsi_conn)
    (h : Nat) (e : env) :
    (iscsit_add_reject_from_cmd reason f a conn h e).conn.cmd_pool.length
        = conn.cmd_pool.length
    ∧ (iscsit_add_reject_from_cmd reason f a conn h e).conn.immed_queue = conn.immed_queue
    ∧ (e.alloc_reject_buf = false →
        (iscsit_add_reject_from_cmd reason f a conn h e).conn.response_queue
          = conn.response_queue) := by
  unfold iscsit_add_reject_from_cmd reject_queue
  by_cases hw : e.reject_wait = 0 <;>
    cases (conn.cmd h).has_conn <;> cases e.alloc_reject_buf <;> cases a <;> simp [hw]

/-- A Reject built from a command leaves `write_data_done` alone, also for a
command pointer outside the pool. -/
theorem add_reject_from_cmd_write_data_done (reason : reject_reason) (f a : Bool)
    (conn : iscsi_conn) (h : Nat) (e : env) :
    ((iscsit_add_reject_from_cmd reason f a conn h e).conn.cmd h).write_data_done
      = (conn.cmd h).write_data_done := by
  by_cases hlt : h < conn.cmd_pool.length
  · exact (add_reject_from_cmd_data reason f a conn h e hlt).1
  · unfold iscsit_add_reject_from_cmd reject_queue
    by_cases hw : e.reject_wait = 0 <;>
      cases (conn.cmd h).has_conn <;> cases e.alloc_reject_buf <;> cases a <;>
      simp [hw, cmd_set_cmd, hlt]

/-- The result of `iscsit_handle_immediate_data` when the payload arrives and
its digest does not match. -/
theorem handle_immediate_data_digest_failure (c : iscsi_conn) (h L : Nat) (e : env)
    (hiov : ¬ e.set_iovec_ptrs (c.cmd h).write_data_done L < 0) (hrx : e.rx_ok = true)
    (hdd : c.conn_ops.DataDigest = true) (hne : e.checksum ≠ e.data_crc) :
    iscsit_handle_immediate_data c h L e
      = if c.sess_ops.ErrorRecoveryLevel = 0 then
          (.IMMEDIATE_DATA_CANNOT_RECOVER,
            (iscsit_add_reject_from_cmd .ISCSI_REASON_DATA_DIGEST_ERROR true false
              (c.note (.rx_data (data_rx_size c.conn_ops.DataDigest L))) h e).conn)
        else
          (.IMMEDIATE_DATA_ERL1_CRC_FAILURE,
            (iscsit_add_reject_from_cmd .ISCSI_REASON_DATA_DIGEST_ERROR false false
              (c.note (.rx_data (data_rx_size c.conn_ops.DataDigest L))) h e).conn) := by
  unfold iscsit_handle_immediate_data
  rw [if_neg hiov]
  simp only [hrx, Bool.not_true, Bool.false_eq_true, if_false]
  simp [hdd, hiov, hne]

/-- The state in which `iscsit_handle_scsi_cmd` calls
`iscsit_handle_immediate_data`, for a validated PDU with immediate data whose
command was allocated and set up without failure. -/
theorem scsi_cmd_immediate_path (conn : iscsi_conn) (hdr hdr2 : iscsi_scsi_req) (e : env)
    (hv : iscsit_handle_scsi_cmd_validate conn hdr = .ok hdr2)
    (hL : hdr.dlength ≠ 0)
    (ha : e.alloc_cmd = true) (hd : e.alloc_datain_req = true)
    (hlun : e.get_lun = .lun_ok) (ht : e.allocate_tasks = .tasks_ok)
    (hdl : ¬ e.decide_list < 0) (hf : e.se_cmd_failed = false) :
    ∃ c2 : iscsi_conn,
      iscsit_handle_scsi_cmd conn hdr e
        = iscsit_handle_scsi_cmd_after_immediate_data
            (iscsit_handle_immediate_data c2 conn.cmd_pool.length hdr2.dlength e).2
            conn.cmd_pool.length hdr2 e
            (iscsit_handle_immediate_data c2 conn.cmd_pool.length hdr2.dlength e).1 false
      ∧ c2.cmd_pool.length = conn.cmd_pool.length + 1
      ∧ cmdsn_checks c2.calls = cmdsn_checks conn.calls
      ∧ c2.response_queue = conn.response_queue
      ∧ c2.conn_ops = conn.conn_ops ∧ c2.sess_ops = conn.sess_ops
      ∧ (c2.cmd conn.cmd_pool.length).has_conn = true
      ∧ (c2.cmd conn.cmd_pool.length).write_data_done = 0 := by
  obtain ⟨v1, _, _⟩ := validate_ok_lengths conn hdr hdr2 hv
  rw [scsi_cmd_path conn hdr hdr2 e hv ha hd hlun ht hdl]
  obtain ⟨harm, hfresh, hco, hso⟩ := scsi_cmd_init_frame conn hdr2
    (se_cmd_new hdr2.data_length (scsi_data_direction hdr2) hdr2.attr) rfl rfl rfl rfl
  generalize iscsit_handle_scsi_cmd_init
    (conn.push_cmd (se_cmd_new hdr2.data_length (scsi_data_direction hdr2) hdr2.attr))
    conn.cmd_pool.length hdr2 = c1 at harm hfresh hco hso
  have hack := ack_cmd_armed conn c1 _ _ hdr2.exp_statsn harm (by decide)
  have him : ((list_add_tail_cmd c1 conn.cmd_pool.length).cmd
      conn.cmd_pool.length).immediate_data = true := by
    simp only [liat_cmd]
    rw [hfresh.1, v1]
    simpa using hL
  refine ⟨(iscsit_ack_from_expstatsn (list_add_tail_cmd c1 conn.cmd_pool.length)
      hdr2.exp_statsn).note (.handle_cdb conn.cmd_pool.length), ?_, ?_, ?_, ?_, ?_, ?_, ?_, ?_⟩
  · unfold iscsit_handle_scsi_cmd_attach
    simp only [him, Bool.not_true, Bool.false_eq_true, if_false]
    unfold iscsit_handle_scsi_cmd_immediate
    simp only [hf, Bool.false_eq_true, if_false]
  · simp [harm.1]
  · simp [harm.2.1]
  · simp [harm.2.2.2.2.2.1]
  · simp [hco]
  · simp [hso]
  · rw [note_cmd, hack]; exact harm.2.2.2.2.2.2.2.1
  · rw [note_cmd, hack]; exact hfresh.2.1

/-- C11: when the payload of the immediate data arrives and its digest does
not match (DataDigest on), `iscsit_handle_immediate_data` returns
IMMEDIATE_DATA_CANNOT_RECOVER at ErrorRecoveryLevel 0 and
IMMEDIATE_DATA_ERL1_CRC_FAILURE otherwise and leaves `write_data_done` of the
command as it was; and `iscsit_handle_scsi_cmd`, on a validated PDU with
immediate data whose command was set up without failure, then returns -1 in
the first case and 0 in the second without any call of
`iscsit_check_received_cmdsn`. -/
theorem c11_immediate_data_digest_failure (e : env)
    (hrx : e.rx_ok = true) (hne : e.checksum ≠ e.data_crc) :
    (∀ (c : iscsi_conn) (h L : Nat), c.conn_ops.DataDigest = true →
        ¬ e.set_iovec_ptrs (c.cmd h).write_data_done L < 0 →
        (iscsit_handle_immediate_data c h L e).1
            = (if c.sess_ops.ErrorRecoveryLevel = 0 then .IMMEDIATE_DATA_CANNOT_RECOVER
               else .IMMEDIATE_DATA_ERL1_CRC_FAILURE)
        ∧ ((iscsit_handle_immediate_data c h L e).2.cmd h).write_data_done
            = (c.cmd h).write_data_done)
    ∧ (∀ (conn : iscsi_conn) (hdr hdr2 : iscsi_scsi_req),
        conn.conn_ops.DataDigest = true →
        iscsit_handle_scsi_cmd_validate conn hdr = .ok hdr2 →
        hdr.dlength ≠ 0 →
        e.alloc_cmd = true → e.alloc_datain_req = true → e.get_lun = .lun_ok →
        e.allocate_tasks = .tasks_ok → ¬ e.decide_list < 0 → e.se_cmd_failed = false →
        ¬ e.set_iovec_ptrs 0 hdr.dlength < 0 →
        (iscsit_handle_scsi_cmd conn hdr e).ret
            = (if conn.sess_ops.ErrorRecoveryLevel = 0 then -1 else 0)
        ∧ cmdsn_checks (iscsit_handle_scsi_cmd conn hdr e).conn.calls
            = cmdsn_checks conn.calls
        ∧ ((iscsit_handle_scsi_cmd conn hdr e).conn.cmd
            conn.cmd_pool.length).write_data_done = 0) := by
  constructor
  · intro c h L hdd hiov
    rw [handle_immediate_data_digest_failure c h L e hiov hrx hdd hne]
    by_cases hz : c.sess_ops.ErrorRecoveryLevel = 0
    · simp only [hz, if_true]
      exact ⟨trivial, by rw [add_reject_from_cmd_write_data_done]; rfl⟩
    · simp only [hz, if_false]
      exact ⟨trivial, by rw [add_reject_from_cmd_write_data_done]; rfl⟩
  · intro conn hdr hdr2 hdd hv hL ha hd hlun ht hdl hf hiov
    obtain ⟨v1, _, _⟩ := validate_ok_lengths conn hdr hdr2 hv
    obtain ⟨c2, heq, p1, p2, _, p4, p5, _, p7⟩ :=
      scsi_cmd_immediate_path conn hdr hdr2 e hv hL ha hd hlun ht hdl hf
    rw [heq, handle_immediate_data_digest_failure c2 _ _ e
      (by rw [p7, v1]; exact hiov) hrx (by rw [p4]; exact hdd) hne, p5]
    by_cases hz : conn.sess_ops.ErrorRecoveryLevel = 0
    · simp only [hz, if_true]
      unfold iscsit_handle_scsi_cmd_after_immediate_data
      refine ⟨rfl, ?_, ?_⟩
      · simp only
        rw [(add_reject_from_cmd_calls _ _ _ _ _ _).1]
        simpa using p2
      · simp only
        rw [add_reject_from_cmd_write_data_done]
        simpa using p7
    · simp only [hz, if_false]
      unfold iscsit_handle_scsi_cmd_after_immediate_data
      refine ⟨rfl, ?_, ?_⟩
      · simp only [retire_cmd_calls]
        rw [(add_reject_from_cmd_calls _ _ _ _ _ _).1]
        simpa using p2
      · simp only
        rw [retire_cmd_cmd _ _ (by
          rw [(add_reject_from_cmd_frame _ _ _ _ _ _).1]; simp [p1])]
        simp only
        rw [add_reject_from_cmd_write_data_done]
        simpa using p7

/-- C11 (witness): with DataDigest on and digests 1 and 2, a 512-byte WRITE
with all its data immediate is answered -1 at ErrorRecoveryLevel 0 and 0 at
ErrorRecoveryLevel 1, without a CmdSN check. -/
theorem c11_immediate_data_digest_failure_witness :
    (iscsit_handle_scsi_cmd { conn_ops := { DataDigest := true } }
        { flag_write := true, dlength := 512, data_length := 512 }
        { checksum := 1, data_crc := 2 }).ret = -1
    ∧ (iscsit_handle_scsi_cmd
        { conn_ops := { DataDigest := true }, sess_ops := { ErrorRecoveryLevel := 1 } }
        { flag_write := true, dlength := 512, data_length := 512 }
        { checksum := 1, data_crc := 2 }).ret = 0
    ∧ cmdsn_checks (iscsit_handle_scsi_cmd
        { conn_ops := { DataDigest := true }, sess_ops := { ErrorRecoveryLevel := 1 } }
        { flag_write := true, dlength := 512, data_length := 512 }
        { checksum := 1, data_crc := 2 }).conn.calls = [] :=
  ⟨((c11_immediate_data_digest_failure { checksum := 1, data_crc := 2 } rfl
      (by decide)).2 { conn_ops := { DataDigest := true } }
      { flag_write := true, dlength := 512, data_length := 512 }
      { flag_write := true, dlength := 512, data_length := 512 }
      rfl rfl (by decide) rfl rfl rfl rfl (by decide) rfl (by decide)).1,
    ((c11_immediate_data_digest_failure { checksum := 1, data_crc := 2 } rfl
      (by decide)).2
      { conn_ops := { DataDigest := true }, sess_ops := { ErrorRecoveryLevel := 1 } }
      { flag_write := true, dlength := 512, data_length := 512 }
      { flag_write := true, dlength := 512, data_length := 512 }
      rfl rfl (by decide) rfl rfl rfl rfl (by decide) rfl (by decide)).1,
    ((c11_immediate_data_digest_failure { checksum := 1, data_crc := 2 } rfl
      (by decide)).2
      { conn_ops := { DataDigest := true }, sess_ops := { ErrorRecoveryLevel := 1 } }
      { flag_write := true, dlength := 512, data_length := 512 }
      { flag_write := true, dlength := 512, data_length := 512 }
      rfl rfl (by decide) rfl rfl rfl rfl (by decide) rfl (by decide)).2.1⟩

/-- C13 (counterexample): on a connection in state TARG_CONN_STATE_IN_LOGOUT a
header whose digest does not match makes the pass leave through
`transport_err` before an opcode is computed: the unknown-opcode branch is
not taken. -/
theorem c13_in_logout_skips_switch :
    (iscsi_target_rx_thread_body
        { conn_state := .TARG_CONN_STATE_IN_LOGOUT, HeaderDigest := true }
        { rx_hdr := some (List.replicate 48 0), rx_digest := some 1, checksum := 2 }).actions
      = []
    ∧ (iscsi_target_rx_thread_body
        { conn_state := .TARG_CONN_STATE_IN_LOGOUT, HeaderDigest := true }
        { rx_hdr := some (List.replicate 48 0), rx_digest := some 1, checksum := 2 }).opcode
      = none := by
  refine ⟨by decide, by decide⟩

/-- C13 (amended): for every header received with HeaderDigest on whose
digest does not match, whatever its bytes and the session type: the digest
error counter of the session goes up by exactly one and no PDU handler runs;
unless the connection is in state TARG_CONN_STATE_IN_LOGOUT (then the pass
leaves through `transport_err` at once), the opcode handed to the switch is
0x3f, which is none of the handled opcodes, the discovery-session Reject is
not sent and the unknown-opcode branch is taken; and at ErrorRecoveryLevel 0
the pass leaves through `transport_err`. -/
theorem c13_header_digest_failure (conn : iscsi_rx_conn) (e : rx_env)
    (buffer : List Nat) (digest : Nat)
    (hh : e.rx_hdr = some buffer) (hd : conn.HeaderDigest = true)
    (hg : e.rx_digest = some digest) (hne : digest ≠ e.checksum) :
    (iscsi_target_rx_thread_body conn e).conn.conn_digest_errors
        = conn.conn_digest_errors + 1
    ∧ (∀ a ∈ (iscsi_target_rx_thread_body conn e).actions, a.is_handler = false)
    ∧ (conn.conn_state ≠ .TARG_CONN_STATE_IN_LOGOUT →
        (iscsi_target_rx_thread_body conn e).opcode = some 0x3f
        ∧ 0x3f ∉ rx_handled_opcodes
        ∧ (iscsi_target_rx_thread_body conn e).actions.head? = some .unknown_opcode)
    ∧ (conn.conn_state = .TARG_CONN_STATE_IN_LOGOUT →
        (iscsi_target_rx_thread_body conn e).transport_err = true
        ∧ (iscsi_target_rx_thread_body conn e).actions = [])
    ∧ (conn.ErrorRecoveryLevel = 0 →
        (iscsi_target_rx_thread_body conn e).transport_err = true) := by
  have hop : Nat.land ((List.replicate ISCSI_HDR_LEN 0xff).getD 0 0) ISCSI_OPCODE_MASK
      = 0x3f := by decide
  have hsw : ∀ c : iscsi_rx_conn,
      (iscsi_target_rx_thread_switch c 0x3f e).conn = c
      ∧ (iscsi_target_rx_thread_switch c 0x3f e).opcode = some 0x3f
      ∧ (iscsi_target_rx_thread_switch c 0x3f e).actions.head? = some .unknown_opcode
      ∧ (∀ a ∈ (iscsi_target_rx_thread_switch c 0x3f e).actions, a.is_handler = false)
      ∧ (c.ErrorRecoveryLevel = 0 →
          (iscsi_target_rx_thread_switch c 0x3f e).transport_err = true) := by
    intro c
    unfold iscsi_target_rx_thread_switch
    simp only [ISCSI_OP_SCSI_CMD, ISCSI_OP_SCSI_DATA_OUT, ISCSI_OP_NOOP_OUT,
      ISCSI_OP_SCSI_TMFUNC, ISCSI_OP_TEXT, ISCSI_OP_LOGOUT, ISCSI_OP_SNACK]
    simp only [show ¬ (0x3f = 0x01) by decide, show ¬ (0x3f = 0x05) by decide,
      show ¬ (0x3f = 0x00) by decide, show ¬ (0x3f = 0x02) by decide,
      show ¬ (0x3f = 0x04) by decide, show ¬ (0x3f = 0x06) by decide,
      show ¬ (0x3f = 0x10) by decide, if_false]
    split_ifs <;> simp_all [rx_action.is_handler]
  have hdisp : ∀ c : iscsi_rx_conn, c.conn_state ≠ .TARG_CONN_STATE_IN_LOGOUT →
      iscsi_target_rx_thread_dispatch c (List.replicate ISCSI_HDR_LEN 0xff) e
        = iscsi_target_rx_thread_switch c 0x3f e := by
    intro c hc
    unfold iscsi_target_rx_thread_dispatch
    rw [if_neg hc]
    simp only [hop]
    rw [if_neg]
    intro hx
    rcases hx.2 with h1 | h1 <;> exact absurd h1 (by decide)
  have hlog : ∀ c : iscsi_rx_conn, c.conn_state = .TARG_CONN_STATE_IN_LOGOUT →
      iscsi_target_rx_thread_dispatch c (List.replicate ISCSI_HDR_LEN 0xff) e
        = ⟨true, c, none, []⟩ := by
    intro c hc
    unfold iscsi_target_rx_thread_dispatch
    rw [if_pos hc]
  have key : ∀ c : iscsi_rx_conn,
      (iscsi_target_rx_thread_dispatch c (List.replicate ISCSI_HDR_LEN 0xff) e).conn = c
      ∧ (∀ a ∈ (iscsi_target_rx_thread_dispatch c (List.replicate ISCSI_HDR_LEN 0xff)
            e).actions, a.is_handler = false)
      ∧ (c.conn_state ≠ .TARG_CONN_STATE_IN_LOGOUT →
          (iscsi_target_rx_thread_dispatch c (List.replicate ISCSI_HDR_LEN 0xff) e).opcode
            = some 0x3f
          ∧ 0x3f ∉ rx_handled_opcodes
          ∧ (iscsi_target_rx_thread_dispatch c (List.replicate ISCSI_HDR_LEN 0xff)
              e).actions.head? = some .unknown_opcode)
      ∧ (c.conn_state = .TARG_CONN_STATE_IN_LOGOUT →
          (iscsi_target_rx_thread_dispatch c (List.replicate ISCSI_HDR_LEN 0xff)
              e).transport_err = true
          ∧ (iscsi_target_rx_thread_dispatch c (List.replicate ISCSI_HDR_LEN 0xff)
              e).actions = [])
      ∧ (c.ErrorRecoveryLevel = 0 →
          (iscsi_target_rx_thread_dispatch c (List.replicate ISCSI_HDR_LEN 0xff)
              e).transport_err = true) := by
    intro c
    by_cases hc : c.conn_state = .TARG_CONN_STATE_IN_LOGOUT
    · rw [hlog _ hc]
      exact ⟨rfl, by simp, fun hx => absurd hc hx, fun _ => ⟨rfl, rfl⟩, fun _ => rfl⟩
    · rw [hdisp _ hc]
      obtain ⟨s1, s2, s3, s4, s5⟩ := hsw c
      exact ⟨s1, s4, fun _ => ⟨s2, by decide, s3⟩, fun hx => absurd hx hc, s5⟩
  have hbody : iscsi_target_rx_thread_body conn e
      = iscsi_target_rx_thread_dispatch
          { conn with bad_hdr := buffer, conn_digest_errors := conn.conn_digest_errors + 1 }
          (List.replicate ISCSI_HDR_LEN 0xff) e := by
    unfold iscsi_target_rx_thread_body
    simp only [hh, hg]
    rw [if_pos hd, if_pos hne]
  rw [hbody]
  obtain ⟨k1, k2, k3, k4, k5⟩ := key
    { conn with bad_hdr := buffer, conn_digest_errors := conn.conn_digest_errors + 1 }
  exact ⟨by rw [k1], k2, k3, k4, k5⟩

/-- C13 (witness): a SCSI Command header (first byte 0x01) received on a
discovery session with a wrong digest reaches the unknown-opcode branch as
opcode 0x3f and is counted once. -/
theorem c13_header_digest_failure_witness :
    (iscsi_target_rx_thread_body { HeaderDigest := true, SessionType := 1 }
        { rx_hdr := some (1 :: List.replicate 47 0), rx_digest := some 1,
          checksum := 2 }).conn.conn_digest_errors = 0 + 1
    ∧ (iscsi_target_rx_thread_body { HeaderDigest := true, SessionType := 1 }
        { rx_hdr := some (1 :: List.replicate 47 0), rx_digest := some 1,
          checksum := 2 }).opcode = some 0x3f
    ∧ (iscsi_target_rx_thread_body { HeaderDigest := true, SessionType := 1 }
        { rx_hdr := some (1 :: List.replicate 47 0), rx_digest := some 1,
          checksum := 2 }).transport_err = true :=
  have h := c13_header_digest_failure { HeaderDigest := true, SessionType := 1 }
    { rx_hdr := some (1 :: List.replicate 47 0), rx_digest := some 1, checksum := 2 }
    (1 :: List.replicate 47 0) 1 rfl rfl rfl (by decide)
  ⟨h.1, (h.2.2.1 (by decide)).1, h.2.2.2.2 rfl⟩

/-! ### StatSN of the SCSI Response -/

/-- C14: `iscsit_send_status` on a command in state ISTATE_SEND_STATUS writes
the connection's StatSN counter N into the SCSI Response (and into the
command) and leaves the counter at N + 1 modulo 2^32, so that the response
built next for another command in that state carries N + 1 modulo 2^32; on a
command in any other state the counter and the command's StatSN stay as they
were and the response carries the command's StatSN. -/
theorem c14_send_status_statsn (cmd : iscsi_cmd) (conn : iscsi_conn) (e : tx_env) :
    (cmd.i_state = .ISTATE_SEND_STATUS →
        (iscsit_send_status cmd conn e).hdr.statsn = conn.stat_sn
        ∧ (iscsit_send_status cmd conn e).cmd.stat_sn = conn.stat_sn
        ∧ (iscsit_send_status cmd conn e).conn.stat_sn = u32 (conn.stat_sn + 1)
        ∧ ∀ (cmd2 : iscsi_cmd) (e2 : tx_env), cmd2.i_state = .ISTATE_SEND_STATUS →
            (iscsit_send_status cmd2 (iscsit_send_status cmd conn e).conn e2).hdr.statsn
              = u32 (conn.stat_sn + 1))
    ∧ (cmd.i_state ≠ .ISTATE_SEND_STATUS →
        (iscsit_send_status cmd conn e).conn.stat_sn = conn.stat_sn
        ∧ (iscsit_send_status cmd conn e).cmd.stat_sn = cmd.stat_sn
        ∧ (iscsit_send_status cmd conn e).hdr.statsn = cmd.stat_sn) := by
  constructor
  · intro hs
    refine ⟨?_, ?_, ?_, ?_⟩
    · simp [iscsit_send_status, send_status_statsn, hs]
    · simp [iscsit_send_status, send_status_statsn, hs]
    · simp [iscsit_send_status, send_status_statsn, hs]
    · intro cmd2 e2 hs2
      simp [iscsit_send_status, send_status_statsn, hs, hs2]
  · intro hs
    refine ⟨?_, ?_, ?_⟩ <;> simp [iscsit_send_status, send_status_statsn, hs]

/-- C14 (witness): on a connection whose counter holds 0xFFFFFFFF a first
response carries 0xFFFFFFFF and the next one 0. -/
theorem c14_send_status_statsn_witness :
    (iscsit_send_status { i_state := .ISTATE_SEND_STATUS } { stat_sn := 0xFFFFFFFF }
        {}).hdr.statsn = 0xFFFFFFFF
    ∧ (iscsit_send_status { i_state := .ISTATE_SEND_STATUS }
        (iscsit_send_status { i_state := .ISTATE_SEND_STATUS } { stat_sn := 0xFFFFFFFF }
          {}).conn {}).hdr.statsn = 0 :=
  have h := (c14_send_status_statsn { i_state := .ISTATE_SEND_STATUS }
    { stat_sn := 0xFFFFFFFF } {}).1 rfl
  ⟨h.1, h.2.2.2 { i_state := .ISTATE_SEND_STATUS } {} rfl⟩

/-! ### Target transfer tags -/

/-- The tag drawn from a 32-bit counter is never the reserved value, the
counter moves on by one, or by two from 0xFFFFFFFF, and the next tag drawn
is a different one. -/
theorem next_targ_xfer_tag_spec (counter : Nat) (hc : counter < 4294967296) :
    (next_targ_xfer_tag counter).1 ≠ 0xFFFFFFFF
    ∧ (next_targ_xfer_tag counter).1 < 4294967296
    ∧ (next_targ_xfer_tag counter).2
        = (if counter = 0xFFFFFFFF then u32 (counter + 2) else u32 (counter + 1))
    ∧ (next_targ_xfer_tag (next_targ_xfer_tag counter).2).1
        ≠ (next_targ_xfer_tag counter).1 := by
  unfold next_targ_xfer_tag u32
  simp only
  by_cases h1 : counter = 0xFFFFFFFF
  · subst h1
    decide
  · by_cases h2 : counter = 0xFFFFFFFE
    · subst h2
      decide
    · have h3 : (counter + 1) % 4294967296 = counter + 1 := Nat.mod_eq_of_lt (by omega)
      have h4 : ¬ counter + 1 = 0xFFFFFFFF := by omega
      simp only [h1, h3, h4, if_false]
      refine ⟨h1, hc, trivial, by omega⟩

/-- C15: for every value of the 32-bit target-transfer-tag counter of the
session, the tag `iscsit_handle_scsi_cmd` gives a READ command and the tag
`iscsit_send_r2t` gives an R2T (and writes into the R2T header) is the one
drawn from the counter: never 0xFFFFFFFF, the counter moves on by one modulo
2^32, by two from 0xFFFFFFFF, and the tag drawn next differs; a WRITE command
that is not also a READ gets the tag 0xFFFFFFFF and leaves the counter as it
was. -/
theorem c15_targ_xfer_tag (counter : Nat) (hc : counter < 4294967296) :
    ((next_targ_xfer_tag counter).1 ≠ 0xFFFFFFFF
      ∧ (next_targ_xfer_tag counter).2
          = (if counter = 0xFFFFFFFF then u32 (counter + 2) else u32 (counter + 1))
      ∧ (next_targ_xfer_tag (next_targ_xfer_tag counter).2).1
          ≠ (next_targ_xfer_tag counter).1)
    ∧ (∀ (conn : iscsi_conn) (h : Nat) (hdr : iscsi_scsi_req),
        conn.sess_targ_xfer_tag = counter → h < conn.cmd_pool.length →
        hdr.flag_read = true →
        ((iscsit_handle_scsi_cmd_init conn h hdr).cmd h).targ_xfer_tag
            = (next_targ_xfer_tag counter).1
        ∧ (iscsit_handle_scsi_cmd_init conn h hdr).sess_targ_xfer_tag
            = (next_targ_xfer_tag counter).2)
    ∧ (∀ (conn : iscsi_conn) (h : Nat) (hdr : iscsi_scsi_req),
        conn.sess_targ_xfer_tag = counter → h < conn.cmd_pool.length →
        hdr.flag_read = false → hdr.flag_write = true →
        ((iscsit_handle_scsi_cmd_init conn h hdr).cmd h).targ_xfer_tag = 0xFFFFFFFF
        ∧ (iscsit_handle_scsi_cmd_init conn h hdr).sess_targ_xfer_tag = counter)
    ∧ (∀ (cmd : iscsi_cmd) (conn : iscsi_conn) (e : tx_env) (k : Nat) (r2t : iscsi_r2t),
        conn.sess_targ_xfer_tag = counter → e.get_r2t_from_list = some k →
        cmd.cmd_r2t_list.get? k = some r2t →
        (iscsit_send_r2t cmd conn e).ret = 0
        ∧ ((iscsit_send_r2t cmd conn e).hdr.map fun x => x.ttt)
            = some (next_targ_xfer_tag counter).1
        ∧ (((iscsit_send_r2t cmd conn e).cmd.cmd_r2t_list.get? k).map
            fun x => x.targ_xfer_tag) = some (next_targ_xfer_tag counter).1
        ∧ (iscsit_send_r2t cmd conn e).conn.sess_targ_xfer_tag
            = (next_targ_xfer_tag counter).2) := by
  obtain ⟨t1, _, t3, t4⟩ := next_targ_xfer_tag_spec counter hc
  refine ⟨⟨t1, t3, t4⟩, ?_, ?_, ?_⟩
  · intro conn h hdr hcnt hlt hr
    subst hcnt
    unfold iscsit_handle_scsi_cmd_init
    simp only [hr, if_true]
    refine ⟨?_, rfl⟩
    rw [cmd_set_cmd]
    simp only [true_and]
    rw [if_pos (by simpa using hlt)]
    simp [scsi_cmd_fields, hr, iscsi_conn.set_sess_init_task_tag]
  · intro conn h hdr hcnt hlt hr hw
    subst hcnt
    unfold iscsit_handle_scsi_cmd_init
    simp only [hr, Bool.false_eq_true, if_false]
    refine ⟨?_, rfl⟩
    rw [cmd_set_cmd]
    simp only [true_and]
    rw [if_pos (by simpa using hlt)]
    simp [scsi_cmd_fields, hr, hw]
  · intro cmd conn e k r2t hcnt hk hr
    subst hcnt
    have hlt : k < cmd.cmd_r2t_list.length := by
      rcases Nat.lt_or_ge k cmd.cmd_r2t_list.length with hlt | hge
      · exact hlt
      · rw [List.get?_eq_none.mpr hge] at hr
        cases hr
    unfold iscsit_send_r2t
    simp only [hk, hr]
    refine ⟨by simp, by simp, ?_, by simp [iscsi_conn.set_sess_targ_xfer_tag]⟩
    simp [List.getElem?_set, hlt]

/-- C15 (witness): from the counter value 0xFFFFFFFF a READ command gets the
tag 0 and the counter moves on to 1. -/
theorem c15_targ_xfer_tag_witness :
    ((iscsit_handle_scsi_cmd_init { sess_targ_xfer_tag := 0xFFFFFFFF, cmd_pool := [{}] } 0
        { flag_read := true, data_length := 512 }).cmd 0).targ_xfer_tag = 0
    ∧ (iscsit_handle_scsi_cmd_init { sess_targ_xfer_tag := 0xFFFFFFFF, cmd_pool := [{}] } 0
        { flag_read := true, data_length := 512 }).sess_targ_xfer_tag = 1 :=
  (c15_targ_xfer_tag 0xFFFFFFFF (by decide)).2.1
    { sess_targ_xfer_tag := 0xFFFFFFFF, cmd_pool := [{}] } 0
    { flag_read := true, data_length := 512 } rfl (by decide) rfl

/-! ### Logout with reason "close the session" -/

theorem sess_conn_set_conn (sess : iscsi_session) (i k : Nat) (c : sess_conn) :
    (sess.set_conn i c).conn k
      = if i = k ∧ i < sess.sess_conn_list.length then c else sess.conn k := by
  unfold iscsi_session.set_conn iscsi_session.conn
  simp only [List.getD_eq_getElem?_getD, List.getElem?_set]
  by_cases hk : i = k
  · subst hk
    by_cases hlt : i < sess.sess_conn_list.length
    · simp [hlt]
    · simp [hlt, List.getElem?_eq_none (Nat.le_of_not_lt hlt)]
  · simp [hk]

/-- C18 (counterexample): a session with one connection logged in and one in
state TARG_CONN_STATE_CLEANUP_WAIT: after `iscsit_logout_closesession` on the
first, the second is still in TARG_CONN_STATE_CLEANUP_WAIT. -/
theorem c18_cleanup_wait_not_moved :
    ((iscsit_logout_closesession 0 .ISTATE_SEND_LOGOUTRSP
        { sess_conn_list := [{ cid := 0 },
            { cid := 1, conn_state := .TARG_CONN_STATE_CLEANUP_WAIT }] } 0).sess.conn 1).conn_state
      = .TARG_CONN_STATE_CLEANUP_WAIT := by
  decide

/-- C18 (amended): after `iscsit_logout_closesession` on a session with any
number of connections the session_logout flag is set, every connection of the
session's connection list that was in state TARG_CONN_STATE_LOGGED_IN is in
state TARG_CONN_STATE_IN_LOGOUT and every other one keeps its state, and the
logout command is queued exactly once: at the tail of the response queue of
the connection that carried the request, no other response queue changing. -/
theorem c18_logout_closesession (cmd : Nat) (i_state : istate) (sess : iscsi_session)
    (i : Nat) (hi : i < sess.sess_conn_list.length) :
    (iscsit_logout_closesession cmd i_state sess i).ret = 0
    ∧ (iscsit_logout_closesession cmd i_state sess i).sess.session_logout = true
    ∧ (iscsit_logout_closesession cmd i_state sess i).sess.sess_conn_list.length
        = sess.sess_conn_list.length
    ∧ (∀ k, k < sess.sess_conn_list.length →
        ((iscsit_logout_closesession cmd i_state sess i).sess.conn k).conn_state
          = (if (sess.conn k).conn_state = .TARG_CONN_STATE_LOGGED_IN
             then .TARG_CONN_STATE_IN_LOGOUT else (sess.conn k).conn_state))
    ∧ ((iscsit_logout_closesession cmd i_state sess i).sess.conn i).response_queue
        = (sess.conn i).response_queue ++ [⟨cmd, i_state⟩]
    ∧ (∀ k, k ≠ i →
        ((iscsit_logout_closesession cmd i_state sess i).sess.conn k).response_queue
          = (sess.conn k).response_queue) := by
  have hmap : ∀ (l : List sess_conn) (k : Nat),
      (l.map logout_closesession_step).getD k {}
        = if k < l.length then logout_closesession_step (l.getD k {}) else {} := by
    intro l k
    simp only [List.getD_eq_getElem?_getD, List.getElem?_map]
    by_cases hk : k < l.length
    · simp [hk]
    · simp [hk, List.getElem?_eq_none (Nat.le_of_not_lt hk)]
  have hset : ∀ (l : List sess_conn) (c : sess_conn) (k : Nat),
      (l.set i c).getD k {} = if i = k ∧ i < l.length then c else l.getD k {} := by
    intro l c k
    simp only [List.getD_eq_getElem?_getD, List.getElem?_set]
    by_cases hk : i = k
    · subst hk
      by_cases hlt : i < l.length
      · simp [hlt]
      · simp [hlt, List.getElem?_eq_none (Nat.le_of_not_lt hlt)]
    · simp [hk]
  unfold iscsit_logout_closesession
  simp only [iscsi_session.set_conn, iscsi_session.note, iscsi_session.conn]
  refine ⟨trivial, trivial, by simp, ?_, ?_, ?_⟩
  · intro k hk
    simp only [hset, hmap, List.length_map, List.length_set, hi, hk, and_true, if_true]
    by_cases hik : i = k
    · subst hik
      simp only [if_true]
      unfold logout_closesession_step
      split_ifs <;> simp_all
    · simp only [hik, if_false]
      unfold logout_closesession_step
      split_ifs <;> simp_all
  · simp only [hset, hmap, List.length_map, List.length_set, hi, and_true, if_true]
    unfold logout_closesession_step
    split_ifs <;> simp_all
  · intro k hk
    have hne : ¬ i = k := fun h => hk h.symm
    simp only [hset, hmap, List.length_map, List.length_set, hne, false_and, if_false]
    by_cases hkl : k < sess.sess_conn_list.length
    · simp only [hkl, if_true]
      unfold logout_closesession_step
      split_ifs <;> rfl
    · simp only [hkl, if_false]
      simp [List.getD_eq_getElem?_getD, List.getElem?_eq_none (Nat.le_of_not_lt hkl)]

/-- C18 (witness): a session with two logged-in connections; the request
arrives on the second. -/
theorem c18_logout_closesession_witness :
    ((iscsit_logout_closesession 7 .ISTATE_SEND_LOGOUTRSP
        { sess_conn_list := [{ cid := 0 }, { cid := 1 }] } 1).sess.conn 0).conn_state
      = .TARG_CONN_STATE_IN_LOGOUT
    ∧ ((iscsit_logout_closesession 7 .ISTATE_SEND_LOGOUTRSP
        { sess_conn_list := [{ cid := 0 }, { cid := 1 }] } 1).sess.conn 1).response_queue
      = [⟨7, .ISTATE_SEND_LOGOUTRSP⟩] :=
  have h := c18_logout_closesession 7 .ISTATE_SEND_LOGOUTRSP
    { sess_conn_list := [{ cid := 0 }, { cid := 1 }] } 1 (by decide)
  ⟨h.2.2.2.1 0 (by decide), h.2.2.2.2.1⟩

/-! ### Closing the last connection of a session -/

@[simp] theorem sess_notes_fields (sess : iscsi_session) (l : List sess_call) :
    (sess.notes l).ErrorRecoveryLevel = sess.ErrorRecoveryLevel
    ∧ (sess.notes l).nconn = sess.nconn
    ∧ (sess.notes l).session_state = sess.session_state
    ∧ (sess.notes l).session_logout = sess.session_logout
    ∧ (sess.notes l).session_reinstatement = sess.session_reinstatement
    ∧ (sess.notes l).session_fall_back_to_erl0 = sess.session_fall_back_to_erl0
    ∧ (sess.notes l).session_continuation = sess.session_continuation
    ∧ (sess.notes l).calls = sess.calls ++ l :=
  ⟨rfl, rfl, rfl, rfl, rfl, rfl, rfl, rfl⟩

/-- What the first two parts of `iscsit_close_connection` do to the session
when no logout is pending on the connection: its flags, counters and state
stay, and neither the session close nor the Time2Retain handler is called. -/
theorem close_connection_free_frame (sess : iscsi_session) (conn : sess_conn) (i : Nat)
    (hr : conn.conn_logout_remove = false) :
    ∃ l : List sess_call,
      (iscsit_close_connection_free (iscsit_close_connection_release sess conn).1
        (iscsit_close_connection_release sess conn).2 i).1
        = { sess with sess_conn_list := sess.sess_conn_list.eraseIdx i,
                      calls := sess.calls ++ l }
      ∧ sess_call.close_session ∉ l ∧ sess_call.start_time2retain_handler ∉ l := by
  refine ⟨[.complete_conn_logout_comp, .release_thread_set,
      .stop_timers_for_cmds, .stop_nopin_response_timer, .stop_nopin_timer,
      .free_queue_reqs_for_conn]
    ++ (if conn.connection_recovery then
          [.discard_unacknowledged_ooo_cmdsns_for_conn, .prepare_cmds_for_realligance]
        else [.clear_ooo_cmdsns_for_conn, .release_commands_from_conn])
    ++ (if conn.connection_recovery then [.build_conn_drop_async_message] else [])
    ++ (if conn.sleep_on_conn_wait_comp then
          [.complete_conn_wait_comp, .wait_conn_post_wait_comp] else [])
    ++ (if conn.connection_wait_rcfr then
          [.complete_conn_wait_rcfr_comp, .wait_conn_post_wait_comp] else [])
    ++ [.check_conn_usage_count, .release_conn_resources], ?_, ?_, ?_⟩
  · unfold iscsit_close_connection_free iscsit_close_connection_release
    simp only [hr, Bool.false_eq_true, if_false, iscsi_session.notes, iscsi_session.note]
    generalize conn.connection_recovery = b1
    generalize conn.sleep_on_conn_wait_comp = b2
    generalize conn.connection_wait_rcfr = b3
    cases b1 <;> cases b2 <;> cases b3 <;> simp
  · generalize conn.connection_recovery = b1
    generalize conn.sleep_on_conn_wait_comp = b2
    generalize conn.connection_wait_rcfr = b3
    cases b1 <;> cases b2 <;> cases b3 <;> simp
  · generalize conn.connection_recovery = b1
    generalize conn.sleep_on_conn_wait_comp = b2
    generalize conn.connection_wait_rcfr = b3
    cases b1 <;> cases b2 <;> cases b3 <;> simp

/-- C17 (counterexample): at ErrorRecoveryLevel 1 the last connection of a
session is closed without logout and without reinstatement: the session is
handed to `iscsit_close_session`, it is not marked TARG_SESS_STATE_FAILED and
the Time2Retain handler is not started. -/
theorem c17_erl1_closes_session :
    sess_call.close_session ∈
        (iscsit_close_connection
          { ErrorRecoveryLevel := 1, nconn := 1, sess_conn_list := [{}] } 0).sess.calls
    ∧ sess_call.start_time2retain_handler ∉
        (iscsit_close_connection
          { ErrorRecoveryLevel := 1, nconn := 1, sess_conn_list := [{}] } 0).sess.calls
    ∧ (iscsit_close_connection
          { ErrorRecoveryLevel := 1, nconn := 1, sess_conn_list := [{}] } 0).sess.session_state
        = .TARG_SESS_STATE_LOGGED_IN := by
  refine ⟨by decide, by decide, by decide⟩

/-- C17 (amended): when the last connection of a session (nconn = 1) is
closed by `iscsit_close_connection` without logout (the connection is not in
state IN_LOGOUT, no logout removal is pending on it, session_logout is clear)
and without session reinstatement: at ErrorRecoveryLevel 2, with no fall-back
to ErrorRecoveryLevel 0 pending, the session is marked
TARG_SESS_STATE_FAILED, `iscsit_close_session` is not called and the
Time2Retain handler is started exactly when session continuation is not in
progress; at every other ErrorRecoveryLevel the session keeps its state, is
handed to `iscsit_close_session` and the Time2Retain handler is not started. -/
theorem c17_close_last_connection (sess : iscsi_session) (i : Nat)
    (hn : sess.nconn = 1)
    (hs : (sess.conn i).conn_state ≠ .TARG_CONN_STATE_IN_LOGOUT)
    (hr : (sess.conn i).conn_logout_remove = false)
    (hl : sess.session_logout = false)
    (hre : sess.session_reinstatement = false)
    (hc : sess_call.close_session ∉ sess.calls)
    (ht : sess_call.start_time2retain_handler ∉ sess.calls) :
    (iscsit_close_connection sess i).ret = 0
    ∧ (sess.ErrorRecoveryLevel = 2 → sess.session_fall_back_to_erl0 = false →
        (iscsit_close_connection sess i).sess.session_state = .TARG_SESS_STATE_FAILED
        ∧ sess_call.close_session ∉ (iscsit_close_connection sess i).sess.calls
        ∧ (sess_call.start_time2retain_handler
              ∈ (iscsit_close_connection sess i).sess.calls
            ↔ sess.session_continuation = false))
    ∧ (sess.ErrorRecoveryLevel ≠ 2 →
        (iscsit_close_connection sess i).sess.session_state = sess.session_state
        ∧ sess_call.close_session ∈ (iscsit_close_connection sess i).sess.calls
        ∧ sess_call.start_time2retain_handler
            ∉ (iscsit_close_connection sess i).sess.calls) := by
  obtain ⟨l, hfree, hl1, hl2⟩ := close_connection_free_frame sess (sess.conn i) i hr
  unfold iscsit_close_connection
  simp only [hs, decide_False]
  rw [hfree]
  refine ⟨trivial, ?_, ?_⟩
  · intro he hfb
    unfold iscsit_close_connection_session
    simp only [hn, he, hl, hre, hfb, ne_eq, not_true_eq_false, false_and, if_false,
      sub_self, and_self, Bool.false_eq_true, and_false, iscsi_session.note]
    cases hcont : sess.session_continuation <;> cases sess.sleep_on_sess_wait_comp <;>
      simp [hc, hl1, ht, hl2]
  · intro he
    unfold iscsit_close_connection_session
    simp only [hn, he, hl, hre, ne_eq, not_false_eq_true, and_self, if_true, sub_self,
      not_true_eq_false, if_false, iscsi_session.note]
    simp [ht, hl2]

/-- C17 (witness): at ErrorRecoveryLevel 2 the last connection of a session
fails: the session is marked TARG_SESS_STATE_FAILED and the Time2Retain
handler is started. -/
theorem c17_close_last_connection_witness :
    (iscsit_close_connection
        { ErrorRecoveryLevel := 2, nconn := 1, sess_conn_list := [{}] } 0).sess.session_state
      = .TARG_SESS_STATE_FAILED
    ∧ sess_call.start_time2retain_handler ∈
        (iscsit_close_connection
          { ErrorRecoveryLevel := 2, nconn := 1, sess_conn_list := [{}] } 0).sess.calls :=
  have h := (c17_close_last_connection
    { ErrorRecoveryLevel := 2, nconn := 1, sess_conn_list := [{}] } 0 rfl (by decide) rfl
    rfl rfl (by decide) (by decide)).2.1 rfl rfl
  ⟨h.1, h.2.2.2 rfl⟩

/-! ### NOP-Out that expects no answer -/

theorem send_data_in_statsn_spec (datain : iscsi_datain) (dr_complete : Nat)
    (cmd : iscsi_cmd) (conn : iscsi_conn) (e : datain_env) :
    ((send_data_in_statsn datain dr_complete cmd conn e).1.ISCSI_FLAG_DATA_STATUS
        = (datain.flags.ISCSI_FLAG_DATA_STATUS
            && !cmd.se_cmd.se_cmd_flags.SCF_TRANSPORT_TASK_SENSE))
    ∧ (send_data_in_statsn datain dr_complete cmd conn e).1.ISCSI_FLAG_DATA_OVERFLOW
        = datain.flags.ISCSI_FLAG_DATA_OVERFLOW
    ∧ (send_data_in_statsn datain dr_complete cmd conn e).1.ISCSI_FLAG_DATA_UNDERFLOW
        = datain.flags.ISCSI_FLAG_DATA_UNDERFLOW
    ∧ (send_data_in_statsn datain dr_complete cmd conn e).2.1.se_cmd = cmd.se_cmd
    ∧ (send_data_in_statsn datain dr_complete cmd conn e).2.1.residual_count
        = cmd.residual_count
    ∧ (datain.flags.ISCSI_FLAG_DATA_STATUS = true →
        cmd.se_cmd.se_cmd_flags.SCF_TRANSPORT_TASK_SENSE = true →
        (send_data_in_statsn datain dr_complete cmd conn e).2.2.2 = false
        ∧ (send_data_in_statsn datain dr_complete cmd conn e).2.2.1 = conn) := by
  unfold send_data_in_statsn
  split_ifs <;> simp_all

theorem send_data_in_flags_spec (fl : datain_flags) (f : se_cmd_flags_t) :
    (send_data_in_flags fl f).ISCSI_FLAG_DATA_STATUS = fl.ISCSI_FLAG_DATA_STATUS
    ∧ (send_data_in_flags fl f).ISCSI_FLAG_DATA_OVERFLOW
        = (fl.ISCSI_FLAG_DATA_OVERFLOW
            || (fl.ISCSI_FLAG_DATA_STATUS && f.SCF_OVERFLOW_BIT))
    ∧ (send_data_in_flags fl f).ISCSI_FLAG_DATA_UNDERFLOW
        = (fl.ISCSI_FLAG_DATA_UNDERFLOW
            || (fl.ISCSI_FLAG_DATA_STATUS && !f.SCF_OVERFLOW_BIT && f.SCF_UNDERFLOW_BIT)) := by
  unfold send_data_in_flags
  split_ifs <;> simp_all

theorem send_data_in_payload_spec (h0 : iscsi_data_rsp) (datain : iscsi_datain)
    (dr_complete : Nat) (c : iscsi_cmd) (cn : iscsi_conn) (e : datain_env) (rb : Nat) :
    (send_data_in_payload h0 datain dr_complete c cn e rb).hdr = some h0
    ∧ (send_data_in_payload h0 datain dr_complete c cn e rb).conn = cn
    ∧ ((send_data_in_payload h0 datain dr_complete c cn e rb).ret = 0 →
        dr_complete ≠ 0 →
        (send_data_in_payload h0 datain dr_complete c cn e rb).eodr
          = some (if c.se_cmd.se_cmd_flags.SCF_TRANSPORT_TASK_SENSE then 2 else 1)) := by
  unfold send_data_in_payload
  split_ifs <;> simp_all

/-- The header of every Data-In PDU `iscsit_send_data_in` builds, for data-in
values whose flag byte comes without residual bits: STATUS is present exactly
when it is asked for and the command has no transport sense data; where it
was asked for and dropped, the StatSN field holds the reserved value, the
connection's StatSN counter stays and the end of the data-in request is
reported as 2; OVERFLOW, UNDERFLOW and a residual count appear only together
with STATUS, OVERFLOW going first, never both. -/
theorem send_data_in_header (cmd : iscsi_cmd) (conn : iscsi_conn) (e : datain_env)
    (datain : iscsi_datain) (dr_complete : Nat) (hdr : iscsi_data_rsp)
    (hg : e.get_datain_values = some (datain, dr_complete))
    (ho : datain.flags.ISCSI_FLAG_DATA_OVERFLOW = false)
    (hu : datain.flags.ISCSI_FLAG_DATA_UNDERFLOW = false)
    (hh : (iscsit_send_data_in cmd conn e).hdr = some hdr) :
    (hdr.flags.ISCSI_FLAG_DATA_STATUS
        = (datain.flags.ISCSI_FLAG_DATA_STATUS
            && !cmd.se_cmd.se_cmd_flags.SCF_TRANSPORT_TASK_SENSE))
    ∧ (datain.flags.ISCSI_FLAG_DATA_STATUS = true →
        cmd.se_cmd.se_cmd_flags.SCF_TRANSPORT_TASK_SENSE = true →
        hdr.statsn = 0xFFFFFFFF
        ∧ (iscsit_send_data_in cmd conn e).conn.stat_sn = conn.stat_sn
        ∧ ((iscsit_send_data_in cmd conn e).ret = 0 → dr_complete ≠ 0 →
            (iscsit_send_data_in cmd conn e).eodr = some 2))
    ∧ (hdr.flags.ISCSI_FLAG_DATA_OVERFLOW
        = (hdr.flags.ISCSI_FLAG_DATA_STATUS && cmd.se_cmd.se_cmd_flags.SCF_OVERFLOW_BIT))
    ∧ (hdr.flags.ISCSI_FLAG_DATA_UNDERFLOW
        = (hdr.flags.ISCSI_FLAG_DATA_STATUS && !cmd.se_cmd.se_cmd_flags.SCF_OVERFLOW_BIT
            && cmd.se_cmd.se_cmd_flags.SCF_UNDERFLOW_BIT))
    ∧ ¬ (hdr.flags.ISCSI_FLAG_DATA_OVERFLOW = true
          ∧ hdr.flags.ISCSI_FLAG_DATA_UNDERFLOW = true)
    ∧ (hdr.residual_count ≠ 0 → hdr.flags.ISCSI_FLAG_DATA_STATUS = true
        ∧ (hdr.flags.ISCSI_FLAG_DATA_OVERFLOW = true
            ∨ hdr.flags.ISCSI_FLAG_DATA_UNDERFLOW = true))
    ∧ u32 (datain.offset + datain.length) ≤ cmd.data_length := by
  unfold iscsit_send_data_in at hh ⊢
  simp only [hg] at hh ⊢
  by_cases hchk : u32 (datain.offset + datain.length) > cmd.data_length
  · simp [hchk] at hh
  · simp only [hchk, if_false] at hh ⊢
    obtain ⟨s1, s2, s3, s4, s5, s6⟩ := send_data_in_statsn_spec datain dr_complete cmd
      { conn with sess_tx_data_octets := conn.sess_tx_data_octets + datain.length } e
    generalize send_data_in_statsn datain dr_complete cmd
      { conn with sess_tx_data_octets := conn.sess_tx_data_octets + datain.length } e = S
      at hh s1 s2 s3 s4 s5 s6 ⊢
    obtain ⟨p1, p2, p3⟩ := send_data_in_payload_spec
      (send_data_in_hdr S.1 S.2.2.2 datain S.2.1 S.2.2.1 e) datain dr_complete S.2.1
      S.2.2.1 e (if e.se_node_acl then datain.length else 0)
    rw [p1] at hh
    injection hh with hh
    subst hh
    rw [p2]
    obtain ⟨f1, f2, f3⟩ := send_data_in_flags_spec S.1 S.2.1.se_cmd.se_cmd_flags
    have e1 : (send_data_in_hdr S.1 S.2.2.2 datain S.2.1 S.2.2.1 e).flags
        = send_data_in_flags S.1 S.2.1.se_cmd.se_cmd_flags := rfl
    have e2 : (send_data_in_hdr S.1 S.2.2.2 datain S.2.1 S.2.2.1 e).statsn
        = if S.2.2.2 then S.2.1.stat_sn else 0xFFFFFFFF := rfl
    have e3 : (send_data_in_hdr S.1 S.2.2.2 datain S.2.1 S.2.2.1 e).residual_count
        = if S.1.ISCSI_FLAG_DATA_STATUS
            && (S.2.1.se_cmd.se_cmd_flags.SCF_OVERFLOW_BIT
                || S.2.1.se_cmd.se_cmd_flags.SCF_UNDERFLOW_BIT) then S.2.1.residual_count
          else 0 := rfl
    rw [e1, e2, e3, f1, f2, f3, s1, s2, s3, s4, ho, hu]
    refine ⟨rfl, ?_, ?_, ?_, ?_, ?_, Nat.le_of_not_lt hchk⟩
    · intro hst hse
      obtain ⟨t1, t2⟩ := s6 hst hse
      refine ⟨?_, ?_, fun hr hd => ?_⟩
      · rw [t1]; simp
      · rw [t2]
      · rw [p3 hr hd, s4, hse]
        rfl
    · simp
    · simp
    · generalize datain.flags.ISCSI_FLAG_DATA_STATUS = b1
      generalize cmd.se_cmd.se_cmd_flags.SCF_TRANSPORT_TASK_SENSE = b2
      generalize cmd.se_cmd.se_cmd_flags.SCF_OVERFLOW_BIT = b3
      generalize cmd.se_cmd.se_cmd_flags.SCF_UNDERFLOW_BIT = b4
      cases b1 <;> cases b2 <;> cases b3 <;> cases b4 <;> simp
    · generalize datain.flags.ISCSI_FLAG_DATA_STATUS = b1
      generalize cmd.se_cmd.se_cmd_flags.SCF_TRANSPORT_TASK_SENSE = b2
      generalize cmd.se_cmd.se_cmd_flags.SCF_OVERFLOW_BIT = b3
      generalize cmd.se_cmd.se_cmd_flags.SCF_UNDERFLOW_BIT = b4
      generalize S.2.1.residual_count = rc
      cases b1 <;> cases b2 <;> cases b3 <;> cases b4 <;> simp

/-- C20 (evaluation at the failing input): for a READ command of 4096 bytes,
data-in values with offset 0xFFFFFFFF and length 2 get past the range check
of `iscsit_send_data_in`, the 32-bit sum being 1: the call returns 0 and the
header of a Data-In PDU with that offset and length is built. -/
theorem c20_data_in_range_check_wraps :
    (iscsit_send_data_in { data_length := 4096 } {}
        { get_datain_values := some ({ offset := 0xFFFFFFFF, length := 2 }, 0) }).ret = 0
    ∧ ((iscsit_send_data_in { data_length := 4096 } {}
        { get_datain_values := some ({ offset := 0xFFFFFFFF, length := 2 }, 0) }).hdr.map
          fun h => (h.offset, h.dlength)) = some (0xFFFFFFFF, 2)
    ∧ 0xFFFFFFFF + 2 > (4096 : Nat) := by
  refine ⟨by decide, by decide, by decide⟩

/-! ### Mapping a range of data onto iovecs -/

/-! ### Bytes of segments and iovecs -/

@[simp] theorem seg_bytes_length (P p off len : Nat) : (seg_bytes P p off len).length = len := by
  simp [seg_bytes]

theorem seg_bytes_add (P p off a b : Nat) :
    seg_bytes P p off (a + b) = seg_bytes P p off a ++ seg_bytes P p (off + a) b := by
  unfold seg_bytes
  rw [List.range_add, List.map_append, List.map_map]
  congr 1
  apply List.map_congr_left
  intro j _
  simp [Nat.add_assoc]

theorem seg_bytes_page (P p off len : Nat) (hP : 0 < P) :
    seg_bytes P p (P + off) len = seg_bytes P (p + 1) off len := by
  unfold seg_bytes
  apply List.map_congr_left
  intro j _
  have h1 : (P + off + j) / P = (off + j) / P + 1 := by
    rw [Nat.add_assoc, Nat.add_div_left _ hP]
  have h2 : (P + off + j) % P = (off + j) % P := by
    rw [Nat.add_assoc, Nat.add_mod_left]
  rw [h1, h2]
  congr 1
  omega

theorem seg_bytes_in_page (P p off len : Nat) (h : off + len ≤ P) :
    seg_bytes P p off len = kvec.bytes ⟨.page p off, len⟩ := by
  unfold seg_bytes kvec.bytes
  apply List.map_congr_left
  intro j hj
  have hj' : j < len := List.mem_range.mp hj
  rw [Nat.div_eq_of_lt (by omega), Nat.mod_eq_of_lt (by omega)]
  rfl

theorem seg_bytes_drop (P p off len c : Nat) (hc : c ≤ len) :
    (seg_bytes P p off len).drop c = seg_bytes P p (off + c) (len - c) := by
  have h : len = c + (len - c) := by omega
  conv_lhs => rw [h, seg_bytes_add]
  rw [List.drop_left' (by simp)]

theorem seg_bytes_take_append (P p off len d : Nat) (rest : List (Nat × Nat)) (hd : d ≤ len) :
    (seg_bytes P p off len ++ rest).take d = seg_bytes P p off d := by
  have h : len = d + (len - d) := by omega
  rw [h, seg_bytes_add, List.append_assoc, List.take_left' (by simp)]

theorem kvec_bytes_length (p off len : Nat) : (kvec.bytes ⟨.page p off, len⟩).length = len := by
  simp [kvec.bytes]

/-- The bytes the next iovec takes from the front of what is left to map:
`il` is the length the code gives it, `Ls` the length of the segment as the
code holds it (cut down to `d` in one branch). -/
theorem emit_step (P p off L d Ls : Nat) (rest : List (Nat × Nat))
    (hoff : off < P) (hL : 0 < L) (hd : 0 < d)
    (hLs : Ls = L ∨ (d ≤ L ∧ Ls = d)) :
    ∃ il, il = (if d < (if L > P - off then P - off else L) then d
                else (if L > P - off then P - off else L))
      ∧ 0 < il ∧ il ≤ d ∧ il ≤ Ls ∧ off + il ≤ P
      ∧ (seg_bytes P p off L ++ rest).take d
          = kvec.bytes ⟨.page p off, il⟩
            ++ (if Ls - il = 0 ∨ d - il = 0 then rest.take (d - il)
                else (seg_bytes P (p + 1) 0 (Ls - il) ++ rest).take (d - il)) := by
  refine ⟨_, rfl, ?_, ?_, ?_, ?_, ?_⟩
  · split_ifs <;> omega
  · split_ifs <;> omega
  · rcases hLs with h | ⟨h1, h2⟩ <;> split_ifs <;> omega
  · split_ifs <;> omega
  · by_cases h1 : L > P - off
    · simp only [h1, if_true]
      by_cases h2 : d < P - off
      · -- the data ends inside this page
        simp only [h2, if_true]
        rw [seg_bytes_take_append P p off L d rest (by omega),
          seg_bytes_in_page P p off d (by omega)]
        simp
      · -- the iovec runs to the end of the page
        simp only [h2, if_false]
        have hsplit : L = (P - off) + (L - (P - off)) := by omega
        have hpage : off + (P - off) = P + 0 := by omega
        have hb : seg_bytes P p off L
            = kvec.bytes ⟨.page p off, P - off⟩ ++ seg_bytes P (p + 1) 0 (L - (P - off)) := by
          conv_lhs => rw [hsplit, seg_bytes_add, hpage, seg_bytes_page P p 0 _ (by omega)]
          rw [seg_bytes_in_page P p off (P - off) (by omega)]
        rw [hb, List.append_assoc, List.take_append_eq_append_take]
        rw [List.take_of_length_le (by simp [kvec.bytes]; omega)]
        congr 1
        simp only [kvec_bytes_length]
        rcases hLs with h | ⟨h3, h4⟩
        · subst h
          by_cases h5 : d - (P - off) = 0
          · simp [h5]
          · have h6 : ¬ (Ls - (P - off) = 0 ∨ d - (P - off) = 0) := by omega
            rw [if_neg h6]
        · subst h4
          by_cases h5 : Ls - (P - off) = 0
          · simp [h5]
          · have h6 : ¬ (Ls - (P - off) = 0 ∨ Ls - (P - off) = 0) := by omega
            rw [if_neg h6]
            rw [seg_bytes_take_append P (p + 1) 0 (L - (P - off)) _ rest (by omega),
              seg_bytes_take_append P (p + 1) 0 (Ls - (P - off)) _ rest (by omega)]
    · simp only [h1, if_false]
      by_cases h2 : d < L
      · simp only [h2, if_true]
        rw [seg_bytes_take_append P p off L d rest (by omega),
          seg_bytes_in_page P p off d (by omega)]
        simp
      · simp only [h2, if_false]
        have hLs' : Ls = L := by rcases hLs with h | ⟨h3, h4⟩ <;> omega
        subst hLs'
        rw [List.take_append_eq_append_take,
          List.take_of_length_le (by simp only [seg_bytes_length]; omega),
          seg_bytes_length, seg_bytes_in_page P p off Ls (by omega)]
        simp

theorem recalc_spec (P d : Nat) (rest : List (Nat × Nat)) (hP : 0 < P) (hd : 0 < d) :
    ∀ (fuel sg_offset : Nat) (lm : se_offset_map),
      lm.current_offset < fuel → sg_offset < P → lm.current_offset < lm.sg_length →
      lm.map_reset = false →
      ∃ lm', iscsit_calculate_map_segment_recalc P d fuel sg_offset lm = some lm'
        ∧ map_step_ok P d
            (seg_bytes P lm.sg_page (sg_offset + lm.current_offset)
              (lm.sg_length - lm.current_offset)) rest lm lm' := by
  intro fuel
  induction fuel with
  | zero => intro _ lm h; omega
  | succ fuel ih =>
    intro so lm hf hso hc hmr
    unfold iscsit_calculate_map_segment_recalc
    by_cases h0 : lm.current_offset = 0
    · rw [if_pos h0]
      obtain ⟨il, hil, e1, e2, e3, e4, e5⟩ := emit_step P lm.sg_page so lm.sg_length d
        lm.sg_length rest hso (by omega) hd (Or.inl rfl)
      refine ⟨_, rfl, so, il, rfl, hil.symm, e1, e2, e3, e4, h0, hmr, rfl, ?_⟩
      simp only [h0, Nat.add_zero, Nat.sub_zero]
      exact e5
    · rw [if_neg h0]
      by_cases h1 : lm.current_offset
          ≥ (if lm.sg_length > P - so then P - so else lm.sg_length)
      · rw [if_pos h1]
        have hgt : lm.sg_length > P - so := by
          by_contra hx
          rw [if_neg hx] at h1
          omega
        simp only [hgt, if_true] at h1 ⊢
        obtain ⟨lm', hr, off, il, q1, q2, q3, q4, q5, q6, q7, q8, q9, q10⟩ := ih 0
          { lm with
            iovec_length := P - so,
            current_offset := lm.current_offset - (P - so),
            sg_length := lm.sg_length - (P - so),
            sg_page := lm.sg_page + 1 }
          (by simp only; omega) hP (by simp only; omega) hmr
        refine ⟨lm', hr, off, il, q1, q2, q3, q4, q5, q6, q7, q8, q9, ?_⟩
        rw [← q10]
        simp only
        have ha : so + lm.current_offset = P + (0 + (lm.current_offset - (P - so))) := by
          omega
        have hb : lm.sg_length - lm.current_offset
            = lm.sg_length - (P - so) - (lm.current_offset - (P - so)) := by omega
        rw [ha, seg_bytes_page P _ _ _ hP, hb]
      · rw [if_neg h1]
        have hoff : so + lm.current_offset < P := by
          split_ifs at h1 <;> omega
        obtain ⟨il, hil, e1, e2, e3, e4, e5⟩ := emit_step P lm.sg_page
          (so + lm.current_offset) (lm.sg_length - lm.current_offset) d
          (if lm.sg_length - lm.current_offset < d then lm.sg_length - lm.current_offset
            else d) rest hoff (by omega) hd
          (by split_ifs <;> omega)
        have hcode : (if (if lm.sg_length > P - so then P - so else lm.sg_length)
              - lm.current_offset < d then
              (if lm.sg_length > P - so then P - so else lm.sg_length) - lm.current_offset
            else d) = il := by
          rw [hil]
          split_ifs <;> omega
        refine ⟨_, rfl, so + lm.current_offset, il, rfl, hcode, e1, e2, e3, e4, rfl, hmr,
          rfl, ?_⟩
        exact e5

theorem calculate_map_segment_continue (P d : Nat) (mem : List se_mem)
    (rest : List (Nat × Nat)) (hP : 0 < P) (hd : 0 < d) (lm : se_offset_map)
    (hmr : lm.map_reset = false) (hL : 0 < lm.sg_length) (hco : lm.current_offset = 0) :
    ∃ lm', iscsit_calculate_map_segment P mem d lm = some lm'
      ∧ map_step_ok P d (seg_bytes P lm.sg_page 0 lm.sg_length) rest lm lm' := by
  unfold iscsit_calculate_map_segment
  rw [if_pos (by simp [hmr])]
  obtain ⟨il, hil, e1, e2, e3, e4, e5⟩ := emit_step P lm.sg_page 0 lm.sg_length d
    lm.sg_length rest hP hL hd (Or.inl rfl)
  simp only [Nat.sub_zero] at hil
  exact ⟨_, rfl, 0, il, rfl, hil.symm, e1, e2, e3, e4, hco, hmr, rfl, e5⟩

theorem calculate_map_segment_reset (P d : Nat) (mem : List se_mem)
    (rest : List (Nat × Nat)) (hP : 0 < P) (hd : 0 < d) (lm : se_offset_map)
    (s : Nat) (m : se_mem)
    (hmr : lm.map_reset = true) (hs : lm.map_se_mem = some s) (hm : mem.get? s = some m)
    (hoff : m.se_off < P) (hc : lm.current_offset < m.se_len) :
    ∃ lm', iscsit_calculate_map_segment P mem d lm = some lm'
      ∧ map_step_ok P d ((m.bytes P).drop lm.current_offset) rest lm lm' := by
  unfold iscsit_calculate_map_segment
  rw [if_neg (by simp [hmr])]
  have hb : lm.map_se_mem.bind mem.get? = some m := by
    rw [hs]
    exact hm
  rw [hb]
  simp only
  obtain ⟨lm', hr, off, il, q1, q2, q3, q4, q5, q6, q7, q8, q9, q10⟩ :=
    recalc_spec P d rest hP hd (lm.current_offset + 1) m.se_off
      { lm with map_reset := false, sg_page := m.se_page, sg_length := m.se_len }
      (by simp only; omega) hoff hc rfl
  refine ⟨lm', hr, off, il, q1, q2, q3, q4, q5, q6, q7, q8, q9, ?_⟩
  rw [← q10]
  simp only
  unfold se_mem.bytes
  rw [seg_bytes_drop P _ _ _ _ (by omega)]

theorem t_mem_bytes_cons (P : Nat) (m : se_mem) (l : List se_mem) :
    t_mem_bytes P (m :: l) = m.bytes P ++ t_mem_bytes P l := by
  simp [t_mem_bytes]

theorem t_mem_bytes_nil (P : Nat) : t_mem_bytes P [] = [] := rfl

@[simp] theorem se_mem_bytes_length (P : Nat) (m : se_mem) : (m.bytes P).length = m.se_len := by
  simp [se_mem.bytes]

/-- One pass of the loop of `iscsit_set_iovec_ptrs` seen from the bytes: the
mapping step succeeds and takes the bytes of its iovec from the front of what
lies ahead, and both maps the loop may go on with satisfy the invariant for
the bytes that are left. -/
theorem map_step (P : Nat) (mem : List se_mem) (hP : 0 < P)
    (hseg : ∀ m ∈ mem, m.se_off < P ∧ 0 < m.se_len)
    (lm : se_offset_map) (d : Nat) (hd : 0 < d) (hinv : map_inv P mem lm d) :
    ∃ lm' off,
      iscsit_calculate_map_segment P mem d lm = some lm'
      ∧ lm'.iovec_base = .page lm'.sg_page off
      ∧ 0 < lm'.iovec_length ∧ lm'.iovec_length ≤ d ∧ off + lm'.iovec_length ≤ P
      ∧ (lm'.sg_length - lm'.iovec_length = 0 ∨ d - lm'.iovec_length = 0 →
          map_inv P mem
            { lm' with
              sg_length := lm'.sg_length - lm'.iovec_length,
              map_se_mem := lm'.map_se_mem.map (· + 1),
              sg_page := 0,
              map_reset := true } (d - lm'.iovec_length)
          ∧ (map_stream P mem lm).take d
            = kvec.bytes ⟨lm'.iovec_base, lm'.iovec_length⟩
              ++ (map_stream P mem
                  { lm' with
                    sg_length := lm'.sg_length - lm'.iovec_length,
                    map_se_mem := lm'.map_se_mem.map (· + 1),
                    sg_page := 0,
                    map_reset := true }).take (d - lm'.iovec_length))
      ∧ (¬ (lm'.sg_length - lm'.iovec_length = 0 ∨ d - lm'.iovec_length = 0) →
          map_inv P mem
            { lm' with
              sg_length := lm'.sg_length - lm'.iovec_length,
              sg_page := lm'.sg_page + 1 } (d - lm'.iovec_length)
          ∧ (map_stream P mem lm).take d
            = kvec.bytes ⟨lm'.iovec_base, lm'.iovec_length⟩
              ++ (map_stream P mem
                  { lm' with
                    sg_length := lm'.sg_length - lm'.iovec_length,
                    sg_page := lm'.sg_page + 1 }).take (d - lm'.iovec_length)) := by
  obtain ⟨hlen, hA, hB⟩ := hinv
  -- the cursor is on an entry of the list
  have hsome : ∃ s, lm.map_se_mem = some s := by
    cases hs : lm.map_se_mem with
    | none => simp [map_stream, hs] at hlen; omega
    | some s => exact ⟨s, rfl⟩
  obtain ⟨s, hs⟩ := hsome
  -- what the step has to provide, for the front and the rest of the bytes ahead
  have key : ∀ (front : List (Nat × Nat)) (lm' : se_offset_map),
      map_stream P mem lm = front ++ t_mem_bytes P (mem.drop (s + 1)) →
      map_step_ok P d front (t_mem_bytes P (mem.drop (s + 1))) lm lm' →
      ∃ off,
        lm'.iovec_base = .page lm'.sg_page off
        ∧ 0 < lm'.iovec_length ∧ lm'.iovec_length ≤ d ∧ off + lm'.iovec_length ≤ P
        ∧ (lm'.sg_length - lm'.iovec_length = 0 ∨ d - lm'.iovec_length = 0 →
            map_inv P mem
              { lm' with
                sg_length := lm'.sg_length - lm'.iovec_length,
                map_se_mem := lm'.map_se_mem.map (· + 1),
                sg_page := 0,
                map_reset := true } (d - lm'.iovec_length)
            ∧ (map_stream P mem lm).take d
              = kvec.bytes ⟨lm'.iovec_base, lm'.iovec_length⟩
                ++ (map_stream P mem
                    { lm' with
                      sg_length := lm'.sg_length - lm'.iovec_length,
                      map_se_mem := lm'.map_se_mem.map (· + 1),
                      sg_page := 0,
                      map_reset := true }).take (d - lm'.iovec_length))
        ∧ (¬ (lm'.sg_length - lm'.iovec_length = 0 ∨ d - lm'.iovec_length = 0) →
            map_inv P mem
              { lm' with
                sg_length := lm'.sg_length - lm'.iovec_length,
                sg_page := lm'.sg_page + 1 } (d - lm'.iovec_length)
            ∧ (map_stream P mem lm).take d
              = kvec.bytes ⟨lm'.iovec_base, lm'.iovec_length⟩
                ++ (map_stream P mem
                    { lm' with
                      sg_length := lm'.sg_length - lm'.iovec_length,
                      sg_page := lm'.sg_page + 1 }).take (d - lm'.iovec_length)) := by
    intro front lm' hstream hok
    obtain ⟨off, il, q1, q2, q3, q4, q5, q6, q7, q8, q9, q10⟩ := hok
    subst q2
    rw [← hstream] at q10
    have hlen2 : ((map_stream P mem lm).take d).length = d := by
      rw [List.length_take]; omega
    refine ⟨off, q1, q3, q4, q6, ?_, ?_⟩
    · intro hcond
      rw [if_pos hcond] at q10
      have hst : map_stream P mem
          { lm' with
            sg_length := lm'.sg_length - lm'.iovec_length,
            map_se_mem := lm'.map_se_mem.map (· + 1),
            sg_page := 0,
            map_reset := true } = t_mem_bytes P (mem.drop (s + 1)) := by
        simp [map_stream, q9, hs, q7]
      refine ⟨⟨?_, ?_, ?_⟩, ?_⟩
      · rw [hst]
        rw [q10, List.length_append, kvec_bytes_length, List.length_take] at hlen2
        omega
      · intro _ s' m hs' hm
        simp only [q7]
        exact (hseg m (List.get?_mem hm)).2
      · intro h
        cases h
      · rw [hst, q1]
        exact q10
    · intro hcond
      rw [if_neg hcond] at q10
      have hst : map_stream P mem
          { lm' with
            sg_length := lm'.sg_length - lm'.iovec_length,
            sg_page := lm'.sg_page + 1 }
          = seg_bytes P (lm'.sg_page + 1) 0 (lm'.sg_length - lm'.iovec_length)
            ++ t_mem_bytes P (mem.drop (s + 1)) := by
        simp [map_stream, q9, hs, q8]
      refine ⟨⟨?_, ?_, ?_⟩, ?_⟩
      · rw [hst]
        rw [q10, List.length_append, kvec_bytes_length, List.length_take] at hlen2
        omega
      · intro h
        simp only [q8] at h
        cases h
      · intro _
        have hpos : 0 < lm'.sg_length - lm'.iovec_length := by omega
        exact ⟨hpos, q7⟩
      · rw [hst, q1]
        exact q10
  by_cases hmr : lm.map_reset = true
  · -- the map is set up anew on the segment under the cursor
    have hstr : map_stream P mem lm
        = (t_mem_bytes P (mem.drop s)).drop lm.current_offset := by
      simp [map_stream, hs, hmr]
    have hne : (t_mem_bytes P (mem.drop s)).drop lm.current_offset ≠ [] := by
      intro h
      rw [hstr, h] at hlen
      simp at hlen
      omega
    have hlt : s < mem.length := by
      by_contra hx
      have hle : mem.length ≤ s := by omega
      rw [List.drop_of_length_le hle] at hne
      simp [t_mem_bytes_nil] at hne
    have hm : mem.get? s = some mem[s] := by
      simp [hlt]
    have hdrop : mem.drop s = mem[s] :: mem.drop (s + 1) := List.drop_eq_getElem_cons hlt
    have hc := hA hmr s mem[s] hs hm
    have hstream : map_stream P mem lm
        = (mem[s].bytes P).drop lm.current_offset ++ t_mem_bytes P (mem.drop (s + 1)) := by
      rw [hstr, hdrop, t_mem_bytes_cons, List.drop_append_of_le_length (by simp; omega)]
    obtain ⟨lm', hr, hok⟩ := calculate_map_segment_reset P d mem
      (t_mem_bytes P (mem.drop (s + 1))) hP hd lm s mem[s] hmr hs hm
      (hseg _ (List.getElem_mem hlt)).1 hc
    obtain ⟨off, k⟩ := key _ lm' hstream hok
    exact ⟨lm', off, hr, k⟩
  · -- the map goes on in the segment it is in
    have hmr' : lm.map_reset = false := by simpa using hmr
    obtain ⟨hL, hco⟩ := hB hmr'
    have hstream : map_stream P mem lm
        = seg_bytes P lm.sg_page 0 lm.sg_length ++ t_mem_bytes P (mem.drop (s + 1)) := by
      simp [map_stream, hs, hmr']
    obtain ⟨lm', hr, hok⟩ := calculate_map_segment_continue P d mem
      (t_mem_bytes P (mem.drop (s + 1))) hP hd lm hmr' hL hco
    obtain ⟨off, k⟩ := key _ lm' hstream hok
    exact ⟨lm', off, hr, k⟩

theorem u32_of_lt_word (x : Nat) (h : x < 4294967296) : u32 x = x := by
  unfold u32
  exact Nat.mod_eq_of_lt h

theorem u32_sub_of_le (a b : Nat) (ha : a < 4294967296) (hb : b ≤ a) : u32_sub a b = a - b := by
  unfold u32_sub
  rw [u32_of_lt_word b (by omega)]
  unfold u32
  omega

theorem bytes_before_succ (mem : List se_mem) (s : Nat) (m : se_mem) (h : mem.get? s = some m) :
    bytes_before mem (s + 1) = bytes_before mem s + m.se_len := by
  unfold bytes_before
  rw [List.get?_eq_getElem?] at h
  simp [List.take_succ, h]

theorem bytes_before_le (mem : List se_mem) (s : Nat) :
    bytes_before mem s ≤ (mem.map se_mem.se_len).sum := by
  unfold bytes_before
  have h : (mem.map se_mem.se_len).sum
      = ((mem.take s).map se_mem.se_len).sum + ((mem.drop s).map se_mem.se_len).sum := by
    rw [← List.sum_append, ← List.map_append, List.take_append_drop]
  omega

theorem bytes_before_of_length_le (mem : List se_mem) (s : Nat) (h : mem.length ≤ s) :
    bytes_before mem s = (mem.map se_mem.se_len).sum := by
  unfold bytes_before
  rw [List.take_of_length_le h]

theorem t_mem_bytes_length (P : Nat) (l : List se_mem) :
    (t_mem_bytes P l).length = (l.map se_mem.se_len).sum := by
  induction l with
  | nil => rfl
  | cons m l ih => rw [t_mem_bytes_cons]; simp [ih]

theorem t_mem_bytes_append (P : Nat) (a b : List se_mem) :
    t_mem_bytes P (a ++ b) = t_mem_bytes P a ++ t_mem_bytes P b := by
  simp [t_mem_bytes]

/-- Dropping `o` bytes of the concatenated segments is dropping the rest of
`o` in the segments from `s` on, when the first `s` segments hold no more than
`o` bytes. -/
theorem t_mem_bytes_drop (P : Nat) (mem : List se_mem) (s o : Nat)
    (h : bytes_before mem s ≤ o) :
    (t_mem_bytes P mem).drop o
      = (t_mem_bytes P (mem.drop s)).drop (o - bytes_before mem s) := by
  conv_lhs => rw [← List.take_append_drop s mem]
  rw [t_mem_bytes_append, List.drop_append_eq_append_drop, t_mem_bytes_length]
  have hnil : List.drop o (t_mem_bytes P (List.take s mem)) = [] := by
    apply List.drop_of_length_le
    rw [t_mem_bytes_length]
    exact h
  rw [hnil]
  rfl

/-- The walk of `iscsit_get_offset` from the segment `s` on: it stops on the
segment that holds the byte `o` and leaves the offset of that byte in the
segment in `current_offset`. -/
theorem get_offset_loop_spec (mem : List se_mem) (hseg : ∀ m ∈ mem, 0 < m.se_len)
    (o : Nat) (ho : o < (mem.map se_mem.se_len).sum)
    (h32 : (mem.map se_mem.se_len).sum < 4294967296) :
    ∀ (fuel s : Nat) (usg : se_unmap_sg),
      mem.length - s + 2 ≤ fuel → usg.lmap.iscsi_offset = o →
      usg.lmap.current_offset = 0 → bytes_before mem s ≤ o →
      ∃ s' usg',
        iscsit_get_offset_loop mem fuel (bytes_before mem s) (o - bytes_before mem s)
            (bytes_before mem s) s usg = some (s', usg')
        ∧ bytes_before mem s' ≤ o
        ∧ (∃ m, mem.get? s' = some m ∧ o - bytes_before mem s' < m.se_len)
        ∧ usg'.lmap.current_offset = o - bytes_before mem s'
        ∧ usg'.lmap.map_reset = usg.lmap.map_reset
        ∧ usg'.lmap.iscsi_offset = o := by
  intro fuel
  induction fuel with
  | zero => intro s usg hf; omega
  | succ f ih =>
    intro s usg hf hio hco hpre
    have hlt : s < mem.length := by
      by_contra hx
      have := bytes_before_of_length_le mem s (by omega)
      omega
    have hm : mem.get? s = some mem[s] := by simp [hlt]
    have hpos : 0 < mem[s].se_len := hseg _ (List.getElem_mem hlt)
    have hsucc := bytes_before_succ mem s mem[s] hm
    have hle := bytes_before_le mem (s + 1)
    by_cases heq : bytes_before mem s = o
    · refine ⟨s, usg, ?_, hpre, ⟨mem[s], hm, by omega⟩, by omega, rfl, hio⟩
      rw [iscsit_get_offset_loop, if_pos (by omega)]
    · rw [iscsit_get_offset_loop, if_neg (by omega), hm]
      dsimp only
      rw [u32_of_lt_word (bytes_before mem s + mem[s].se_len) (by omega)]
      by_cases hin : bytes_before mem s + mem[s].se_len > o
      · rw [if_pos (by omega)]
        obtain ⟨f', rfl⟩ : ∃ f', f = f' + 1 := ⟨f - 1, by omega⟩
        rw [iscsit_get_offset_loop, if_pos]
        · exact ⟨s, _, rfl, hpre, ⟨mem[s], hm, by omega⟩, rfl, rfl, hio⟩
        · dsimp only
          rw [hio, u32_of_lt_word _ (by omega)]
          omega
      · rw [if_neg (by omega), u32_sub_of_le _ _ (by omega) (by omega)]
        have e2 : o - bytes_before mem s - mem[s].se_len = o - bytes_before mem (s + 1) := by omega
        rw [e2, ← hsucc]
        exact ih (s + 1) usg (by omega) hio hco (by omega)

/-- The function `iscsit_get_offset` finds the segment that holds the byte
`o`. -/
theorem get_offset_spec (mem : List se_mem) (hseg : ∀ m ∈ mem, 0 < m.se_len)
    (o : Nat) (ho : o < (mem.map se_mem.se_len).sum)
    (h32 : (mem.map se_mem.se_len).sum < 4294967296)
    (usg : se_unmap_sg) (hio : usg.lmap.iscsi_offset = o) (hco : usg.lmap.current_offset = 0) :
    ∃ s' usg',
      iscsit_get_offset mem usg = some usg'
      ∧ bytes_before mem s' ≤ o
      ∧ (∃ m, mem.get? s' = some m ∧ o - bytes_before mem s' < m.se_len)
      ∧ usg'.lmap.current_offset = o - bytes_before mem s'
      ∧ usg'.lmap.map_reset = usg.lmap.map_reset
      ∧ usg'.lmap.map_orig_se_mem = some s' := by
  have h0 : bytes_before mem 0 = 0 := by simp [bytes_before]
  obtain ⟨s', usg', hl, h1, h2, h3, h4, h5⟩ :=
    get_offset_loop_spec mem hseg o ho h32 (2 * mem.length + 2) 0 usg (by omega) hio hco (by omega)
  rw [h0] at hl
  refine ⟨s', { usg' with
      cur_se_mem := some s',
      lmap := { usg'.lmap with map_orig_se_mem := some s' } }, ?_, h1, h2, ?_, ?_, ?_⟩
  · unfold iscsit_get_offset
    rw [hio]
    simp only [Nat.sub_zero] at hl
    rw [hl]
  · exact h3
  · exact h4
  · rfl

/-- The loop of `iscsit_set_iovec_ptrs` from a state that satisfies the
invariant: the iovecs it adds take the bytes that lie ahead in order, each
within one page and not empty, and it returns their count when one slot more
than it fills is there. -/
theorem set_iovec_ptrs_loop_spec (P : Nat) (mem : List se_mem) (hP : 0 < P)
    (hseg : ∀ m ∈ mem, m.se_off < P ∧ 0 < m.se_len) :
    ∀ (fuel : Nat) (st : set_iovec_state),
      st.data_length < fuel → map_inv P mem st.lmap st.data_length →
      ∃ rest : List kvec,
        rest.flatMap kvec.bytes = (map_stream P mem st.lmap).take st.data_length
        ∧ (∀ v ∈ rest, kvec.in_one_page P v ∧ 0 < v.iov_len)
        ∧ (rest.map kvec.iov_len).sum = st.data_length
        ∧ ∀ count, st.i + rest.length + 1 ≤ count →
            ∃ st', iscsit_set_iovec_ptrs_loop P mem count fuel st
                = some (((st.i + rest.length : Nat) : Int), st')
              ∧ st'.iov = st.iov ++ rest := by
  intro fuel
  induction fuel with
  | zero => intro st hf; omega
  | succ f ih =>
    intro st hf hinv
    by_cases hd : st.data_length = 0
    · refine ⟨[], ?_, ?_, ?_, ?_⟩
      · simp [hd]
      · intro v hv
        cases hv
      · simp [hd]
      · intro count _
        refine ⟨st, ?_, by simp⟩
        rw [iscsit_set_iovec_ptrs_loop, if_pos hd]
        simp
    · obtain ⟨lm', off, hcalc, hbase, hpos, hle, hpage, hA, hB⟩ :=
        map_step P mem hP hseg st.lmap st.data_length (by omega) hinv
      by_cases hcond : lm'.sg_length - lm'.iovec_length = 0
          ∨ st.data_length - lm'.iovec_length = 0
      · obtain ⟨hinv', htake⟩ := hA hcond
        obtain ⟨rest, r1, r2, r3, r4⟩ := ih
          { i := st.i + 1,
            j := st.j + 1,
            data_length := st.data_length - lm'.iovec_length,
            lmap := { lm' with
              sg_length := lm'.sg_length - lm'.iovec_length,
              map_se_mem := lm'.map_se_mem.map (· + 1),
              sg_page := 0,
              map_reset := true },
            iov := st.iov ++ [⟨lm'.iovec_base, lm'.iovec_length⟩] }
          (by dsimp only; omega) hinv'
        dsimp only at r1 r3 r4
        refine ⟨⟨lm'.iovec_base, lm'.iovec_length⟩ :: rest, ?_, ?_, ?_, ?_⟩
        · rw [List.flatMap_cons, r1, htake]
        · intro v hv
          rcases List.mem_cons.mp hv with h | h
          · subst h
            exact ⟨⟨_, off, hbase, hpage⟩, hpos⟩
          · exact r2 v h
        · rw [List.map_cons, List.sum_cons, r3]
          dsimp only
          omega
        · intro count hc
          rw [List.length_cons] at hc
          obtain ⟨st', e1, e2⟩ := r4 count (by omega)
          refine ⟨st', ?_, ?_⟩
          · rw [iscsit_set_iovec_ptrs_loop, if_neg hd, hcalc]
            dsimp only
            rw [if_neg (by omega), if_pos hcond, e1, List.length_cons]
            congr 3
            omega
          · rw [e2, List.append_assoc]
            rfl
      · obtain ⟨hinv', htake⟩ := hB hcond
        obtain ⟨rest, r1, r2, r3, r4⟩ := ih
          { i := st.i + 1,
            j := st.j,
            data_length := st.data_length - lm'.iovec_length,
            lmap := { lm' with
              sg_length := lm'.sg_length - lm'.iovec_length,
              sg_page := lm'.sg_page + 1 },
            iov := st.iov ++ [⟨lm'.iovec_base, lm'.iovec_length⟩] }
          (by dsimp only; omega) hinv'
        dsimp only at r1 r3 r4
        refine ⟨⟨lm'.iovec_base, lm'.iovec_length⟩ :: rest, ?_, ?_, ?_, ?_⟩
        · rw [List.flatMap_cons, r1, htake]
        · intro v hv
          rcases List.mem_cons.mp hv with h | h
          · subst h
            exact ⟨⟨_, off, hbase, hpage⟩, hpos⟩
          · exact r2 v h
        · rw [List.map_cons, List.sum_cons, r3]
          dsimp only
          omega
        · intro count hc
          rw [List.length_cons] at hc
          obtain ⟨st', e1, e2⟩ := r4 count (by omega)
          refine ⟨st', ?_, ?_⟩
          · rw [iscsit_set_iovec_ptrs_loop, if_neg hd, hcalc]
            dsimp only
            rw [if_neg (by omega), if_neg hcond, e1, List.length_cons]
            congr 3
            omega
          · rw [e2, List.append_assoc]
            rfl

/-- C16: for a list of memory segments that each start within a page and are
not empty and that hold less than 2^32 bytes in all, an offset `o` and a
length `n > 0` with `o + n` within the segments, a command with scatterlist
memory and an `unmap_sg` whose `current_offset` is clear as the callers pass
it, `iscsit_set_iovec_ptrs` with `sg_kmap_active = 1` maps the range onto a
list of at least one iovec: the lengths sum to `n`, each iovec lies within one
page, and their bytes in order are the bytes `o .. o+n-1` of the concatenated
segments; the function returns the number of these iovecs whenever
`orig_iov_data_count` leaves one slot more than it fills. -/
theorem c16_set_iovec_ptrs_maps_range (PAGE_SIZE : Nat) (hP : 0 < PAGE_SIZE)
    (t_tasks_se_num : Nat) (hnum : t_tasks_se_num ≠ 0)
    (t_mem_list : List se_mem)
    (hseg : ∀ m ∈ t_mem_list, m.se_off < PAGE_SIZE ∧ 0 < m.se_len)
    (h32 : (t_mem_list.map se_mem.se_len).sum < 4294967296)
    (o n : Nat) (hn : 0 < n) (hon : o + n ≤ (t_mem_list.map se_mem.se_len).sum)
    (unmap_sg : se_unmap_sg) (hco : unmap_sg.lmap.current_offset = 0) :
    ∃ iov : List kvec,
      1 ≤ iov.length
      ∧ (iov.map kvec.iov_len).sum = n
      ∧ (∀ v ∈ iov, kvec.in_one_page PAGE_SIZE v)
      ∧ iov.flatMap kvec.bytes = ((t_mem_bytes PAGE_SIZE t_mem_list).drop o).take n
      ∧ ∀ orig_iov_data_count, iov.length + 1 ≤ orig_iov_data_count →
          ∃ u, iscsit_set_iovec_ptrs PAGE_SIZE t_tasks_se_num t_mem_list orig_iov_data_count
              ⟨true, n, o⟩ unmap_sg = some ⟨(iov.length : Int), iov, u⟩ := by
  obtain ⟨s', usg', hg, h1, ⟨m, hm, hlt⟩, h3, h4, h5⟩ :=
    get_offset_spec t_mem_list (fun m hm => (hseg m hm).2) o (by omega) h32
      { unmap_sg with
        lmap := { unmap_sg.lmap with map_reset := true, iscsi_offset := o } } rfl hco
  have h4' : usg'.lmap.map_reset = true := h4
  have hstream : map_stream PAGE_SIZE t_mem_list
      { usg'.lmap with map_se_mem := usg'.lmap.map_orig_se_mem }
      = (t_mem_bytes PAGE_SIZE t_mem_list).drop o := by
    rw [t_mem_bytes_drop PAGE_SIZE t_mem_list s' o h1]
    simp [map_stream, h5, h4', h3]
  have hinv : map_inv PAGE_SIZE t_mem_list
      { usg'.lmap with map_se_mem := usg'.lmap.map_orig_se_mem } n := by
    refine ⟨?_, ?_, ?_⟩
    · rw [hstream, List.length_drop, t_mem_bytes_length]
      omega
    · intro _ s m2 hs hm2
      have hs2 : some s' = some s := by rw [← h5]; exact hs
      have hss : s' = s := Option.some.inj hs2
      subst hss
      rw [hm] at hm2
      have hmm : m = m2 := Option.some.inj hm2
      subst hmm
      show usg'.lmap.current_offset < m.se_len
      omega
    · intro h
      have h6 : usg'.lmap.map_reset = false := h
      rw [h4'] at h6
      cases h6
  obtain ⟨rest, r1, r2, r3, r4⟩ := set_iovec_ptrs_loop_spec PAGE_SIZE t_mem_list hP hseg (n + 1)
    { data_length := n,
      lmap := { usg'.lmap with map_se_mem := usg'.lmap.map_orig_se_mem } }
    (Nat.lt_succ_self n) hinv
  dsimp only at r1 r3 r4
  refine ⟨rest, ?_, r3, fun v hv => (r2 v hv).1, ?_, ?_⟩
  · cases rest with
    | nil => simp at r3; omega
    | cons v l => simp
  · rw [r1, hstream]
  · intro count hc
    obtain ⟨st', e1, e2⟩ := r4 count (by omega)
    rw [Nat.zero_add] at e1
    rw [List.nil_append] at e2
    refine ⟨{ ({ usg' with data_length := n } : se_unmap_sg) with
              lmap := st'.lmap, sg_count := st'.j }, ?_⟩
    unfold iscsit_set_iovec_ptrs
    rw [if_neg hnum]
    dsimp only
    rw [if_pos rfl, hg]
    dsimp only [Option.map_some']
    rw [e1]
    dsimp only
    rw [if_neg (by omega), e2]

theorem c16_set_iovec_ptrs_maps_range_witness :
    ∃ iov : List kvec,
      1 ≤ iov.length
      ∧ (iov.map kvec.iov_len).sum = 11
      ∧ (∀ v ∈ iov, kvec.in_one_page 8 v)
      ∧ iov.flatMap kvec.bytes
        = ((t_mem_bytes 8 [⟨10, 7, 3⟩, ⟨20, 5, 9⟩, ⟨30, 0, 1⟩]).drop 2).take 11
      ∧ ∀ orig_iov_data_count, iov.length + 1 ≤ orig_iov_data_count →
          ∃ u, iscsit_set_iovec_ptrs 8 1 [⟨10, 7, 3⟩, ⟨20, 5, 9⟩, ⟨30, 0, 1⟩]
              orig_iov_data_count ⟨true, 11, 2⟩ {} = some ⟨(iov.length : Int), iov, u⟩ :=
  c16_set_iovec_ptrs_maps_range 8 (by decide) 1 (by decide)
    [⟨10, 7, 3⟩, ⟨20, 5, 9⟩, ⟨30, 0, 1⟩] (by decide) (by decide) 2 11 (by decide) (by decide)
    {} rfl

/-- The check of the iovec count comes after the last iovec is written as
well: with exactly as many slots as the range needs the function returns -1. -/
theorem set_iovec_ptrs_full_count_fails :
    (iscsit_set_iovec_ptrs 8 1 [⟨10, 0, 8⟩, ⟨20, 0, 8⟩] 2 ⟨true, 16, 0⟩ {}).map (·.ret)
      = some (-1) := by
  decide

/-! ### Padding of data segments -/

theorem padding_of_eq_mod (L : Nat) : padding_of L = u32_sub 0 L % 4 := by
  unfold padding_of
  exact Nat.and_pow_two_sub_one_eq_mod (u32_sub 0 L) 2

/-- C21: for every data segment length `L` the padding `(-L) & 3` is at most
3, `L` plus the padding is a multiple of 4 (as a natural number and as a
32-bit sum), the padding is 0 exactly when `L` is a multiple of 4, and no
smaller number of bytes brings `L` to a multiple of 4. -/
theorem c21_padding_least (L : Nat) :
    padding_of L ≤ 3
    ∧ (L + padding_of L) % 4 = 0
    ∧ u32 (L + padding_of L) % 4 = 0
    ∧ (padding_of L = 0 ↔ L % 4 = 0)
    ∧ ∀ p, (L + p) % 4 = 0 → padding_of L ≤ p := by
  rw [padding_of_eq_mod]
  unfold u32_sub u32
  refine ⟨by omega, by omega, by omega, by omega, ?_⟩
  intro p hp
  omega

/-! ### Direction and immediate data of a validated SCSI Command -/

/-- What the checks after the label `done` let through. -/
theorem scsi_cmd_done_ok (conn : iscsi_conn) (h1 hdr2 : iscsi_scsi_req)
    (hd : iscsit_handle_scsi_cmd_done conn h1 = .ok hdr2) :
    hdr2 = h1 ∧ ¬ (h1.flag_read = true ∧ h1.flag_write = true)
    ∧ (h1.flag_read = false → h1.flag_write = false → h1.data_length = 0) := by
  unfold iscsit_handle_scsi_cmd_done at hd
  simp only at hd
  split_ifs at hd with c1 c2 c3 c4 c5 c6 c7 c8
  injection hd with hd
  refine ⟨hd.symm, ?_, ?_⟩
  · intro hrw
    apply c2
    simp [hrw.1, hrw.2]
  · intro hr hw
    by_contra hne
    apply c1
    simp [hr, hw, hne]

/-- C25: a SCSI Command header that passes the validation stage of
`iscsit_handle_scsi_cmd` (as the stage leaves it, READ and WRITE cleared by
the RESERVE/RELEASE workaround) never has READ and WRITE both set, and the
data direction derived from its flags is DMA_NONE exactly when the Expected
Data Transfer Length is 0; the handler goes on with this header. -/
theorem c25_direction_matches_length (conn : iscsi_conn) (hdr hdr2 : iscsi_scsi_req)
    (hv : iscsit_handle_scsi_cmd_validate conn hdr = .ok hdr2) :
    ¬ (hdr2.flag_read = true ∧ hdr2.flag_write = true)
    ∧ (scsi_data_direction hdr2 = .DMA_NONE ↔ hdr2.data_length = 0)
    ∧ hdr2.data_length = hdr.data_length
    ∧ ∀ e, iscsit_handle_scsi_cmd conn hdr e = iscsit_handle_scsi_cmd_setup conn hdr2 e := by
  have hset : ∀ e, iscsit_handle_scsi_cmd conn hdr e
      = iscsit_handle_scsi_cmd_setup conn hdr2 e := by
    intro e
    unfold iscsit_handle_scsi_cmd
    rw [hv]
  have hdir : ∀ h : iscsi_scsi_req,
      (scsi_data_direction h = .DMA_NONE ↔ (h.flag_read = false ∧ h.flag_write = false)) := by
    intro h
    unfold scsi_data_direction
    generalize h.flag_read = r
    generalize h.flag_write = w
    cases r <;> cases w <;> simp
  unfold iscsit_handle_scsi_cmd_validate at hv
  split_ifs at hv with c1 c2 c3
  · obtain ⟨h1, h2, h3⟩ := scsi_cmd_done_ok conn _ hdr2 hv
    subst h1
    refine ⟨h2, ?_, rfl, hset⟩
    rw [hdir]
    have hz : hdr.data_length = 0 := by
      simp only [Bool.and_eq_true, decide_eq_true_eq] at c2
      exact c2.2
    simp [hz]
  · obtain ⟨h1, h2, h3⟩ := scsi_cmd_done_ok conn _ hdr2 hv
    subst h1
    refine ⟨h2, ?_, rfl, hset⟩
    rw [hdir]
    constructor
    · intro hnone
      exact h3 hnone.1 hnone.2
    · intro hz
      simp only [Bool.and_eq_true, Bool.or_eq_true, decide_eq_true_eq, not_and] at c2
      by_contra hx
      apply c2 _ hz
      revert hx
      generalize hdr2.flag_read = r
      generalize hdr2.flag_write = w
      cases r <;> cases w <;> simp

theorem c25_direction_matches_length_witness :
    ¬ ((({ flag_read := false, flag_write := false, data_length := 0, cdb0 := 0x16 } :
          iscsi_scsi_req).flag_read = true)
        ∧ ({ flag_read := false, flag_write := false, data_length := 0, cdb0 := 0x16 } :
          iscsi_scsi_req).flag_write = true)
    ∧ (scsi_data_direction
          { flag_read := false, flag_write := false, data_length := 0, cdb0 := 0x16 }
        = .DMA_NONE
        ↔ ({ flag_read := false, flag_write := false, data_length := 0, cdb0 := 0x16 } :
          iscsi_scsi_req).data_length = 0) :=
  have h := c25_direction_matches_length {}
    { flag_read := true, flag_write := false, data_length := 0, cdb0 := 0x16 }
    { flag_read := false, flag_write := false, data_length := 0, cdb0 := 0x16 } rfl
  ⟨h.1, h.2.1⟩

/-- C26: a SCSI Command PDU with READ and FINAL set, an Expected Data
Transfer Length of 512 and a data segment of 512 bytes passes the validation
stage on a session with ImmediateData=Yes; the command is set up with
direction DMA_FROM_DEVICE, and the handler receives the 512 bytes of
immediate data for it and counts them in `write_data_done`. -/
theorem c26_read_with_immediate_data_accepted :
    iscsit_handle_scsi_cmd_validate {}
        { flag_read := true, flag_final := true, data_length := 512, dlength := 512 }
      = .ok { flag_read := true, flag_final := true, data_length := 512, dlength := 512 }
    ∧ (iscsit_handle_scsi_cmd {}
        { flag_read := true, flag_final := true, data_length := 512, dlength := 512 } {}).ret
        = 0
    ∧ ((iscsit_handle_scsi_cmd {}
        { flag_read := true, flag_final := true, data_length := 512, dlength := 512 }
        {}).conn.cmd 0).data_direction = .DMA_FROM_DEVICE
    ∧ ((iscsit_handle_scsi_cmd {}
        { flag_read := true, flag_final := true, data_length := 512, dlength := 512 }
        {}).conn.cmd 0).immediate_data = true
    ∧ ((iscsit_handle_scsi_cmd {}
        { flag_read := true, flag_final := true, data_length := 512, dlength := 512 }
        {}).conn.cmd 0).write_data_done = 512
    ∧ (iscsit_handle_scsi_cmd {}
        { flag_read := true, flag_final := true, data_length := 512, dlength := 512 }
        {}).conn.calls
      = [.ack_from_expstatsn 0, .handle_cdb 0, .rx_data 512, .check_received_cmdsn 0 0] := by
  refine ⟨rfl, ?_, ?_, ?_, ?_, ?_⟩ <;> decide

/-! ### Discovery sessions in the receive loop -/

/-- The test for a discovery session lets an opcode through exactly when its
bit 0x04 is set: the two opcodes are tested as bit masks. -/
theorem discovery_session_dispatch (conn : iscsi_rx_conn) (buffer : List Nat) (e : rx_env)
    (hs : conn.SessionType ≠ 0) (hl : conn.conn_state ≠ .TARG_CONN_STATE_IN_LOGOUT) :
    (Nat.land (Nat.land (buffer.getD 0 0) ISCSI_OPCODE_MASK) ISCSI_OP_TEXT = 0 →
      iscsi_target_rx_thread_dispatch conn buffer e
        = ⟨true, conn, some (Nat.land (buffer.getD 0 0) ISCSI_OPCODE_MASK),
            [.add_reject_protocol_error]⟩)
    ∧ (Nat.land (Nat.land (buffer.getD 0 0) ISCSI_OPCODE_MASK) ISCSI_OP_TEXT ≠ 0 →
      iscsi_target_rx_thread_dispatch conn buffer e
        = iscsi_target_rx_thread_switch conn
            (Nat.land (buffer.getD 0 0) ISCSI_OPCODE_MASK) e) := by
  constructor
  · intro h0
    unfold iscsi_target_rx_thread_dispatch
    rw [if_neg hl]
    simp only
    rw [if_pos ⟨hs, Or.inl h0⟩]
  · intro h1
    have h2 : Nat.land (Nat.land (buffer.getD 0 0) ISCSI_OPCODE_MASK) ISCSI_OP_LOGOUT ≠ 0 := by
      intro hz
      apply h1
      have e1 : ∀ x : Nat, Nat.land x ISCSI_OP_TEXT = Nat.land (Nat.land x ISCSI_OP_LOGOUT) 4 := by
        intro x
        show x &&& 4 = (x &&& 6) &&& 4
        rw [Nat.land_assoc]
        rfl
      rw [e1, hz]
      rfl
    unfold iscsi_target_rx_thread_dispatch
    rw [if_neg hl]
    simp only
    rw [if_neg]
    intro hc
    rcases hc.2 with h | h
    · exact h1 h
    · exact h2 h

/-- C27: in a discovery session a PDU with opcode 0x05 (Data-Out) passes the
test for illegal opcodes, and the receive loop calls `iscsit_handle_data_out`;
no Reject is sent. -/
theorem c27_discovery_session_runs_data_out :
    (iscsi_target_rx_thread_body { SessionType := 1 }
        { rx_hdr := some (0x05 :: List.replicate 47 0) }).actions = [.handle_data_out]
    ∧ (iscsi_target_rx_thread_body { SessionType := 1 }
        { rx_hdr := some (0x05 :: List.replicate 47 0) }).transport_err = false := by
  decide
/-! ### Sizes of the response PDUs -/

theorem padding_of_spec (L : Nat) : padding_of L ≤ 3 ∧ (L + padding_of L) % 4 = 0 := by
  rw [padding_of_eq_mod]
  unfold u32_sub u32
  omega

theorem padding_of_zero : padding_of 0 = 0 := by decide

theorem send_status_tx_size_ok (cmd : iscsi_cmd) (conn : iscsi_conn) (e : tx_env) :
    tx_size_ok conn.conn_ops.HeaderDigest conn.conn_ops.DataDigest
      (iscsit_send_status cmd conn e).cmd.tx_size (iscsit_send_status cmd conn e).iov_len
      (if send_status_has_sense cmd then cmd.se_cmd.scsi_sense_length else 0)
      (send_status_has_sense cmd)
    ∧ (iscsit_send_status cmd conn e).hdr.dlength
      = (if send_status_has_sense cmd then cmd.se_cmd.scsi_sense_length else 0)
    ∧ (iscsit_send_status cmd conn e).iov_len
      = (if conn.conn_ops.HeaderDigest then 52 else 48)
        :: (if send_status_has_sense cmd then
              (cmd.se_cmd.scsi_sense_length + padding_of cmd.se_cmd.scsi_sense_length)
                :: (if conn.conn_ops.DataDigest then [4] else [])
            else [])
    ∧ (iscsit_send_status cmd conn e).cmd.iov_misc_count
      = (iscsit_send_status cmd conn e).iov_len.length := by
  obtain ⟨p1, p2⟩ := padding_of_spec cmd.se_cmd.scsi_sense_length
  have p0 := padding_of_zero
  unfold iscsit_send_status send_status_sense tx_size_ok tx_size_as_specified
    send_status_has_sense
  simp only [ISCSI_HDR_LEN, ISCSI_CRC_LEN]
  generalize cmd.se_cmd.scsi_sense_length = L at p1 p2 ⊢
  generalize conn.conn_ops.HeaderDigest = HD
  generalize conn.conn_ops.DataDigest = DD
  generalize (cmd.se_cmd.sense_buffer
      && (cmd.se_cmd.se_cmd_flags.SCF_TRANSPORT_TASK_SENSE
          || cmd.se_cmd.se_cmd_flags.SCF_EMULATED_TASK_SENSE)) = S
  cases HD <;> cases DD <;> cases S <;> simp [p0] <;> omega

theorem send_nopin_tx_size_ok (cmd : iscsi_cmd) (conn : iscsi_conn) (e : tx_env)
    (hb : cmd.buf_ptr_size < 16777216) :
    tx_size_ok conn.conn_ops.HeaderDigest conn.conn_ops.DataDigest
      (iscsit_send_nopin_response cmd conn e).cmd.tx_size
      (iscsit_send_nopin_response cmd conn e).iov_len cmd.buf_ptr_size
      (decide (cmd.buf_ptr_size ≠ 0))
    ∧ (iscsit_send_nopin_response cmd conn e).hdr.map (·.dlength) = some cmd.buf_ptr_size
    ∧ (iscsit_send_nopin_response cmd conn e).iov_len
      = (if conn.conn_ops.HeaderDigest then 52 else 48)
        :: (if cmd.buf_ptr_size ≠ 0 then
              cmd.buf_ptr_size
                :: ((if padding_of cmd.buf_ptr_size ≠ 0 then [padding_of cmd.buf_ptr_size]
                     else [])
                    ++ (if conn.conn_ops.DataDigest then [4] else []))
            else [])
    ∧ (iscsit_send_nopin_response cmd conn e).cmd.iov_misc_count
      = (iscsit_send_nopin_response cmd conn e).iov_len.length
    ∧ (iscsit_send_nopin_response cmd conn e).ret = 0 := by
  obtain ⟨p1, p2⟩ := padding_of_spec cmd.buf_ptr_size
  have p0 := padding_of_zero
  unfold iscsit_send_nopin_response send_nopin_data send_nopin_tx_size tx_size_ok
    tx_size_as_specified u32
  simp only [ISCSI_HDR_LEN, ISCSI_CRC_LEN]
  generalize padding_of cmd.buf_ptr_size = p at p1 p2 ⊢
  generalize cmd.buf_ptr_size = L at hb p2 ⊢
  generalize conn.conn_ops.HeaderDigest = HD
  generalize conn.conn_ops.DataDigest = DD
  by_cases hL : L = 0
  · subst hL
    have hp : p = 0 := by omega
    subst hp
    cases HD <;> cases DD <;> simp [p0]
  · by_cases hp : p = 0
    · subst hp
      cases HD <;> cases DD <;> simp [hL] <;> omega
    · cases HD <;> cases DD <;> simp [hL, hp] <;> omega

theorem send_text_tx_size_ok (cmd : iscsi_cmd) (conn : iscsi_conn) (e : tx_env)
    (text_length : Nat) (ht : text_length < 16777216) :
    tx_size_ok conn.conn_ops.HeaderDigest conn.conn_ops.DataDigest
      (iscsit_send_text_rsp cmd conn e text_length).cmd.tx_size
      (iscsit_send_text_rsp cmd conn e text_length).iov_len text_length true
    ∧ (iscsit_send_text_rsp cmd conn e text_length).hdr.map (·.dlength) = some text_length
    ∧ (iscsit_send_text_rsp cmd conn e text_length).iov_len
      = (if conn.conn_ops.HeaderDigest then 52 else 48)
        :: (text_length + padding_of text_length)
        :: (if conn.conn_ops.DataDigest then [4] else [])
    ∧ (iscsit_send_text_rsp cmd conn e text_length).cmd.iov_misc_count
      = (iscsit_send_text_rsp cmd conn e text_length).iov_len.length
    ∧ (iscsit_send_text_rsp cmd conn e text_length).ret = 0 := by
  obtain ⟨p1, p2⟩ := padding_of_spec text_length
  unfold iscsit_send_text_rsp
  rw [if_neg (by omega)]
  unfold send_text_tx_size tx_size_ok tx_size_as_specified u32
  simp only [ISCSI_HDR_LEN, ISCSI_CRC_LEN, Int.toNat_ofNat]
  generalize padding_of text_length = p at p1 p2 ⊢
  generalize conn.conn_ops.HeaderDigest = HD
  generalize conn.conn_ops.DataDigest = DD
  cases HD <;> cases DD <;> simp <;> omega

theorem send_reject_tx_size_ok (cmd : iscsi_cmd) (conn : iscsi_conn) :
    tx_size_ok conn.conn_ops.HeaderDigest conn.conn_ops.DataDigest
      (iscsit_send_reject cmd conn).cmd.tx_size (iscsit_send_reject cmd conn).iov_len 48 true
    ∧ (iscsit_send_reject cmd conn).hdr.map (·.dlength) = some 48
    ∧ (iscsit_send_reject cmd conn).iov_len
      = (if conn.conn_ops.HeaderDigest then 52 else 48)
        :: 48 :: (if conn.conn_ops.DataDigest then [4] else [])
    ∧ (iscsit_send_reject cmd conn).cmd.iov_misc_count
      = (iscsit_send_reject cmd conn).iov_len.length
    ∧ (iscsit_send_reject cmd conn).ret = 0 := by
  have p48 : padding_of 48 = 0 := by decide
  unfold iscsit_send_reject send_reject_tx_size tx_size_ok tx_size_as_specified u32
  simp only [ISCSI_HDR_LEN, ISCSI_CRC_LEN]
  generalize conn.conn_ops.HeaderDigest = HD
  generalize conn.conn_ops.DataDigest = DD
  cases HD <;> cases DD <;> simp [p48]

/-- C24: for `iscsit_send_status`, `iscsit_send_nopin_response`,
`iscsit_send_text_rsp` and `iscsit_send_reject`, whatever the HeaderDigest and
DataDigest settings and the data length `D`: the `tx_size` recorded for the
command is the sum of the lengths of the iovecs set up, a multiple of 4, and
equal to 48 + 4*[HeaderDigest] + (D + padding(D)) + 4*[DataDigest and a data
segment is attached].  For the SCSI Response `D` is the sense length of the
command and the segment is attached exactly when the command has sense data,
otherwise `D` is 0; for NOP-In `D` is the length of the ping data, attached
exactly when it is not 0; for the Text Response `D` is the length of the text
and for the Reject it is 48, both always attached.  The lengths of the ping
data and of the text fit the 24-bit DataSegmentLength.  In each case the
header carries `D` as its DataSegmentLength, the iovecs are the header (with
its digest), the data with its padding and the data digest, and
`iov_misc_count` is their number. -/
theorem c24_tx_size_of_responses (cmd : iscsi_cmd) (conn : iscsi_conn) (e : tx_env)
    (text_length : Nat)
    (hb : cmd.buf_ptr_size < 16777216) (ht : text_length < 16777216) :
    (tx_size_ok conn.conn_ops.HeaderDigest conn.conn_ops.DataDigest
        (iscsit_send_status cmd conn e).cmd.tx_size (iscsit_send_status cmd conn e).iov_len
        (if send_status_has_sense cmd then cmd.se_cmd.scsi_sense_length else 0)
        (send_status_has_sense cmd)
      ∧ (iscsit_send_status cmd conn e).hdr.dlength
        = (if send_status_has_sense cmd then cmd.se_cmd.scsi_sense_length else 0)
      ∧ (iscsit_send_status cmd conn e).iov_len
        = (if conn.conn_ops.HeaderDigest then 52 else 48)
          :: (if send_status_has_sense cmd then
                (cmd.se_cmd.scsi_sense_length + padding_of cmd.se_cmd.scsi_sense_length)
                  :: (if conn.conn_ops.DataDigest then [4] else [])
              else [])
      ∧ (iscsit_send_status cmd conn e).cmd.iov_misc_count
        = (iscsit_send_status cmd conn e).iov_len.length)
    ∧ (tx_size_ok conn.conn_ops.HeaderDigest conn.conn_ops.DataDigest
        (iscsit_send_nopin_response cmd conn e).cmd.tx_size
        (iscsit_send_nopin_response cmd conn e).iov_len cmd.buf_ptr_size
        (decide (cmd.buf_ptr_size ≠ 0))
      ∧ (iscsit_send_nopin_response cmd conn e).hdr.map (·.dlength)
        = some cmd.buf_ptr_size
      ∧ (iscsit_send_nopin_response cmd conn e).iov_len
        = (if conn.conn_ops.HeaderDigest then 52 else 48)
          :: (if cmd.buf_ptr_size ≠ 0 then
                cmd.buf_ptr_size
                  :: ((if padding_of cmd.buf_ptr_size ≠ 0 then [padding_of cmd.buf_ptr_size]
                       else [])
                      ++ (if conn.conn_ops.DataDigest then [4] else []))
              else [])
      ∧ (iscsit_send_nopin_response cmd conn e).cmd.iov_misc_count
        = (iscsit_send_nopin_response cmd conn e).iov_len.length
      ∧ (iscsit_send_nopin_response cmd conn e).ret = 0)
    ∧ (tx_size_ok conn.conn_ops.HeaderDigest conn.conn_ops.DataDigest
        (iscsit_send_text_rsp cmd conn e text_length).cmd.tx_size
        (iscsit_send_text_rsp cmd conn e text_length).iov_len text_length true
      ∧ (iscsit_send_text_rsp cmd conn e text_length).hdr.map (·.dlength)
        = some text_length
      ∧ (iscsit_send_text_rsp cmd conn e text_length).iov_len
        = (if conn.conn_ops.HeaderDigest then 52 else 48)
          :: (text_length + padding_of text_length)
          :: (if conn.conn_ops.DataDigest then [4] else [])
      ∧ (iscsit_send_text_rsp cmd conn e text_length).cmd.iov_misc_count
        = (iscsit_send_text_rsp cmd conn e text_length).iov_len.length
      ∧ (iscsit_send_text_rsp cmd conn e text_length).ret = 0)
    ∧ (tx_size_ok conn.conn_ops.HeaderDigest conn.conn_ops.DataDigest
        (iscsit_send_reject cmd conn).cmd.tx_size (iscsit_send_reject cmd conn).iov_len 48
        true
      ∧ (iscsit_send_reject cmd conn).hdr.map (·.dlength) = some 48
      ∧ (iscsit_send_reject cmd conn).iov_len
        = (if conn.conn_ops.HeaderDigest then 52 else 48)
          :: 48 :: (if conn.conn_ops.DataDigest then [4] else [])
      ∧ (iscsit_send_reject cmd conn).cmd.iov_misc_count
        = (iscsit_send_reject cmd conn).iov_len.length
      ∧ (iscsit_send_reject cmd conn).ret = 0) := by
  exact ⟨send_status_tx_size_ok cmd conn e, send_nopin_tx_size_ok cmd conn e hb,
    send_text_tx_size_ok cmd conn e text_length ht, send_reject_tx_size_ok cmd conn⟩

theorem c24_tx_size_of_responses_witness :
    (tx_size_ok true true
        (iscsit_send_status
          { buf_ptr_size := 5,
            se_cmd := { sense_buffer := true, scsi_sense_length := 18,
                        se_cmd_flags := { SCF_TRANSPORT_TASK_SENSE := true } } }
          { conn_ops := { HeaderDigest := true, DataDigest := true } } {}).cmd.tx_size
        (iscsit_send_status
          { buf_ptr_size := 5,
            se_cmd := { sense_buffer := true, scsi_sense_length := 18,
                        se_cmd_flags := { SCF_TRANSPORT_TASK_SENSE := true } } }
          { conn_ops := { HeaderDigest := true, DataDigest := true } } {}).iov_len
        18 true
      ∧ (iscsit_send_status
          { buf_ptr_size := 5,
            se_cmd := { sense_buffer := true, scsi_sense_length := 18,
                        se_cmd_flags := { SCF_TRANSPORT_TASK_SENSE := true } } }
          { conn_ops := { HeaderDigest := true, DataDigest := true } } {}).cmd.tx_size = 76
      ∧ (iscsit_send_status
          { buf_ptr_size := 5,
            se_cmd := { sense_buffer := true, scsi_sense_length := 18,
                        se_cmd_flags := { SCF_TRANSPORT_TASK_SENSE := true } } }
          { conn_ops := { HeaderDigest := true, DataDigest := true } } {}).iov_len
        = [52, 20, 4])
    ∧ (tx_size_ok true true
        (iscsit_send_nopin_response
          { buf_ptr_size := 5,
            se_cmd := { sense_buffer := true, scsi_sense_length := 18,
                        se_cmd_flags := { SCF_TRANSPORT_TASK_SENSE := true } } }
          { conn_ops := { HeaderDigest := true, DataDigest := true } } {}).cmd.tx_size
        (iscsit_send_nopin_response
          { buf_ptr_size := 5,
            se_cmd := { sense_buffer := true, scsi_sense_length := 18,
                        se_cmd_flags := { SCF_TRANSPORT_TASK_SENSE := true } } }
          { conn_ops := { HeaderDigest := true, DataDigest := true } } {}).iov_len
        5 true
      ∧ (iscsit_send_nopin_response
          { buf_ptr_size := 5,
            se_cmd := { sense_buffer := true, scsi_sense_length := 18,
                        se_cmd_flags := { SCF_TRANSPORT_TASK_SENSE := true } } }
          { conn_ops := { HeaderDigest := true, DataDigest := true } } {}).iov_len
        = [52, 5, 3, 4])
    ∧ (iscsit_send_text_rsp
          { buf_ptr_size := 5,
            se_cmd := { sense_buffer := true, scsi_sense_length := 18,
                        se_cmd_flags := { SCF_TRANSPORT_TASK_SENSE := true } } }
          { conn_ops := { HeaderDigest := true, DataDigest := true } } {} (7 : Nat)).iov_len
        = [52, 8, 4]
    ∧ (iscsit_send_reject
          { buf_ptr_size := 5,
            se_cmd := { sense_buffer := true, scsi_sense_length := 18,
                        se_cmd_flags := { SCF_TRANSPORT_TASK_SENSE := true } } }
          { conn_ops := { HeaderDigest := true, DataDigest := true } }).iov_len
        = [52, 48, 4] :=
  have h := c24_tx_size_of_responses
    { buf_ptr_size := 5,
      se_cmd := { sense_buffer := true, scsi_sense_length := 18,
                  se_cmd_flags := { SCF_TRANSPORT_TASK_SENSE := true } } }
    { conn_ops := { HeaderDigest := true, DataDigest := true } } {} 7
    (by decide) (by decide)
  ⟨⟨h.1.1, by decide, h.1.2.2.1⟩, ⟨h.2.1.1, h.2.1.2.2.1⟩, h.2.2.1.2.2.1, h.2.2.2.2.2.1⟩

/-! ### StatSN of an asynchronous message that is not sent -/

/-- For every event that `iscsit_send_async_msg` does not send (all but
REQUEST_LOGOUT, DROPPING_CONNECTION, DROPPING_ALL_CONNECTIONS and
PARAM_NEGOTIATION) it returns -1 and hands nothing to `tx_data`, the state of
the connection is as before, and the StatSN counter has gone up by one. -/
theorem send_async_msg_unsupported (conn : iscsi_conn) (cid async_event async_vcode : Nat)
    (e : async_env)
    (h1 : async_event ≠ ISCSI_ASYNC_MSG_REQUEST_LOGOUT)
    (h2 : async_event ≠ ISCSI_ASYNC_MSG_DROPPING_CONNECTION)
    (h3 : async_event ≠ ISCSI_ASYNC_MSG_DROPPING_ALL_CONNECTIONS)
    (h4 : async_event ≠ ISCSI_ASYNC_MSG_PARAM_NEGOTIATION) :
    (iscsit_send_async_msg conn cid async_event async_vcode e).ret = -1
    ∧ (iscsit_send_async_msg conn cid async_event async_vcode e).sent = []
    ∧ (iscsit_send_async_msg conn cid async_event async_vcode e).conn.conn_state
      = conn.conn_state
    ∧ (iscsit_send_async_msg conn cid async_event async_vcode e).conn.stat_sn
      = u32 (conn.stat_sn + 1) := by
  have hb : iscsit_send_async_msg_build conn cid async_event async_vcode e
      = (none, { conn with stat_sn := u32 (conn.stat_sn + 1) }) := by
    unfold iscsit_send_async_msg_build
    simp only [if_neg h1, if_neg h2, if_neg h3, if_neg h4]
    split_ifs <;> rfl
  unfold iscsit_send_async_msg
  rw [hb]
  exact ⟨rfl, rfl, rfl, rfl⟩

/-- C29: `iscsit_send_async_msg` called for the event
ISCSI_ASYNC_MSG_SCSI_EVENT on a connection whose StatSN counter is 7 returns
-1 and hands nothing to `tx_data`, yet leaves the counter at 8; the state of
the connection is unchanged. -/
theorem c29_async_msg_unsent_consumes_statsn :
    (iscsit_send_async_msg { stat_sn := 7 } 0 ISCSI_ASYNC_MSG_SCSI_EVENT 0 {}).ret = -1
    ∧ (iscsit_send_async_msg { stat_sn := 7 } 0 ISCSI_ASYNC_MSG_SCSI_EVENT 0 {}).sent = []
    ∧ (iscsit_send_async_msg { stat_sn := 7 } 0 ISCSI_ASYNC_MSG_SCSI_EVENT 0 {}).conn.stat_sn
      = 8
    ∧ (iscsit_send_async_msg { stat_sn := 7 } 0 ISCSI_ASYNC_MSG_SCSI_EVENT 0
        {}).conn.conn_state = .TARG_CONN_STATE_LOGGED_IN := by
  decide
/-! ### The search of `iscsit_get_offset` -/

/-- The walk of `iscsit_get_offset` from the segment `s` on, for an
`unmap_sg` whose three offsets are clear: it stops on the segment that holds
the byte `o`, with the offset of that byte in the segment in `current_offset`,
`orig_offset` and `t_offset`. -/
theorem get_offset_loop_stored (mem : List se_mem) (hseg : ∀ m ∈ mem, 0 < m.se_len)
    (o : Nat) (ho : o < (mem.map se_mem.se_len).sum)
    (h32 : (mem.map se_mem.se_len).sum < 4294967296) :
    ∀ (fuel s : Nat) (usg : se_unmap_sg),
      mem.length - s + 2 ≤ fuel → usg.lmap.iscsi_offset = o →
      usg.lmap.current_offset = 0 → usg.lmap.orig_offset = 0 → usg.t_offset = 0 →
      bytes_before mem s ≤ o →
      ∃ s' usg',
        iscsit_get_offset_loop mem fuel (bytes_before mem s) (o - bytes_before mem s)
            (bytes_before mem s) s usg = some (s', usg')
        ∧ bytes_before mem s' ≤ o
        ∧ (∃ m, mem.get? s' = some m ∧ o - bytes_before mem s' < m.se_len)
        ∧ usg'.lmap.current_offset = o - bytes_before mem s'
        ∧ usg'.lmap.orig_offset = o - bytes_before mem s'
        ∧ usg'.t_offset = o - bytes_before mem s' := by
  intro fuel
  induction fuel with
  | zero => intro s usg hf; omega
  | succ f ih =>
    intro s usg hf hio hco hoo hto hpre
    have hlt : s < mem.length := by
      by_contra hx
      have := bytes_before_of_length_le mem s (by omega)
      omega
    have hm : mem.get? s = some mem[s] := by simp [hlt]
    have hpos : 0 < mem[s].se_len := hseg _ (List.getElem_mem hlt)
    have hsucc := bytes_before_succ mem s mem[s] hm
    have hle := bytes_before_le mem (s + 1)
    by_cases heq : bytes_before mem s = o
    · refine ⟨s, usg, ?_, hpre, ⟨mem[s], hm, by omega⟩, by omega, by omega, by omega⟩
      rw [iscsit_get_offset_loop, if_pos (by omega)]
    · rw [iscsit_get_offset_loop, if_neg (by omega), hm]
      dsimp only
      rw [u32_of_lt_word (bytes_before mem s + mem[s].se_len) (by omega)]
      by_cases hin : bytes_before mem s + mem[s].se_len > o
      · rw [if_pos (by omega)]
        obtain ⟨f', rfl⟩ : ∃ f', f = f' + 1 := ⟨f - 1, by omega⟩
        rw [iscsit_get_offset_loop, if_pos]
        · exact ⟨s, _, rfl, hpre, ⟨mem[s], hm, by omega⟩, rfl, rfl, rfl⟩
        · dsimp only
          rw [hio, u32_of_lt_word _ (by omega)]
          omega
      · rw [if_neg (by omega), u32_sub_of_le _ _ (by omega) (by omega)]
        have e2 : o - bytes_before mem s - mem[s].se_len = o - bytes_before mem (s + 1) := by omega
        rw [e2, ← hsucc]
        exact ih (s + 1) usg (by omega) hio hco hoo hto (by omega)

/-- C30: for a list of memory segments that each hold at least one byte and
less than 2^32 bytes in all, an offset `o` within them, and an `unmap_sg`
whose offsets are clear as the callers pass it, the search of
`iscsit_get_offset` ends and selects a segment `k` of the list and an offset
`r` in it, stored in `current_offset`, `orig_offset` and `t_offset`, with
`l_0 + ... + l_(k-1) + r = o` and `r < l_k`; `r` is 0 exactly when `o` is the
first byte of the segment. -/
theorem c30_get_offset_selects_segment (t_mem_list : List se_mem)
    (hseg : ∀ m ∈ t_mem_list, 0 < m.se_len)
    (h32 : (t_mem_list.map se_mem.se_len).sum < 4294967296)
    (o : Nat) (ho : o < (t_mem_list.map se_mem.se_len).sum)
    (usg : se_unmap_sg) (hio : usg.lmap.iscsi_offset = o)
    (hco : usg.lmap.current_offset = 0) (hoo : usg.lmap.orig_offset = 0)
    (hto : usg.t_offset = 0) :
    ∃ k r usg',
      iscsit_get_offset t_mem_list usg = some usg'
      ∧ usg'.cur_se_mem = some k ∧ usg'.lmap.map_orig_se_mem = some k
      ∧ usg'.lmap.current_offset = r ∧ usg'.lmap.orig_offset = r ∧ usg'.t_offset = r
      ∧ ((t_mem_list.take k).map se_mem.se_len).sum + r = o
      ∧ (∃ m, t_mem_list.get? k = some m ∧ r < m.se_len)
      ∧ (r = 0 ↔ o = ((t_mem_list.take k).map se_mem.se_len).sum) := by
  have h0 : bytes_before t_mem_list 0 = 0 := by simp [bytes_before]
  obtain ⟨s', usg', hl, h1, h2, h3, h4, h5⟩ :=
    get_offset_loop_stored t_mem_list hseg o ho h32 (2 * t_mem_list.length + 2) 0 usg
      (by omega) hio hco hoo hto (by omega)
  rw [h0] at hl
  simp only [Nat.sub_zero] at hl
  have hb : bytes_before t_mem_list s' = ((t_mem_list.take s').map se_mem.se_len).sum := rfl
  rw [hb] at h1 h2 h3 h4 h5
  refine ⟨s', o - ((t_mem_list.take s').map se_mem.se_len).sum,
    { usg' with
      cur_se_mem := some s',
      lmap := { usg'.lmap with map_orig_se_mem := some s' } }, ?_, rfl, rfl, h3, h4, h5,
    by omega, h2, by omega⟩
  unfold iscsit_get_offset
  rw [hio, hl]

theorem c30_get_offset_selects_segment_witness :
    ∃ k r usg',
      iscsit_get_offset [⟨10, 7, 3⟩, ⟨20, 5, 9⟩, ⟨30, 0, 1⟩]
          { lmap := { iscsi_offset := 5 } } = some usg'
      ∧ usg'.cur_se_mem = some k ∧ usg'.lmap.map_orig_se_mem = some k
      ∧ usg'.lmap.current_offset = r ∧ usg'.lmap.orig_offset = r ∧ usg'.t_offset = r
      ∧ ((([⟨10, 7, 3⟩, ⟨20, 5, 9⟩, ⟨30, 0, 1⟩] : List se_mem).take k).map
            se_mem.se_len).sum + r = 5
      ∧ (∃ m, ([⟨10, 7, 3⟩, ⟨20, 5, 9⟩, ⟨30, 0, 1⟩] : List se_mem).get? k = some m
          ∧ r < m.se_len)
      ∧ (r = 0 ↔ 5 = ((([⟨10, 7, 3⟩, ⟨20, 5, 9⟩, ⟨30, 0, 1⟩] : List se_mem).take k).map
            se_mem.se_len).sum) :=
  c30_get_offset_selects_segment [⟨10, 7, 3⟩, ⟨20, 5, 9⟩, ⟨30, 0, 1⟩] (by decide)
    (by decide) 5 (by decide) { lmap := { iscsi_offset := 5 } } rfl rfl rfl rfl

/-! ### Mapping the same range a second time -/

theorem recalc_forget_fields (P d : Nat) :
    ∀ (fuel off : Nat) (mr : Bool) (il io co oo sl sp : Nat) (ms mo : Option Nat)
      (ib : iov_ptr) (x : Nat) (y : iov_ptr),
      iscsit_calculate_map_segment_recalc P d fuel off ⟨mr, x, io, co, oo, sl, sp, ms, mo, y⟩
        = iscsit_calculate_map_segment_recalc P d fuel off
            ⟨mr, il, io, co, oo, sl, sp, ms, mo, ib⟩ := by
  intro fuel
  induction fuel with
  | zero => intros; rfl
  | succ f ih =>
    intro off mr il io co oo sl sp ms mo ib x y
    rw [iscsit_calculate_map_segment_recalc, iscsit_calculate_map_segment_recalc]
    dsimp only
    split_ifs <;> first | rfl | exact ih _ _ _ _ _ _ _ _ _ _ _ _ _

theorem recalc_forget_iovec (P d : Nat) (fuel off : Nat) (lm : se_offset_map) (x : Nat)
    (y : iov_ptr) :
    iscsit_calculate_map_segment_recalc P d fuel off
        { lm with iovec_length := x, iovec_base := y }
      = iscsit_calculate_map_segment_recalc P d fuel off lm := by
  cases lm
  exact recalc_forget_fields P d fuel off _ _ _ _ _ _ _ _ _ _ x y

/-- A mapping step that sets the map up anew reads nothing of the fields
`iovec_length`, `iovec_base`, `sg_page` and `sg_length`. -/
theorem calculate_map_segment_forget (P : Nat) (mem : List se_mem) (d : Nat)
    (lm : se_offset_map) (hr : lm.map_reset = true) :
    iscsit_calculate_map_segment P mem d lm
      = iscsit_calculate_map_segment P mem d lm.forget := by
  unfold iscsit_calculate_map_segment
  have hr2 : lm.forget.map_reset = true := hr
  rw [hr, hr2]
  simp only [Bool.not_true, Bool.false_eq_true, if_false]
  have hb : lm.forget.map_se_mem = lm.map_se_mem := rfl
  have hc : lm.forget.current_offset = lm.current_offset := rfl
  rw [hb, hc]
  cases lm.map_se_mem.bind mem.get? with
  | none => rfl
  | some m =>
    dsimp only
    exact (recalc_forget_iovec P d (lm.current_offset + 1) m.se_off
      { lm with map_reset := false, sg_page := m.se_page, sg_length := m.se_len } 0 .null).symm

theorem forget_eq_of_fields (a b : se_offset_map)
    (h1 : a.map_reset = b.map_reset) (h2 : a.iscsi_offset = b.iscsi_offset)
    (h3 : a.current_offset = b.current_offset) (h4 : a.orig_offset = b.orig_offset)
    (h5 : a.map_se_mem = b.map_se_mem) (h6 : a.map_orig_se_mem = b.map_orig_se_mem) :
    a.forget = b.forget := by
  cases a
  cases b
  simp only [se_offset_map.forget] at *
  simp [h1, h2, h3, h4, h5, h6]

/-- Two runs of the loop of `iscsit_set_iovec_ptrs` that start on maps to be
set up anew and differing only in the fields such a step overwrites give the
same return value, iovecs and segment count. -/
theorem set_iovec_ptrs_loop_congr (P : Nat) (mem : List se_mem) (count : Nat)
    (fuel i j d : Nat) (iov : List kvec) (lm1 lm2 : se_offset_map)
    (h1 : lm1.map_reset = true) (h2 : lm2.map_reset = true)
    (hf : lm1.forget = lm2.forget) :
    (iscsit_set_iovec_ptrs_loop P mem count fuel ⟨i, j, d, lm1, iov⟩).map set_iovec_view
      = (iscsit_set_iovec_ptrs_loop P mem count fuel ⟨i, j, d, lm2, iov⟩).map
          set_iovec_view := by
  cases fuel with
  | zero => rfl
  | succ f =>
    rw [iscsit_set_iovec_ptrs_loop, iscsit_set_iovec_ptrs_loop]
    dsimp only
    by_cases hd : d = 0
    · rw [if_pos hd, if_pos hd]
      rfl
    · rw [if_neg hd, if_neg hd, calculate_map_segment_forget P mem d lm1 h1,
        calculate_map_segment_forget P mem d lm2 h2, hf]

theorem recalc_keeps (P d : Nat) :
    ∀ (fuel off : Nat) (lm lm' : se_offset_map),
      iscsit_calculate_map_segment_recalc P d fuel off lm = some lm' →
      lm'.orig_offset = lm.orig_offset ∧ lm'.map_orig_se_mem = lm.map_orig_se_mem
      ∧ lm'.iscsi_offset = lm.iscsi_offset := by
  intro fuel
  induction fuel with
  | zero => intro off lm lm' h; cases h
  | succ f ih =>
    intro off lm lm' h
    rw [iscsit_calculate_map_segment_recalc] at h
    split_ifs at h <;>
      first
      | (injection h with h; subst h; exact ⟨rfl, rfl, rfl⟩)
      | (have q := ih _ _ _ h; exact q)

theorem calculate_map_segment_keeps (P : Nat) (mem : List se_mem) (d : Nat)
    (lm lm' : se_offset_map) (h : iscsit_calculate_map_segment P mem d lm = some lm') :
    lm'.orig_offset = lm.orig_offset ∧ lm'.map_orig_se_mem = lm.map_orig_se_mem
    ∧ lm'.iscsi_offset = lm.iscsi_offset := by
  unfold iscsit_calculate_map_segment at h
  by_cases hr : (!lm.map_reset) = true
  · rw [if_pos hr] at h
    injection h with h
    subst h
    exact ⟨rfl, rfl, rfl⟩
  · rw [if_neg hr] at h
    cases hb : lm.map_se_mem.bind mem.get? with
    | none => rw [hb] at h; cases h
    | some m =>
      rw [hb] at h
      have q := recalc_keeps P d _ _ _ _ h
      exact q

/-- The loop of `iscsit_set_iovec_ptrs` leaves `orig_offset`,
`map_orig_se_mem` and `iscsi_offset` of the map as they are. -/
theorem set_iovec_ptrs_loop_keeps (P : Nat) (mem : List se_mem) (count : Nat) :
    ∀ (fuel : Nat) (st : set_iovec_state) (ret : Int) (st' : set_iovec_state),
      iscsit_set_iovec_ptrs_loop P mem count fuel st = some (ret, st') →
      st'.lmap.orig_offset = st.lmap.orig_offset
      ∧ st'.lmap.map_orig_se_mem = st.lmap.map_orig_se_mem
      ∧ st'.lmap.iscsi_offset = st.lmap.iscsi_offset := by
  intro fuel
  induction fuel with
  | zero => intro st ret st' h; cases h
  | succ f ih =>
    intro st ret st' h
    rw [iscsit_set_iovec_ptrs_loop] at h
    by_cases hd : st.data_length = 0
    · rw [if_pos hd] at h
      injection h with h
      injection h with h1 h2
      subst h2
      exact ⟨rfl, rfl, rfl⟩
    · rw [if_neg hd] at h
      cases hc : iscsit_calculate_map_segment P mem st.data_length st.lmap with
      | none => rw [hc] at h; cases h
      | some lm =>
        rw [hc] at h
        dsimp only at h
        obtain ⟨k1, k2, k3⟩ := calculate_map_segment_keeps P mem _ _ _ hc
        split_ifs at h
        · injection h with h
          injection h with h1 h2
          subst h2
          exact ⟨k1, k2, k3⟩
        · obtain ⟨q1, q2, q3⟩ := ih _ _ _ h
          exact ⟨q1.trans k1, q2.trans k2, q3.trans k3⟩
        · obtain ⟨q1, q2, q3⟩ := ih _ _ _ h
          exact ⟨q1.trans k1, q2.trans k2, q3.trans k3⟩

/-- The walk of `iscsit_get_offset` writes `current_offset` and `orig_offset`
together and leaves `map_reset` and `iscsi_offset` alone. -/
theorem get_offset_loop_keeps (mem : List se_mem) :
    ∀ (fuel cl cio tot s : Nat) (usg : se_unmap_sg) (s' : Nat) (usg' : se_unmap_sg),
      iscsit_get_offset_loop mem fuel cl cio tot s usg = some (s', usg') →
      (usg.lmap.current_offset = usg.lmap.orig_offset →
        usg'.lmap.current_offset = usg'.lmap.orig_offset)
      ∧ usg'.lmap.map_reset = usg.lmap.map_reset
      ∧ usg'.lmap.iscsi_offset = usg.lmap.iscsi_offset
      ∧ usg'.sg_count = usg.sg_count := by
  intro fuel
  induction fuel with
  | zero => intro cl cio tot s usg s' usg' h; cases h
  | succ f ih =>
    intro cl cio tot s usg s' usg' h
    rw [iscsit_get_offset_loop] at h
    split_ifs at h with c1
    · injection h with h
      injection h with h1 h2
      subst h2
      exact ⟨fun x => x, rfl, rfl, rfl⟩
    · cases hm : mem.get? s with
      | none => rw [hm] at h; cases h
      | some m =>
        rw [hm] at h
        dsimp only at h
        split_ifs at h
        · obtain ⟨q1, q2, q3, q4⟩ := ih _ _ _ _ _ _ _ h
          exact ⟨fun _ => q1 rfl, q2, q3, q4⟩
        · exact ih _ _ _ _ _ _ _ h
theorem get_offset_keeps (mem : List se_mem) (usg usg' : se_unmap_sg)
    (h : iscsit_get_offset mem usg = some usg') :
    (usg.lmap.current_offset = usg.lmap.orig_offset →
      usg'.lmap.current_offset = usg'.lmap.orig_offset)
    ∧ usg'.lmap.map_reset = usg.lmap.map_reset
    ∧ usg'.lmap.iscsi_offset = usg.lmap.iscsi_offset := by
  unfold iscsit_get_offset at h
  cases hl : iscsit_get_offset_loop mem (2 * mem.length + 2) 0 usg.lmap.iscsi_offset 0 0 usg with
  | none => rw [hl] at h; cases h
  | some p =>
    obtain ⟨s, u⟩ := p
    rw [hl] at h
    dsimp only at h
    injection h with h
    subst h
    obtain ⟨q1, q2, q3, _⟩ := get_offset_loop_keeps mem _ _ _ _ _ _ _ _ hl
    exact ⟨q1, q2, q3⟩

/-- C23: when a call of `iscsit_set_iovec_ptrs` with `sg_kmap_active = 1` for
the offset `o` and the length `n`, on an `unmap_sg` whose `current_offset` and
`orig_offset` agree (both are clear as the callers pass it), has returned, a
second call with `sg_kmap_active = 0` for the same `o` and `n` on the
`unmap_sg` the first call left returns too, with the same return value, the
same iovec bases and lengths in the same order, and the same segment count,
whatever `o` is. -/
theorem c23_second_mapping_same (PAGE_SIZE t_tasks_se_num : Nat) (t_mem_list : List se_mem)
    (orig_iov_data_count o n : Nat) (unmap_sg : se_unmap_sg) (r1 : set_iovec_out)
    (hclr : unmap_sg.lmap.current_offset = unmap_sg.lmap.orig_offset)
    (h1 : iscsit_set_iovec_ptrs PAGE_SIZE t_tasks_se_num t_mem_list orig_iov_data_count
        ⟨true, n, o⟩ unmap_sg = some r1) :
    ∃ r2,
      iscsit_set_iovec_ptrs PAGE_SIZE t_tasks_se_num t_mem_list orig_iov_data_count
          ⟨false, n, o⟩ r1.unmap_sg = some r2
      ∧ r2.ret = r1.ret ∧ r2.iov = r1.iov
      ∧ r2.unmap_sg.sg_count = r1.unmap_sg.sg_count := by
  unfold iscsit_set_iovec_ptrs at h1 ⊢
  by_cases hnum : t_tasks_se_num = 0
  · rw [if_pos hnum] at h1 ⊢
    injection h1 with h1
    subst h1
    exact ⟨_, rfl, rfl, rfl, rfl⟩
  · rw [if_neg hnum] at h1 ⊢
    dsimp only at h1 ⊢
    rw [if_pos rfl] at h1
    rw [if_neg (by decide)]
    cases hg : iscsit_get_offset t_mem_list
        { unmap_sg with
          lmap := { unmap_sg.lmap with map_reset := true, iscsi_offset := o } } with
    | none => rw [hg] at h1; cases h1
    | some ug =>
      rw [hg] at h1
      dsimp only [Option.map_some'] at h1
      obtain ⟨g1, g2, g3⟩ := get_offset_keeps t_mem_list _ ug hg
      have g1' : ug.lmap.current_offset = ug.lmap.orig_offset := g1 hclr
      have g2' : ug.lmap.map_reset = true := g2
      have g3' : ug.lmap.iscsi_offset = o := g3
      cases hl : iscsit_set_iovec_ptrs_loop PAGE_SIZE t_mem_list orig_iov_data_count (n + 1)
          { data_length := n,
            lmap := { ug.lmap with map_se_mem := ug.lmap.map_orig_se_mem } } with
      | none => rw [hl] at h1; cases h1
      | some p =>
        obtain ⟨ret, st⟩ := p
        rw [hl] at h1
        dsimp only at h1
        obtain ⟨k1, k2, k3⟩ := set_iovec_ptrs_loop_keeps PAGE_SIZE t_mem_list
          orig_iov_data_count _ _ _ _ hl
        have k1' : st.lmap.orig_offset = ug.lmap.orig_offset := k1
        have k2' : st.lmap.map_orig_se_mem = ug.lmap.map_orig_se_mem := k2
        -- the second run of the loop starts on the same map up to the
        -- fields that the first step overwrites
        have key : ∃ p2,
            iscsit_set_iovec_ptrs_loop PAGE_SIZE t_mem_list orig_iov_data_count (n + 1)
              { data_length := n,
                lmap :=
                  { st.lmap with
                    map_reset := true,
                    iscsi_offset := o,
                    current_offset := st.lmap.orig_offset,
                    map_se_mem := st.lmap.map_orig_se_mem } } = some p2
            ∧ p2.1 = ret ∧ p2.2.iov = st.iov ∧ p2.2.j = st.j := by
          have hc := set_iovec_ptrs_loop_congr PAGE_SIZE t_mem_list orig_iov_data_count
            (n + 1) 0 0 n []
            { st.lmap with
              map_reset := true,
              iscsi_offset := o,
              current_offset := st.lmap.orig_offset,
              map_se_mem := st.lmap.map_orig_se_mem }
            { ug.lmap with map_se_mem := ug.lmap.map_orig_se_mem }
            rfl g2'
            (forget_eq_of_fields _ _ g2'.symm g3'.symm (k1'.trans g1'.symm) k1' k2' k2')
          have hl' : iscsit_set_iovec_ptrs_loop PAGE_SIZE t_mem_list orig_iov_data_count
              (n + 1) ⟨0, 0, n, { ug.lmap with map_se_mem := ug.lmap.map_orig_se_mem }, []⟩
              = some (ret, st) := hl
          rw [hl'] at hc
          cases hl2 : iscsit_set_iovec_ptrs_loop PAGE_SIZE t_mem_list orig_iov_data_count
              (n + 1)
              ⟨0, 0, n,
                { st.lmap with
                  map_reset := true,
                  iscsi_offset := o,
                  current_offset := st.lmap.orig_offset,
                  map_se_mem := st.lmap.map_orig_se_mem }, []⟩ with
          | none => rw [hl2] at hc; cases hc
          | some p2 =>
            rw [hl2] at hc
            simp only [Option.map_some', Option.some.injEq, set_iovec_view, Prod.mk.injEq] at hc
            exact ⟨p2, rfl, hc.1, hc.2.1, hc.2.2⟩
        obtain ⟨p2, e1, e2, e3, e4⟩ := key
        by_cases hret : ret < 0
        · rw [if_pos hret] at h1
          injection h1 with h1
          subst h1
          dsimp only
          rw [e1]
          dsimp only
          rw [e2, if_pos hret]
          exact ⟨_, rfl, rfl, e3, rfl⟩
        · rw [if_neg hret] at h1
          injection h1 with h1
          subst h1
          dsimp only
          rw [e1]
          dsimp only
          rw [e2, if_neg hret]
          exact ⟨_, rfl, rfl, e3, e4⟩

theorem c23_second_mapping_same_witness :
    ∃ r2,
      iscsit_set_iovec_ptrs 8 1 [⟨10, 7, 3⟩, ⟨20, 5, 9⟩, ⟨30, 0, 1⟩] 10 ⟨false, 9, 3⟩
          { data_length := 9,
            sg_count := 1,
            cur_se_mem := some 1,
            lmap :=
              { map_reset := true, iovec_length := 6, iscsi_offset := 3, sg_length := 0,
                map_se_mem := some 2, map_orig_se_mem := some 1,
                iovec_base := .page 21 0 } } = some r2
      ∧ r2.ret = 2
      ∧ r2.iov = [⟨.page 20 5, 3⟩, ⟨.page 21 0, 6⟩]
      ∧ r2.unmap_sg.sg_count = 1 :=
  c23_second_mapping_same 8 1 [⟨10, 7, 3⟩, ⟨20, 5, 9⟩, ⟨30, 0, 1⟩] 10 3 9 {}
    ⟨2, [⟨.page 20 5, 3⟩, ⟨.page 21 0, 6⟩],
      { data_length := 9,
        sg_count := 1,
        cur_se_mem := some 1,
        lmap :=
          { map_reset := true, iovec_length := 6, iscsi_offset := 3, sg_length := 0,
            map_se_mem := some 2, map_orig_se_mem := some 1,
            iovec_base := .page 21 0 } }⟩
    rfl (by decide)

/-! ### WWN of an NPIV port -/

theorem npiv_extract_wwn_loop_ok (ns : List Nat) :
    ∀ (n i j : Nat) (wwn : List Nat),
      ∃ w, tcm_qla2xxx_npiv_extract_wwn_loop ns n i j wwn = .ok w := by
  intro n
  induction n with
  | zero => intro i j wwn; exact ⟨wwn, rfl⟩
  | succ n ih =>
    intro i j wwn
    rw [tcm_qla2xxx_npiv_extract_wwn_loop, if_pos (Nat.zero_le _)]
    split_ifs
    · exact ih _ _ _
    · exact ih _ _ _

/-- The digits are not validated: `tcm_qla2xxx_npiv_extract_wwn` returns 0
for every string. -/
theorem npiv_extract_wwn_ok (ns : List Nat) :
    ∃ v, tcm_qla2xxx_npiv_extract_wwn ns = .ok v := by
  unfold tcm_qla2xxx_npiv_extract_wwn
  obtain ⟨w, hw⟩ := npiv_extract_wwn_loop_ok ns 16 0 0 (List.replicate 8 0)
  rw [hw]
  exact ⟨_, rfl⟩

/-- The function `tcm_qla2xxx_npiv_parse_wwn` returns 0 exactly when the
count, less one for a final newline, is 33 and the character at index 16 is a
colon, and -EINVAL otherwise. -/
theorem npiv_parse_wwn_ret (name : List Nat) (count : Nat) :
    (tcm_qla2xxx_npiv_parse_wwn name count).ret
      = if (if name.getD (u32_sub (u32 count) 1) 0 = 10 then u32_sub (u32 count) 1
            else u32 count) ≠ 16 + 1 + 16 ∨ name.getD 16 0 ≠ 58 then -EINVAL else 0 := by
  obtain ⟨v1, h1⟩ := npiv_extract_wwn_ok name
  obtain ⟨v2, h2⟩ := npiv_extract_wwn_ok (name.drop 17)
  unfold tcm_qla2xxx_npiv_parse_wwn
  rw [h1, h2]
  dsimp only
  split_ifs <;> rfl

/-- For a well-formed name the values are those of the two groups of digits. -/
theorem npiv_parse_wwn_example :
    tcm_qla2xxx_npiv_parse_wwn (c_str "2100001b32a0a0a0:2000001b32a0a0a0\n") 34
      = ⟨0, 0x2100001b32a0a0a0, 0x2000001b32a0a0a0⟩ := by
  decide

/-- C28: `tcm_qla2xxx_npiv_parse_wwn` on the 33 characters
"zzzzzzzzzzzzzzzz:zzzzzzzzzzzzzzzz", none of whose 32 digit positions holds a
hexadecimal digit, returns 0 and stores 0xffffffffffffffff in both `wwpn` and
`wwnn`. -/
theorem c28_npiv_parse_wwn_accepts_non_hex :
    tcm_qla2xxx_npiv_parse_wwn (c_str "zzzzzzzzzzzzzzzz:zzzzzzzzzzzzzzzz") 33
      = ⟨0, 0xffffffffffffffff, 0xffffffffffffffff⟩ := by
  decide

/-! ### Strict parsing of a WWN -/

theorem hex_digit_facts (d : Nat) (hd : d < 16) :
    hex_digit d ≠ 10 ∧ hex_digit d ≠ 0 ∧ hex_digit d ≠ 58
    ∧ ((isdigit (hex_digit d) = true ∧ hex_digit d - 48 = d)
      ∨ (isdigit (hex_digit d) = false ∧ isxdigit (hex_digit d) = true
          ∧ islower (hex_digit d) = true ∧ tolower (hex_digit d) - 97 + 10 = d)) := by
  interval_cases d <;> decide

/-- A character that strict mode takes for a digit is a lower-case
hexadecimal digit. -/
theorem hex_digit_of_strict (c : Nat)
    (h : isdigit c = true ∨ (isxdigit c = true ∧ islower c = true)) :
    ∃ d, d < 16 ∧ c = hex_digit d := by
  rcases h with h | ⟨h1, h2⟩
  · simp only [isdigit, decide_eq_true_eq] at h
    refine ⟨c - 48, by omega, ?_⟩
    unfold hex_digit
    rw [if_pos (by omega)]
    omega
  · simp only [isxdigit, isdigit, islower, Bool.or_eq_true, decide_eq_true_eq] at h1 h2
    refine ⟨c - 87, by omega, ?_⟩
    unfold hex_digit
    rw [if_neg (by omega)]
    omega

theorem getD_of_drop_cons (name : List Nat) (cp x : Nat) (t : List Nat)
    (h : name.drop cp = x :: t) : name.getD cp 0 = x ∧ name.drop (cp + 1) = t := by
  have h1 : (name.drop cp).head? = some x := by rw [h]; rfl
  rw [List.head?_drop] at h1
  have h2 : (name.drop cp).tail = t := by rw [h]; rfl
  rw [List.tail_drop] at h2
  refine ⟨?_, h2⟩
  rw [List.getD_eq_getElem?_getD, h1]
  rfl

theorem getD_of_drop_nil (name : List Nat) (cp : Nat) (h : name.drop cp = []) :
    name.getD cp 0 = 0 := by
  have h1 : (name.drop cp).head? = none := by rw [h]; rfl
  rw [List.head?_drop] at h1
  rw [List.getD_eq_getElem?_getD, h1]
  rfl

theorem drop_of_getD_ne_zero (name : List Nat) (cp x : Nat) (h : name.getD cp 0 = x)
    (hx : x ≠ 0) : name.drop cp = x :: name.drop (cp + 1) := by
  have hlt : cp < name.length := by
    by_contra hge
    rw [List.getD_eq_getElem?_getD, List.getElem?_eq_none (by omega)] at h
    exact hx h.symm
  rw [List.getD_eq_getElem?_getD, List.getElem?_eq_getElem hlt] at h
  rw [List.drop_eq_getElem_cons hlt]
  simp only [Option.getD_some] at h
  rw [h]
/-- In strict mode the end of the string is an error unless it comes right
after the second digit of the eighth byte. -/
theorem parse_strict_fail_at_nul (name : List Nat) (n cp w pos byte : Nat)
    (hc : name.getD cp 0 = 0) (hb : byte ≤ 7) (hpb : ¬ (pos = 2 ∧ byte = 7)) :
    (tcm_qla2xxx_parse_wwn_loop name true n cp w pos byte).1 = -1 := by
  cases n with
  | zero => rfl
  | succ n =>
    rw [tcm_qla2xxx_parse_wwn_loop, hc]
    rw [if_neg (by simp)]
    by_cases h2 : pos = 2 ∧ byte < 7
    · rw [if_pos ⟨rfl, h2⟩, if_neg (by decide)]
    · rw [if_neg (fun h => h2 h.2), if_pos rfl]
      have hp : pos ≠ 2 := by
        intro hp
        apply h2
        refine ⟨hp, ?_⟩
        have : byte ≠ 7 := fun h7 => hpb ⟨hp, h7⟩
        omega
      rw [if_neg hp, if_pos ⟨rfl, by omega⟩]

/-- One pass of the strict loop over a digit. -/
theorem parse_strict_digit (name : List Nat) (n cp w pos byte d : Nat)
    (hc : name.getD cp 0 = hex_digit d) (hd : d < 16) (hp : pos < 2) :
    tcm_qla2xxx_parse_wwn_loop name true (n + 1) cp w pos byte
      = tcm_qla2xxx_parse_wwn_loop name true n (cp + 1) (wwn_shift_in w d) (pos + 1) byte := by
  obtain ⟨f1, f2, f3, f4⟩ := hex_digit_facts d hd
  have hp2 : pos ≠ 2 := by omega
  have hu : u32 (pos + 1) = pos + 1 := by unfold u32; omega
  rw [tcm_qla2xxx_parse_wwn_loop, hc]
  rw [if_neg (fun h => f1 h.1), if_neg (fun h => hp2 h.2.1), if_neg f2]
  rcases f4 with ⟨g1, g2⟩ | ⟨g1, g2, g3, g4⟩
  · rw [if_pos g1, g2]
    simp only [if_true, hu, hp2, and_false, if_false]
  · rw [if_neg (by simp [g1]), if_pos ⟨g2, Or.inl g3⟩, g4]
    simp only [if_true, hu, hp2, and_false, if_false]

/-- One pass of the strict loop over the colon after a byte. -/
theorem parse_strict_colon (name : List Nat) (n cp w byte : Nat)
    (hc : name.getD cp 0 = 58) (hb : byte < 7) :
    tcm_qla2xxx_parse_wwn_loop name true (n + 1) cp w 2 byte
      = tcm_qla2xxx_parse_wwn_loop name true n (cp + 1) w 0 (byte + 1) := by
  have hu : u32 (byte + 1) = byte + 1 := by unfold u32; omega
  rw [tcm_qla2xxx_parse_wwn_loop, hc]
  rw [if_neg (by simp), if_pos ⟨rfl, rfl, hb⟩, if_pos rfl, hu]

/-- The end of the string right after the eighth byte. -/
theorem parse_strict_end_nul (name : List Nat) (n cp w : Nat) (hc : name.getD cp 0 = 0) :
    tcm_qla2xxx_parse_wwn_loop name true (n + 1) cp w 2 7 = ((cp : Int), w) := by
  rw [tcm_qla2xxx_parse_wwn_loop, hc]
  rw [if_neg (by simp), if_neg (by simp), if_pos rfl]
  rw [if_neg]
  simp [u32]

/-- A newline that ends the string right after the eighth byte. -/
theorem parse_strict_end_newline (name : List Nat) (n cp w : Nat)
    (hc : name.getD cp 0 = 10) (hc1 : name.getD (cp + 1) 0 = 0) :
    tcm_qla2xxx_parse_wwn_loop name true (n + 2) cp w 2 7 = (((cp + 1 : Nat) : Int), w) := by
  rw [tcm_qla2xxx_parse_wwn_loop, if_pos ⟨hc, hc1⟩]
  exact parse_strict_end_nul name n (cp + 1) w hc1

/-- A pass of the strict loop that is to read a digit succeeds only on a
lower-case hexadecimal digit. -/
theorem parse_strict_digit_inv (name : List Nat) (n cp w pos byte : Nat)
    (hp : pos < 2) (hb : byte ≤ 7)
    (hs : 0 ≤ (tcm_qla2xxx_parse_wwn_loop name true n cp w pos byte).1) :
    ∃ d m, d < 16 ∧ name.getD cp 0 = hex_digit d ∧ n = m + 1 := by
  cases n with
  | zero => exact absurd (show (0 : Int) ≤ -1 from hs) (by decide)
  | succ n =>
    have hp2 : pos ≠ 2 := by omega
    rw [tcm_qla2xxx_parse_wwn_loop] at hs
    by_cases h1 : name.getD cp 0 = 10 ∧ name.getD (cp + 1) 0 = 0
    · rw [if_pos h1] at hs
      have := parse_strict_fail_at_nul name n (cp + 1) w pos byte h1.2 hb (fun h => hp2 h.1)
      omega
    · rw [if_neg h1, if_neg (fun h => hp2 h.2.1)] at hs
      by_cases h0 : name.getD cp 0 = 0
      · rw [if_pos h0, if_neg hp2, if_pos ⟨rfl, by omega⟩] at hs
        exact absurd (show (0 : Int) ≤ -1 from hs) (by decide)
      · rw [if_neg h0] at hs
        by_cases hdig : isdigit (name.getD cp 0) = true
        · obtain ⟨d, hd, he⟩ := hex_digit_of_strict _ (Or.inl hdig)
          exact ⟨d, n, hd, he, rfl⟩
        · rw [if_neg hdig] at hs
          by_cases hx : isxdigit (name.getD cp 0) = true
              ∧ (islower (name.getD cp 0) = true ∨ true = false)
          · have hl : islower (name.getD cp 0) = true := by
              rcases hx.2 with h | h
              · exact h
              · cases h
            obtain ⟨d, hd, he⟩ := hex_digit_of_strict _ (Or.inr ⟨hx.1, hl⟩)
            exact ⟨d, n, hd, he, rfl⟩
          · rw [if_neg hx] at hs
            exact absurd (show (0 : Int) ≤ -1 from hs) (by decide)

/-- A pass of the strict loop that is to read the colon after a byte succeeds
only on a colon. -/
theorem parse_strict_colon_inv (name : List Nat) (n cp w byte : Nat) (hb : byte < 7)
    (hs : 0 ≤ (tcm_qla2xxx_parse_wwn_loop name true n cp w 2 byte).1) :
    ∃ m, name.getD cp 0 = 58 ∧ n = m + 1 := by
  cases n with
  | zero => exact absurd (show (0 : Int) ≤ -1 from hs) (by decide)
  | succ n =>
    rw [tcm_qla2xxx_parse_wwn_loop] at hs
    by_cases h1 : name.getD cp 0 = 10 ∧ name.getD (cp + 1) 0 = 0
    · rw [if_pos h1] at hs
      have := parse_strict_fail_at_nul name n (cp + 1) w 2 byte h1.2 (by omega)
        (fun h => by omega)
      omega
    · rw [if_neg h1, if_pos ⟨rfl, rfl, hb⟩] at hs
      by_cases hc : name.getD cp 0 = 58
      · exact ⟨n, hc, rfl⟩
      · rw [if_neg hc] at hs
        exact absurd (show (0 : Int) ≤ -1 from hs) (by decide)
theorem wwn_string_cons_cons (b b2 : Nat) (bs : List Nat) :
    wwn_string (b :: b2 :: bs)
      = hex_digit (b / 16) :: hex_digit (b % 16) :: 58 :: wwn_string (b2 :: bs) := rfl

theorem wwn_string_single (b : Nat) :
    wwn_string [b] = [hex_digit (b / 16), hex_digit (b % 16)] := rfl

/-- The strict loop over the digits and colons of the bytes `bs`, the last
of which is the eighth byte: it arrives behind the second digit of that byte
with the digits shifted in. -/
theorem parse_strict_bytes (name : List Nat) :
    ∀ (bs : List Nat) (k cp w n : Nat) (tail : List Nat),
      bs ≠ [] → (∀ b ∈ bs, b < 256) → k + bs.length = 8 →
      name.drop cp = wwn_string bs ++ tail → 3 * bs.length - 1 ≤ n →
      tcm_qla2xxx_parse_wwn_loop name true n cp w 0 k
          = tcm_qla2xxx_parse_wwn_loop name true (n - (3 * bs.length - 1))
              (cp + (3 * bs.length - 1)) (wwn_fold w bs) 2 7
      ∧ name.drop (cp + (3 * bs.length - 1)) = tail := by
  intro bs
  induction bs with
  | nil => intro k cp w n tail h; exact absurd rfl h
  | cons b rest ih =>
    intro k cp w n tail _ hb hk hdrop hn
    have hb0 : b < 256 := hb b (List.mem_cons_self _ _)
    cases rest with
    | nil =>
      simp only [List.length_cons, List.length_nil] at hk hn ⊢
      rw [wwn_string_single] at hdrop
      obtain ⟨c1, d1⟩ := getD_of_drop_cons name cp _ _ hdrop
      obtain ⟨c2, d2⟩ := getD_of_drop_cons name (cp + 1) _ _ d1
      obtain ⟨m, rfl⟩ : ∃ m, n = m + 2 := ⟨n - 2, by omega⟩
      have hk7 : k = 7 := by omega
      subst hk7
      rw [parse_strict_digit name (m + 1) cp w 0 7 (b / 16) c1 (by omega) (by omega),
        parse_strict_digit name m (cp + 1) _ 1 7 (b % 16) c2 (by omega) (by omega)]
      exact ⟨rfl, d2⟩
    | cons b2 rest2 =>
      simp only [List.length_cons] at hk hn ⊢
      rw [wwn_string_cons_cons] at hdrop
      obtain ⟨c1, d1⟩ := getD_of_drop_cons name cp _ _ hdrop
      obtain ⟨c2, d2⟩ := getD_of_drop_cons name (cp + 1) _ _ d1
      obtain ⟨c3, d3⟩ := getD_of_drop_cons name (cp + 2) _ _ d2
      obtain ⟨m, rfl⟩ : ∃ m, n = m + 3 := ⟨n - 3, by omega⟩
      rw [parse_strict_digit name (m + 2) cp w 0 k (b / 16) c1 (by omega) (by omega),
        parse_strict_digit name (m + 1) (cp + 1) _ 1 k (b % 16) c2 (by omega) (by omega),
        parse_strict_colon name m (cp + 2) _ k c3 (by omega)]
      obtain ⟨e1, e2⟩ := ih (k + 1) (cp + 3) (wwn_shift_in (wwn_shift_in w (b / 16)) (b % 16)) m
        tail (by simp) (fun x hx => hb x (List.mem_cons_of_mem _ hx))
        (by simp only [List.length_cons]; omega) d3
        (by simp only [List.length_cons]; omega)
      simp only [List.length_cons] at e1 e2
      have a1 : m + 3 - (3 * (rest2.length + 1 + 1) - 1) = m - (3 * (rest2.length + 1) - 1) := by
        omega
      have a2 : cp + (3 * (rest2.length + 1 + 1) - 1) = cp + 3 + (3 * (rest2.length + 1) - 1) := by
        omega
      rw [a1, a2]
      exact ⟨e1, e2⟩

/-- A run of the strict loop that succeeds from the first digit of a byte
has read the digits and colons of the bytes up to the eighth. -/
theorem parse_strict_bytes_inv (name : List Nat) :
    ∀ (m k cp w n : Nat), k + (m + 1) = 8 →
      0 ≤ (tcm_qla2xxx_parse_wwn_loop name true n cp w 0 k).1 →
      ∃ bs n2, bs.length = m + 1 ∧ (∀ b ∈ bs, b < 256)
        ∧ name.drop cp = wwn_string bs ++ name.drop (cp + (3 * (m + 1) - 1))
        ∧ tcm_qla2xxx_parse_wwn_loop name true n cp w 0 k
          = tcm_qla2xxx_parse_wwn_loop name true n2 (cp + (3 * (m + 1) - 1))
              (wwn_fold w bs) 2 7 := by
  intro m
  induction m with
  | zero =>
    intro k cp w n hk hs
    have hk7 : k = 7 := by omega
    subst hk7
    obtain ⟨d1, n1, hd1, hc1, rfl⟩ := parse_strict_digit_inv name n cp w 0 7 (by omega)
      (by omega) hs
    rw [parse_strict_digit name n1 cp w 0 7 d1 hc1 hd1 (by omega)] at hs ⊢
    obtain ⟨d2, n2, hd2, hc2, rfl⟩ := parse_strict_digit_inv name n1 (cp + 1) _ 1 7 (by omega)
      (by omega) hs
    rw [parse_strict_digit name n2 (cp + 1) _ 1 7 d2 hc2 hd2 (by omega)]
    obtain ⟨f1, f2, _, _⟩ := hex_digit_facts d1 hd1
    obtain ⟨g1, g2, _, _⟩ := hex_digit_facts d2 hd2
    have q1 : (d1 * 16 + d2) / 16 = d1 := by omega
    have q2 : (d1 * 16 + d2) % 16 = d2 := by omega
    refine ⟨[d1 * 16 + d2], n2, rfl, ?_, ?_, ?_⟩
    · intro b hb
      simp only [List.mem_singleton] at hb
      omega
    · rw [wwn_string_single, q1, q2, drop_of_getD_ne_zero name cp _ hc1 f2,
        drop_of_getD_ne_zero name (cp + 1) _ hc2 g2]
      rfl
    · simp only [wwn_fold, q1, q2]
  | succ m ih =>
    intro k cp w n hk hs
    obtain ⟨d1, n1, hd1, hc1, rfl⟩ := parse_strict_digit_inv name n cp w 0 k (by omega)
      (by omega) hs
    rw [parse_strict_digit name n1 cp w 0 k d1 hc1 hd1 (by omega)] at hs ⊢
    obtain ⟨d2, n2, hd2, hc2, rfl⟩ := parse_strict_digit_inv name n1 (cp + 1) _ 1 k (by omega)
      (by omega) hs
    rw [parse_strict_digit name n2 (cp + 1) _ 1 k d2 hc2 hd2 (by omega)] at hs ⊢
    obtain ⟨n3, hc3, rfl⟩ := parse_strict_colon_inv name n2 (cp + 1 + 1) _ k (by omega) hs
    rw [parse_strict_colon name n3 (cp + 1 + 1) _ k hc3 (by omega)] at hs ⊢
    obtain ⟨bs, n4, hl, hbs, hdrop, heq⟩ := ih (k + 1) (cp + 1 + 1 + 1) _ n3 (by omega) hs
    obtain ⟨f1, f2, _, _⟩ := hex_digit_facts d1 hd1
    obtain ⟨g1, g2, _, _⟩ := hex_digit_facts d2 hd2
    have q1 : (d1 * 16 + d2) / 16 = d1 := by omega
    have q2 : (d1 * 16 + d2) % 16 = d2 := by omega
    have a2 : cp + 1 + 1 + 1 + (3 * (m + 1) - 1) = cp + (3 * (m + 1 + 1) - 1) := by omega
    rw [a2] at hdrop heq
    cases bs with
    | nil => simp at hl
    | cons b2 rest2 =>
      refine ⟨(d1 * 16 + d2) :: b2 :: rest2, n4, ?_, ?_, ?_, ?_⟩
      · simp only [List.length_cons] at hl ⊢
        omega
      · intro b hb
        rcases List.mem_cons.mp hb with h | h
        · omega
        · exact hbs b h
      · rw [wwn_string_cons_cons, q1, q2, drop_of_getD_ne_zero name cp _ hc1 f2,
          drop_of_getD_ne_zero name (cp + 1) _ hc2 g2,
          drop_of_getD_ne_zero name (cp + 1 + 1) 58 hc3 (by decide), hdrop]
        rfl
      · rw [heq]
        simp only [wwn_fold, q1, q2]

theorem wwn_shift_in_eq (w d : Nat) (hd : d < 16) (hw : w < 1152921504606846976) :
    wwn_shift_in w d = w * 16 + d := by
  unfold wwn_shift_in u64
  have e1 : Nat.shiftLeft w 4 = 2 ^ 4 * w := by
    show w <<< 4 = _
    rw [Nat.shiftLeft_eq, Nat.mul_comm]
  rw [e1, Nat.mod_eq_of_lt (by omega)]
  have e2 := Nat.mul_add_lt_is_or (show d < 2 ^ 4 by omega) w
  show 2 ^ 4 * w ||| d = _
  rw [← e2]
  omega

theorem wwn_shift_in_byte (w b : Nat) (hb : b < 256) (hw : w < 72057594037927936) :
    wwn_shift_in (wwn_shift_in w (b / 16)) (b % 16) = w * 256 + b := by
  rw [wwn_shift_in_eq w (b / 16) (by omega) (by omega),
    wwn_shift_in_eq _ (b % 16) (by omega) (by omega)]
  omega

theorem wwn_fold_eight (b0 b1 b2 b3 b4 b5 b6 b7 : Nat)
    (h0 : b0 < 256) (h1 : b1 < 256) (h2 : b2 < 256) (h3 : b3 < 256)
    (h4 : b4 < 256) (h5 : b5 < 256) (h6 : b6 < 256) (h7 : b7 < 256) :
    wwn_fold 0 [b0, b1, b2, b3, b4, b5, b6, b7]
      = b0 * 72057594037927936 + b1 * 281474976710656 + b2 * 1099511627776
        + b3 * 4294967296 + b4 * 16777216 + b5 * 65536 + b6 * 256 + b7 := by
  simp only [wwn_fold]
  rw [wwn_shift_in_byte 0 b0 h0 (by omega)]
  rw [wwn_shift_in_byte _ b1 h1 (by omega)]
  rw [wwn_shift_in_byte _ b2 h2 (by omega)]
  rw [wwn_shift_in_byte _ b3 h3 (by omega)]
  rw [wwn_shift_in_byte _ b4 h4 (by omega)]
  rw [wwn_shift_in_byte _ b5 h5 (by omega)]
  rw [wwn_shift_in_byte _ b6 h6 (by omega)]
  rw [wwn_shift_in_byte _ b7 h7 (by omega)]
  omega

/-- Shifting in the digits of the eight bytes of a 64-bit value gives the
value back. -/
theorem wwn_fold_put_unaligned_be64 (v : Nat) (hv : v < 18446744073709551616) :
    wwn_fold 0 (put_unaligned_be64 v) = v := by
  unfold put_unaligned_be64
  rw [wwn_fold_eight _ _ _ _ _ _ _ _ (by omega) (by omega) (by omega) (by omega) (by omega)
    (by omega) (by omega) (by omega)]
  omega

/-- The eight bytes of the value that eight bytes shift in are those bytes. -/
theorem put_unaligned_be64_wwn_fold (bs : List Nat) (hl : bs.length = 8)
    (hb : ∀ b ∈ bs, b < 256) :
    put_unaligned_be64 (wwn_fold 0 bs) = bs ∧ wwn_fold 0 bs < 18446744073709551616 := by
  match bs, hl, hb with
  | [b0, b1, b2, b3, b4, b5, b6, b7], _, hb =>
    have h0 : b0 < 256 := hb b0 (by simp)
    have h1 : b1 < 256 := hb b1 (by simp)
    have h2 : b2 < 256 := hb b2 (by simp)
    have h3 : b3 < 256 := hb b3 (by simp)
    have h4 : b4 < 256 := hb b4 (by simp)
    have h5 : b5 < 256 := hb b5 (by simp)
    have h6 : b6 < 256 := hb b6 (by simp)
    have h7 : b7 < 256 := hb b7 (by simp)
    rw [wwn_fold_eight b0 b1 b2 b3 b4 b5 b6 b7 h0 h1 h2 h3 h4 h5 h6 h7]
    unfold put_unaligned_be64
    refine ⟨?_, by omega⟩
    congr 1
    · omega
    congr 1
    · omega
    congr 1
    · omega
    congr 1
    · omega
    congr 1
    · omega
    congr 1
    · omega
    congr 1
    · omega
    congr 1
    omega

theorem wwn_string_length_eight (bs : List Nat) (hl : bs.length = 8) :
    (wwn_string bs).length = 23 := by
  match bs, hl with
  | [b0, b1, b2, b3, b4, b5, b6, b7], _ => rfl
theorem put_unaligned_be64_length (v : Nat) : (put_unaligned_be64 v).length = 8 := rfl

theorem put_unaligned_be64_lt (v : Nat) : ∀ b ∈ put_unaligned_be64 v, b < 256 := by
  intro b hb
  simp only [put_unaligned_be64, List.mem_cons, List.mem_singleton, List.not_mem_nil,
    or_false] at hb
  omega

/-- With room for the string `tcm_qla2xxx_format_wwn` returns 23 and leaves
the 23 characters of the eight bytes. -/
theorem format_wwn_full (len v : Nat) (hlen : 24 ≤ len) :
    tcm_qla2xxx_format_wwn len v = (23, wwn_string (put_unaligned_be64 v)) := by
  have hl := wwn_string_length_eight (put_unaligned_be64 v) rfl
  unfold tcm_qla2xxx_format_wwn
  rw [hl, List.take_of_length_le (by omega)]
  rfl

/-- Strict parsing of the bytes `bs` written as a WWN string, followed by
nothing or by one newline. -/
theorem parse_strict_wwn_string (NAMELEN : Nat) (bs : List Nat) (hl : bs.length = 8)
    (hb : ∀ b ∈ bs, b < 256) :
    (25 ≤ NAMELEN →
      tcm_qla2xxx_parse_wwn NAMELEN (wwn_string bs) true = (23, wwn_fold 0 bs))
    ∧ (26 ≤ NAMELEN →
      tcm_qla2xxx_parse_wwn NAMELEN (wwn_string bs ++ [10]) true = (24, wwn_fold 0 bs)) := by
  have hne : bs ≠ [] := by
    intro h
    rw [h] at hl
    cases hl
  constructor
  · intro hN
    obtain ⟨e1, e2⟩ := parse_strict_bytes (wwn_string bs) bs 0 0 0 (NAMELEN - 1) [] hne hb
      (by omega) (by simp) (by omega)
    rw [hl] at e1 e2
    unfold tcm_qla2xxx_parse_wwn
    rw [e1]
    obtain ⟨m, hm⟩ : ∃ m, NAMELEN - 1 - (3 * 8 - 1) = m + 1 := ⟨NAMELEN - 25, by omega⟩
    rw [hm, parse_strict_end_nul _ m _ _ (getD_of_drop_nil _ _ e2)]
    rfl
  · intro hN
    obtain ⟨e1, e2⟩ := parse_strict_bytes (wwn_string bs ++ [10]) bs 0 0 0 (NAMELEN - 1) [10]
      hne hb (by omega) (by simp) (by omega)
    rw [hl] at e1 e2
    unfold tcm_qla2xxx_parse_wwn
    rw [e1]
    obtain ⟨m, hm⟩ : ∃ m, NAMELEN - 1 - (3 * 8 - 1) = m + 2 := ⟨NAMELEN - 26, by omega⟩
    obtain ⟨c1, d1⟩ := getD_of_drop_cons _ _ _ _ e2
    rw [hm, parse_strict_end_newline _ m _ _ c1 (getD_of_drop_nil _ _ d1)]
    rfl

/-- A name that strict parsing accepts starts with the 23 characters of the
eight bytes whose digits it holds; when nothing or only a newline follows
them, the result is the value of those bytes. -/
theorem parse_strict_accepts_only (NAMELEN : Nat) (name : List Nat) (r : Int) (w : Nat)
    (h : tcm_qla2xxx_parse_wwn NAMELEN name true = (r, w)) (hr : 0 ≤ r)
    (hshape : name.length ≤ 23 ∨ (name.length = 24 ∧ name.getD 23 0 = 10)) :
    ∃ bs, bs.length = 8 ∧ (∀ b ∈ bs, b < 256) ∧ w = wwn_fold 0 bs
      ∧ ((name = wwn_string bs ∧ r = 23) ∨ (name = wwn_string bs ++ [10] ∧ r = 24)) := by
  unfold tcm_qla2xxx_parse_wwn at h
  have hs : 0 ≤ (tcm_qla2xxx_parse_wwn_loop name true (NAMELEN - 1) 0 0 0 0).1 := by
    rw [h]
    exact hr
  obtain ⟨bs, n2, hl, hb, hdrop, heq⟩ := parse_strict_bytes_inv name 7 0 0 0 (NAMELEN - 1)
    (by omega) hs
  have a1 : 0 + (3 * (7 + 1) - 1) = 23 := by norm_num
  rw [a1] at hdrop heq
  rw [List.drop_zero] at hdrop
  rw [heq] at h hs
  refine ⟨bs, hl, hb, ?_⟩
  rcases hshape with hlen | ⟨hlen, hnl⟩
  · have hd : name.drop 23 = [] := List.drop_of_length_le hlen
    rw [hd, List.append_nil] at hdrop
    cases n2 with
    | zero => exact absurd (show (0 : Int) ≤ -1 from hs) (by decide)
    | succ m =>
      rw [parse_strict_end_nul name m 23 _ (getD_of_drop_nil _ _ hd)] at h
      injection h with h1 h2
      exact ⟨h2.symm, Or.inl ⟨hdrop, h1.symm⟩⟩
  · have hd : name.drop 23 = 10 :: name.drop 24 :=
      drop_of_getD_ne_zero name 23 10 hnl (by decide)
    have hd2 : name.drop 24 = [] := List.drop_of_length_le (by omega)
    rw [hd2] at hd
    rw [hd] at hdrop
    cases n2 with
    | zero => exact absurd (show (0 : Int) ≤ -1 from hs) (by decide)
    | succ m =>
      cases m with
      | zero =>
        rw [tcm_qla2xxx_parse_wwn_loop, if_pos ⟨hnl, getD_of_drop_nil _ _ hd2⟩] at hs
        exact absurd (show (0 : Int) ≤ -1 from hs) (by decide)
      | succ m =>
        rw [parse_strict_end_newline name m 23 _ hnl (getD_of_drop_nil _ _ hd2)] at h
        injection h with h1 h2
        exact ⟨h2.symm, Or.inr ⟨hdrop, h1.symm⟩⟩

/-- C22 (as the code has it): strict parsing accepts the formatted string
also when one newline follows it, and returns 24 with the same WWN. -/
theorem c22_strict_accepts_trailing_newline :
    tcm_qla2xxx_parse_wwn TCM_QLA2XXX_NAMELEN (c_str "21:fd:00:05:1e:0a:0b:0c\n") true
      = (24, 0x21fd00051e0a0b0c)
    ∧ c_str "21:fd:00:05:1e:0a:0b:0c\n" ≠ (tcm_qla2xxx_format_wwn 24 0x21fd00051e0a0b0c).2 := by
  decide

/-- Strict parsing goes on past the eighth byte: a further digit is shifted
into the value and the name is accepted. -/
theorem strict_parse_accepts_trailing_digit :
    tcm_qla2xxx_parse_wwn TCM_QLA2XXX_NAMELEN (c_str "21:fd:00:05:1e:0a:0b:0c9") true
      = (24, 0x1fd00051e0a0b0c9) := by
  decide

/-- C22 (amended): in strict mode, for every 64-bit `wwn`, parsing the 23
characters that `tcm_qla2xxx_format_wwn` produces returns 23 and `wwn`, and
parsing them followed by one newline returns 24 and `wwn`; and a name of at
most 23 characters, or of 24 characters the last of which is a newline, that
strict parsing accepts with result `w` is the formatted string of `w`, with
the return value 23, or that string followed by the newline, with the return
value 24.  `NAMELEN` is `TCM_QLA2XXX_NAMELEN`, at least 26. -/
theorem c22_strict_parse_one_to_one (NAMELEN : Nat) (hN : 26 ≤ NAMELEN) (wwn : Nat)
    (hw : wwn < 18446744073709551616) :
    (tcm_qla2xxx_format_wwn 24 wwn).1 = 23
    ∧ (tcm_qla2xxx_format_wwn 24 wwn).2.length = 23
    ∧ tcm_qla2xxx_parse_wwn NAMELEN (tcm_qla2xxx_format_wwn 24 wwn).2 true = (23, wwn)
    ∧ tcm_qla2xxx_parse_wwn NAMELEN ((tcm_qla2xxx_format_wwn 24 wwn).2 ++ [10]) true
      = (24, wwn)
    ∧ ∀ (name : List Nat) (r : Int) (w : Nat),
        tcm_qla2xxx_parse_wwn NAMELEN name true = (r, w) → 0 ≤ r →
        (name.length ≤ 23 ∨ (name.length = 24 ∧ name.getD 23 0 = 10)) →
        w < 18446744073709551616
        ∧ ((name = (tcm_qla2xxx_format_wwn 24 w).2 ∧ r = 23)
          ∨ (name = (tcm_qla2xxx_format_wwn 24 w).2 ++ [10] ∧ r = 24)) := by
  have hf : ∀ v, tcm_qla2xxx_format_wwn 24 v = (23, wwn_string (put_unaligned_be64 v)) :=
    fun v => format_wwn_full 24 v (by omega)
  obtain ⟨p1, p2⟩ := parse_strict_wwn_string NAMELEN (put_unaligned_be64 wwn) rfl
    (put_unaligned_be64_lt wwn)
  rw [wwn_fold_put_unaligned_be64 wwn hw] at p1 p2
  refine ⟨by rw [hf], ?_, ?_, ?_, ?_⟩
  · rw [hf]
    exact wwn_string_length_eight _ rfl
  · rw [hf]
    exact p1 (by omega)
  · rw [hf]
    exact p2 hN
  · intro name r w h hr hshape
    obtain ⟨bs, hl, hb, hwb, hcase⟩ := parse_strict_accepts_only NAMELEN name r w h hr hshape
    obtain ⟨q1, q2⟩ := put_unaligned_be64_wwn_fold bs hl hb
    rw [hf, hwb, q1]
    exact ⟨q2, hcase⟩

theorem c22_strict_parse_one_to_one_witness :
    tcm_qla2xxx_parse_wwn TCM_QLA2XXX_NAMELEN
        (tcm_qla2xxx_format_wwn 24 0x21fd00051e0a0b0c).2 true
      = (23, 0x21fd00051e0a0b0c)
    ∧ (tcm_qla2xxx_format_wwn 24 0x21fd00051e0a0b0c).2 = c_str "21:fd:00:05:1e:0a:0b:0c" :=
  ⟨(c22_strict_parse_one_to_one TCM_QLA2XXX_NAMELEN (by decide) 0x21fd00051e0a0b0c
      (by decide)).2.2.1,
    by decide⟩

end IscsiTarget
